import Mathlib

/-!
# Thumbulator (stella2014-libretro, `src/emucore/Thumbulator.cxx`)

A shallow embedding of the Thumb interpreter and theorems about it.

Conventions of the embedding:

* `uInt32` values are natural numbers; every C operation that can leave the
  32-bit range is reduced `% 2^32` explicitly (`add32`, `sub32`, `shl32`, ...).
  The `uInt64` counters are reduced `% 2^64`.
* `rom`, `ram` (arrays of `uInt16`) and the two register banks (arrays of
  `uInt32`) are total functions from the array index.
* The preprocessor symbol `MSB_FIRST` is the field `MSB_FIRST` of the state;
  no operation changes it.
* A C function that mutates the object takes the state and returns the new
  state, paired with the C return value when there is one.
-/

namespace Thumbulator

/-! ## Constants of `Thumbulator.hxx` -/

def ROMADDMASK : Nat := 0x7FFF
def RAMADDMASK : Nat := 0x1FFF

def MODE_SVC : Nat := 0x13

def CPSR_T : Nat := 1 <<< 5
def CPSR_F : Nat := 1 <<< 6
def CPSR_I : Nat := 1 <<< 7
def CPSR_N : Nat := 1 <<< 31
def CPSR_Z : Nat := 1 <<< 30
def CPSR_C : Nat := 1 <<< 29
def CPSR_V : Nat := 1 <<< 28

/-! ## 32-bit machine arithmetic -/

/-- The C expression `a + b` on `uInt32`. -/
def add32 (a b : Nat) : Nat := (a + b) % 2 ^ 32

/-- The C expression `a - b` on `uInt32`. -/
def sub32 (a b : Nat) : Nat := (a + (2 ^ 32 - b % 2 ^ 32)) % 2 ^ 32

/-- The C expression `a * b` on `uInt32`. -/
def mul32 (a b : Nat) : Nat := (a * b) % 2 ^ 32

/-- The C expression `~a` on `uInt32`. -/
def not32 (a : Nat) : Nat := 0xFFFFFFFF - a % 2 ^ 32

/-- The C expression `a << n` on `uInt32` (for `n < 32`). -/
def shl32 (a n : Nat) : Nat := (a <<< n) % 2 ^ 32

/-! ## The interpreter state (`Thumbulator.hxx`, lines 97-110) -/

end Thumbulator

/-- The fields of `class Thumbulator`, plus the build flag `MSB_FIRST`. -/
structure Thumbulator where
  MSB_FIRST : Bool
  rom : Nat → Nat
  ram : Nat → Nat
  halfadd : Nat
  cpsr : Nat
  reg_sys : Nat → Nat
  reg_svc : Nat → Nat
  mamcr : Nat
  instructions : Nat
  fetches : Nat
  reads : Nat
  writes : Nat

namespace Thumbulator

/-- The halfword `x` of a memory array as the C code sees it: byte-swapped
under `MSB_FIRST`, as is otherwise. -/
def loadHalf (s : Thumbulator) (x : Nat) : Nat :=
  if s.MSB_FIRST then ((x >>> 8) ||| (x <<< 8)) &&& 0xffff else x

/-- The halfword stored into `ram[addr]` by `write16` for `data`. -/
def storeHalf (s : Thumbulator) (data : Nat) : Nat :=
  if s.MSB_FIRST then (((data &&& 0xFFFF) >>> 8) ||| ((data &&& 0xffff) <<< 8)) &&& 0xffff
  else data &&& 0xFFFF

/-! ## Address bus -/

/-- `Thumbulator::fetch16` (lines 54-85). -/
def fetch16 (s : Thumbulator) (addr : Nat) : Nat × Thumbulator :=
  let s := { s with fetches := (s.fetches + 1) % 2 ^ 64 }
  if addr &&& 0xF0000000 = 0x00000000 then
    let addr := addr &&& ROMADDMASK
    if addr < 0x50 then (0, s)
    else
      let addr := addr >>> 1
      (loadHalf s (s.rom addr), s)
  else if addr &&& 0xF0000000 = 0x40000000 then
    let addr := addr &&& RAMADDMASK
    let addr := addr >>> 1
    (loadHalf s (s.ram addr), s)
  else (0, s)

/-- `Thumbulator::write16` (lines 112-142). -/
def write16 (s : Thumbulator) (addr data : Nat) : Thumbulator :=
  if addr > 0x40001fff ∧ addr < 0x50000000 then s
  else if addr > 0x40000028 ∧ addr < 0x40000c00 then s
  else if addr &&& 1 ≠ 0 then s
  else
    let s := { s with writes := (s.writes + 1) % 2 ^ 64 }
    if addr &&& 0xF0000000 = 0x40000000 then
      let addr := addr &&& RAMADDMASK
      let addr := addr >>> 1
      { s with ram := Function.update s.ram addr (storeHalf s data) }
    else if addr &&& 0xF0000000 = 0xE0000000 then
      if addr = 0xE01FC000 then { s with mamcr := data } else s
    else s

/-- `Thumbulator::write32` (lines 145-175). -/
def write32 (s : Thumbulator) (addr data : Nat) : Thumbulator :=
  if addr &&& 3 ≠ 0 then s
  else if addr &&& 0xF0000000 = 0xF0000000 then s
  else if addr &&& 0xF0000000 = 0xE0000000 then s
  else if addr &&& 0xF0000000 = 0xD0000000 then s
  else if addr &&& 0xF0000000 = 0x40000000 then
    let s := write16 s (add32 addr 0) ((data >>> 0) &&& 0xFFFF)
    write16 s (add32 addr 2) ((data >>> 16) &&& 0xFFFF)
  else s

/-- `Thumbulator::read16` (lines 178-218). -/
def read16 (s : Thumbulator) (addr : Nat) : Nat × Thumbulator :=
  if addr > 0x40001fff ∧ addr < 0x50000000 then (0, s)
  else if addr > 0x7fff ∧ addr < 0x10000000 then (0, s)
  else if addr &&& 1 ≠ 0 then (0, s)
  else
    let s := { s with reads := (s.reads + 1) % 2 ^ 64 }
    if addr &&& 0xF0000000 = 0x00000000 then
      let addr := addr &&& ROMADDMASK
      let addr := addr >>> 1
      (loadHalf s (s.rom addr), s)
    else if addr &&& 0xF0000000 = 0x40000000 then
      let addr := addr &&& RAMADDMASK
      let addr := addr >>> 1
      (loadHalf s (s.ram addr), s)
    else if addr &&& 0xF0000000 = 0xE0000000 then
      if addr = 0xE01FC000 then (s.mamcr, s) else (0, s)
    else (0, s)

/-- `Thumbulator::read32` (lines 221-237): the high half is read first. -/
def read32 (s : Thumbulator) (addr : Nat) : Nat × Thumbulator :=
  if addr &&& 3 ≠ 0 then (0, s)
  else if addr &&& 0xF0000000 = 0x00000000 ∨ addr &&& 0xF0000000 = 0x40000000 then
    let r := read16 s (add32 addr 2)
    let data := shl32 r.1 16
    let r0 := read16 r.2 (add32 addr 0)
    (data ||| r0.1, r0.2)
  else (0, s)

/-- `Thumbulator::fetch32` (lines 88-109).  The ROM case falls through into
the RAM case when `addr >= 0x50`. -/
def fetch32 (s : Thumbulator) (addr : Nat) : Nat × Thumbulator :=
  if addr &&& 0xF0000000 = 0x00000000 ∧ addr < 0x50 then
    let r := read32 s addr
    if addr = 0x00000000 then r
    else if addr = 0x00000004 then r
    else (0, r.2)
  else if addr &&& 0xF0000000 = 0x00000000 ∨ addr &&& 0xF0000000 = 0x40000000 then
    let r := fetch16 s (add32 addr 2)
    let data := shl32 r.1 16
    let r0 := fetch16 r.2 (add32 addr 0)
    (data ||| r0.1, r0.2)
  else (0, s)

/-! ## Register file -/

/-- `Thumbulator::read_register` (lines 240-256). -/
def read_register (s : Thumbulator) (reg : Nat) : Nat :=
  let reg := reg &&& 0xF
  if s.cpsr &&& 0x1F = MODE_SVC then
    if reg = 13 ∨ reg = 14 then s.reg_svc reg else s.reg_sys reg
  else 0

/-- `Thumbulator::write_register` (lines 259-274). -/
def write_register (s : Thumbulator) (reg data : Nat) : Nat × Thumbulator :=
  let reg := reg &&& 0xF
  if s.cpsr &&& 0x1F = MODE_SVC then
    if reg = 13 ∨ reg = 14 then
      (data, { s with reg_svc := Function.update s.reg_svc reg data })
    else
      (data, { s with reg_sys := Function.update s.reg_sys reg data })
  else (0, s)

/-! ## Flag primitives -/

/-- `Thumbulator::do_zflag` (lines 277-281). -/
def do_zflag (s : Thumbulator) (x : Nat) : Thumbulator :=
  if x = 0 then { s with cpsr := s.cpsr ||| CPSR_Z }
  else { s with cpsr := s.cpsr &&& not32 CPSR_Z }

/-- `Thumbulator::do_nflag` (lines 284-288). -/
def do_nflag (s : Thumbulator) (x : Nat) : Thumbulator :=
  if x &&& 0x80000000 ≠ 0 then { s with cpsr := s.cpsr ||| CPSR_N }
  else { s with cpsr := s.cpsr &&& not32 CPSR_N }

/-- `Thumbulator::do_cflag` (lines 291-300). -/
def do_cflag (s : Thumbulator) (a b c : Nat) : Thumbulator :=
  let s := { s with cpsr := s.cpsr &&& not32 CPSR_C }
  let rc := add32 (add32 (a &&& 0x7FFFFFFF) (b &&& 0x7FFFFFFF)) c
  let rc := add32 (add32 (rc >>> 31) (a >>> 31)) (b >>> 31)
  if rc &&& 2 ≠ 0 then { s with cpsr := s.cpsr ||| CPSR_C } else s

/-- `Thumbulator::do_sub_vflag` (lines 303-314). -/
def do_sub_vflag (s : Thumbulator) (a b c : Nat) : Thumbulator :=
  let s := { s with cpsr := s.cpsr &&& not32 CPSR_V }
  if (a &&& 0x80000000) ^^^ (b &&& 0x80000000) ≠ 0 then
    if b &&& 0x80000000 = c &&& 0x80000000 then { s with cpsr := s.cpsr ||| CPSR_V } else s
  else s

/-- `Thumbulator::do_add_vflag` (lines 317-328). -/
def do_add_vflag (s : Thumbulator) (a b c : Nat) : Thumbulator :=
  let s := { s with cpsr := s.cpsr &&& not32 CPSR_V }
  if a &&& 0x80000000 = b &&& 0x80000000 then
    if b &&& 0x80000000 ≠ c &&& 0x80000000 then { s with cpsr := s.cpsr ||| CPSR_V } else s
  else s

/-- `Thumbulator::do_cflag_bit` (lines 331-335). -/
def do_cflag_bit (s : Thumbulator) (x : Nat) : Thumbulator :=
  if x ≠ 0 then { s with cpsr := s.cpsr ||| CPSR_C }
  else { s with cpsr := s.cpsr &&& not32 CPSR_C }

/-- `Thumbulator::do_vflag_bit` (lines 338-342). -/
def do_vflag_bit (s : Thumbulator) (x : Nat) : Thumbulator :=
  if x ≠ 0 then { s with cpsr := s.cpsr ||| CPSR_V }
  else { s with cpsr := s.cpsr &&& not32 CPSR_V }

/-! ## Register-list loops -/

/-- The loop `for(ra=0,rb=0x01;rb;rb=(rb<<1)&0xFF,ra++) { if(inst&rb) body }` of
LDMIA, POP, PUSH and STMIA, from the loop variables `(ra, rb)` and the state
`st` the body works on.  The first argument bounds the number of tests of the
loop condition; the result holds the final `ra`, `rb` and `st`. -/
def regListLoop {σ : Type} (inst : Nat) (body : Nat → σ → σ) :
    Nat → Nat → Nat → σ → Nat × Nat × σ
  | 0, ra, rb, st => (ra, rb, st)
  | fuel + 1, ra, rb, st =>
    if rb ≠ 0 then
      regListLoop inst body fuel (add32 ra 1) (shl32 rb 1 &&& 0xFF)
        (if inst &&& rb ≠ 0 then body ra st else st)
    else (ra, rb, st)

/-- Number of loop-condition tests given to `regListLoop` by `execute`:
eight iterations and the final failing test. -/
def regListFuel : Nat := 9

/-! ## Instruction handlers of `Thumbulator::execute`

Each handler is the body of one `if((inst&mask)==value) { ... }` block, in
source order.  `pc` is the local variable `pc` after the prologue. -/

/-- ADC (lines 359-376). -/
def exec_ADC (s : Thumbulator) (inst : Nat) : Nat × Thumbulator :=
  let rd := (inst >>> 0) &&& 0x07
  let rm := (inst >>> 3) &&& 0x07
  let ra := read_register s rd
  let rb := read_register s rm
  let rc := add32 ra rb
  let rc := if s.cpsr &&& CPSR_C ≠ 0 then add32 rc 1 else rc
  let s := (write_register s rd rc).2
  let s := do_nflag s rc
  let s := do_zflag s rc
  let s := if s.cpsr &&& CPSR_C ≠ 0 then do_cflag s ra rb 1 else do_cflag s ra rb 0
  let s := do_add_vflag s ra rb rc
  (0, s)

/-- ADD(1) small immediate two registers (lines 378-399).  With a zero
immediate the block is left without returning (`none`). -/
def exec_ADD1 (s : Thumbulator) (inst : Nat) : Option (Nat × Thumbulator) :=
  let rd := (inst >>> 0) &&& 0x7
  let rn := (inst >>> 3) &&& 0x7
  let rb := (inst >>> 6) &&& 0x7
  if rb ≠ 0 then
    let ra := read_register s rn
    let rc := add32 ra rb
    let s := (write_register s rd rc).2
    let s := do_nflag s rc
    let s := do_zflag s rc
    let s := do_cflag s ra rb 0
    let s := do_add_vflag s ra rb rc
    some (0, s)
  else none

/-- ADD(2) big immediate one register (lines 401-414). -/
def exec_ADD2 (s : Thumbulator) (inst : Nat) : Nat × Thumbulator :=
  let rb := (inst >>> 0) &&& 0xFF
  let rd := (inst >>> 8) &&& 0x7
  let ra := read_register s rd
  let rc := add32 ra rb
  let s := (write_register s rd rc).2
  let s := do_nflag s rc
  let s := do_zflag s rc
  let s := do_cflag s ra rb 0
  let s := do_add_vflag s ra (sub32 0 rb) rc
  (0, s)

/-- ADD(3) three registers (lines 416-431). -/
def exec_ADD3 (s : Thumbulator) (inst : Nat) : Nat × Thumbulator :=
  let rd := (inst >>> 0) &&& 0x7
  let rn := (inst >>> 3) &&& 0x7
  let rm := (inst >>> 6) &&& 0x7
  let ra := read_register s rn
  let rb := read_register s rm
  let rc := add32 ra rb
  let s := (write_register s rd rc).2
  let s := do_nflag s rc
  let s := do_zflag s rc
  let s := do_cflag s ra rb 0
  let s := do_add_vflag s ra rb rc
  (0, s)

/-- ADD(4) two registers one or both high no flags (lines 433-448). -/
def exec_ADD4 (s : Thumbulator) (inst : Nat) : Nat × Thumbulator :=
  let rd := (inst >>> 0) &&& 0x7
  let rd := rd ||| ((inst >>> 4) &&& 0x8)
  let rm := (inst >>> 3) &&& 0xF
  let ra := read_register s rd
  let rb := read_register s rm
  let rc := add32 ra rb
  let s := (write_register s rd rc).2
  (0, s)

/-- ADD(5) rd = pc plus immediate (lines 450-460). -/
def exec_ADD5 (s : Thumbulator) (inst : Nat) : Nat × Thumbulator :=
  let rb := (inst >>> 0) &&& 0xFF
  let rd := (inst >>> 8) &&& 0x7
  let rb := shl32 rb 2
  let ra := read_register s 15
  let rc := add32 (ra &&& not32 3) rb
  let s := (write_register s rd rc).2
  (0, s)

/-- ADD(6) rd = sp plus immediate (lines 462-472). -/
def exec_ADD6 (s : Thumbulator) (inst : Nat) : Nat × Thumbulator :=
  let rb := (inst >>> 0) &&& 0xFF
  let rd := (inst >>> 8) &&& 0x7
  let rb := shl32 rb 2
  let ra := read_register s 13
  let rc := add32 ra rb
  let s := (write_register s rd rc).2
  (0, s)

/-- ADD(7) sp plus immediate (lines 474-483). -/
def exec_ADD7 (s : Thumbulator) (inst : Nat) : Nat × Thumbulator :=
  let rb := (inst >>> 0) &&& 0x7F
  let rb := shl32 rb 2
  let ra := read_register s 13
  let rc := add32 ra rb
  let s := (write_register s 13 rc).2
  (0, s)

/-- AND (lines 485-497). -/
def exec_AND (s : Thumbulator) (inst : Nat) : Nat × Thumbulator :=
  let rd := (inst >>> 0) &&& 0x7
  let rm := (inst >>> 3) &&& 0x7
  let ra := read_register s rd
  let rb := read_register s rm
  let rc := ra &&& rb
  let s := (write_register s rd rc).2
  let s := do_nflag s rc
  let s := do_zflag s rc
  (0, s)

/-- ASR(1) two register immediate (lines 499-533). -/
def exec_ASR1 (s : Thumbulator) (inst : Nat) : Nat × Thumbulator :=
  let rd := (inst >>> 0) &&& 0x07
  let rm := (inst >>> 3) &&& 0x07
  let rb := (inst >>> 6) &&& 0x1F
  let rc := read_register s rm
  let r : Nat × Thumbulator :=
    if rb = 0 then
      if rc &&& 0x80000000 ≠ 0 then (not32 0, do_cflag_bit s 1)
      else (0, do_cflag_bit s 0)
    else
      let s := do_cflag_bit s (rc &&& shl32 1 (rb - 1))
      let ra := rc &&& 0x80000000
      let rc := rc >>> rb
      let rc := if ra ≠ 0 then rc ||| shl32 (not32 0) (32 - rb) else rc
      (rc, s)
  let rc := r.1
  let s := r.2
  let s := (write_register s rd rc).2
  let s := do_nflag s rc
  let s := do_zflag s rc
  (0, s)

/-- ASR(2) two register (lines 535-573). -/
def exec_ASR2 (s : Thumbulator) (inst : Nat) : Nat × Thumbulator :=
  let rd := (inst >>> 0) &&& 0x07
  let rs := (inst >>> 3) &&& 0x07
  let rc := read_register s rd
  let rb := read_register s rs
  let rb := rb &&& 0xFF
  let r : Nat × Thumbulator :=
    if rb = 0 then (rc, s)
    else if rb < 32 then
      let s := do_cflag_bit s (rc &&& shl32 1 (rb - 1))
      let ra := rc &&& 0x80000000
      let rc := rc >>> rb
      let rc := if ra ≠ 0 then rc ||| shl32 (not32 0) (32 - rb) else rc
      (rc, s)
    else
      if rc &&& 0x80000000 ≠ 0 then (not32 0, do_cflag_bit s 1)
      else (0, do_cflag_bit s 0)
  let rc := r.1
  let s := r.2
  let s := (write_register s rd rc).2
  let s := do_nflag s rc
  let s := do_zflag s rc
  (0, s)

/-- B(1) conditional branch (lines 575-707).  The codes `0xE` and `0xF`
leave the `switch` by `break` and the block without returning (`none`). -/
def exec_B1 (s : Thumbulator) (inst pc : Nat) : Option (Nat × Thumbulator) :=
  let rb := (inst >>> 0) &&& 0xFF
  let rb := if rb &&& 0x80 ≠ 0 then rb ||| shl32 (not32 0) 8 else rb
  let op := (inst >>> 8) &&& 0xF
  let rb := shl32 rb 1
  let rb := add32 rb pc
  let rb := add32 rb 2
  if op = 0x0 then
    some (0, if s.cpsr &&& CPSR_Z ≠ 0 then (write_register s 15 rb).2 else s)
  else if op = 0x1 then
    some (0, if s.cpsr &&& CPSR_Z = 0 then (write_register s 15 rb).2 else s)
  else if op = 0x2 then
    some (0, if s.cpsr &&& CPSR_C ≠ 0 then (write_register s 15 rb).2 else s)
  else if op = 0x3 then
    some (0, if s.cpsr &&& CPSR_C = 0 then (write_register s 15 rb).2 else s)
  else if op = 0x4 then
    some (0, if s.cpsr &&& CPSR_N ≠ 0 then (write_register s 15 rb).2 else s)
  else if op = 0x5 then
    some (0, if s.cpsr &&& CPSR_N = 0 then (write_register s 15 rb).2 else s)
  else if op = 0x6 then
    some (0, if s.cpsr &&& CPSR_V ≠ 0 then (write_register s 15 rb).2 else s)
  else if op = 0x7 then
    some (0, if s.cpsr &&& CPSR_V = 0 then (write_register s 15 rb).2 else s)
  else if op = 0x8 then
    some (0, if s.cpsr &&& CPSR_C ≠ 0 ∧ s.cpsr &&& CPSR_Z = 0
             then (write_register s 15 rb).2 else s)
  else if op = 0x9 then
    some (0, if s.cpsr &&& CPSR_Z ≠ 0 ∨ s.cpsr &&& CPSR_C = 0
             then (write_register s 15 rb).2 else s)
  else if op = 0xA then
    let ra := 0
    let ra := if s.cpsr &&& CPSR_N ≠ 0 ∧ s.cpsr &&& CPSR_V ≠ 0 then add32 ra 1 else ra
    let ra := if s.cpsr &&& CPSR_N = 0 ∧ s.cpsr &&& CPSR_V = 0 then add32 ra 1 else ra
    some (0, if ra ≠ 0 then (write_register s 15 rb).2 else s)
  else if op = 0xB then
    let ra := 0
    let ra := if s.cpsr &&& CPSR_N = 0 ∧ s.cpsr &&& CPSR_V ≠ 0 then add32 ra 1 else ra
    let ra := if s.cpsr &&& CPSR_V = 0 ∧ s.cpsr &&& CPSR_N ≠ 0 then add32 ra 1 else ra
    some (0, if ra ≠ 0 then (write_register s 15 rb).2 else s)
  else if op = 0xC then
    let ra := 0
    let ra := if s.cpsr &&& CPSR_N ≠ 0 ∧ s.cpsr &&& CPSR_V ≠ 0 then add32 ra 1 else ra
    let ra := if s.cpsr &&& CPSR_N = 0 ∧ s.cpsr &&& CPSR_V = 0 then add32 ra 1 else ra
    let ra := if s.cpsr &&& CPSR_Z ≠ 0 then 0 else ra
    some (0, if ra ≠ 0 then (write_register s 15 rb).2 else s)
  else if op = 0xD then
    let ra := 0
    let ra := if s.cpsr &&& CPSR_N = 0 ∧ s.cpsr &&& CPSR_V ≠ 0 then add32 ra 1 else ra
    let ra := if s.cpsr &&& CPSR_V = 0 ∧ s.cpsr &&& CPSR_N ≠ 0 then add32 ra 1 else ra
    let ra := if s.cpsr &&& CPSR_Z ≠ 0 then add32 ra 1 else ra
    some (0, if ra ≠ 0 then (write_register s 15 rb).2 else s)
  else none

/-- B(2) unconditional branch (lines 709-720). -/
def exec_B2 (s : Thumbulator) (inst pc : Nat) : Nat × Thumbulator :=
  let rb := (inst >>> 0) &&& 0x7FF
  let rb := if rb &&& (1 <<< 10) ≠ 0 then rb ||| shl32 (not32 0) 11 else rb
  let rb := shl32 rb 1
  let rb := add32 rb pc
  let rb := add32 rb 2
  let s := (write_register s 15 rb).2
  (0, s)

/-- BIC (lines 722-734). -/
def exec_BIC (s : Thumbulator) (inst : Nat) : Nat × Thumbulator :=
  let rd := (inst >>> 0) &&& 0x7
  let rm := (inst >>> 3) &&& 0x7
  let ra := read_register s rd
  let rb := read_register s rm
  let rc := ra &&& not32 rb
  let s := (write_register s rd rc).2
  let s := do_nflag s rc
  let s := do_zflag s rc
  (0, s)

/-- BKPT (lines 736-741). -/
def exec_BKPT (s : Thumbulator) (_inst : Nat) : Nat × Thumbulator :=
  (1, s)

/-- BL/BLX(1) (lines 743-770).  With `H = b00` none of the three tests
holds and the block is left without returning (`none`). -/
def exec_BL (s : Thumbulator) (inst pc : Nat) : Option (Nat × Thumbulator) :=
  if inst &&& 0x1800 = 0x1000 then
    some (0, { s with halfadd := inst })
  else if inst &&& 0x1800 = 0x1800 then
    let rb := s.halfadd &&& ((1 <<< 11) - 1)
    let rb := if rb &&& (1 <<< 10) ≠ 0 then rb ||| not32 ((1 <<< 11) - 1) else rb
    let rb := shl32 rb 11
    let rb := rb ||| (inst &&& ((1 <<< 11) - 1))
    let rb := shl32 rb 1
    let rb := add32 rb pc
    let s := (write_register s 14 (sub32 pc 2)).2
    let s := (write_register s 15 rb).2
    some (0, s)
  else if inst &&& 0x1800 = 0x0800 then
    some (1, s)
  else none

/-- BLX(2) (lines 772-789). -/
def exec_BLX2 (s : Thumbulator) (inst pc : Nat) : Nat × Thumbulator :=
  let rm := (inst >>> 3) &&& 0xF
  let rc := read_register s rm
  let rc := add32 rc 2
  if rc &&& 1 ≠ 0 then
    let s := (write_register s 14 (sub32 pc 2)).2
    let s := (write_register s 15 rc).2
    (0, s)
  else (1, s)

/-- BX (lines 791-807). -/
def exec_BX (s : Thumbulator) (inst : Nat) : Nat × Thumbulator :=
  let rm := (inst >>> 3) &&& 0xF
  let rc := read_register s rm
  let rc := add32 rc 2
  if rc &&& 1 ≠ 0 then
    let s := (write_register s 15 rc).2
    (0, s)
  else (1, s)

/-- CMN (lines 809-822). -/
def exec_CMN (s : Thumbulator) (inst : Nat) : Nat × Thumbulator :=
  let rn := (inst >>> 0) &&& 0x7
  let rm := (inst >>> 3) &&& 0x7
  let ra := read_register s rn
  let rb := read_register s rm
  let rc := add32 ra rb
  let s := do_nflag s rc
  let s := do_zflag s rc
  let s := do_cflag s ra rb 0
  let s := do_add_vflag s ra rb rc
  (0, s)

/-- CMP(1) compare immediate (lines 824-836). -/
def exec_CMP1 (s : Thumbulator) (inst : Nat) : Nat × Thumbulator :=
  let rb := (inst >>> 0) &&& 0xFF
  let rn := (inst >>> 8) &&& 0x07
  let ra := read_register s rn
  let rc := sub32 ra rb
  let s := do_nflag s rc
  let s := do_zflag s rc
  let s := do_cflag s ra (not32 rb) 1
  let s := do_sub_vflag s ra rb rc
  (0, s)

/-- CMP(2) compare register (lines 838-851). -/
def exec_CMP2 (s : Thumbulator) (inst : Nat) : Nat × Thumbulator :=
  let rn := (inst >>> 0) &&& 0x7
  let rm := (inst >>> 3) &&& 0x7
  let ra := read_register s rn
  let rb := read_register s rm
  let rc := sub32 ra rb
  let s := do_nflag s rc
  let s := do_zflag s rc
  let s := do_cflag s ra (not32 rb) 1
  let s := do_sub_vflag s ra rb rc
  (0, s)

/-- CMP(3) compare high register (lines 853-875). -/
def exec_CMP3 (s : Thumbulator) (inst : Nat) : Nat × Thumbulator :=
  let rn := (inst >>> 0) &&& 0x7
  let rn := rn ||| ((inst >>> 4) &&& 0x8)
  let rm := (inst >>> 3) &&& 0xF
  let ra := read_register s rn
  let rb := read_register s rm
  let rc := sub32 ra rb
  let s := do_nflag s rc
  let s := do_zflag s rc
  let s := do_cflag s ra (not32 rb) 1
  let s := do_sub_vflag s ra rb rc
  (0, s)

/-- CPS (lines 877-879). -/
def exec_CPS (s : Thumbulator) (_inst : Nat) : Nat × Thumbulator :=
  (1, s)

/-- CPY copy high register (lines 881-891). -/
def exec_CPY (s : Thumbulator) (inst : Nat) : Nat × Thumbulator :=
  let rd := (inst >>> 0) &&& 0x7
  let rm := (inst >>> 3) &&& 0x7
  let rc := read_register s rm
  let s := (write_register s rd rc).2
  (0, s)

/-- EOR (lines 893-905). -/
def exec_EOR (s : Thumbulator) (inst : Nat) : Nat × Thumbulator :=
  let rd := (inst >>> 0) &&& 0x7
  let rm := (inst >>> 3) &&& 0x7
  let ra := read_register s rd
  let rb := read_register s rm
  let rc := ra ^^^ rb
  let s := (write_register s rd rc).2
  let s := do_nflag s rc
  let s := do_zflag s rc
  (0, s)

/-- Body of the LDMIA and POP loops on `(sp, state)`:
`write_register(ra,read32(sp)); sp+=4;`. -/
def loadBody (ra : Nat) (st : Nat × Thumbulator) : Nat × Thumbulator :=
  let r := read32 st.2 st.1
  let s := (write_register r.2 ra r.1).2
  (add32 st.1 4, s)

/-- Body of the STMIA and PUSH store loops on `(sp, state)`:
`write32(sp,read_register(ra)); sp+=4;`. -/
def storeBody (ra : Nat) (st : Nat × Thumbulator) : Nat × Thumbulator :=
  let s := write32 st.2 st.1 (read_register st.2 ra)
  (add32 st.1 4, s)

/-- LDMIA (lines 907-922). -/
def exec_LDMIA (s : Thumbulator) (inst : Nat) : Nat × Thumbulator :=
  let rn := (inst >>> 8) &&& 0x7
  let sp := read_register s rn
  let r := (regListLoop inst loadBody regListFuel 0 0x01 (sp, s)).2.2
  let sp := r.1
  let s := r.2
  let s := (write_register s rn sp).2
  (0, s)

/-- LDR(1) two register immediate (lines 924-935). -/
def exec_LDR1 (s : Thumbulator) (inst : Nat) : Nat × Thumbulator :=
  let rd := (inst >>> 0) &&& 0x07
  let rn := (inst >>> 3) &&& 0x07
  let rb := (inst >>> 6) &&& 0x1F
  let rb := shl32 rb 2
  let rb := add32 (read_register s rn) rb
  let r := read32 s rb
  let s := (write_register r.2 rd r.1).2
  (0, s)

/-- LDR(2) three register (lines 937-947). -/
def exec_LDR2 (s : Thumbulator) (inst : Nat) : Nat × Thumbulator :=
  let rd := (inst >>> 0) &&& 0x7
  let rn := (inst >>> 3) &&& 0x7
  let rm := (inst >>> 6) &&& 0x7
  let rb := add32 (read_register s rn) (read_register s rm)
  let r := read32 s rb
  let s := (write_register r.2 rd r.1).2
  (0, s)

/-- LDR(3) (lines 949-961). -/
def exec_LDR3 (s : Thumbulator) (inst : Nat) : Nat × Thumbulator :=
  let rb := (inst >>> 0) &&& 0xFF
  let rd := (inst >>> 8) &&& 0x07
  let rb := shl32 rb 2
  let ra := read_register s 15
  let ra := ra &&& not32 3
  let rb := add32 rb ra
  let r := read32 s rb
  let s := (write_register r.2 rd r.1).2
  (0, s)

/-- LDR(4) (lines 963-975). -/
def exec_LDR4 (s : Thumbulator) (inst : Nat) : Nat × Thumbulator :=
  let rb := (inst >>> 0) &&& 0xFF
  let rd := (inst >>> 8) &&& 0x07
  let rb := shl32 rb 2
  let ra := read_register s 13
  let rb := add32 rb ra
  let r := read32 s rb
  let s := (write_register r.2 rd r.1).2
  (0, s)

/-- LDRB(1) (lines 977-994). -/
def exec_LDRB1 (s : Thumbulator) (inst : Nat) : Nat × Thumbulator :=
  let rd := (inst >>> 0) &&& 0x07
  let rn := (inst >>> 3) &&& 0x07
  let rb := (inst >>> 6) &&& 0x1F
  let rb := add32 (read_register s rn) rb
  let r := read16 s (rb &&& not32 1)
  let rc := if rb &&& 1 ≠ 0 then r.1 >>> 8 else r.1
  let s := (write_register r.2 rd (rc &&& 0xFF)).2
  (0, s)

/-- LDRB(2) (lines 996-1013). -/
def exec_LDRB2 (s : Thumbulator) (inst : Nat) : Nat × Thumbulator :=
  let rd := (inst >>> 0) &&& 0x7
  let rn := (inst >>> 3) &&& 0x7
  let rm := (inst >>> 6) &&& 0x7
  let rb := add32 (read_register s rn) (read_register s rm)
  let r := read16 s (rb &&& not32 1)
  let rc := if rb &&& 1 ≠ 0 then r.1 >>> 8 else r.1
  let s := (write_register r.2 rd (rc &&& 0xFF)).2
  (0, s)

/-- LDRH(1) (lines 1015-1026). -/
def exec_LDRH1 (s : Thumbulator) (inst : Nat) : Nat × Thumbulator :=
  let rd := (inst >>> 0) &&& 0x07
  let rn := (inst >>> 3) &&& 0x07
  let rb := (inst >>> 6) &&& 0x1F
  let rb := shl32 rb 1
  let rb := add32 (read_register s rn) rb
  let r := read16 s rb
  let s := (write_register r.2 rd (r.1 &&& 0xFFFF)).2
  (0, s)

/-- LDRH(2) (lines 1028-1038). -/
def exec_LDRH2 (s : Thumbulator) (inst : Nat) : Nat × Thumbulator :=
  let rd := (inst >>> 0) &&& 0x7
  let rn := (inst >>> 3) &&& 0x7
  let rm := (inst >>> 6) &&& 0x7
  let rb := add32 (read_register s rn) (read_register s rm)
  let r := read16 s rb
  let s := (write_register r.2 rd (r.1 &&& 0xFFFF)).2
  (0, s)

/-- LDRSB (lines 1040-1059). -/
def exec_LDRSB (s : Thumbulator) (inst : Nat) : Nat × Thumbulator :=
  let rd := (inst >>> 0) &&& 0x7
  let rn := (inst >>> 3) &&& 0x7
  let rm := (inst >>> 6) &&& 0x7
  let rb := add32 (read_register s rn) (read_register s rm)
  let r := read16 s (rb &&& not32 1)
  let rc := if rb &&& 1 ≠ 0 then r.1 >>> 8 else r.1
  let rc := rc &&& 0xFF
  let rc := if rc &&& 0x80 ≠ 0 then rc ||| shl32 (not32 0) 8 else rc
  let s := (write_register r.2 rd rc).2
  (0, s)

/-- LDRSH (lines 1061-1073). -/
def exec_LDRSH (s : Thumbulator) (inst : Nat) : Nat × Thumbulator :=
  let rd := (inst >>> 0) &&& 0x7
  let rn := (inst >>> 3) &&& 0x7
  let rm := (inst >>> 6) &&& 0x7
  let rb := add32 (read_register s rn) (read_register s rm)
  let r := read16 s rb
  let rc := r.1 &&& 0xFFFF
  let rc := if rc &&& 0x8000 ≠ 0 then rc ||| shl32 (not32 0) 16 else rc
  let s := (write_register r.2 rd rc).2
  (0, s)

/-- LSL(1) (lines 1075-1098). -/
def exec_LSL1 (s : Thumbulator) (inst : Nat) : Nat × Thumbulator :=
  let rd := (inst >>> 0) &&& 0x07
  let rm := (inst >>> 3) &&& 0x07
  let rb := (inst >>> 6) &&& 0x1F
  let rc := read_register s rm
  let r : Nat × Thumbulator :=
    if rb = 0 then (rc, s)
    else (shl32 rc rb, do_cflag_bit s (rc &&& shl32 1 (32 - rb)))
  let rc := r.1
  let s := r.2
  let s := (write_register s rd rc).2
  let s := do_nflag s rc
  let s := do_zflag s rc
  (0, s)

/-- LSL(2) two register (lines 1100-1130). -/
def exec_LSL2 (s : Thumbulator) (inst : Nat) : Nat × Thumbulator :=
  let rd := (inst >>> 0) &&& 0x07
  let rs := (inst >>> 3) &&& 0x07
  let rc := read_register s rd
  let rb := read_register s rs
  let rb := rb &&& 0xFF
  let r : Nat × Thumbulator :=
    if rb = 0 then (rc, s)
    else if rb < 32 then (shl32 rc rb, do_cflag_bit s (rc &&& shl32 1 (32 - rb)))
    else if rb = 32 then (0, do_cflag_bit s (rc &&& 1))
    else (0, do_cflag_bit s 0)
  let rc := r.1
  let s := r.2
  let s := (write_register s rd rc).2
  let s := do_nflag s rc
  let s := do_zflag s rc
  (0, s)

/-- LSR(1) two register immediate (lines 1132-1153). -/
def exec_LSR1 (s : Thumbulator) (inst : Nat) : Nat × Thumbulator :=
  let rd := (inst >>> 0) &&& 0x07
  let rm := (inst >>> 3) &&& 0x07
  let rb := (inst >>> 6) &&& 0x1F
  let rc := read_register s rm
  let r : Nat × Thumbulator :=
    if rb = 0 then (0, do_cflag_bit s (rc &&& 0x80000000))
    else (rc >>> rb, do_cflag_bit s (rc &&& shl32 1 (rb - 1)))
  let rc := r.1
  let s := r.2
  let s := (write_register s rd rc).2
  let s := do_nflag s rc
  let s := do_zflag s rc
  (0, s)

/-- LSR(2) two register (lines 1155-1185). -/
def exec_LSR2 (s : Thumbulator) (inst : Nat) : Nat × Thumbulator :=
  let rd := (inst >>> 0) &&& 0x07
  let rs := (inst >>> 3) &&& 0x07
  let rc := read_register s rd
  let rb := read_register s rs
  let rb := rb &&& 0xFF
  let r : Nat × Thumbulator :=
    if rb = 0 then (rc, s)
    else if rb < 32 then (rc >>> rb, do_cflag_bit s (rc &&& shl32 1 (32 - rb)))
    else if rb = 32 then (0, do_cflag_bit s (rc &&& 0x80000000))
    else (0, do_cflag_bit s 0)
  let rc := r.1
  let s := r.2
  let s := (write_register s rd rc).2
  let s := do_nflag s rc
  let s := do_zflag s rc
  (0, s)

/-- MOV(1) immediate (lines 1187-1196). -/
def exec_MOV1 (s : Thumbulator) (inst : Nat) : Nat × Thumbulator :=
  let rb := (inst >>> 0) &&& 0xFF
  let rd := (inst >>> 8) &&& 0x07
  let s := (write_register s rd rb).2
  let s := do_nflag s rb
  let s := do_zflag s rb
  (0, s)

/-- MOV(2) two low registers (lines 1198-1210). -/
def exec_MOV2 (s : Thumbulator) (inst : Nat) : Nat × Thumbulator :=
  let rd := (inst >>> 0) &&& 7
  let rn := (inst >>> 3) &&& 7
  let rc := read_register s rn
  let s := (write_register s rd rc).2
  let s := do_nflag s rc
  let s := do_zflag s rc
  let s := do_cflag_bit s 0
  let s := do_vflag_bit s 0
  (0, s)

/-- MOV(3) (lines 1212-1222). -/
def exec_MOV3 (s : Thumbulator) (inst : Nat) : Nat × Thumbulator :=
  let rd := (inst >>> 0) &&& 0x7
  let rd := rd ||| ((inst >>> 4) &&& 0x8)
  let rm := (inst >>> 3) &&& 0xF
  let rc := read_register s rm
  let rc := if rd = 15 then add32 rc 2 else rc
  let s := (write_register s rd rc).2
  (0, s)

/-- MUL (lines 1224-1236). -/
def exec_MUL (s : Thumbulator) (inst : Nat) : Nat × Thumbulator :=
  let rd := (inst >>> 0) &&& 0x7
  let rm := (inst >>> 3) &&& 0x7
  let ra := read_register s rd
  let rb := read_register s rm
  let rc := mul32 ra rb
  let s := (write_register s rd rc).2
  let s := do_nflag s rc
  let s := do_zflag s rc
  (0, s)

/-- MVN (lines 1238-1249). -/
def exec_MVN (s : Thumbulator) (inst : Nat) : Nat × Thumbulator :=
  let rd := (inst >>> 0) &&& 0x7
  let rm := (inst >>> 3) &&& 0x7
  let ra := read_register s rm
  let rc := not32 ra
  let s := (write_register s rd rc).2
  let s := do_nflag s rc
  let s := do_zflag s rc
  (0, s)

/-- NEG (lines 1251-1264). -/
def exec_NEG (s : Thumbulator) (inst : Nat) : Nat × Thumbulator :=
  let rd := (inst >>> 0) &&& 0x7
  let rm := (inst >>> 3) &&& 0x7
  let ra := read_register s rm
  let rc := sub32 0 ra
  let s := (write_register s rd rc).2
  let s := do_nflag s rc
  let s := do_zflag s rc
  let s := do_cflag s 0 (not32 ra) 1
  let s := do_sub_vflag s 0 ra rc
  (0, s)

/-- ORR (lines 1266-1278). -/
def exec_ORR (s : Thumbulator) (inst : Nat) : Nat × Thumbulator :=
  let rd := (inst >>> 0) &&& 0x7
  let rm := (inst >>> 3) &&& 0x7
  let ra := read_register s rd
  let rb := read_register s rm
  let rc := ra ||| rb
  let s := (write_register s rd rc).2
  let s := do_nflag s rc
  let s := do_zflag s rc
  (0, s)

/-- POP (lines 1280-1302). -/
def exec_POP (s : Thumbulator) (inst : Nat) : Nat × Thumbulator :=
  let sp := read_register s 13
  let r := (regListLoop inst loadBody regListFuel 0 0x01 (sp, s)).2.2
  let sp := r.1
  let s := r.2
  let r : Nat × Thumbulator :=
    if inst &&& 0x100 ≠ 0 then
      let m := read32 s sp
      let rc := add32 m.1 2
      let s := (write_register m.2 15 rc).2
      (add32 sp 4, s)
    else (sp, s)
  let sp := r.1
  let s := r.2
  let s := (write_register s 13 sp).2
  (0, s)

/-- Body of the counting loop of PUSH on `rc`: `rc++;`. -/
def countBody (_ra : Nat) (rc : Nat) : Nat := add32 rc 1

/-- PUSH (lines 1304-1334). -/
def exec_PUSH (s : Thumbulator) (inst : Nat) : Nat × Thumbulator :=
  let sp := read_register s 13
  let rc := (regListLoop inst countBody regListFuel 0 0x01 0).2.2
  let rc := if inst &&& 0x100 ≠ 0 then add32 rc 1 else rc
  let rc := shl32 rc 2
  let sp := sub32 sp rc
  let rd := sp
  let r := (regListLoop inst storeBody regListFuel 0 0x01 (rd, s)).2.2
  let rd := r.1
  let s := r.2
  let s := if inst &&& 0x100 ≠ 0 then write32 s rd (read_register s 14) else s
  let s := (write_register s 13 sp).2
  (0, s)

/-- REV (lines 1336-1348). -/
def exec_REV (s : Thumbulator) (inst : Nat) : Nat × Thumbulator :=
  let rd := (inst >>> 0) &&& 0x7
  let rn := (inst >>> 3) &&& 0x7
  let ra := read_register s rn
  let rc := shl32 ((ra >>> 0) &&& 0xFF) 24
  let rc := rc ||| shl32 ((ra >>> 8) &&& 0xFF) 16
  let rc := rc ||| shl32 ((ra >>> 16) &&& 0xFF) 8
  let rc := rc ||| shl32 ((ra >>> 24) &&& 0xFF) 0
  let s := (write_register s rd rc).2
  (0, s)

/-- REV16 (lines 1350-1362). -/
def exec_REV16 (s : Thumbulator) (inst : Nat) : Nat × Thumbulator :=
  let rd := (inst >>> 0) &&& 0x7
  let rn := (inst >>> 3) &&& 0x7
  let ra := read_register s rn
  let rc := shl32 ((ra >>> 0) &&& 0xFF) 8
  let rc := rc ||| shl32 ((ra >>> 8) &&& 0xFF) 0
  let rc := rc ||| shl32 ((ra >>> 16) &&& 0xFF) 24
  let rc := rc ||| shl32 ((ra >>> 24) &&& 0xFF) 16
  let s := (write_register s rd rc).2
  (0, s)

/-- REVSH (lines 1364-1376). -/
def exec_REVSH (s : Thumbulator) (inst : Nat) : Nat × Thumbulator :=
  let rd := (inst >>> 0) &&& 0x7
  let rn := (inst >>> 3) &&& 0x7
  let ra := read_register s rn
  let rc := shl32 ((ra >>> 0) &&& 0xFF) 8
  let rc := rc ||| shl32 ((ra >>> 8) &&& 0xFF) 0
  let rc := if rc &&& 0x8000 ≠ 0 then rc ||| 0xFFFF0000 else rc &&& 0x0000FFFF
  let s := (write_register s rd rc).2
  (0, s)

/-- ROR (lines 1378-1408). -/
def exec_ROR (s : Thumbulator) (inst : Nat) : Nat × Thumbulator :=
  let rd := (inst >>> 0) &&& 0x7
  let rs := (inst >>> 3) &&& 0x7
  let rc := read_register s rd
  let ra := read_register s rs
  let ra := ra &&& 0xFF
  let r : Nat × Thumbulator :=
    if ra = 0 then (rc, s)
    else
      let ra := ra &&& 0x1F
      if ra = 0 then (rc, do_cflag_bit s (rc &&& 0x80000000))
      else
        let s := do_cflag_bit s (rc &&& shl32 1 (ra - 1))
        let rb := shl32 rc (32 - ra)
        let rc := rc >>> ra
        let rc := rc ||| rb
        (rc, s)
  let rc := r.1
  let s := r.2
  let s := (write_register s rd rc).2
  let s := do_nflag s rc
  let s := do_zflag s rc
  (0, s)

/-- SBC (lines 1410-1425). -/
def exec_SBC (s : Thumbulator) (inst : Nat) : Nat × Thumbulator :=
  let rd := (inst >>> 0) &&& 0x7
  let rm := (inst >>> 3) &&& 0x7
  let ra := read_register s rd
  let rb := read_register s rm
  let rc := sub32 ra rb
  let rc := if s.cpsr &&& CPSR_C = 0 then sub32 rc 1 else rc
  let s := (write_register s rd rc).2
  let s := do_nflag s rc
  let s := do_zflag s rc
  let s := do_cflag s ra rb 0
  let s := do_sub_vflag s ra rb rc
  (0, s)

/-- SETEND (lines 1427-1429). -/
def exec_SETEND (s : Thumbulator) (_inst : Nat) : Nat × Thumbulator :=
  (1, s)

/-- STMIA (lines 1431-1447). -/
def exec_STMIA (s : Thumbulator) (inst : Nat) : Nat × Thumbulator :=
  let rn := (inst >>> 8) &&& 0x7
  let sp := read_register s rn
  let r := (regListLoop inst storeBody regListFuel 0 0x01 (sp, s)).2.2
  let sp := r.1
  let s := r.2
  let s := (write_register s rn sp).2
  (0, s)

/-- STR(1) (lines 1449-1460). -/
def exec_STR1 (s : Thumbulator) (inst : Nat) : Nat × Thumbulator :=
  let rd := (inst >>> 0) &&& 0x07
  let rn := (inst >>> 3) &&& 0x07
  let rb := (inst >>> 6) &&& 0x1F
  let rb := shl32 rb 2
  let rb := add32 (read_register s rn) rb
  let rc := read_register s rd
  let s := write32 s rb rc
  (0, s)

/-- STR(2) (lines 1462-1472). -/
def exec_STR2 (s : Thumbulator) (inst : Nat) : Nat × Thumbulator :=
  let rd := (inst >>> 0) &&& 0x7
  let rn := (inst >>> 3) &&& 0x7
  let rm := (inst >>> 6) &&& 0x7
  let rb := add32 (read_register s rn) (read_register s rm)
  let rc := read_register s rd
  let s := write32 s rb rc
  (0, s)

/-- STR(3) (lines 1474-1484). -/
def exec_STR3 (s : Thumbulator) (inst : Nat) : Nat × Thumbulator :=
  let rb := (inst >>> 0) &&& 0xFF
  let rd := (inst >>> 8) &&& 0x07
  let rb := shl32 rb 2
  let rb := add32 (read_register s 13) rb
  let rc := read_register s rd
  let s := write32 s rb rc
  (0, s)

/-- STRB(1) (lines 1486-1507). -/
def exec_STRB1 (s : Thumbulator) (inst : Nat) : Nat × Thumbulator :=
  let rd := (inst >>> 0) &&& 0x07
  let rn := (inst >>> 3) &&& 0x07
  let rb := (inst >>> 6) &&& 0x1F
  let rb := add32 (read_register s rn) rb
  let rc := read_register s rd
  let r := read16 s (rb &&& not32 1)
  let ra := r.1
  let s := r.2
  let ra := if rb &&& 1 ≠ 0 then (ra &&& 0x00FF) ||| shl32 rc 8
            else (ra &&& 0xFF00) ||| (rc &&& 0x00FF)
  let s := write16 s (rb &&& not32 1) (ra &&& 0xFFFF)
  (0, s)

/-- STRB(2) (lines 1509-1530). -/
def exec_STRB2 (s : Thumbulator) (inst : Nat) : Nat × Thumbulator :=
  let rd := (inst >>> 0) &&& 0x7
  let rn := (inst >>> 3) &&& 0x7
  let rm := (inst >>> 6) &&& 0x7
  let rb := add32 (read_register s rn) (read_register s rm)
  let rc := read_register s rd
  let r := read16 s (rb &&& not32 1)
  let ra := r.1
  let s := r.2
  let ra := if rb &&& 1 ≠ 0 then (ra &&& 0x00FF) ||| shl32 rc 8
            else (ra &&& 0xFF00) ||| (rc &&& 0x00FF)
  let s := write16 s (rb &&& not32 1) (ra &&& 0xFFFF)
  (0, s)

/-- STRH(1) (lines 1532-1543). -/
def exec_STRH1 (s : Thumbulator) (inst : Nat) : Nat × Thumbulator :=
  let rd := (inst >>> 0) &&& 0x07
  let rn := (inst >>> 3) &&& 0x07
  let rb := (inst >>> 6) &&& 0x1F
  let rb := shl32 rb 1
  let rb := add32 (read_register s rn) rb
  let rc := read_register s rd
  let s := write16 s rb (rc &&& 0xFFFF)
  (0, s)

/-- STRH(2) (lines 1545-1555). -/
def exec_STRH2 (s : Thumbulator) (inst : Nat) : Nat × Thumbulator :=
  let rd := (inst >>> 0) &&& 0x7
  let rn := (inst >>> 3) &&& 0x7
  let rm := (inst >>> 6) &&& 0x7
  let rb := add32 (read_register s rn) (read_register s rm)
  let rc := read_register s rd
  let s := write16 s rb (rc &&& 0xFFFF)
  (0, s)

/-- SUB(1) (lines 1557-1571). -/
def exec_SUB1 (s : Thumbulator) (inst : Nat) : Nat × Thumbulator :=
  let rd := (inst >>> 0) &&& 7
  let rn := (inst >>> 3) &&& 7
  let rb := (inst >>> 6) &&& 7
  let ra := read_register s rn
  let rc := sub32 ra rb
  let s := (write_register s rd rc).2
  let s := do_nflag s rc
  let s := do_zflag s rc
  let s := do_cflag s ra (not32 rb) 1
  let s := do_sub_vflag s ra rb rc
  (0, s)

/-- SUB(2) (lines 1573-1586). -/
def exec_SUB2 (s : Thumbulator) (inst : Nat) : Nat × Thumbulator :=
  let rb := (inst >>> 0) &&& 0xFF
  let rd := (inst >>> 8) &&& 0x07
  let ra := read_register s rd
  let rc := sub32 ra rb
  let s := (write_register s rd rc).2
  let s := do_nflag s rc
  let s := do_zflag s rc
  let s := do_cflag s ra (not32 rb) 1
  let s := do_sub_vflag s ra rb rc
  (0, s)

/-- SUB(3) (lines 1588-1603). -/
def exec_SUB3 (s : Thumbulator) (inst : Nat) : Nat × Thumbulator :=
  let rd := (inst >>> 0) &&& 0x7
  let rn := (inst >>> 3) &&& 0x7
  let rm := (inst >>> 6) &&& 0x7
  let ra := read_register s rn
  let rb := read_register s rm
  let rc := sub32 ra rb
  let s := (write_register s rd rc).2
  let s := do_nflag s rc
  let s := do_zflag s rc
  let s := do_cflag s ra (not32 rb) 1
  let s := do_sub_vflag s ra rb rc
  (0, s)

/-- SUB(4) (lines 1605-1614). -/
def exec_SUB4 (s : Thumbulator) (inst : Nat) : Nat × Thumbulator :=
  let rb := inst &&& 0x7F
  let rb := shl32 rb 2
  let ra := read_register s 13
  let ra := sub32 ra rb
  let s := (write_register s 13 ra).2
  (0, s)

/-- SWI (lines 1616-1621). -/
def exec_SWI (s : Thumbulator) (_inst : Nat) : Nat × Thumbulator :=
  (1, s)

/-- SXTB (lines 1623-1633). -/
def exec_SXTB (s : Thumbulator) (inst : Nat) : Nat × Thumbulator :=
  let rd := (inst >>> 0) &&& 0x7
  let rm := (inst >>> 3) &&& 0x7
  let ra := read_register s rm
  let rc := ra &&& 0xFF
  let rc := if rc &&& 0x80 ≠ 0 then rc ||| shl32 (not32 0) 8 else rc
  let s := (write_register s rd rc).2
  (0, s)

/-- SXTH (lines 1635-1645). -/
def exec_SXTH (s : Thumbulator) (inst : Nat) : Nat × Thumbulator :=
  let rd := (inst >>> 0) &&& 0x7
  let rm := (inst >>> 3) &&& 0x7
  let ra := read_register s rm
  let rc := ra &&& 0xFFFF
  let rc := if rc &&& 0x8000 ≠ 0 then rc ||| shl32 (not32 0) 16 else rc
  let s := (write_register s rd rc).2
  (0, s)

/-- TST (lines 1647-1658). -/
def exec_TST (s : Thumbulator) (inst : Nat) : Nat × Thumbulator :=
  let rn := (inst >>> 0) &&& 0x7
  let rm := (inst >>> 3) &&& 0x7
  let ra := read_register s rn
  let rb := read_register s rm
  let rc := ra &&& rb
  let s := do_nflag s rc
  let s := do_zflag s rc
  (0, s)

/-- UXTB (lines 1660-1669). -/
def exec_UXTB (s : Thumbulator) (inst : Nat) : Nat × Thumbulator :=
  let rd := (inst >>> 0) &&& 0x7
  let rm := (inst >>> 3) &&& 0x7
  let ra := read_register s rm
  let rc := ra &&& 0xFF
  let s := (write_register s rd rc).2
  (0, s)

/-- UXTH (lines 1671-1680). -/
def exec_UXTH (s : Thumbulator) (inst : Nat) : Nat × Thumbulator :=
  let rd := (inst >>> 0) &&& 0x7
  let rm := (inst >>> 3) &&& 0x7
  let ra := read_register s rm
  let rc := ra &&& 0xFFFF
  let s := (write_register s rd rc).2
  (0, s)

/-! ## The decoding chain of `Thumbulator::execute` -/

/-- The instruction blocks of `execute`, named by their source comments. -/
inductive Op where
  | ADC | ADD1 | ADD2 | ADD3 | ADD4 | ADD5 | ADD6 | ADD7 | AND | ASR1 | ASR2 | B1 | B2
  | BIC | BKPT | BL | BLX2 | BX | CMN | CMP1 | CMP2 | CMP3 | CPS | CPY | EOR | LDMIA
  | LDR1 | LDR2 | LDR3 | LDR4 | LDRB1 | LDRB2 | LDRH1 | LDRH2 | LDRSB | LDRSH | LSL1
  | LSL2 | LSR1 | LSR2 | MOV1 | MOV2 | MOV3 | MUL | MVN | NEG | ORR | POP | PUSH | REV
  | REV16 | REVSH | ROR | SBC | SETEND | STMIA | STR1 | STR2 | STR3 | STRB1 | STRB2
  | STRH1 | STRH2 | SUB1 | SUB2 | SUB3 | SUB4 | SWI | SXTB | SXTH | TST | UXTB | UXTH
  deriving DecidableEq, Repr

/-- One block `if((inst&mask)==value) { handler }` of `execute`.  The handler
gets the state, `inst` and `pc`; it yields `some (r, s)` when the block executes
`return(r)` in state `s`, and `none` when control leaves the block without
returning and goes on to the next test. -/
structure Pattern where
  op : Op
  mask : Nat
  value : Nat
  handler : Thumbulator → Nat → Nat → Option (Nat × Thumbulator)

/-- The blocks of `execute` in source order (lines 359-1680). -/
def chain : List Pattern := [
  Pattern.mk Op.ADC 0xFFC0 0x4140 (fun s inst _ => some (exec_ADC s inst)),
  Pattern.mk Op.ADD1 0xFE00 0x1C00 (fun s inst _ => exec_ADD1 s inst),
  Pattern.mk Op.ADD2 0xF800 0x3000 (fun s inst _ => some (exec_ADD2 s inst)),
  Pattern.mk Op.ADD3 0xFE00 0x1800 (fun s inst _ => some (exec_ADD3 s inst)),
  Pattern.mk Op.ADD4 0xFF00 0x4400 (fun s inst _ => some (exec_ADD4 s inst)),
  Pattern.mk Op.ADD5 0xF800 0xA000 (fun s inst _ => some (exec_ADD5 s inst)),
  Pattern.mk Op.ADD6 0xF800 0xA800 (fun s inst _ => some (exec_ADD6 s inst)),
  Pattern.mk Op.ADD7 0xFF80 0xB000 (fun s inst _ => some (exec_ADD7 s inst)),
  Pattern.mk Op.AND 0xFFC0 0x4000 (fun s inst _ => some (exec_AND s inst)),
  Pattern.mk Op.ASR1 0xF800 0x1000 (fun s inst _ => some (exec_ASR1 s inst)),
  Pattern.mk Op.ASR2 0xFFC0 0x4100 (fun s inst _ => some (exec_ASR2 s inst)),
  Pattern.mk Op.B1 0xF000 0xD000 (fun s inst pc => exec_B1 s inst pc),
  Pattern.mk Op.B2 0xF800 0xE000 (fun s inst pc => some (exec_B2 s inst pc)),
  Pattern.mk Op.BIC 0xFFC0 0x4380 (fun s inst _ => some (exec_BIC s inst)),
  Pattern.mk Op.BKPT 0xFF00 0xBE00 (fun s inst _ => some (exec_BKPT s inst)),
  Pattern.mk Op.BL 0xE000 0xE000 (fun s inst pc => exec_BL s inst pc),
  Pattern.mk Op.BLX2 0xFF87 0x4780 (fun s inst pc => some (exec_BLX2 s inst pc)),
  Pattern.mk Op.BX 0xFF87 0x4700 (fun s inst _ => some (exec_BX s inst)),
  Pattern.mk Op.CMN 0xFFC0 0x42C0 (fun s inst _ => some (exec_CMN s inst)),
  Pattern.mk Op.CMP1 0xF800 0x2800 (fun s inst _ => some (exec_CMP1 s inst)),
  Pattern.mk Op.CMP2 0xFFC0 0x4280 (fun s inst _ => some (exec_CMP2 s inst)),
  Pattern.mk Op.CMP3 0xFF00 0x4500 (fun s inst _ => some (exec_CMP3 s inst)),
  Pattern.mk Op.CPS 0xFFE8 0xB660 (fun s inst _ => some (exec_CPS s inst)),
  Pattern.mk Op.CPY 0xFFC0 0x4600 (fun s inst _ => some (exec_CPY s inst)),
  Pattern.mk Op.EOR 0xFFC0 0x4040 (fun s inst _ => some (exec_EOR s inst)),
  Pattern.mk Op.LDMIA 0xF800 0xC800 (fun s inst _ => some (exec_LDMIA s inst)),
  Pattern.mk Op.LDR1 0xF800 0x6800 (fun s inst _ => some (exec_LDR1 s inst)),
  Pattern.mk Op.LDR2 0xFE00 0x5800 (fun s inst _ => some (exec_LDR2 s inst)),
  Pattern.mk Op.LDR3 0xF800 0x4800 (fun s inst _ => some (exec_LDR3 s inst)),
  Pattern.mk Op.LDR4 0xF800 0x9800 (fun s inst _ => some (exec_LDR4 s inst)),
  Pattern.mk Op.LDRB1 0xF800 0x7800 (fun s inst _ => some (exec_LDRB1 s inst)),
  Pattern.mk Op.LDRB2 0xFE00 0x5C00 (fun s inst _ => some (exec_LDRB2 s inst)),
  Pattern.mk Op.LDRH1 0xF800 0x8800 (fun s inst _ => some (exec_LDRH1 s inst)),
  Pattern.mk Op.LDRH2 0xFE00 0x5A00 (fun s inst _ => some (exec_LDRH2 s inst)),
  Pattern.mk Op.LDRSB 0xFE00 0x5600 (fun s inst _ => some (exec_LDRSB s inst)),
  Pattern.mk Op.LDRSH 0xFE00 0x5E00 (fun s inst _ => some (exec_LDRSH s inst)),
  Pattern.mk Op.LSL1 0xF800 0x0000 (fun s inst _ => some (exec_LSL1 s inst)),
  Pattern.mk Op.LSL2 0xFFC0 0x4080 (fun s inst _ => some (exec_LSL2 s inst)),
  Pattern.mk Op.LSR1 0xF800 0x0800 (fun s inst _ => some (exec_LSR1 s inst)),
  Pattern.mk Op.LSR2 0xFFC0 0x40C0 (fun s inst _ => some (exec_LSR2 s inst)),
  Pattern.mk Op.MOV1 0xF800 0x2000 (fun s inst _ => some (exec_MOV1 s inst)),
  Pattern.mk Op.MOV2 0xFFC0 0x1C00 (fun s inst _ => some (exec_MOV2 s inst)),
  Pattern.mk Op.MOV3 0xFF00 0x4600 (fun s inst _ => some (exec_MOV3 s inst)),
  Pattern.mk Op.MUL 0xFFC0 0x4340 (fun s inst _ => some (exec_MUL s inst)),
  Pattern.mk Op.MVN 0xFFC0 0x43C0 (fun s inst _ => some (exec_MVN s inst)),
  Pattern.mk Op.NEG 0xFFC0 0x4240 (fun s inst _ => some (exec_NEG s inst)),
  Pattern.mk Op.ORR 0xFFC0 0x4300 (fun s inst _ => some (exec_ORR s inst)),
  Pattern.mk Op.POP 0xFE00 0xBC00 (fun s inst _ => some (exec_POP s inst)),
  Pattern.mk Op.PUSH 0xFE00 0xB400 (fun s inst _ => some (exec_PUSH s inst)),
  Pattern.mk Op.REV 0xFFC0 0xBA00 (fun s inst _ => some (exec_REV s inst)),
  Pattern.mk Op.REV16 0xFFC0 0xBA40 (fun s inst _ => some (exec_REV16 s inst)),
  Pattern.mk Op.REVSH 0xFFC0 0xBAC0 (fun s inst _ => some (exec_REVSH s inst)),
  Pattern.mk Op.ROR 0xFFC0 0x41C0 (fun s inst _ => some (exec_ROR s inst)),
  Pattern.mk Op.SBC 0xFFC0 0x4180 (fun s inst _ => some (exec_SBC s inst)),
  Pattern.mk Op.SETEND 0xFFF7 0xB650 (fun s inst _ => some (exec_SETEND s inst)),
  Pattern.mk Op.STMIA 0xF800 0xC000 (fun s inst _ => some (exec_STMIA s inst)),
  Pattern.mk Op.STR1 0xF800 0x6000 (fun s inst _ => some (exec_STR1 s inst)),
  Pattern.mk Op.STR2 0xFE00 0x5000 (fun s inst _ => some (exec_STR2 s inst)),
  Pattern.mk Op.STR3 0xF800 0x9000 (fun s inst _ => some (exec_STR3 s inst)),
  Pattern.mk Op.STRB1 0xF800 0x7000 (fun s inst _ => some (exec_STRB1 s inst)),
  Pattern.mk Op.STRB2 0xFE00 0x5400 (fun s inst _ => some (exec_STRB2 s inst)),
  Pattern.mk Op.STRH1 0xF800 0x8000 (fun s inst _ => some (exec_STRH1 s inst)),
  Pattern.mk Op.STRH2 0xFE00 0x5200 (fun s inst _ => some (exec_STRH2 s inst)),
  Pattern.mk Op.SUB1 0xFE00 0x1E00 (fun s inst _ => some (exec_SUB1 s inst)),
  Pattern.mk Op.SUB2 0xF800 0x3800 (fun s inst _ => some (exec_SUB2 s inst)),
  Pattern.mk Op.SUB3 0xFE00 0x1A00 (fun s inst _ => some (exec_SUB3 s inst)),
  Pattern.mk Op.SUB4 0xFF80 0xB080 (fun s inst _ => some (exec_SUB4 s inst)),
  Pattern.mk Op.SWI 0xFF00 0xDF00 (fun s inst _ => some (exec_SWI s inst)),
  Pattern.mk Op.SXTB 0xFFC0 0xB240 (fun s inst _ => some (exec_SXTB s inst)),
  Pattern.mk Op.SXTH 0xFFC0 0xB200 (fun s inst _ => some (exec_SXTH s inst)),
  Pattern.mk Op.TST 0xFFC0 0x4200 (fun s inst _ => some (exec_TST s inst)),
  Pattern.mk Op.UXTB 0xFFC0 0xB2C0 (fun s inst _ => some (exec_UXTB s inst)),
  Pattern.mk Op.UXTH 0xFFC0 0xB280 (fun s inst _ => some (exec_UXTH s inst))]

/-- The chain of tests: the first block whose pattern matches `inst` and whose
handler returns decides the step; when none does, `execute` ends with
`return(1)` (line 1682). -/
def runChain (s : Thumbulator) (inst pc : Nat) : List Pattern → Nat × Thumbulator
  | [] => (1, s)
  | p :: rest =>
    if inst &&& p.mask = p.value then
      match p.handler s inst pc with
      | some r => r
      | none => runChain s inst pc rest
    else runChain s inst pc rest

/-- `Thumbulator::execute` (lines 345-1683). -/
def execute (s : Thumbulator) : Nat × Thumbulator :=
  let pc := read_register s 15
  let f := fetch16 s (sub32 pc 2)
  let inst := f.1
  let s := f.2
  let pc := add32 pc 2
  let s := (write_register s 15 pc).2
  let s := { s with instructions := (s.instructions + 1) % 2 ^ 64 }
  runChain s inst pc chain

/-! ## Execution loop -/

/-- `Thumbulator::reset` (lines 1686-1704). -/
def reset (s : Thumbulator) : Nat × Thumbulator :=
  let s := { s with cpsr := CPSR_T ||| CPSR_I ||| CPSR_F ||| MODE_SVC }
  let s := { s with reg_svc := Function.update s.reg_svc 13 0x40001fb4 }
  let s := { s with reg_svc := Function.update s.reg_svc 14 0x00000c00 }
  let s := { s with reg_sys := Function.update s.reg_sys 15 0x00000c0b }
  let s := { s with mamcr := 0 }
  let s := { s with instructions := 0 }
  let s := { s with fetches := 0 }
  let s := { s with reads := 0 }
  let s := { s with writes := 0 }
  (0, s)

/-- The `for(;;)` loop of `Thumbulator::run` (lines 45-50); the first argument
bounds the number of calls of `execute`, and the result is `none` when the
loop has not exited within that many calls. -/
def runLoop : Nat → Thumbulator → Option Thumbulator
  | 0, _ => none
  | fuel + 1, s =>
    let r := execute s
    if r.1 ≠ 0 then some r.2
    else if r.2.instructions > 500000 then some r.2
    else runLoop fuel r.2

/-- `Thumbulator::run` (lines 42-51), with at most `fuel` calls of `execute`. -/
def run (fuel : Nat) (s : Thumbulator) : Option Thumbulator :=
  runLoop fuel (reset s).2

/-! ## Composition of primitive operations -/

/-- `Reach s t`: `t` comes from `s` by a sequence of the primitive state
operations the instruction handlers are built from. -/
inductive Reach : Thumbulator → Thumbulator → Prop
  | refl (s : Thumbulator) : Reach s s
  | write_register {s t : Thumbulator} (reg data : Nat) :
      Reach s t → Reach s (write_register t reg data).2
  | read16 {s t : Thumbulator} (addr : Nat) : Reach s t → Reach s (read16 t addr).2
  | write16 {s t : Thumbulator} (addr data : Nat) : Reach s t → Reach s (write16 t addr data)
  | do_zflag {s t : Thumbulator} (x : Nat) : Reach s t → Reach s (do_zflag t x)
  | do_nflag {s t : Thumbulator} (x : Nat) : Reach s t → Reach s (do_nflag t x)
  | do_cflag {s t : Thumbulator} (a b c : Nat) : Reach s t → Reach s (do_cflag t a b c)
  | do_sub_vflag {s t : Thumbulator} (a b c : Nat) : Reach s t → Reach s (do_sub_vflag t a b c)
  | do_add_vflag {s t : Thumbulator} (a b c : Nat) : Reach s t → Reach s (do_add_vflag t a b c)
  | do_cflag_bit {s t : Thumbulator} (x : Nat) : Reach s t → Reach s (do_cflag_bit t x)
  | do_vflag_bit {s t : Thumbulator} (x : Nat) : Reach s t → Reach s (do_vflag_bit t x)
  | halfadd {s t : Thumbulator} (v : Nat) : Reach s t → Reach s { t with halfadd := v }

/-- `Reach` for the result of a handler, when it returns. -/
def OReach (s : Thumbulator) : Option (Nat × Thumbulator) → Prop
  | none => True
  | some r => Reach s r.2

/-! ## Closed form of the register-list loops -/

/-- One pass of a register-list loop for register `ra`. -/
def regStep {σ : Type} (inst : Nat) (body : Nat → σ → σ) (st : σ) (ra : Nat) : σ :=
  if inst &&& (1 <<< ra) ≠ 0 then body ra st else st

/-! ## The opcode and the state at the start of decoding -/

/-- The next `execute` step decodes the opcode `op`: `fetch16(pc-2)` returns
`op` for `pc = read_register(15)` (lines 352-353). -/
def Fetches (s : Thumbulator) (op : Nat) : Prop :=
  (fetch16 s (sub32 (read_register s 15) 2)).1 = op

instance (s : Thumbulator) (op : Nat) : Decidable (Fetches s op) :=
  inferInstanceAs (Decidable ((fetch16 s (sub32 (read_register s 15) 2)).1 = op))

/-- The state in which `execute` enters its chain of tests: after the fetch,
the write-back of `pc+2` to register 15 and `instructions++` (lines 352-357). -/
def entered (s : Thumbulator) : Thumbulator :=
  { (write_register (fetch16 s (sub32 (read_register s 15) 2)).2 15
        (add32 (read_register s 15) 2)).2 with
    instructions :=
      ((write_register (fetch16 s (sub32 (read_register s 15) 2)).2 15
        (add32 (read_register s 15) 2)).2.instructions + 1) % 2 ^ 64 }

/-! ## Overlapping patterns -/

/-- The pairs of blocks whose patterns overlap, earlier block first. -/
def overlapping : List (Op × Op) :=
  [(Op.ADD1, Op.MOV2), (Op.B1, Op.SWI), (Op.B2, Op.BL), (Op.CPY, Op.MOV3)]

/-! ## Concrete states used by witnesses and counterexamples -/

/-- A state about to execute the B(2) opcode `0xE400` (displacement -1024) at
the reset entry point. -/
def branchState : Thumbulator :=
  { MSB_FIRST := false, rom := fun _ => 0xE400, ram := fun _ => 0, halfadd := 0, cpsr := 0xF3,
    reg_sys := fun _ => 0xc0b, reg_svc := fun _ => 0, mamcr := 0,
    instructions := 0, fetches := 0, reads := 0, writes := 0 }

/-- A state whose ROM holds the opcode `0xE7FE` (`B .`, a branch to itself)
in every halfword. -/
def spinState : Thumbulator :=
  { MSB_FIRST := false, rom := fun _ => 0xE7FE, ram := fun _ => 0, halfadd := 0, cpsr := 0,
    reg_sys := fun _ => 0, reg_svc := fun _ => 0, mamcr := 0,
    instructions := 0, fetches := 0, reads := 0, writes := 0 }

/-- The states of the program `B .` at the reset entry point. -/
def Spinning (t : Thumbulator) : Prop :=
  t.MSB_FIRST = false ∧ t.rom 0x604 = 0xE7FE ∧ t.cpsr = 0xF3 ∧ t.reg_sys 15 = 0xc0b

/-- A state whose ROM holds the breakpoint opcode `0xBE00` in every halfword. -/
def bkptState : Thumbulator :=
  { MSB_FIRST := false, rom := fun _ => 0xBE00, ram := fun i => i % 7, halfadd := 5, cpsr := 0,
    reg_sys := fun _ => 9, reg_svc := fun _ => 0, mamcr := 3,
    instructions := 77, fetches := 1, reads := 2, writes := 3 }

/-- A state about to execute `STMIA r1!, {r0-r7}` (opcode `0xC1FF`) with the
base register holding the ROM address `0xc0b`. -/
def stmState : Thumbulator :=
  { MSB_FIRST := false, rom := fun _ => 0xC1FF, ram := fun _ => 0, halfadd := 0, cpsr := 0xF3,
    reg_sys := fun _ => 0xc0b, reg_svc := fun _ => 0, mamcr := 0,
    instructions := 0, fetches := 0, reads := 0, writes := 0 }

/-- A state about to execute `PUSH {r0, r2}` (opcode `0xB405`) at the reset
entry point, followed in ROM by `POP {r0, r2}` (opcode `0xBC05`); register `i`
of the shared bank holds `100 + i`, the stack pointer is the reset value. -/
def pushState : Thumbulator :=
  { MSB_FIRST := false, rom := fun i => if i = 0x604 then 0xB405 else 0xBC05,
    ram := fun _ => 0, halfadd := 0, cpsr := 0xF3,
    reg_sys := fun i => if i = 15 then 0xc0b else 100 + i,
    reg_svc := fun _ => 0x40001fb4, mamcr := 0,
    instructions := 0, fetches := 0, reads := 0, writes := 0 }

/-- The state after the PUSH of `pushState` with the registers 0..14 of the
shared bank cleared. -/
def popState : Thumbulator :=
  { (execute pushState).2 with reg_sys := fun i => if i = 15 then 0xc0d else 0 }

/-- A state about to execute `STMIA r1!, {r0, r2}` (opcode `0xC105`) at the
reset entry point, followed in ROM by `LDMIA r1!, {r0, r2}` (opcode `0xC905`);
register 1 holds the RAM address `0x40001000`, register `i` else `100 + i`. -/
def storeState : Thumbulator :=
  { MSB_FIRST := false, rom := fun i => if i = 0x604 then 0xC105 else 0xC905,
    ram := fun _ => 0, halfadd := 0, cpsr := 0xF3,
    reg_sys := fun i => if i = 15 then 0xc0b else if i = 1 then 0x40001000 else 100 + i,
    reg_svc := fun _ => 0x40001fb4, mamcr := 0,
    instructions := 0, fetches := 0, reads := 0, writes := 0 }

/-- The state after the STMIA of `storeState` with register 1 set back to the
base address and the other registers 0..14 of the shared bank cleared. -/
def loadState : Thumbulator :=
  { (execute storeState).2 with
    reg_sys := fun i => if i = 15 then 0xc0d else if i = 1 then 0x40001000 else 0 }

/-! ## Words of the RAM image -/

/-- A word address a block transfer can store to and load from: 4-byte
aligned, with its four bytes inside one of the two RAM windows `write16`
accepts (`0x40000C00..0x40001FFF` and `0x40000000..0x40000029`). -/
def WritableWord (a : Nat) : Prop :=
  a % 4 = 0 ∧ ((0x40000C00 ≤ a ∧ a + 3 ≤ 0x40001FFF) ∨ (0x40000000 ≤ a ∧ a + 3 ≤ 0x40000029))

instance (a : Nat) : Decidable (WritableWord a) :=
  inferInstanceAs (Decidable (_ ∧ _))

/-- A byte address inside one of the two RAM windows `write16` accepts. -/
def InWritableRAM (x : Nat) : Prop :=
  (0x40000C00 ≤ x ∧ x ≤ 0x40001FFF) ∨ (0x40000000 ≤ x ∧ x ≤ 0x40000029)

instance (x : Nat) : Decidable (InWritableRAM x) :=
  inferInstanceAs (Decidable (_ ∨ _))

/-- The 32-bit word of the RAM image at the byte address `a` of the RAM
region: the halfword at `a + 2` above the halfword at `a`. -/
def ramWord (s : Thumbulator) (a : Nat) : Nat :=
  shl32 (loadHalf s (s.ram ((a + 2 - 0x40000000) / 2))) 16
    ||| loadHalf s (s.ram ((a - 0x40000000) / 2))

/-- Number of registers 0..7 in the register list `L`. -/
def popcount8 (L : Nat) : Nat := (List.range 8).countP (fun i => L.testBit i)

/-- Bytes taken by the registers below `ra` in the register list `L`. -/
def listOffset (L ra : Nat) : Nat := 4 * (List.range ra).countP (fun i => L.testBit i)

/-! ## Further concrete states -/

/-- A state whose ROM holds `STR r0, [sp, #0]` (opcode `0x9000`) at the reset
entry point and the breakpoint opcode `0xBE00` elsewhere; every register of
the shared bank holds `v`. -/
def strState (v : Nat) : Thumbulator :=
  { MSB_FIRST := false, rom := fun i => if i = 0x604 then 0x9000 else 0xBE00,
    ram := fun _ => 0, halfadd := 0, cpsr := 0,
    reg_sys := fun _ => v, reg_svc := fun _ => 0, mamcr := 0,
    instructions := 0, fetches := 0, reads := 0, writes := 0 }

/-- The state `bkptState` with other values in every field `reset` writes. -/
def staleState : Thumbulator :=
  { bkptState with
    cpsr := 0x10, mamcr := 9, instructions := 5, fetches := 6, reads := 7, writes := 8,
    reg_sys := fun i => if i = 15 then 0 else 9,
    reg_svc := fun i => if i = 13 ∨ i = 14 then 1 else 0 }

/-! ## Writes to the program counter -/

/-- The opcode loads register 15 from a register or from the stack: it is
handled by the ADD(4) or the MOV(3) block with `rd = 15`, or by the POP block
with the PC bit `0x100` set. -/
def LoadsPC (inst : Nat) : Prop :=
  ((inst &&& 0xFF00 = 0x4400 ∨ inst &&& 0xFF00 = 0x4600) ∧
      ((inst >>> 0) &&& 0x7) ||| ((inst >>> 4) &&& 0x8) = 15) ∨
    (inst &&& 0xFE00 = 0xBC00 ∧ inst &&& 0x100 ≠ 0)

instance (inst : Nat) : Decidable (LoadsPC inst) :=
  inferInstanceAs (Decidable
    (((inst &&& 0xFF00 = 0x4400 ∨ inst &&& 0xFF00 = 0x4600) ∧
        ((inst >>> 0) &&& 0x7) ||| ((inst >>> 4) &&& 0x8) = 15) ∨
      (inst &&& 0xFE00 = 0xBC00 ∧ inst &&& 0x100 ≠ 0)))

/-- `KeepsPC s t`: `t` comes from `s` by a sequence of primitive state
operations in which every `write_register` either has an index other than 15
or writes an odd value. -/
inductive KeepsPC : Thumbulator → Thumbulator → Prop
  | refl (s : Thumbulator) : KeepsPC s s
  | write_low {s t : Thumbulator} (reg data : Nat) :
      reg &&& 0xF ≠ 15 → KeepsPC s t → KeepsPC s (write_register t reg data).2
  | write_odd {s t : Thumbulator} (reg data : Nat) :
      data % 2 = 1 → KeepsPC s t → KeepsPC s (write_register t reg data).2
  | read16 {s t : Thumbulator} (addr : Nat) : KeepsPC s t → KeepsPC s (read16 t addr).2
  | write16 {s t : Thumbulator} (addr data : Nat) :
      KeepsPC s t → KeepsPC s (write16 t addr data)
  | do_zflag {s t : Thumbulator} (x : Nat) : KeepsPC s t → KeepsPC s (do_zflag t x)
  | do_nflag {s t : Thumbulator} (x : Nat) : KeepsPC s t → KeepsPC s (do_nflag t x)
  | do_cflag {s t : Thumbulator} (a b c : Nat) : KeepsPC s t → KeepsPC s (do_cflag t a b c)
  | do_sub_vflag {s t : Thumbulator} (a b c : Nat) :
      KeepsPC s t → KeepsPC s (do_sub_vflag t a b c)
  | do_add_vflag {s t : Thumbulator} (a b c : Nat) :
      KeepsPC s t → KeepsPC s (do_add_vflag t a b c)
  | do_cflag_bit {s t : Thumbulator} (x : Nat) : KeepsPC s t → KeepsPC s (do_cflag_bit t x)
  | do_vflag_bit {s t : Thumbulator} (x : Nat) : KeepsPC s t → KeepsPC s (do_vflag_bit t x)
  | halfadd {s t : Thumbulator} (v : Nat) : KeepsPC s t → KeepsPC s { t with halfadd := v }

/-- `KeepsPC` for the result of a handler, when it returns. -/
def OKeepsPC (s : Thumbulator) : Option (Nat × Thumbulator) → Prop
  | none => True
  | some r => KeepsPC s r.2

/-- The states reachable from `reset` on the prior state `s0` by any number of
`execute` steps whose opcodes all satisfy `P`. -/
inductive Reachable (P : Nat → Prop) (s0 : Thumbulator) : Thumbulator → Prop
  | reset : Reachable P s0 (reset s0).2
  | step {s : Thumbulator} (op : Nat) :
      Reachable P s0 s → Fetches s op → P op → Reachable P s0 (execute s).2

/-! ## State transformations the interpreter commutes with -/

/-- `Commutes f`: every primitive operation of the interpreter commutes with
the state transformation `f`, and returns the same value on `f s` as on `s`. -/
structure Commutes (f : Thumbulator → Thumbulator) : Prop where
  cpsr : ∀ s, (f s).cpsr = s.cpsr
  halfadd : ∀ s, (f s).halfadd = s.halfadd
  instructions : ∀ s, (f s).instructions = s.instructions
  set_halfadd : ∀ s v, { f s with halfadd := v } = f { s with halfadd := v }
  set_instructions : ∀ s v, { f s with instructions := v } = f { s with instructions := v }
  read_register : ∀ s r, read_register (f s) r = read_register s r
  write_register_fst : ∀ s r v, (write_register (f s) r v).1 = (write_register s r v).1
  write_register_snd : ∀ s r v, (write_register (f s) r v).2 = f (write_register s r v).2
  fetch16_fst : ∀ s a, (fetch16 (f s) a).1 = (fetch16 s a).1
  fetch16_snd : ∀ s a, (fetch16 (f s) a).2 = f (fetch16 s a).2
  read16_fst : ∀ s a, (read16 (f s) a).1 = (read16 s a).1
  read16_snd : ∀ s a, (read16 (f s) a).2 = f (read16 s a).2
  write16 : ∀ s a d, write16 (f s) a d = f (write16 s a d)
  do_zflag : ∀ s x, do_zflag (f s) x = f (do_zflag s x)
  do_nflag : ∀ s x, do_nflag (f s) x = f (do_nflag s x)
  do_cflag : ∀ s a b c, do_cflag (f s) a b c = f (do_cflag s a b c)
  do_sub_vflag : ∀ s a b c, do_sub_vflag (f s) a b c = f (do_sub_vflag s a b c)
  do_add_vflag : ∀ s a b c, do_add_vflag (f s) a b c = f (do_add_vflag s a b c)
  do_cflag_bit : ∀ s x, do_cflag_bit (f s) x = f (do_cflag_bit s x)
  do_vflag_bit : ∀ s x, do_vflag_bit (f s) x = f (do_vflag_bit s x)
  reset_snd : ∀ s, (reset (f s)).2 = f (reset s).2

/-- The state with the ROM cells of index `16384` and above and the RAM cells
of index `4096` and above (the cells outside arrays of `ROMSIZE` and `RAMSIZE`
bytes) zeroed. -/
def clip (s : Thumbulator) : Thumbulator :=
  { s with
    rom := fun i => if i < 16384 then s.rom i else 0
    ram := fun i => if i < 4096 then s.ram i else 0 }

/-- The state `pushState` with other contents in the cells outside the ROM and
RAM arrays. -/
def junkState : Thumbulator :=
  { pushState with
    rom := fun i => if i < 16384 then pushState.rom i else 9
    ram := fun i => if i < 4096 then pushState.ram i else 7 }

/-! ## Signed reading of 32-bit values -/

/-- The value of the 32-bit word `x` read as a two's-complement integer. -/
def signed32 (x : Nat) : Int :=
  if x % 2 ^ 32 < 2 ^ 31 then ((x % 2 ^ 32 : Nat) : Int) else ((x % 2 ^ 32 : Nat) : Int) - 2 ^ 32

/-! ## Conditions and displacements of branches -/

/-- The condition code `cond` (0..13: EQ, NE, CS, CC, MI, PL, VS, VC, HI, LS,
GE, LT, GT, LE) on the flags N, Z, C and V. -/
def condHolds (cond : Nat) (n z c v : Bool) : Bool :=
  match cond with
  | 0 => z
  | 1 => !z
  | 2 => c
  | 3 => !c
  | 4 => n
  | 5 => !n
  | 6 => v
  | 7 => !v
  | 8 => c && !z
  | 9 => !c || z
  | 10 => n == v
  | 11 => n != v
  | 12 => !z && (n == v)
  | 13 => z || (n != v)
  | _ => false

/-- The signed value of an 8-bit displacement. -/
def sext8 (imm8 : Nat) : Int := if imm8 < 128 then (imm8 : Int) else (imm8 : Int) - 256

/-- The signed value of an 11-bit displacement. -/
def sext11 (imm11 : Nat) : Int := if imm11 < 1024 then (imm11 : Int) else (imm11 : Int) - 2048

/-- A state in supervisor mode with Z set, about to execute `BEQ` with the
displacement `-2` (opcode `0xD0FE`) at the reset entry point. -/
def beqState : Thumbulator :=
  { MSB_FIRST := false, rom := fun _ => 0xD0FE, ram := fun _ => 0, halfadd := 0,
    cpsr := 0x400000F3, reg_sys := fun _ => 0xc0b, reg_svc := fun _ => 0, mamcr := 0,
    instructions := 0, fetches := 0, reads := 0, writes := 0 }

/-- A state in supervisor mode whose ROM holds, at the reset entry point, the
branch-with-link pair `0xF7FF` (first half, `hi = 0x7FF`) and `0xF804` (second
half, `lo = 4`). -/
def blState : Thumbulator :=
  { MSB_FIRST := false, rom := fun i => if i = 0x604 then 0xF7FF else 0xF804,
    ram := fun _ => 0, halfadd := 0, cpsr := 0xF3,
    reg_sys := fun _ => 0xc0b, reg_svc := fun _ => 0, mamcr := 0,
    instructions := 0, fetches := 0, reads := 0, writes := 0 }

/-- A state in supervisor mode whose ROM holds `BX r0` (opcode `0x4700`)
everywhere; every register holds the odd value `0xc0b`. -/
def bxState : Thumbulator :=
  { MSB_FIRST := false, rom := fun _ => 0x4700,
    ram := fun _ => 0, halfadd := 0, cpsr := 0xF3,
    reg_sys := fun _ => 0xc0b, reg_svc := fun _ => 0, mamcr := 0,
    instructions := 0, fetches := 0, reads := 0, writes := 0 }

/-- A state in supervisor mode with the flags C and V set whose ROM holds the
ADD(1) encoding with a zero immediate `0x1C08` (`rn = 1`, `rd = 0`)
everywhere. -/
def movState : Thumbulator :=
  { MSB_FIRST := false, rom := fun _ => 0x1C08,
    ram := fun _ => 0, halfadd := 0, cpsr := 0x300000F3,
    reg_sys := fun _ => 0xc0b, reg_svc := fun _ => 0, mamcr := 0,
    instructions := 0, fetches := 0, reads := 0, writes := 0 }

/-- A state in supervisor mode whose ROM holds `CMP r0, r1` (opcode `0x4288`)
everywhere, with `r0 = 5` and `r1 = 7`. -/
def cmpState : Thumbulator :=
  { MSB_FIRST := false, rom := fun _ => 0x4288,
    ram := fun _ => 0, halfadd := 0, cpsr := 0xF3,
    reg_sys := fun i => if i = 0 then 5 else if i = 1 then 7 else 0xc0b,
    reg_svc := fun _ => 0, mamcr := 0,
    instructions := 0, fetches := 0, reads := 0, writes := 0 }

/-- A state in supervisor mode with the carry flag set whose ROM holds
`SBC r0, r1` (opcode `0x4188`) everywhere, with `r0 = 5` and `r1 = 3`. -/
def sbcState : Thumbulator :=
  { MSB_FIRST := false, rom := fun _ => 0x4188,
    ram := fun _ => 0, halfadd := 0, cpsr := 0x200000F3,
    reg_sys := fun i => if i = 0 then 5 else if i = 1 then 3 else 0xc0b,
    reg_svc := fun _ => 0, mamcr := 0,
    instructions := 0, fetches := 0, reads := 0, writes := 0 }

/-- A state in supervisor mode whose ROM holds `ADD r0, #1` (ADD(2), opcode
`0x3001`) everywhere, with `r0 = 0x7FFFFFFF` and `r1 = 1`. -/
def add2State : Thumbulator :=
  { MSB_FIRST := false, rom := fun _ => 0x3001,
    ram := fun _ => 0, halfadd := 0, cpsr := 0xF3,
    reg_sys := fun i => if i = 0 then 0x7FFFFFFF else if i = 1 then 1 else 0xc0b,
    reg_svc := fun _ => 0, mamcr := 0,
    instructions := 0, fetches := 0, reads := 0, writes := 0 }

/-- The state `add2State` with `ADD r0, r0, r1` (ADD(3), opcode `0x1840`) in
ROM instead. -/
def add3State : Thumbulator :=
  { add2State with rom := fun _ => 0x1840 }

/-! ## The two builds -/

/-- Swapping the two bytes of a halfword: the expression of the `MSB_FIRST`
branches of `fetch16` and `read16`. -/
def bswap16 (x : Nat) : Nat := ((x >>> 8) ||| (x <<< 8)) &&& 0xffff

/-- The state of the build without `MSB_FIRST` whose memory arrays hold the
halfwords that the build of `s` reads from the arrays of `s`. -/
def toL (s : Thumbulator) : Thumbulator :=
  { s with
    MSB_FIRST := false
    rom := fun i => loadHalf s (s.rom i)
    ram := fun i => loadHalf s (s.ram i) }

/-- `ByteSwapped l m`: `l` is a state of the build without `MSB_FIRST` and `m`
a state of the build with it, the cells of the `uInt16` arrays `rom` and `ram`
of `m` are the byte swaps of those of `l`, and all other state is equal. -/
structure ByteSwapped (l m : Thumbulator) : Prop where
  buildL : l.MSB_FIRST = false
  buildM : m.MSB_FIRST = true
  rom_range : ∀ i, l.rom i < 2 ^ 16
  ram_range : ∀ i, l.ram i < 2 ^ 16
  rom : ∀ i, m.rom i = bswap16 (l.rom i)
  ram : ∀ i, m.ram i = bswap16 (l.ram i)
  halfadd : m.halfadd = l.halfadd
  cpsr : m.cpsr = l.cpsr
  reg_sys : m.reg_sys = l.reg_sys
  reg_svc : m.reg_svc = l.reg_svc
  mamcr : m.mamcr = l.mamcr
  instructions : m.instructions = l.instructions
  fetches : m.fetches = l.fetches
  reads : m.reads = l.reads
  writes : m.writes = l.writes

/-- The state `pushState` in the build with `MSB_FIRST`: the ROM halfwords
`0xB405` and `0xBC05` are stored as `0x05B4` and `0x05BC`. -/
def pushStateM : Thumbulator :=
  { pushState with
    MSB_FIRST := true
    rom := fun i => if i = 0x604 then 0x05B4 else 0x05BC }

end Thumbulator

/-!
# Sound (`src/common/Sound.cxx`)

The state serialization of the class `Sound`.  The classes `Serializer` and
`TIASound` and the header `Sound.hxx` are not part of the sources; the first
two are modelled below, the fields of `Sound` are those that `Sound.cxx`
initializes and uses, and the string returned by `name()` is a parameter.
-/

/-- Modelled from the spec: one value held by a `Serializer` stream. -/
inductive SerialItem where
  | str (s : String)
  | byte (b : Nat)
  | int (n : Nat)

/-- Modelled from the spec: the class `Serializer`, a stream that persists the
values put into it in order; `items` are the values written and not yet
read. -/
structure Serializer where
  items : List SerialItem

namespace Serializer

/-- Modelled from the spec: `Serializer::putString` appends a string. -/
def putString (out : Serializer) (s : String) : Serializer :=
  ⟨out.items ++ [SerialItem.str s]⟩

/-- Modelled from the spec: `Serializer::putByte` appends a `uInt8`. -/
def putByte (out : Serializer) (b : Nat) : Serializer :=
  ⟨out.items ++ [SerialItem.byte (b % 2 ^ 8)]⟩

/-- Modelled from the spec: `Serializer::putInt` appends the 32-bit pattern of
its argument. -/
def putInt (out : Serializer) (value : Int) : Serializer :=
  ⟨out.items ++ [SerialItem.int (value % 2 ^ 32).toNat]⟩

/-- Modelled from the spec: `Serializer::getString` reads the next value; the
result is the empty string when that value is not a string. -/
def getString (inp : Serializer) : String × Serializer :=
  match inp.items with
  | SerialItem.str s :: rest => (s, ⟨rest⟩)
  | _ :: rest => ("", ⟨rest⟩)
  | [] => ("", ⟨[]⟩)

/-- Modelled from the spec: `Serializer::getByte` reads the next value; the
result is 0 when that value is not a byte. -/
def getByte (inp : Serializer) : Nat × Serializer :=
  match inp.items with
  | SerialItem.byte b :: rest => (b, ⟨rest⟩)
  | _ :: rest => (0, ⟨rest⟩)
  | [] => (0, ⟨[]⟩)

/-- Modelled from the spec: `Serializer::getInt` reads the next value as a
`uInt32`; the result is 0 when that value is not an integer. -/
def getInt (inp : Serializer) : Nat × Serializer :=
  match inp.items with
  | SerialItem.int n :: rest => (n, ⟨rest⟩)
  | _ :: rest => (0, ⟨rest⟩)
  | [] => (0, ⟨[]⟩)

end Serializer

/-- Modelled from the spec: the class `TIASound`, reduced to the hardware
sound registers, by address. -/
structure TIASound where
  reg : Nat → Nat

namespace TIASound

/-- Modelled from the spec: `TIASound::get` returns the register at `address`. -/
def get (t : TIASound) (address : Nat) : Nat := t.reg address

/-- Modelled from the spec: `TIASound::set` stores `value` in the register at
`address`. -/
def set (t : TIASound) (address value : Nat) : TIASound :=
  ⟨Function.update t.reg address value⟩

end TIASound

/-- The fields of `Sound::RegWriteQueue` (constructor at lines 365-373 of
`Sound.cxx`); `myBuffer` is a total function from the array index, and the
element type `RegWrite` is a parameter. -/
structure RegWriteQueue (α : Type) where
  myCapacity : Nat
  myBuffer : Nat → α
  mySize : Nat
  myHead : Nat
  myTail : Nat

namespace RegWriteQueue

/-- `Sound::RegWriteQueue::clear` (lines 382-385). -/
def clear {α : Type} (q : RegWriteQueue α) : RegWriteQueue α :=
  { q with myHead := 0, myTail := 0, mySize := 0 }

/-- `Sound::RegWriteQueue::size` (lines 427-430). -/
def size {α : Type} (q : RegWriteQueue α) : Nat := q.mySize

end RegWriteQueue

/-- The fields of `class Sound` that `Sound.cxx` initializes (lines 30-40) and
the two member objects it uses; `myLastRegisterSetCycle` is an `Int32`. -/
structure Sound (α : Type) where
  myIsEnabled : Bool
  myIsInitializedFlag : Bool
  myLastRegisterSetCycle : Int
  myNumChannels : Nat
  myIsMuted : Bool
  myVolume : Nat
  myTIASound : TIASound
  myRegWriteQueue : RegWriteQueue α

namespace Sound

/-- The C cast `(Int32) x` of a `uInt32`. -/
def toInt32 (x : Nat) : Int :=
  if x % 2 ^ 32 < 2 ^ 31 then ((x % 2 ^ 32 : Nat) : Int) else ((x % 2 ^ 32 : Nat) : Int) - 2 ^ 32

/-- `Sound::save` (lines 305-332), a `const` member: the result is the return
value, the stream `out` after the call, and the object, which no statement
assigns to.  The locals `reg1`..`reg6` are `uInt8`. -/
def save {α : Type} (name : String) (s : Sound α) (out : Serializer) :
    Bool × Serializer × Sound α :=
  let out := out.putString name
  let reg1 := if s.myIsInitializedFlag then s.myTIASound.get 0x15 % 2 ^ 8 else 0
  let reg2 := if s.myIsInitializedFlag then s.myTIASound.get 0x16 % 2 ^ 8 else 0
  let reg3 := if s.myIsInitializedFlag then s.myTIASound.get 0x17 % 2 ^ 8 else 0
  let reg4 := if s.myIsInitializedFlag then s.myTIASound.get 0x18 % 2 ^ 8 else 0
  let reg5 := if s.myIsInitializedFlag then s.myTIASound.get 0x19 % 2 ^ 8 else 0
  let reg6 := if s.myIsInitializedFlag then s.myTIASound.get 0x1a % 2 ^ 8 else 0
  let out := out.putByte reg1
  let out := out.putByte reg2
  let out := out.putByte reg3
  let out := out.putByte reg4
  let out := out.putByte reg5
  let out := out.putByte reg6
  let out := out.putInt s.myLastRegisterSetCycle
  (true, out, s)

/-- `Sound::load` (lines 335-363): the result is the return value, the stream
`in` after the call, and the object after the call. -/
def load {α : Type} (name : String) (s : Sound α) (inp : Serializer) :
    Bool × Serializer × Sound α :=
  let r := inp.getString
  if r.1 ≠ name then (false, r.2, s)
  else
    let reg1 := r.2.getByte
    let reg2 := reg1.2.getByte
    let reg3 := reg2.2.getByte
    let reg4 := reg3.2.getByte
    let reg5 := reg4.2.getByte
    let reg6 := reg5.2.getByte
    let c := reg6.2.getInt
    let s := { s with myLastRegisterSetCycle := toInt32 c.1 }
    if s.myIsInitializedFlag then
      let s := { s with myRegWriteQueue := s.myRegWriteQueue.clear }
      let s := { s with myTIASound := s.myTIASound.set 0x15 reg1.1 }
      let s := { s with myTIASound := s.myTIASound.set 0x16 reg2.1 }
      let s := { s with myTIASound := s.myTIASound.set 0x17 reg3.1 }
      let s := { s with myTIASound := s.myTIASound.set 0x18 reg4.1 }
      let s := { s with myTIASound := s.myTIASound.set 0x19 reg5.1 }
      let s := { s with myTIASound := s.myTIASound.set 0x1a reg6.1 }
      (true, c.2, s)
    else (true, c.2, s)

/-- An initialized `Sound` object with a negative cycle counter, a pending
queue entry and the registers `0x15..0x1a` holding `5, 6, 7, 8, 9, 10`. -/
def soundA : Sound Unit :=
  { myIsEnabled := true, myIsInitializedFlag := true, myLastRegisterSetCycle := -5,
    myNumChannels := 2, myIsMuted := false, myVolume := 100,
    myTIASound := ⟨fun a => a - 16⟩,
    myRegWriteQueue := ⟨4, fun _ => (), 1, 0, 1⟩ }

/-- Another initialized `Sound` object, with three pending queue entries. -/
def soundB : Sound Unit :=
  { myIsEnabled := false, myIsInitializedFlag := true, myLastRegisterSetCycle := 77,
    myNumChannels := 1, myIsMuted := true, myVolume := 40,
    myTIASound := ⟨fun _ => 3⟩,
    myRegWriteQueue := ⟨4, fun _ => (), 3, 2, 1⟩ }

end Sound

namespace Thumbulator

/-! ## Example states for the shift and byte-access blocks -/

/-- A state in supervisor mode whose ROM holds `LSR r0, r1` (LSR(2), opcode
`0x40C8`) everywhere, with `r0 = 1` and `r1 = 1`. -/
def lsr2State : Thumbulator :=
  { MSB_FIRST := false, rom := fun _ => 0x40C8,
    ram := fun _ => 0, halfadd := 0, cpsr := 0xF3,
    reg_sys := fun i => if i = 0 then 1 else if i = 1 then 1 else 0xc0b,
    reg_svc := fun _ => 0, mamcr := 0,
    instructions := 0, fetches := 0, reads := 0, writes := 0 }

/-- The state `lsr2State` with `LSR r0, r0, #1` (LSR(1), opcode `0x0840`) in
ROM instead. -/
def lsr1State : Thumbulator :=
  { lsr2State with rom := fun _ => 0x0840 }

/-- A state in supervisor mode whose ROM holds `ASR r0, r1, #4` (ASR(1),
opcode `0x1108`) everywhere, with `r1 = 0x80000008`. -/
def asrState : Thumbulator :=
  { MSB_FIRST := false, rom := fun _ => 0x1108,
    ram := fun _ => 0, halfadd := 0, cpsr := 0xF3,
    reg_sys := fun i => if i = 1 then 0x80000008 else 0xc0b,
    reg_svc := fun _ => 0, mamcr := 0,
    instructions := 0, fetches := 0, reads := 0, writes := 0 }

/-- A state in supervisor mode whose ROM holds, at the reset entry point,
`STRB r0, [r1]` (opcode `0x7008`) followed by `LDRB r2, [r1]` (opcode
`0x780A`), with `r0 = 0x1234` and `r1` the odd RAM address `0x40000C01`;
every RAM halfword holds `0xABCD`. -/
def strbState : Thumbulator :=
  { MSB_FIRST := false, rom := fun i => if i = 0x604 then 0x7008 else 0x780A,
    ram := fun _ => 0xABCD, halfadd := 0, cpsr := 0xF3,
    reg_sys := fun i => if i = 0 then 0x1234 else if i = 1 then 0x40000C01 else 0xc0b,
    reg_svc := fun _ => 0, mamcr := 0,
    instructions := 0, fetches := 0, reads := 0, writes := 0 }

end Thumbulator

/-! ## The register-write queue (`Sound::RegWriteQueue`, `Sound.cxx` lines 365-448)

The members `myCapacity`, `mySize`, `myHead` and `myTail` are declared in
`Sound.hxx`, which is not among the sources.  Their type is taken to be an
unsigned integer type of `w` bits, and `w` is a parameter of every operation
that computes with them; the code initialises them from, compares them with
and returns them as `uInt32` values, so `w` is meant to be at least 32.  The
counters `i` of the loops are `uInt32` (lines 402 and 438).

The result of each `new RegWrite[...]` is an argument: `some` of the contents
of the newly allocated array, or `none` when the allocation fails.  An
operation returns `none` where the C code yields no queue: a failed
allocation, a store or a copy outside the array, a remainder by a zero
capacity, or a loop that does not end. -/

namespace RegWriteQueue

/-- The constructor `Sound::RegWriteQueue::RegWriteQueue` (lines 365-373);
`capacity` is its `uInt32` argument and `fresh` the result of
`new RegWrite[myCapacity]`. -/
def create {α : Type} (w capacity : Nat) (fresh : Option (Nat → α)) :
    Option (RegWriteQueue α) :=
  fresh.map fun buffer =>
    { myCapacity := capacity % 2 ^ w, myBuffer := buffer, mySize := 0, myHead := 0, myTail := 0 }

/-- `Sound::RegWriteQueue::dequeue` (lines 388-395). -/
def dequeue {α : Type} (w : Nat) (q : RegWriteQueue α) : Option (RegWriteQueue α) :=
  if q.mySize > 0 then
    if q.myCapacity = 0 then none
    else some { q with
      myHead := ((q.myHead + 1) % 2 ^ w) % q.myCapacity
      mySize := q.mySize - 1 }
  else some q

/-- `Sound::RegWriteQueue::front` (lines 421-424). -/
def front {α : Type} (q : RegWriteQueue α) : α := q.myBuffer q.myHead

/-- `Sound::RegWriteQueue::grow` (lines 435-447); `fresh` is the result of
`new RegWrite[myCapacity * 2]`, an array of `myCapacity * 2` elements, into
which the loop copies `mySize` elements.  The counter `i` of the loop is a
`uInt32`: it stays below a `mySize` of `2^32` or more for ever. -/
def grow {α : Type} (w : Nat) (q : RegWriteQueue α) (fresh : Option (Nat → α)) :
    Option (RegWriteQueue α) :=
  match fresh with
  | none => none
  | some buffer =>
    if 2 ^ 32 ≤ q.mySize then none
    else if (q.myCapacity * 2) % 2 ^ w < q.mySize then none
    else if q.myCapacity = 0 ∧ 0 < q.mySize then none
    else some
      { myCapacity := (q.myCapacity * 2) % 2 ^ w
        myBuffer := (List.range q.mySize).foldl
          (fun buffer i =>
            Function.update buffer i (q.myBuffer (((q.myHead + i) % 2 ^ w) % q.myCapacity)))
          buffer
        mySize := q.mySize
        myHead := 0
        myTail := q.mySize }

/-- `Sound::RegWriteQueue::enqueue` (lines 410-418); `fresh` is passed to
`grow`, the only place where `enqueue` allocates. -/
def enqueue {α : Type} (w : Nat) (q : RegWriteQueue α) (info : α) (fresh : Option (Nat → α)) :
    Option (RegWriteQueue α) :=
  (if q.mySize = q.myCapacity then q.grow w fresh else some q).bind fun q =>
    if q.myTail < q.myCapacity then
      some { q with
        myBuffer := Function.update q.myBuffer q.myTail info
        myTail := ((q.myTail + 1) % 2 ^ w) % q.myCapacity
        mySize := (q.mySize + 1) % 2 ^ w }
    else none

/-! ### The list a queue stands for -/

/-- The elements of the queue from the front to the back. -/
def contents {α : Type} (q : RegWriteQueue α) : List α :=
  (List.range q.mySize).map (fun i => q.myBuffer ((q.myHead + i) % q.myCapacity))

/-- The representation invariant: a positive capacity that `w` bits hold, at
most that many elements, the head inside the array and
`myTail = (myHead + mySize) mod myCapacity`. -/
structure WellFormed {α : Type} (w : Nat) (q : RegWriteQueue α) : Prop where
  capacity_pos : 0 < q.myCapacity
  capacity_lt : q.myCapacity < 2 ^ w
  size_le : q.mySize ≤ q.myCapacity
  head_lt : q.myHead < q.myCapacity
  tail_eq : q.myTail = (q.myHead + q.mySize) % q.myCapacity

/-- One operation on the queue; an `enqueue` comes with the result of the
allocation it may make. -/
inductive QueueOp (α : Type) where
  | enqueue (info : α) (fresh : Option (Nat → α))
  | dequeue
  | clear

/-- The operation on the list the queue stands for: `enqueue` appends at the
back, `dequeue` removes the head (nothing on the empty list), `clear` empties
the list. -/
def listStep {α : Type} (l : List α) : QueueOp α → List α
  | QueueOp.enqueue info _ => l ++ [info]
  | QueueOp.dequeue => l.tail
  | QueueOp.clear => []

/-- The operation on the queue. -/
def applyOp {α : Type} (w : Nat) (q : RegWriteQueue α) : QueueOp α → Option (RegWriteQueue α)
  | QueueOp.enqueue info fresh => q.enqueue w info fresh
  | QueueOp.dequeue => q.dequeue w
  | QueueOp.clear => some q.clear

/-- A sequence of operations on the queue, in order. -/
def runOps {α : Type} (w : Nat) (q : RegWriteQueue α) :
    List (QueueOp α) → Option (RegWriteQueue α)
  | [] => some q
  | op :: rest => (applyOp w q op).bind (fun q1 => runOps w q1 rest)

/-- The number of `enqueue` operations in a sequence. -/
def enqueues {α : Type} : List (QueueOp α) → Nat
  | [] => 0
  | QueueOp.enqueue _ _ :: rest => enqueues rest + 1
  | _ :: rest => enqueues rest

/-- Every allocation of the sequence succeeds. -/
def allocates {α : Type} : List (QueueOp α) → Bool
  | [] => true
  | QueueOp.enqueue _ fresh :: rest => fresh.isSome && allocates rest
  | _ :: rest => allocates rest

end RegWriteQueue

namespace Thumbulator

/-! ## Bit-level facts -/

theorem testBit_of_lt32 {x : Nat} (hx : x < 2 ^ 32) {i : Nat} (hi : 32 ≤ i) :
    x.testBit i = false :=
  Nat.testBit_lt_two_pow (lt_of_lt_of_le hx (Nat.pow_le_pow_right (by decide) hi))

theorem testBit_flagmask (k : Nat) (hk : k < 32) (i : Nat) :
    (0xFFFFFFFF - 2 ^ k).testBit i = (decide (i < 32) && decide (i ≠ k)) := by
  by_cases hi : i < 32
  · have h : ∀ k < 32, ∀ i < 32,
        (0xFFFFFFFF - 2 ^ k).testBit i = (decide (i < 32) && decide (i ≠ k)) := by decide
    exact h k hk i hi
  · have hlt : 0xFFFFFFFF - 2 ^ k < 2 ^ 32 :=
      Nat.lt_of_le_of_lt (Nat.sub_le _ _) (by decide)
    rw [testBit_of_lt32 hlt (by omega)]
    simp [hi]

/-- Clearing bit `k` of a 32-bit value (`x & ~(1<<k)`) changes no other bit. -/
theorem testBit_clearflag (x m k : Nat) (hx : x < 2 ^ 32) (hk : k < 32)
    (hm : m = 0xFFFFFFFF - 2 ^ k) (i : Nat) :
    (x &&& m).testBit i = (x.testBit i && decide (i ≠ k)) := by
  subst hm
  rw [Nat.testBit_and, testBit_flagmask k hk]
  by_cases hi : i < 32
  · simp [hi]
  · simp [hi, testBit_of_lt32 hx (by omega : 32 ≤ i)]

/-- Setting bit `k` (`x | (1<<k)`) changes no other bit. -/
theorem testBit_setflag (x m k : Nat) (hm : m = 2 ^ k) (i : Nat) :
    (x ||| m).testBit i = (x.testBit i || decide (i = k)) := by
  subst hm
  rw [Nat.testBit_or, Nat.testBit_two_pow]
  by_cases h : i = k
  · subst h; simp
  · simp [h, Ne.symm h]

theorem and_two_ne_zero_iff {r : Nat} (hr : r ≤ 3) : r &&& 2 ≠ 0 ↔ 2 ≤ r := by
  interval_cases r <;> decide

/-- The intermediate value `rc` of `do_cflag` has bit 1 set exactly when the
33-bit sum carries out. -/
theorem do_cflag_rc (a b c : Nat) (ha : a < 2 ^ 32) (hb : b < 2 ^ 32) (hc : c ≤ 1) :
    add32 (add32 (add32 (add32 (a &&& 0x7FFFFFFF) (b &&& 0x7FFFFFFF)) c >>> 31) (a >>> 31))
      (b >>> 31) &&& 2 ≠ 0 ↔ 2 ^ 32 ≤ a + b + c := by
  have e1 : a &&& 0x7FFFFFFF = a % 2 ^ 31 := Nat.and_pow_two_sub_one_eq_mod a 31
  have e2 : b &&& 0x7FFFFFFF = b % 2 ^ 31 := Nat.and_pow_two_sub_one_eq_mod b 31
  rw [e1, e2]
  simp only [add32, Nat.shiftRight_eq_div_pow]
  have hr : ((((a % 2 ^ 31 + b % 2 ^ 31) % 2 ^ 32 + c) % 2 ^ 32 / 2 ^ 31 + a / 2 ^ 31) % 2 ^ 32
      + b / 2 ^ 31) % 2 ^ 32 ≤ 3 := by omega
  rw [and_two_ne_zero_iff hr]
  omega

/-- Every bit of `cpsr` after `do_cflag`. -/
theorem do_cflag_testBit (s : Thumbulator) (a b c : Nat) (hs : s.cpsr < 2 ^ 32)
    (ha : a < 2 ^ 32) (hb : b < 2 ^ 32) (hc : c ≤ 1) (i : Nat) :
    (do_cflag s a b c).cpsr.testBit i =
      if i = 29 then decide (2 ^ 32 ≤ a + b + c) else s.cpsr.testBit i := by
  have hrc := do_cflag_rc a b c ha hb hc
  unfold do_cflag
  by_cases h : 2 ^ 32 ≤ a + b + c
  · simp only [if_pos (hrc.mpr h)]
    rw [testBit_setflag _ CPSR_C 29 (by decide),
      testBit_clearflag _ (not32 CPSR_C) 29 hs (by decide) (by decide)]
    by_cases hi : i = 29
    · simp [hi]; omega
    · simp [hi]
  · simp only [if_neg (fun hh => h (hrc.mp hh))]
    rw [testBit_clearflag _ (not32 CPSR_C) 29 hs (by decide) (by decide)]
    by_cases hi : i = 29
    · simp [hi]; omega
    · simp [hi]

/-! ## Address decoding and halfwords -/

/-- The test `x & (1 << i)` of the C code is the bit `i` of `x`. -/
theorem and_two_pow_ne_zero (x i : Nat) : x &&& 2 ^ i ≠ 0 ↔ x.testBit i = true := by
  constructor
  · intro h
    by_contra hx
    apply h
    apply Nat.eq_of_testBit_eq
    intro j
    rw [Nat.testBit_and, Nat.testBit_two_pow, Nat.zero_testBit]
    by_cases hij : i = j
    · subst hij; simp [hx]
    · simp [hij]
  · intro h h0
    have : (x &&& 2 ^ i).testBit i = true := by
      rw [Nat.testBit_and, Nat.testBit_two_pow_self, h]; rfl
    rw [h0, Nat.zero_testBit] at this
    exact Bool.false_ne_true this

theorem testBit_F0000000 (i : Nat) :
    (0xF0000000 : Nat).testBit i = (decide (28 ≤ i) && decide (i < 32)) := by
  by_cases hi : i < 32
  · have h : ∀ i < 32, (0xF0000000 : Nat).testBit i = (decide (28 ≤ i) && decide (i < 32)) := by
      decide
    exact h i hi
  · rw [testBit_of_lt32 (by decide) (by omega)]
    simp [hi]

/-- The region selector `addr & 0xF0000000` of a 32-bit address. -/
theorem and_F0000000 (x : Nat) (hx : x < 2 ^ 32) : x &&& 0xF0000000 = 2 ^ 28 * (x / 2 ^ 28) := by
  apply Nat.eq_of_testBit_eq
  intro i
  rw [Nat.testBit_and, testBit_F0000000, Nat.testBit_mul_pow_two, ← Nat.shiftRight_eq_div_pow,
    Nat.testBit_shiftRight]
  by_cases h28 : 28 ≤ i
  · by_cases h32 : i < 32
    · simp [h28, h32, show 28 + (i - 28) = i by omega]
    · simp [h28, h32, show 28 + (i - 28) = i by omega, testBit_of_lt32 hx (show 32 ≤ i by omega)]
  · simp [h28]

/-- Decoding of a RAM address: region `0x4`, array index `(addr - 0x40000000) / 2`. -/
theorem ram_addr (a : Nat) (h1 : 0x40000000 ≤ a) (h2 : a < 0x40002000) :
    a &&& 0xF0000000 = 0x40000000 ∧ (a &&& RAMADDMASK) >>> 1 = (a - 0x40000000) / 2 := by
  constructor
  · rw [and_F0000000 a (by omega)]; omega
  · have e : a &&& RAMADDMASK = a % 2 ^ 13 := Nat.and_pow_two_sub_one_eq_mod a 13
    rw [e, Nat.shiftRight_eq_div_pow]
    omega

theorem and_one_eq (a : Nat) : a &&& 1 = a % 2 := Nat.and_pow_two_sub_one_eq_mod a 1

theorem and_three_eq (a : Nat) : a &&& 3 = a % 4 := Nat.and_pow_two_sub_one_eq_mod a 2

theorem and_FFFF_eq (a : Nat) : a &&& 0xFFFF = a % 2 ^ 16 := Nat.and_pow_two_sub_one_eq_mod a 16

/-- Swapping the two bytes of a halfword. -/
theorem bswap16_eq (x : Nat) (hx : x < 2 ^ 16) :
    ((x >>> 8) ||| (x <<< 8)) &&& 0xffff = 2 ^ 8 * (x % 2 ^ 8) + x / 2 ^ 8 := by
  have e : (x >>> 8) ||| (x <<< 8) = 2 ^ 8 * x + x / 2 ^ 8 := by
    rw [Nat.shiftLeft_eq, Nat.shiftRight_eq_div_pow, Nat.or_comm, Nat.mul_comm x,
      ← Nat.mul_add_lt_is_or (by omega)]
  rw [e, and_FFFF_eq]
  omega

/-- What `write16` stores for `data` is read back as `data & 0xFFFF` in the same build. -/
theorem loadHalf_storeHalf (s t : Thumbulator) (h : t.MSB_FIRST = s.MSB_FIRST) (d : Nat) :
    loadHalf t (storeHalf s d) = d &&& 0xFFFF := by
  unfold loadHalf storeHalf
  rw [h]
  cases s.MSB_FIRST
  · rfl
  · simp only [if_true]
    have hd : d &&& 0xFFFF < 2 ^ 16 := by rw [and_FFFF_eq]; omega
    generalize d &&& 0xFFFF = x at hd
    rw [bswap16_eq x hd, bswap16_eq _ (by omega)]
    omega

/-- The two halves of a 32-bit word, recombined as by `read32`. -/
theorem halves_eq (d : Nat) (hd : d < 2 ^ 32) :
    shl32 (((d >>> 16) &&& 0xFFFF) &&& 0xFFFF) 16 ||| (((d >>> 0) &&& 0xFFFF) &&& 0xFFFF) = d := by
  rw [Nat.shiftRight_zero, and_FFFF_eq, and_FFFF_eq, and_FFFF_eq, and_FFFF_eq]
  simp only [shl32, Nat.shiftLeft_eq, Nat.shiftRight_eq_div_pow]
  rw [Nat.mul_comm, Nat.mod_eq_of_lt (by omega), ← Nat.mul_add_lt_is_or (by omega)]
  omega

/-! ## Every handler composes primitive operations -/

set_option linter.unusedTactic false
set_option linter.unreachableTactic false

theorem Reach.read32 {s t : Thumbulator} (addr : Nat) (h : Reach s t) :
    Reach s (read32 t addr).2 := by
  unfold Thumbulator.read32
  split
  · exact h
  · split
    · exact Reach.read16 _ (Reach.read16 _ h)
    · exact h

theorem Reach.write32 {s t : Thumbulator} (addr data : Nat) (h : Reach s t) :
    Reach s (write32 t addr data) := by
  unfold Thumbulator.write32
  repeat' split
  all_goals first | exact h | exact Reach.write16 _ _ (Reach.write16 _ _ h)

theorem Reach.loadLoop {s : Thumbulator} (inst : Nat) :
    ∀ (fuel ra rb : Nat) (st : Nat × Thumbulator), Reach s st.2 →
      Reach s (regListLoop inst loadBody fuel ra rb st).2.2.2
  | 0, _, _, _, h => h
  | fuel + 1, ra, rb, st, h => by
    unfold regListLoop
    split
    · apply Reach.loadLoop inst fuel
      split
      · exact Reach.write_register _ _ (Reach.read32 _ h)
      · exact h
    · exact h

theorem Reach.storeLoop {s : Thumbulator} (inst : Nat) :
    ∀ (fuel ra rb : Nat) (st : Nat × Thumbulator), Reach s st.2 →
      Reach s (regListLoop inst storeBody fuel ra rb st).2.2.2
  | 0, _, _, _, h => h
  | fuel + 1, ra, rb, st, h => by
    unfold regListLoop
    split
    · apply Reach.storeLoop inst fuel
      split
      · exact Reach.write32 _ _ h
      · exact h
    · exact h


theorem Reach.cond {s a b : Thumbulator} {c : Prop} [Decidable c]
    (ha : Reach s a) (hb : Reach s b) : Reach s (if c then a else b) := by
  split
  · exact ha
  · exact hb

theorem Reach.snd_cond {s : Thumbulator} {a b : Nat × Thumbulator} {c : Prop} [Decidable c]
    (ha : Reach s a.2) (hb : Reach s b.2) : Reach s (if c then a else b).2 := by
  split
  · exact ha
  · exact hb

theorem OReach.opt_cond {s : Thumbulator} {a b : Option (Nat × Thumbulator)} {c : Prop}
    [Decidable c] (ha : OReach s a) (hb : OReach s b) : OReach s (if c then a else b) := by
  split
  · exact ha
  · exact hb

theorem OReach.none {s : Thumbulator} : OReach s none := trivial

theorem OReach.some_pair {s t : Thumbulator} {n : Nat} (h : Reach s t) :
    OReach s (some (n, t)) := h

theorem OReach.some_cond {s : Thumbulator} {a b : Nat × Thumbulator} {c : Prop} [Decidable c]
    (ha : OReach s (some a)) (hb : OReach s (some b)) :
    OReach s (some (if c then a else b)) := by
  split
  · exact ha
  · exact hb

theorem reach_ADC (s : Thumbulator) (inst : Nat) : OReach s (some (exec_ADC s inst)) := by
  simp only [exec_ADC]
  repeat' (with_reducible first
    | (guard_target =ₛ Reach s s; exact Reach.refl s)
    | exact OReach.none
    | apply OReach.opt_cond | apply OReach.some_pair | apply OReach.some_cond
    | apply Reach.cond | apply Reach.snd_cond
    | apply Reach.write_register | apply Reach.do_zflag | apply Reach.do_nflag
    | apply Reach.do_cflag | apply Reach.do_add_vflag | apply Reach.do_sub_vflag
    | apply Reach.do_cflag_bit | apply Reach.do_vflag_bit
    | apply Reach.read16 | apply Reach.write16 | apply Reach.read32 | apply Reach.write32
    | apply Reach.halfadd)

theorem reach_ADD1 (s : Thumbulator) (inst : Nat) : OReach s (exec_ADD1 s inst) := by
  simp only [exec_ADD1]
  repeat' (with_reducible first
    | (guard_target =ₛ Reach s s; exact Reach.refl s)
    | exact OReach.none
    | apply OReach.opt_cond | apply OReach.some_pair | apply OReach.some_cond
    | apply Reach.cond | apply Reach.snd_cond
    | apply Reach.write_register | apply Reach.do_zflag | apply Reach.do_nflag
    | apply Reach.do_cflag | apply Reach.do_add_vflag | apply Reach.do_sub_vflag
    | apply Reach.do_cflag_bit | apply Reach.do_vflag_bit
    | apply Reach.read16 | apply Reach.write16 | apply Reach.read32 | apply Reach.write32
    | apply Reach.halfadd)

theorem reach_ADD2 (s : Thumbulator) (inst : Nat) : OReach s (some (exec_ADD2 s inst)) := by
  simp only [exec_ADD2]
  repeat' (with_reducible first
    | (guard_target =ₛ Reach s s; exact Reach.refl s)
    | exact OReach.none
    | apply OReach.opt_cond | apply OReach.some_pair | apply OReach.some_cond
    | apply Reach.cond | apply Reach.snd_cond
    | apply Reach.write_register | apply Reach.do_zflag | apply Reach.do_nflag
    | apply Reach.do_cflag | apply Reach.do_add_vflag | apply Reach.do_sub_vflag
    | apply Reach.do_cflag_bit | apply Reach.do_vflag_bit
    | apply Reach.read16 | apply Reach.write16 | apply Reach.read32 | apply Reach.write32
    | apply Reach.halfadd)

theorem reach_ADD3 (s : Thumbulator) (inst : Nat) : OReach s (some (exec_ADD3 s inst)) := by
  simp only [exec_ADD3]
  repeat' (with_reducible first
    | (guard_target =ₛ Reach s s; exact Reach.refl s)
    | exact OReach.none
    | apply OReach.opt_cond | apply OReach.some_pair | apply OReach.some_cond
    | apply Reach.cond | apply Reach.snd_cond
    | apply Reach.write_register | apply Reach.do_zflag | apply Reach.do_nflag
    | apply Reach.do_cflag | apply Reach.do_add_vflag | apply Reach.do_sub_vflag
    | apply Reach.do_cflag_bit | apply Reach.do_vflag_bit
    | apply Reach.read16 | apply Reach.write16 | apply Reach.read32 | apply Reach.write32
    | apply Reach.halfadd)

theorem reach_ADD4 (s : Thumbulator) (inst : Nat) : OReach s (some (exec_ADD4 s inst)) := by
  simp only [exec_ADD4]
  repeat' (with_reducible first
    | (guard_target =ₛ Reach s s; exact Reach.refl s)
    | exact OReach.none
    | apply OReach.opt_cond | apply OReach.some_pair | apply OReach.some_cond
    | apply Reach.cond | apply Reach.snd_cond
    | apply Reach.write_register | apply Reach.do_zflag | apply Reach.do_nflag
    | apply Reach.do_cflag | apply Reach.do_add_vflag | apply Reach.do_sub_vflag
    | apply Reach.do_cflag_bit | apply Reach.do_vflag_bit
    | apply Reach.read16 | apply Reach.write16 | apply Reach.read32 | apply Reach.write32
    | apply Reach.halfadd)

theorem reach_ADD5 (s : Thumbulator) (inst : Nat) : OReach s (some (exec_ADD5 s inst)) := by
  simp only [exec_ADD5]
  repeat' (with_reducible first
    | (guard_target =ₛ Reach s s; exact Reach.refl s)
    | exact OReach.none
    | apply OReach.opt_cond | apply OReach.some_pair | apply OReach.some_cond
    | apply Reach.cond | apply Reach.snd_cond
    | apply Reach.write_register | apply Reach.do_zflag | apply Reach.do_nflag
    | apply Reach.do_cflag | apply Reach.do_add_vflag | apply Reach.do_sub_vflag
    | apply Reach.do_cflag_bit | apply Reach.do_vflag_bit
    | apply Reach.read16 | apply Reach.write16 | apply Reach.read32 | apply Reach.write32
    | apply Reach.halfadd)

theorem reach_ADD6 (s : Thumbulator) (inst : Nat) : OReach s (some (exec_ADD6 s inst)) := by
  simp only [exec_ADD6]
  repeat' (with_reducible first
    | (guard_target =ₛ Reach s s; exact Reach.refl s)
    | exact OReach.none
    | apply OReach.opt_cond | apply OReach.some_pair | apply OReach.some_cond
    | apply Reach.cond | apply Reach.snd_cond
    | apply Reach.write_register | apply Reach.do_zflag | apply Reach.do_nflag
    | apply Reach.do_cflag | apply Reach.do_add_vflag | apply Reach.do_sub_vflag
    | apply Reach.do_cflag_bit | apply Reach.do_vflag_bit
    | apply Reach.read16 | apply Reach.write16 | apply Reach.read32 | apply Reach.write32
    | apply Reach.halfadd)

theorem reach_ADD7 (s : Thumbulator) (inst : Nat) : OReach s (some (exec_ADD7 s inst)) := by
  simp only [exec_ADD7]
  repeat' (with_reducible first
    | (guard_target =ₛ Reach s s; exact Reach.refl s)
    | exact OReach.none
    | apply OReach.opt_cond | apply OReach.some_pair | apply OReach.some_cond
    | apply Reach.cond | apply Reach.snd_cond
    | apply Reach.write_register | apply Reach.do_zflag | apply Reach.do_nflag
    | apply Reach.do_cflag | apply Reach.do_add_vflag | apply Reach.do_sub_vflag
    | apply Reach.do_cflag_bit | apply Reach.do_vflag_bit
    | apply Reach.read16 | apply Reach.write16 | apply Reach.read32 | apply Reach.write32
    | apply Reach.halfadd)

theorem reach_AND (s : Thumbulator) (inst : Nat) : OReach s (some (exec_AND s inst)) := by
  simp only [exec_AND]
  repeat' (with_reducible first
    | (guard_target =ₛ Reach s s; exact Reach.refl s)
    | exact OReach.none
    | apply OReach.opt_cond | apply OReach.some_pair | apply OReach.some_cond
    | apply Reach.cond | apply Reach.snd_cond
    | apply Reach.write_register | apply Reach.do_zflag | apply Reach.do_nflag
    | apply Reach.do_cflag | apply Reach.do_add_vflag | apply Reach.do_sub_vflag
    | apply Reach.do_cflag_bit | apply Reach.do_vflag_bit
    | apply Reach.read16 | apply Reach.write16 | apply Reach.read32 | apply Reach.write32
    | apply Reach.halfadd)

theorem reach_ASR1 (s : Thumbulator) (inst : Nat) : OReach s (some (exec_ASR1 s inst)) := by
  simp only [exec_ASR1]
  repeat' (with_reducible first
    | (guard_target =ₛ Reach s s; exact Reach.refl s)
    | exact OReach.none
    | apply OReach.opt_cond | apply OReach.some_pair | apply OReach.some_cond
    | apply Reach.cond | apply Reach.snd_cond
    | apply Reach.write_register | apply Reach.do_zflag | apply Reach.do_nflag
    | apply Reach.do_cflag | apply Reach.do_add_vflag | apply Reach.do_sub_vflag
    | apply Reach.do_cflag_bit | apply Reach.do_vflag_bit
    | apply Reach.read16 | apply Reach.write16 | apply Reach.read32 | apply Reach.write32
    | apply Reach.halfadd)

theorem reach_ASR2 (s : Thumbulator) (inst : Nat) : OReach s (some (exec_ASR2 s inst)) := by
  simp only [exec_ASR2]
  repeat' (with_reducible first
    | (guard_target =ₛ Reach s s; exact Reach.refl s)
    | exact OReach.none
    | apply OReach.opt_cond | apply OReach.some_pair | apply OReach.some_cond
    | apply Reach.cond | apply Reach.snd_cond
    | apply Reach.write_register | apply Reach.do_zflag | apply Reach.do_nflag
    | apply Reach.do_cflag | apply Reach.do_add_vflag | apply Reach.do_sub_vflag
    | apply Reach.do_cflag_bit | apply Reach.do_vflag_bit
    | apply Reach.read16 | apply Reach.write16 | apply Reach.read32 | apply Reach.write32
    | apply Reach.halfadd)

theorem reach_B1 (s : Thumbulator) (inst pc : Nat) : OReach s (exec_B1 s inst pc) := by
  simp only [exec_B1]
  repeat' (with_reducible first
    | (guard_target =ₛ Reach s s; exact Reach.refl s)
    | exact OReach.none
    | apply OReach.opt_cond | apply OReach.some_pair | apply OReach.some_cond
    | apply Reach.cond | apply Reach.snd_cond
    | apply Reach.write_register | apply Reach.do_zflag | apply Reach.do_nflag
    | apply Reach.do_cflag | apply Reach.do_add_vflag | apply Reach.do_sub_vflag
    | apply Reach.do_cflag_bit | apply Reach.do_vflag_bit
    | apply Reach.read16 | apply Reach.write16 | apply Reach.read32 | apply Reach.write32
    | apply Reach.halfadd)

theorem reach_B2 (s : Thumbulator) (inst pc : Nat) : OReach s (some (exec_B2 s inst pc)) := by
  simp only [exec_B2]
  repeat' (with_reducible first
    | (guard_target =ₛ Reach s s; exact Reach.refl s)
    | exact OReach.none
    | apply OReach.opt_cond | apply OReach.some_pair | apply OReach.some_cond
    | apply Reach.cond | apply Reach.snd_cond
    | apply Reach.write_register | apply Reach.do_zflag | apply Reach.do_nflag
    | apply Reach.do_cflag | apply Reach.do_add_vflag | apply Reach.do_sub_vflag
    | apply Reach.do_cflag_bit | apply Reach.do_vflag_bit
    | apply Reach.read16 | apply Reach.write16 | apply Reach.read32 | apply Reach.write32
    | apply Reach.halfadd)

theorem reach_BIC (s : Thumbulator) (inst : Nat) : OReach s (some (exec_BIC s inst)) := by
  simp only [exec_BIC]
  repeat' (with_reducible first
    | (guard_target =ₛ Reach s s; exact Reach.refl s)
    | exact OReach.none
    | apply OReach.opt_cond | apply OReach.some_pair | apply OReach.some_cond
    | apply Reach.cond | apply Reach.snd_cond
    | apply Reach.write_register | apply Reach.do_zflag | apply Reach.do_nflag
    | apply Reach.do_cflag | apply Reach.do_add_vflag | apply Reach.do_sub_vflag
    | apply Reach.do_cflag_bit | apply Reach.do_vflag_bit
    | apply Reach.read16 | apply Reach.write16 | apply Reach.read32 | apply Reach.write32
    | apply Reach.halfadd)

theorem reach_BKPT (s : Thumbulator) (inst : Nat) : OReach s (some (exec_BKPT s inst)) := by
  simp only [exec_BKPT]
  repeat' (with_reducible first
    | (guard_target =ₛ Reach s s; exact Reach.refl s)
    | exact OReach.none
    | apply OReach.opt_cond | apply OReach.some_pair | apply OReach.some_cond
    | apply Reach.cond | apply Reach.snd_cond
    | apply Reach.write_register | apply Reach.do_zflag | apply Reach.do_nflag
    | apply Reach.do_cflag | apply Reach.do_add_vflag | apply Reach.do_sub_vflag
    | apply Reach.do_cflag_bit | apply Reach.do_vflag_bit
    | apply Reach.read16 | apply Reach.write16 | apply Reach.read32 | apply Reach.write32
    | apply Reach.halfadd)

theorem reach_BL (s : Thumbulator) (inst pc : Nat) : OReach s (exec_BL s inst pc) := by
  simp only [exec_BL]
  repeat' (with_reducible first
    | (guard_target =ₛ Reach s s; exact Reach.refl s)
    | exact OReach.none
    | apply OReach.opt_cond | apply OReach.some_pair | apply OReach.some_cond
    | apply Reach.cond | apply Reach.snd_cond
    | apply Reach.write_register | apply Reach.do_zflag | apply Reach.do_nflag
    | apply Reach.do_cflag | apply Reach.do_add_vflag | apply Reach.do_sub_vflag
    | apply Reach.do_cflag_bit | apply Reach.do_vflag_bit
    | apply Reach.read16 | apply Reach.write16 | apply Reach.read32 | apply Reach.write32
    | apply Reach.halfadd)

theorem reach_BLX2 (s : Thumbulator) (inst pc : Nat) : OReach s (some (exec_BLX2 s inst pc)) := by
  simp only [exec_BLX2]
  repeat' (with_reducible first
    | (guard_target =ₛ Reach s s; exact Reach.refl s)
    | exact OReach.none
    | apply OReach.opt_cond | apply OReach.some_pair | apply OReach.some_cond
    | apply Reach.cond | apply Reach.snd_cond
    | apply Reach.write_register | apply Reach.do_zflag | apply Reach.do_nflag
    | apply Reach.do_cflag | apply Reach.do_add_vflag | apply Reach.do_sub_vflag
    | apply Reach.do_cflag_bit | apply Reach.do_vflag_bit
    | apply Reach.read16 | apply Reach.write16 | apply Reach.read32 | apply Reach.write32
    | apply Reach.halfadd)

theorem reach_BX (s : Thumbulator) (inst : Nat) : OReach s (some (exec_BX s inst)) := by
  simp only [exec_BX]
  repeat' (with_reducible first
    | (guard_target =ₛ Reach s s; exact Reach.refl s)
    | exact OReach.none
    | apply OReach.opt_cond | apply OReach.some_pair | apply OReach.some_cond
    | apply Reach.cond | apply Reach.snd_cond
    | apply Reach.write_register | apply Reach.do_zflag | apply Reach.do_nflag
    | apply Reach.do_cflag | apply Reach.do_add_vflag | apply Reach.do_sub_vflag
    | apply Reach.do_cflag_bit | apply Reach.do_vflag_bit
    | apply Reach.read16 | apply Reach.write16 | apply Reach.read32 | apply Reach.write32
    | apply Reach.halfadd)

theorem reach_CMN (s : Thumbulator) (inst : Nat) : OReach s (some (exec_CMN s inst)) := by
  simp only [exec_CMN]
  repeat' (with_reducible first
    | (guard_target =ₛ Reach s s; exact Reach.refl s)
    | exact OReach.none
    | apply OReach.opt_cond | apply OReach.some_pair | apply OReach.some_cond
    | apply Reach.cond | apply Reach.snd_cond
    | apply Reach.write_register | apply Reach.do_zflag | apply Reach.do_nflag
    | apply Reach.do_cflag | apply Reach.do_add_vflag | apply Reach.do_sub_vflag
    | apply Reach.do_cflag_bit | apply Reach.do_vflag_bit
    | apply Reach.read16 | apply Reach.write16 | apply Reach.read32 | apply Reach.write32
    | apply Reach.halfadd)

theorem reach_CMP1 (s : Thumbulator) (inst : Nat) : OReach s (some (exec_CMP1 s inst)) := by
  simp only [exec_CMP1]
  repeat' (with_reducible first
    | (guard_target =ₛ Reach s s; exact Reach.refl s)
    | exact OReach.none
    | apply OReach.opt_cond | apply OReach.some_pair | apply OReach.some_cond
    | apply Reach.cond | apply Reach.snd_cond
    | apply Reach.write_register | apply Reach.do_zflag | apply Reach.do_nflag
    | apply Reach.do_cflag | apply Reach.do_add_vflag | apply Reach.do_sub_vflag
    | apply Reach.do_cflag_bit | apply Reach.do_vflag_bit
    | apply Reach.read16 | apply Reach.write16 | apply Reach.read32 | apply Reach.write32
    | apply Reach.halfadd)

theorem reach_CMP2 (s : Thumbulator) (inst : Nat) : OReach s (some (exec_CMP2 s inst)) := by
  simp only [exec_CMP2]
  repeat' (with_reducible first
    | (guard_target =ₛ Reach s s; exact Reach.refl s)
    | exact OReach.none
    | apply OReach.opt_cond | apply OReach.some_pair | apply OReach.some_cond
    | apply Reach.cond | apply Reach.snd_cond
    | apply Reach.write_register | apply Reach.do_zflag | apply Reach.do_nflag
    | apply Reach.do_cflag | apply Reach.do_add_vflag | apply Reach.do_sub_vflag
    | apply Reach.do_cflag_bit | apply Reach.do_vflag_bit
    | apply Reach.read16 | apply Reach.write16 | apply Reach.read32 | apply Reach.write32
    | apply Reach.halfadd)

theorem reach_CMP3 (s : Thumbulator) (inst : Nat) : OReach s (some (exec_CMP3 s inst)) := by
  simp only [exec_CMP3]
  repeat' (with_reducible first
    | (guard_target =ₛ Reach s s; exact Reach.refl s)
    | exact OReach.none
    | apply OReach.opt_cond | apply OReach.some_pair | apply OReach.some_cond
    | apply Reach.cond | apply Reach.snd_cond
    | apply Reach.write_register | apply Reach.do_zflag | apply Reach.do_nflag
    | apply Reach.do_cflag | apply Reach.do_add_vflag | apply Reach.do_sub_vflag
    | apply Reach.do_cflag_bit | apply Reach.do_vflag_bit
    | apply Reach.read16 | apply Reach.write16 | apply Reach.read32 | apply Reach.write32
    | apply Reach.halfadd)

theorem reach_CPS (s : Thumbulator) (inst : Nat) : OReach s (some (exec_CPS s inst)) := by
  simp only [exec_CPS]
  repeat' (with_reducible first
    | (guard_target =ₛ Reach s s; exact Reach.refl s)
    | exact OReach.none
    | apply OReach.opt_cond | apply OReach.some_pair | apply OReach.some_cond
    | apply Reach.cond | apply Reach.snd_cond
    | apply Reach.write_register | apply Reach.do_zflag | apply Reach.do_nflag
    | apply Reach.do_cflag | apply Reach.do_add_vflag | apply Reach.do_sub_vflag
    | apply Reach.do_cflag_bit | apply Reach.do_vflag_bit
    | apply Reach.read16 | apply Reach.write16 | apply Reach.read32 | apply Reach.write32
    | apply Reach.halfadd)

theorem reach_CPY (s : Thumbulator) (inst : Nat) : OReach s (some (exec_CPY s inst)) := by
  simp only [exec_CPY]
  repeat' (with_reducible first
    | (guard_target =ₛ Reach s s; exact Reach.refl s)
    | exact OReach.none
    | apply OReach.opt_cond | apply OReach.some_pair | apply OReach.some_cond
    | apply Reach.cond | apply Reach.snd_cond
    | apply Reach.write_register | apply Reach.do_zflag | apply Reach.do_nflag
    | apply Reach.do_cflag | apply Reach.do_add_vflag | apply Reach.do_sub_vflag
    | apply Reach.do_cflag_bit | apply Reach.do_vflag_bit
    | apply Reach.read16 | apply Reach.write16 | apply Reach.read32 | apply Reach.write32
    | apply Reach.halfadd)

theorem reach_EOR (s : Thumbulator) (inst : Nat) : OReach s (some (exec_EOR s inst)) := by
  simp only [exec_EOR]
  repeat' (with_reducible first
    | (guard_target =ₛ Reach s s; exact Reach.refl s)
    | exact OReach.none
    | apply OReach.opt_cond | apply OReach.some_pair | apply OReach.some_cond
    | apply Reach.cond | apply Reach.snd_cond
    | apply Reach.write_register | apply Reach.do_zflag | apply Reach.do_nflag
    | apply Reach.do_cflag | apply Reach.do_add_vflag | apply Reach.do_sub_vflag
    | apply Reach.do_cflag_bit | apply Reach.do_vflag_bit
    | apply Reach.read16 | apply Reach.write16 | apply Reach.read32 | apply Reach.write32
    | apply Reach.halfadd)

theorem reach_LDMIA (s : Thumbulator) (inst : Nat) : OReach s (some (exec_LDMIA s inst)) := by
  simp only [exec_LDMIA]
  apply OReach.some_pair
  exact Reach.write_register _ _ (Reach.loadLoop _ _ _ _ _ (Reach.refl s))

theorem reach_LDR1 (s : Thumbulator) (inst : Nat) : OReach s (some (exec_LDR1 s inst)) := by
  simp only [exec_LDR1]
  repeat' (with_reducible first
    | (guard_target =ₛ Reach s s; exact Reach.refl s)
    | exact OReach.none
    | apply OReach.opt_cond | apply OReach.some_pair | apply OReach.some_cond
    | apply Reach.cond | apply Reach.snd_cond
    | apply Reach.write_register | apply Reach.do_zflag | apply Reach.do_nflag
    | apply Reach.do_cflag | apply Reach.do_add_vflag | apply Reach.do_sub_vflag
    | apply Reach.do_cflag_bit | apply Reach.do_vflag_bit
    | apply Reach.read16 | apply Reach.write16 | apply Reach.read32 | apply Reach.write32
    | apply Reach.halfadd)

theorem reach_LDR2 (s : Thumbulator) (inst : Nat) : OReach s (some (exec_LDR2 s inst)) := by
  simp only [exec_LDR2]
  repeat' (with_reducible first
    | (guard_target =ₛ Reach s s; exact Reach.refl s)
    | exact OReach.none
    | apply OReach.opt_cond | apply OReach.some_pair | apply OReach.some_cond
    | apply Reach.cond | apply Reach.snd_cond
    | apply Reach.write_register | apply Reach.do_zflag | apply Reach.do_nflag
    | apply Reach.do_cflag | apply Reach.do_add_vflag | apply Reach.do_sub_vflag
    | apply Reach.do_cflag_bit | apply Reach.do_vflag_bit
    | apply Reach.read16 | apply Reach.write16 | apply Reach.read32 | apply Reach.write32
    | apply Reach.halfadd)

theorem reach_LDR3 (s : Thumbulator) (inst : Nat) : OReach s (some (exec_LDR3 s inst)) := by
  simp only [exec_LDR3]
  repeat' (with_reducible first
    | (guard_target =ₛ Reach s s; exact Reach.refl s)
    | exact OReach.none
    | apply OReach.opt_cond | apply OReach.some_pair | apply OReach.some_cond
    | apply Reach.cond | apply Reach.snd_cond
    | apply Reach.write_register | apply Reach.do_zflag | apply Reach.do_nflag
    | apply Reach.do_cflag | apply Reach.do_add_vflag | apply Reach.do_sub_vflag
    | apply Reach.do_cflag_bit | apply Reach.do_vflag_bit
    | apply Reach.read16 | apply Reach.write16 | apply Reach.read32 | apply Reach.write32
    | apply Reach.halfadd)

theorem reach_LDR4 (s : Thumbulator) (inst : Nat) : OReach s (some (exec_LDR4 s inst)) := by
  simp only [exec_LDR4]
  repeat' (with_reducible first
    | (guard_target =ₛ Reach s s; exact Reach.refl s)
    | exact OReach.none
    | apply OReach.opt_cond | apply OReach.some_pair | apply OReach.some_cond
    | apply Reach.cond | apply Reach.snd_cond
    | apply Reach.write_register | apply Reach.do_zflag | apply Reach.do_nflag
    | apply Reach.do_cflag | apply Reach.do_add_vflag | apply Reach.do_sub_vflag
    | apply Reach.do_cflag_bit | apply Reach.do_vflag_bit
    | apply Reach.read16 | apply Reach.write16 | apply Reach.read32 | apply Reach.write32
    | apply Reach.halfadd)

theorem reach_LDRB1 (s : Thumbulator) (inst : Nat) : OReach s (some (exec_LDRB1 s inst)) := by
  simp only [exec_LDRB1]
  repeat' (with_reducible first
    | (guard_target =ₛ Reach s s; exact Reach.refl s)
    | exact OReach.none
    | apply OReach.opt_cond | apply OReach.some_pair | apply OReach.some_cond
    | apply Reach.cond | apply Reach.snd_cond
    | apply Reach.write_register | apply Reach.do_zflag | apply Reach.do_nflag
    | apply Reach.do_cflag | apply Reach.do_add_vflag | apply Reach.do_sub_vflag
    | apply Reach.do_cflag_bit | apply Reach.do_vflag_bit
    | apply Reach.read16 | apply Reach.write16 | apply Reach.read32 | apply Reach.write32
    | apply Reach.halfadd)

theorem reach_LDRB2 (s : Thumbulator) (inst : Nat) : OReach s (some (exec_LDRB2 s inst)) := by
  simp only [exec_LDRB2]
  repeat' (with_reducible first
    | (guard_target =ₛ Reach s s; exact Reach.refl s)
    | exact OReach.none
    | apply OReach.opt_cond | apply OReach.some_pair | apply OReach.some_cond
    | apply Reach.cond | apply Reach.snd_cond
    | apply Reach.write_register | apply Reach.do_zflag | apply Reach.do_nflag
    | apply Reach.do_cflag | apply Reach.do_add_vflag | apply Reach.do_sub_vflag
    | apply Reach.do_cflag_bit | apply Reach.do_vflag_bit
    | apply Reach.read16 | apply Reach.write16 | apply Reach.read32 | apply Reach.write32
    | apply Reach.halfadd)

theorem reach_LDRH1 (s : Thumbulator) (inst : Nat) : OReach s (some (exec_LDRH1 s inst)) := by
  simp only [exec_LDRH1]
  repeat' (with_reducible first
    | (guard_target =ₛ Reach s s; exact Reach.refl s)
    | exact OReach.none
    | apply OReach.opt_cond | apply OReach.some_pair | apply OReach.some_cond
    | apply Reach.cond | apply Reach.snd_cond
    | apply Reach.write_register | apply Reach.do_zflag | apply Reach.do_nflag
    | apply Reach.do_cflag | apply Reach.do_add_vflag | apply Reach.do_sub_vflag
    | apply Reach.do_cflag_bit | apply Reach.do_vflag_bit
    | apply Reach.read16 | apply Reach.write16 | apply Reach.read32 | apply Reach.write32
    | apply Reach.halfadd)

theorem reach_LDRH2 (s : Thumbulator) (inst : Nat) : OReach s (some (exec_LDRH2 s inst)) := by
  simp only [exec_LDRH2]
  repeat' (with_reducible first
    | (guard_target =ₛ Reach s s; exact Reach.refl s)
    | exact OReach.none
    | apply OReach.opt_cond | apply OReach.some_pair | apply OReach.some_cond
    | apply Reach.cond | apply Reach.snd_cond
    | apply Reach.write_register | apply Reach.do_zflag | apply Reach.do_nflag
    | apply Reach.do_cflag | apply Reach.do_add_vflag | apply Reach.do_sub_vflag
    | apply Reach.do_cflag_bit | apply Reach.do_vflag_bit
    | apply Reach.read16 | apply Reach.write16 | apply Reach.read32 | apply Reach.write32
    | apply Reach.halfadd)

theorem reach_LDRSB (s : Thumbulator) (inst : Nat) : OReach s (some (exec_LDRSB s inst)) := by
  simp only [exec_LDRSB]
  repeat' (with_reducible first
    | (guard_target =ₛ Reach s s; exact Reach.refl s)
    | exact OReach.none
    | apply OReach.opt_cond | apply OReach.some_pair | apply OReach.some_cond
    | apply Reach.cond | apply Reach.snd_cond
    | apply Reach.write_register | apply Reach.do_zflag | apply Reach.do_nflag
    | apply Reach.do_cflag | apply Reach.do_add_vflag | apply Reach.do_sub_vflag
    | apply Reach.do_cflag_bit | apply Reach.do_vflag_bit
    | apply Reach.read16 | apply Reach.write16 | apply Reach.read32 | apply Reach.write32
    | apply Reach.halfadd)

theorem reach_LDRSH (s : Thumbulator) (inst : Nat) : OReach s (some (exec_LDRSH s inst)) := by
  simp only [exec_LDRSH]
  repeat' (with_reducible first
    | (guard_target =ₛ Reach s s; exact Reach.refl s)
    | exact OReach.none
    | apply OReach.opt_cond | apply OReach.some_pair | apply OReach.some_cond
    | apply Reach.cond | apply Reach.snd_cond
    | apply Reach.write_register | apply Reach.do_zflag | apply Reach.do_nflag
    | apply Reach.do_cflag | apply Reach.do_add_vflag | apply Reach.do_sub_vflag
    | apply Reach.do_cflag_bit | apply Reach.do_vflag_bit
    | apply Reach.read16 | apply Reach.write16 | apply Reach.read32 | apply Reach.write32
    | apply Reach.halfadd)

theorem reach_LSL1 (s : Thumbulator) (inst : Nat) : OReach s (some (exec_LSL1 s inst)) := by
  simp only [exec_LSL1]
  repeat' (with_reducible first
    | (guard_target =ₛ Reach s s; exact Reach.refl s)
    | exact OReach.none
    | apply OReach.opt_cond | apply OReach.some_pair | apply OReach.some_cond
    | apply Reach.cond | apply Reach.snd_cond
    | apply Reach.write_register | apply Reach.do_zflag | apply Reach.do_nflag
    | apply Reach.do_cflag | apply Reach.do_add_vflag | apply Reach.do_sub_vflag
    | apply Reach.do_cflag_bit | apply Reach.do_vflag_bit
    | apply Reach.read16 | apply Reach.write16 | apply Reach.read32 | apply Reach.write32
    | apply Reach.halfadd)

theorem reach_LSL2 (s : Thumbulator) (inst : Nat) : OReach s (some (exec_LSL2 s inst)) := by
  simp only [exec_LSL2]
  repeat' (with_reducible first
    | (guard_target =ₛ Reach s s; exact Reach.refl s)
    | exact OReach.none
    | apply OReach.opt_cond | apply OReach.some_pair | apply OReach.some_cond
    | apply Reach.cond | apply Reach.snd_cond
    | apply Reach.write_register | apply Reach.do_zflag | apply Reach.do_nflag
    | apply Reach.do_cflag | apply Reach.do_add_vflag | apply Reach.do_sub_vflag
    | apply Reach.do_cflag_bit | apply Reach.do_vflag_bit
    | apply Reach.read16 | apply Reach.write16 | apply Reach.read32 | apply Reach.write32
    | apply Reach.halfadd)

theorem reach_LSR1 (s : Thumbulator) (inst : Nat) : OReach s (some (exec_LSR1 s inst)) := by
  simp only [exec_LSR1]
  repeat' (with_reducible first
    | (guard_target =ₛ Reach s s; exact Reach.refl s)
    | exact OReach.none
    | apply OReach.opt_cond | apply OReach.some_pair | apply OReach.some_cond
    | apply Reach.cond | apply Reach.snd_cond
    | apply Reach.write_register | apply Reach.do_zflag | apply Reach.do_nflag
    | apply Reach.do_cflag | apply Reach.do_add_vflag | apply Reach.do_sub_vflag
    | apply Reach.do_cflag_bit | apply Reach.do_vflag_bit
    | apply Reach.read16 | apply Reach.write16 | apply Reach.read32 | apply Reach.write32
    | apply Reach.halfadd)

theorem reach_LSR2 (s : Thumbulator) (inst : Nat) : OReach s (some (exec_LSR2 s inst)) := by
  simp only [exec_LSR2]
  repeat' (with_reducible first
    | (guard_target =ₛ Reach s s; exact Reach.refl s)
    | exact OReach.none
    | apply OReach.opt_cond | apply OReach.some_pair | apply OReach.some_cond
    | apply Reach.cond | apply Reach.snd_cond
    | apply Reach.write_register | apply Reach.do_zflag | apply Reach.do_nflag
    | apply Reach.do_cflag | apply Reach.do_add_vflag | apply Reach.do_sub_vflag
    | apply Reach.do_cflag_bit | apply Reach.do_vflag_bit
    | apply Reach.read16 | apply Reach.write16 | apply Reach.read32 | apply Reach.write32
    | apply Reach.halfadd)

theorem reach_MOV1 (s : Thumbulator) (inst : Nat) : OReach s (some (exec_MOV1 s inst)) := by
  simp only [exec_MOV1]
  repeat' (with_reducible first
    | (guard_target =ₛ Reach s s; exact Reach.refl s)
    | exact OReach.none
    | apply OReach.opt_cond | apply OReach.some_pair | apply OReach.some_cond
    | apply Reach.cond | apply Reach.snd_cond
    | apply Reach.write_register | apply Reach.do_zflag | apply Reach.do_nflag
    | apply Reach.do_cflag | apply Reach.do_add_vflag | apply Reach.do_sub_vflag
    | apply Reach.do_cflag_bit | apply Reach.do_vflag_bit
    | apply Reach.read16 | apply Reach.write16 | apply Reach.read32 | apply Reach.write32
    | apply Reach.halfadd)

theorem reach_MOV2 (s : Thumbulator) (inst : Nat) : OReach s (some (exec_MOV2 s inst)) := by
  simp only [exec_MOV2]
  repeat' (with_reducible first
    | (guard_target =ₛ Reach s s; exact Reach.refl s)
    | exact OReach.none
    | apply OReach.opt_cond | apply OReach.some_pair | apply OReach.some_cond
    | apply Reach.cond | apply Reach.snd_cond
    | apply Reach.write_register | apply Reach.do_zflag | apply Reach.do_nflag
    | apply Reach.do_cflag | apply Reach.do_add_vflag | apply Reach.do_sub_vflag
    | apply Reach.do_cflag_bit | apply Reach.do_vflag_bit
    | apply Reach.read16 | apply Reach.write16 | apply Reach.read32 | apply Reach.write32
    | apply Reach.halfadd)

theorem reach_MOV3 (s : Thumbulator) (inst : Nat) : OReach s (some (exec_MOV3 s inst)) := by
  simp only [exec_MOV3]
  repeat' (with_reducible first
    | (guard_target =ₛ Reach s s; exact Reach.refl s)
    | exact OReach.none
    | apply OReach.opt_cond | apply OReach.some_pair | apply OReach.some_cond
    | apply Reach.cond | apply Reach.snd_cond
    | apply Reach.write_register | apply Reach.do_zflag | apply Reach.do_nflag
    | apply Reach.do_cflag | apply Reach.do_add_vflag | apply Reach.do_sub_vflag
    | apply Reach.do_cflag_bit | apply Reach.do_vflag_bit
    | apply Reach.read16 | apply Reach.write16 | apply Reach.read32 | apply Reach.write32
    | apply Reach.halfadd)

theorem reach_MUL (s : Thumbulator) (inst : Nat) : OReach s (some (exec_MUL s inst)) := by
  simp only [exec_MUL]
  repeat' (with_reducible first
    | (guard_target =ₛ Reach s s; exact Reach.refl s)
    | exact OReach.none
    | apply OReach.opt_cond | apply OReach.some_pair | apply OReach.some_cond
    | apply Reach.cond | apply Reach.snd_cond
    | apply Reach.write_register | apply Reach.do_zflag | apply Reach.do_nflag
    | apply Reach.do_cflag | apply Reach.do_add_vflag | apply Reach.do_sub_vflag
    | apply Reach.do_cflag_bit | apply Reach.do_vflag_bit
    | apply Reach.read16 | apply Reach.write16 | apply Reach.read32 | apply Reach.write32
    | apply Reach.halfadd)

theorem reach_MVN (s : Thumbulator) (inst : Nat) : OReach s (some (exec_MVN s inst)) := by
  simp only [exec_MVN]
  repeat' (with_reducible first
    | (guard_target =ₛ Reach s s; exact Reach.refl s)
    | exact OReach.none
    | apply OReach.opt_cond | apply OReach.some_pair | apply OReach.some_cond
    | apply Reach.cond | apply Reach.snd_cond
    | apply Reach.write_register | apply Reach.do_zflag | apply Reach.do_nflag
    | apply Reach.do_cflag | apply Reach.do_add_vflag | apply Reach.do_sub_vflag
    | apply Reach.do_cflag_bit | apply Reach.do_vflag_bit
    | apply Reach.read16 | apply Reach.write16 | apply Reach.read32 | apply Reach.write32
    | apply Reach.halfadd)

theorem reach_NEG (s : Thumbulator) (inst : Nat) : OReach s (some (exec_NEG s inst)) := by
  simp only [exec_NEG]
  repeat' (with_reducible first
    | (guard_target =ₛ Reach s s; exact Reach.refl s)
    | exact OReach.none
    | apply OReach.opt_cond | apply OReach.some_pair | apply OReach.some_cond
    | apply Reach.cond | apply Reach.snd_cond
    | apply Reach.write_register | apply Reach.do_zflag | apply Reach.do_nflag
    | apply Reach.do_cflag | apply Reach.do_add_vflag | apply Reach.do_sub_vflag
    | apply Reach.do_cflag_bit | apply Reach.do_vflag_bit
    | apply Reach.read16 | apply Reach.write16 | apply Reach.read32 | apply Reach.write32
    | apply Reach.halfadd)

theorem reach_ORR (s : Thumbulator) (inst : Nat) : OReach s (some (exec_ORR s inst)) := by
  simp only [exec_ORR]
  repeat' (with_reducible first
    | (guard_target =ₛ Reach s s; exact Reach.refl s)
    | exact OReach.none
    | apply OReach.opt_cond | apply OReach.some_pair | apply OReach.some_cond
    | apply Reach.cond | apply Reach.snd_cond
    | apply Reach.write_register | apply Reach.do_zflag | apply Reach.do_nflag
    | apply Reach.do_cflag | apply Reach.do_add_vflag | apply Reach.do_sub_vflag
    | apply Reach.do_cflag_bit | apply Reach.do_vflag_bit
    | apply Reach.read16 | apply Reach.write16 | apply Reach.read32 | apply Reach.write32
    | apply Reach.halfadd)

theorem reach_POP (s : Thumbulator) (inst : Nat) : OReach s (some (exec_POP s inst)) := by
  simp only [exec_POP]
  apply OReach.some_pair
  refine Reach.write_register _ _ (Reach.snd_cond ?_ ?_)
  · exact Reach.write_register _ _ (Reach.read32 _ (Reach.loadLoop _ _ _ _ _ (Reach.refl s)))
  · exact Reach.loadLoop _ _ _ _ _ (Reach.refl s)

theorem reach_PUSH (s : Thumbulator) (inst : Nat) : OReach s (some (exec_PUSH s inst)) := by
  simp only [exec_PUSH]
  apply OReach.some_pair
  refine Reach.write_register _ _ (Reach.cond ?_ ?_)
  · exact Reach.write32 _ _ (Reach.storeLoop _ _ _ _ _ (Reach.refl s))
  · exact Reach.storeLoop _ _ _ _ _ (Reach.refl s)

theorem reach_REV (s : Thumbulator) (inst : Nat) : OReach s (some (exec_REV s inst)) := by
  simp only [exec_REV]
  repeat' (with_reducible first
    | (guard_target =ₛ Reach s s; exact Reach.refl s)
    | exact OReach.none
    | apply OReach.opt_cond | apply OReach.some_pair | apply OReach.some_cond
    | apply Reach.cond | apply Reach.snd_cond
    | apply Reach.write_register | apply Reach.do_zflag | apply Reach.do_nflag
    | apply Reach.do_cflag | apply Reach.do_add_vflag | apply Reach.do_sub_vflag
    | apply Reach.do_cflag_bit | apply Reach.do_vflag_bit
    | apply Reach.read16 | apply Reach.write16 | apply Reach.read32 | apply Reach.write32
    | apply Reach.halfadd)

theorem reach_REV16 (s : Thumbulator) (inst : Nat) : OReach s (some (exec_REV16 s inst)) := by
  simp only [exec_REV16]
  repeat' (with_reducible first
    | (guard_target =ₛ Reach s s; exact Reach.refl s)
    | exact OReach.none
    | apply OReach.opt_cond | apply OReach.some_pair | apply OReach.some_cond
    | apply Reach.cond | apply Reach.snd_cond
    | apply Reach.write_register | apply Reach.do_zflag | apply Reach.do_nflag
    | apply Reach.do_cflag | apply Reach.do_add_vflag | apply Reach.do_sub_vflag
    | apply Reach.do_cflag_bit | apply Reach.do_vflag_bit
    | apply Reach.read16 | apply Reach.write16 | apply Reach.read32 | apply Reach.write32
    | apply Reach.halfadd)

theorem reach_REVSH (s : Thumbulator) (inst : Nat) : OReach s (some (exec_REVSH s inst)) := by
  simp only [exec_REVSH]
  repeat' (with_reducible first
    | (guard_target =ₛ Reach s s; exact Reach.refl s)
    | exact OReach.none
    | apply OReach.opt_cond | apply OReach.some_pair | apply OReach.some_cond
    | apply Reach.cond | apply Reach.snd_cond
    | apply Reach.write_register | apply Reach.do_zflag | apply Reach.do_nflag
    | apply Reach.do_cflag | apply Reach.do_add_vflag | apply Reach.do_sub_vflag
    | apply Reach.do_cflag_bit | apply Reach.do_vflag_bit
    | apply Reach.read16 | apply Reach.write16 | apply Reach.read32 | apply Reach.write32
    | apply Reach.halfadd)

theorem reach_ROR (s : Thumbulator) (inst : Nat) : OReach s (some (exec_ROR s inst)) := by
  simp only [exec_ROR]
  repeat' (with_reducible first
    | (guard_target =ₛ Reach s s; exact Reach.refl s)
    | exact OReach.none
    | apply OReach.opt_cond | apply OReach.some_pair | apply OReach.some_cond
    | apply Reach.cond | apply Reach.snd_cond
    | apply Reach.write_register | apply Reach.do_zflag | apply Reach.do_nflag
    | apply Reach.do_cflag | apply Reach.do_add_vflag | apply Reach.do_sub_vflag
    | apply Reach.do_cflag_bit | apply Reach.do_vflag_bit
    | apply Reach.read16 | apply Reach.write16 | apply Reach.read32 | apply Reach.write32
    | apply Reach.halfadd)

theorem reach_SBC (s : Thumbulator) (inst : Nat) : OReach s (some (exec_SBC s inst)) := by
  simp only [exec_SBC]
  repeat' (with_reducible first
    | (guard_target =ₛ Reach s s; exact Reach.refl s)
    | exact OReach.none
    | apply OReach.opt_cond | apply OReach.some_pair | apply OReach.some_cond
    | apply Reach.cond | apply Reach.snd_cond
    | apply Reach.write_register | apply Reach.do_zflag | apply Reach.do_nflag
    | apply Reach.do_cflag | apply Reach.do_add_vflag | apply Reach.do_sub_vflag
    | apply Reach.do_cflag_bit | apply Reach.do_vflag_bit
    | apply Reach.read16 | apply Reach.write16 | apply Reach.read32 | apply Reach.write32
    | apply Reach.halfadd)

theorem reach_SETEND (s : Thumbulator) (inst : Nat) : OReach s (some (exec_SETEND s inst)) := by
  simp only [exec_SETEND]
  repeat' (with_reducible first
    | (guard_target =ₛ Reach s s; exact Reach.refl s)
    | exact OReach.none
    | apply OReach.opt_cond | apply OReach.some_pair | apply OReach.some_cond
    | apply Reach.cond | apply Reach.snd_cond
    | apply Reach.write_register | apply Reach.do_zflag | apply Reach.do_nflag
    | apply Reach.do_cflag | apply Reach.do_add_vflag | apply Reach.do_sub_vflag
    | apply Reach.do_cflag_bit | apply Reach.do_vflag_bit
    | apply Reach.read16 | apply Reach.write16 | apply Reach.read32 | apply Reach.write32
    | apply Reach.halfadd)

theorem reach_STMIA (s : Thumbulator) (inst : Nat) : OReach s (some (exec_STMIA s inst)) := by
  simp only [exec_STMIA]
  apply OReach.some_pair
  exact Reach.write_register _ _ (Reach.storeLoop _ _ _ _ _ (Reach.refl s))

theorem reach_STR1 (s : Thumbulator) (inst : Nat) : OReach s (some (exec_STR1 s inst)) := by
  simp only [exec_STR1]
  repeat' (with_reducible first
    | (guard_target =ₛ Reach s s; exact Reach.refl s)
    | exact OReach.none
    | apply OReach.opt_cond | apply OReach.some_pair | apply OReach.some_cond
    | apply Reach.cond | apply Reach.snd_cond
    | apply Reach.write_register | apply Reach.do_zflag | apply Reach.do_nflag
    | apply Reach.do_cflag | apply Reach.do_add_vflag | apply Reach.do_sub_vflag
    | apply Reach.do_cflag_bit | apply Reach.do_vflag_bit
    | apply Reach.read16 | apply Reach.write16 | apply Reach.read32 | apply Reach.write32
    | apply Reach.halfadd)

theorem reach_STR2 (s : Thumbulator) (inst : Nat) : OReach s (some (exec_STR2 s inst)) := by
  simp only [exec_STR2]
  repeat' (with_reducible first
    | (guard_target =ₛ Reach s s; exact Reach.refl s)
    | exact OReach.none
    | apply OReach.opt_cond | apply OReach.some_pair | apply OReach.some_cond
    | apply Reach.cond | apply Reach.snd_cond
    | apply Reach.write_register | apply Reach.do_zflag | apply Reach.do_nflag
    | apply Reach.do_cflag | apply Reach.do_add_vflag | apply Reach.do_sub_vflag
    | apply Reach.do_cflag_bit | apply Reach.do_vflag_bit
    | apply Reach.read16 | apply Reach.write16 | apply Reach.read32 | apply Reach.write32
    | apply Reach.halfadd)

theorem reach_STR3 (s : Thumbulator) (inst : Nat) : OReach s (some (exec_STR3 s inst)) := by
  simp only [exec_STR3]
  repeat' (with_reducible first
    | (guard_target =ₛ Reach s s; exact Reach.refl s)
    | exact OReach.none
    | apply OReach.opt_cond | apply OReach.some_pair | apply OReach.some_cond
    | apply Reach.cond | apply Reach.snd_cond
    | apply Reach.write_register | apply Reach.do_zflag | apply Reach.do_nflag
    | apply Reach.do_cflag | apply Reach.do_add_vflag | apply Reach.do_sub_vflag
    | apply Reach.do_cflag_bit | apply Reach.do_vflag_bit
    | apply Reach.read16 | apply Reach.write16 | apply Reach.read32 | apply Reach.write32
    | apply Reach.halfadd)

theorem reach_STRB1 (s : Thumbulator) (inst : Nat) : OReach s (some (exec_STRB1 s inst)) := by
  simp only [exec_STRB1]
  repeat' (with_reducible first
    | (guard_target =ₛ Reach s s; exact Reach.refl s)
    | exact OReach.none
    | apply OReach.opt_cond | apply OReach.some_pair | apply OReach.some_cond
    | apply Reach.cond | apply Reach.snd_cond
    | apply Reach.write_register | apply Reach.do_zflag | apply Reach.do_nflag
    | apply Reach.do_cflag | apply Reach.do_add_vflag | apply Reach.do_sub_vflag
    | apply Reach.do_cflag_bit | apply Reach.do_vflag_bit
    | apply Reach.read16 | apply Reach.write16 | apply Reach.read32 | apply Reach.write32
    | apply Reach.halfadd)

theorem reach_STRB2 (s : Thumbulator) (inst : Nat) : OReach s (some (exec_STRB2 s inst)) := by
  simp only [exec_STRB2]
  repeat' (with_reducible first
    | (guard_target =ₛ Reach s s; exact Reach.refl s)
    | exact OReach.none
    | apply OReach.opt_cond | apply OReach.some_pair | apply OReach.some_cond
    | apply Reach.cond | apply Reach.snd_cond
    | apply Reach.write_register | apply Reach.do_zflag | apply Reach.do_nflag
    | apply Reach.do_cflag | apply Reach.do_add_vflag | apply Reach.do_sub_vflag
    | apply Reach.do_cflag_bit | apply Reach.do_vflag_bit
    | apply Reach.read16 | apply Reach.write16 | apply Reach.read32 | apply Reach.write32
    | apply Reach.halfadd)

theorem reach_STRH1 (s : Thumbulator) (inst : Nat) : OReach s (some (exec_STRH1 s inst)) := by
  simp only [exec_STRH1]
  repeat' (with_reducible first
    | (guard_target =ₛ Reach s s; exact Reach.refl s)
    | exact OReach.none
    | apply OReach.opt_cond | apply OReach.some_pair | apply OReach.some_cond
    | apply Reach.cond | apply Reach.snd_cond
    | apply Reach.write_register | apply Reach.do_zflag | apply Reach.do_nflag
    | apply Reach.do_cflag | apply Reach.do_add_vflag | apply Reach.do_sub_vflag
    | apply Reach.do_cflag_bit | apply Reach.do_vflag_bit
    | apply Reach.read16 | apply Reach.write16 | apply Reach.read32 | apply Reach.write32
    | apply Reach.halfadd)

theorem reach_STRH2 (s : Thumbulator) (inst : Nat) : OReach s (some (exec_STRH2 s inst)) := by
  simp only [exec_STRH2]
  repeat' (with_reducible first
    | (guard_target =ₛ Reach s s; exact Reach.refl s)
    | exact OReach.none
    | apply OReach.opt_cond | apply OReach.some_pair | apply OReach.some_cond
    | apply Reach.cond | apply Reach.snd_cond
    | apply Reach.write_register | apply Reach.do_zflag | apply Reach.do_nflag
    | apply Reach.do_cflag | apply Reach.do_add_vflag | apply Reach.do_sub_vflag
    | apply Reach.do_cflag_bit | apply Reach.do_vflag_bit
    | apply Reach.read16 | apply Reach.write16 | apply Reach.read32 | apply Reach.write32
    | apply Reach.halfadd)

theorem reach_SUB1 (s : Thumbulator) (inst : Nat) : OReach s (some (exec_SUB1 s inst)) := by
  simp only [exec_SUB1]
  repeat' (with_reducible first
    | (guard_target =ₛ Reach s s; exact Reach.refl s)
    | exact OReach.none
    | apply OReach.opt_cond | apply OReach.some_pair | apply OReach.some_cond
    | apply Reach.cond | apply Reach.snd_cond
    | apply Reach.write_register | apply Reach.do_zflag | apply Reach.do_nflag
    | apply Reach.do_cflag | apply Reach.do_add_vflag | apply Reach.do_sub_vflag
    | apply Reach.do_cflag_bit | apply Reach.do_vflag_bit
    | apply Reach.read16 | apply Reach.write16 | apply Reach.read32 | apply Reach.write32
    | apply Reach.halfadd)

theorem reach_SUB2 (s : Thumbulator) (inst : Nat) : OReach s (some (exec_SUB2 s inst)) := by
  simp only [exec_SUB2]
  repeat' (with_reducible first
    | (guard_target =ₛ Reach s s; exact Reach.refl s)
    | exact OReach.none
    | apply OReach.opt_cond | apply OReach.some_pair | apply OReach.some_cond
    | apply Reach.cond | apply Reach.snd_cond
    | apply Reach.write_register | apply Reach.do_zflag | apply Reach.do_nflag
    | apply Reach.do_cflag | apply Reach.do_add_vflag | apply Reach.do_sub_vflag
    | apply Reach.do_cflag_bit | apply Reach.do_vflag_bit
    | apply Reach.read16 | apply Reach.write16 | apply Reach.read32 | apply Reach.write32
    | apply Reach.halfadd)

theorem reach_SUB3 (s : Thumbulator) (inst : Nat) : OReach s (some (exec_SUB3 s inst)) := by
  simp only [exec_SUB3]
  repeat' (with_reducible first
    | (guard_target =ₛ Reach s s; exact Reach.refl s)
    | exact OReach.none
    | apply OReach.opt_cond | apply OReach.some_pair | apply OReach.some_cond
    | apply Reach.cond | apply Reach.snd_cond
    | apply Reach.write_register | apply Reach.do_zflag | apply Reach.do_nflag
    | apply Reach.do_cflag | apply Reach.do_add_vflag | apply Reach.do_sub_vflag
    | apply Reach.do_cflag_bit | apply Reach.do_vflag_bit
    | apply Reach.read16 | apply Reach.write16 | apply Reach.read32 | apply Reach.write32
    | apply Reach.halfadd)

theorem reach_SUB4 (s : Thumbulator) (inst : Nat) : OReach s (some (exec_SUB4 s inst)) := by
  simp only [exec_SUB4]
  repeat' (with_reducible first
    | (guard_target =ₛ Reach s s; exact Reach.refl s)
    | exact OReach.none
    | apply OReach.opt_cond | apply OReach.some_pair | apply OReach.some_cond
    | apply Reach.cond | apply Reach.snd_cond
    | apply Reach.write_register | apply Reach.do_zflag | apply Reach.do_nflag
    | apply Reach.do_cflag | apply Reach.do_add_vflag | apply Reach.do_sub_vflag
    | apply Reach.do_cflag_bit | apply Reach.do_vflag_bit
    | apply Reach.read16 | apply Reach.write16 | apply Reach.read32 | apply Reach.write32
    | apply Reach.halfadd)

theorem reach_SWI (s : Thumbulator) (inst : Nat) : OReach s (some (exec_SWI s inst)) := by
  simp only [exec_SWI]
  repeat' (with_reducible first
    | (guard_target =ₛ Reach s s; exact Reach.refl s)
    | exact OReach.none
    | apply OReach.opt_cond | apply OReach.some_pair | apply OReach.some_cond
    | apply Reach.cond | apply Reach.snd_cond
    | apply Reach.write_register | apply Reach.do_zflag | apply Reach.do_nflag
    | apply Reach.do_cflag | apply Reach.do_add_vflag | apply Reach.do_sub_vflag
    | apply Reach.do_cflag_bit | apply Reach.do_vflag_bit
    | apply Reach.read16 | apply Reach.write16 | apply Reach.read32 | apply Reach.write32
    | apply Reach.halfadd)

theorem reach_SXTB (s : Thumbulator) (inst : Nat) : OReach s (some (exec_SXTB s inst)) := by
  simp only [exec_SXTB]
  repeat' (with_reducible first
    | (guard_target =ₛ Reach s s; exact Reach.refl s)
    | exact OReach.none
    | apply OReach.opt_cond | apply OReach.some_pair | apply OReach.some_cond
    | apply Reach.cond | apply Reach.snd_cond
    | apply Reach.write_register | apply Reach.do_zflag | apply Reach.do_nflag
    | apply Reach.do_cflag | apply Reach.do_add_vflag | apply Reach.do_sub_vflag
    | apply Reach.do_cflag_bit | apply Reach.do_vflag_bit
    | apply Reach.read16 | apply Reach.write16 | apply Reach.read32 | apply Reach.write32
    | apply Reach.halfadd)

theorem reach_SXTH (s : Thumbulator) (inst : Nat) : OReach s (some (exec_SXTH s inst)) := by
  simp only [exec_SXTH]
  repeat' (with_reducible first
    | (guard_target =ₛ Reach s s; exact Reach.refl s)
    | exact OReach.none
    | apply OReach.opt_cond | apply OReach.some_pair | apply OReach.some_cond
    | apply Reach.cond | apply Reach.snd_cond
    | apply Reach.write_register | apply Reach.do_zflag | apply Reach.do_nflag
    | apply Reach.do_cflag | apply Reach.do_add_vflag | apply Reach.do_sub_vflag
    | apply Reach.do_cflag_bit | apply Reach.do_vflag_bit
    | apply Reach.read16 | apply Reach.write16 | apply Reach.read32 | apply Reach.write32
    | apply Reach.halfadd)

theorem reach_TST (s : Thumbulator) (inst : Nat) : OReach s (some (exec_TST s inst)) := by
  simp only [exec_TST]
  repeat' (with_reducible first
    | (guard_target =ₛ Reach s s; exact Reach.refl s)
    | exact OReach.none
    | apply OReach.opt_cond | apply OReach.some_pair | apply OReach.some_cond
    | apply Reach.cond | apply Reach.snd_cond
    | apply Reach.write_register | apply Reach.do_zflag | apply Reach.do_nflag
    | apply Reach.do_cflag | apply Reach.do_add_vflag | apply Reach.do_sub_vflag
    | apply Reach.do_cflag_bit | apply Reach.do_vflag_bit
    | apply Reach.read16 | apply Reach.write16 | apply Reach.read32 | apply Reach.write32
    | apply Reach.halfadd)

theorem reach_UXTB (s : Thumbulator) (inst : Nat) : OReach s (some (exec_UXTB s inst)) := by
  simp only [exec_UXTB]
  repeat' (with_reducible first
    | (guard_target =ₛ Reach s s; exact Reach.refl s)
    | exact OReach.none
    | apply OReach.opt_cond | apply OReach.some_pair | apply OReach.some_cond
    | apply Reach.cond | apply Reach.snd_cond
    | apply Reach.write_register | apply Reach.do_zflag | apply Reach.do_nflag
    | apply Reach.do_cflag | apply Reach.do_add_vflag | apply Reach.do_sub_vflag
    | apply Reach.do_cflag_bit | apply Reach.do_vflag_bit
    | apply Reach.read16 | apply Reach.write16 | apply Reach.read32 | apply Reach.write32
    | apply Reach.halfadd)

theorem reach_UXTH (s : Thumbulator) (inst : Nat) : OReach s (some (exec_UXTH s inst)) := by
  simp only [exec_UXTH]
  repeat' (with_reducible first
    | (guard_target =ₛ Reach s s; exact Reach.refl s)
    | exact OReach.none
    | apply OReach.opt_cond | apply OReach.some_pair | apply OReach.some_cond
    | apply Reach.cond | apply Reach.snd_cond
    | apply Reach.write_register | apply Reach.do_zflag | apply Reach.do_nflag
    | apply Reach.do_cflag | apply Reach.do_add_vflag | apply Reach.do_sub_vflag
    | apply Reach.do_cflag_bit | apply Reach.do_vflag_bit
    | apply Reach.read16 | apply Reach.write16 | apply Reach.read32 | apply Reach.write32
    | apply Reach.halfadd)

/-- Every handler of the chain only composes primitive state operations. -/
theorem chain_reach : ∀ p ∈ chain, ∀ (s : Thumbulator) (inst pc : Nat),
    OReach s (p.handler s inst pc) := by
  simp only [chain, List.forall_mem_cons, List.not_mem_nil, false_implies, implies_true,
    and_true]
  exact ⟨fun s inst _ => reach_ADC s inst,
    fun s inst _ => reach_ADD1 s inst,
    fun s inst _ => reach_ADD2 s inst,
    fun s inst _ => reach_ADD3 s inst,
    fun s inst _ => reach_ADD4 s inst,
    fun s inst _ => reach_ADD5 s inst,
    fun s inst _ => reach_ADD6 s inst,
    fun s inst _ => reach_ADD7 s inst,
    fun s inst _ => reach_AND s inst,
    fun s inst _ => reach_ASR1 s inst,
    fun s inst _ => reach_ASR2 s inst,
    fun s inst pc => reach_B1 s inst pc,
    fun s inst pc => reach_B2 s inst pc,
    fun s inst _ => reach_BIC s inst,
    fun s inst _ => reach_BKPT s inst,
    fun s inst pc => reach_BL s inst pc,
    fun s inst pc => reach_BLX2 s inst pc,
    fun s inst _ => reach_BX s inst,
    fun s inst _ => reach_CMN s inst,
    fun s inst _ => reach_CMP1 s inst,
    fun s inst _ => reach_CMP2 s inst,
    fun s inst _ => reach_CMP3 s inst,
    fun s inst _ => reach_CPS s inst,
    fun s inst _ => reach_CPY s inst,
    fun s inst _ => reach_EOR s inst,
    fun s inst _ => reach_LDMIA s inst,
    fun s inst _ => reach_LDR1 s inst,
    fun s inst _ => reach_LDR2 s inst,
    fun s inst _ => reach_LDR3 s inst,
    fun s inst _ => reach_LDR4 s inst,
    fun s inst _ => reach_LDRB1 s inst,
    fun s inst _ => reach_LDRB2 s inst,
    fun s inst _ => reach_LDRH1 s inst,
    fun s inst _ => reach_LDRH2 s inst,
    fun s inst _ => reach_LDRSB s inst,
    fun s inst _ => reach_LDRSH s inst,
    fun s inst _ => reach_LSL1 s inst,
    fun s inst _ => reach_LSL2 s inst,
    fun s inst _ => reach_LSR1 s inst,
    fun s inst _ => reach_LSR2 s inst,
    fun s inst _ => reach_MOV1 s inst,
    fun s inst _ => reach_MOV2 s inst,
    fun s inst _ => reach_MOV3 s inst,
    fun s inst _ => reach_MUL s inst,
    fun s inst _ => reach_MVN s inst,
    fun s inst _ => reach_NEG s inst,
    fun s inst _ => reach_ORR s inst,
    fun s inst _ => reach_POP s inst,
    fun s inst _ => reach_PUSH s inst,
    fun s inst _ => reach_REV s inst,
    fun s inst _ => reach_REV16 s inst,
    fun s inst _ => reach_REVSH s inst,
    fun s inst _ => reach_ROR s inst,
    fun s inst _ => reach_SBC s inst,
    fun s inst _ => reach_SETEND s inst,
    fun s inst _ => reach_STMIA s inst,
    fun s inst _ => reach_STR1 s inst,
    fun s inst _ => reach_STR2 s inst,
    fun s inst _ => reach_STR3 s inst,
    fun s inst _ => reach_STRB1 s inst,
    fun s inst _ => reach_STRB2 s inst,
    fun s inst _ => reach_STRH1 s inst,
    fun s inst _ => reach_STRH2 s inst,
    fun s inst _ => reach_SUB1 s inst,
    fun s inst _ => reach_SUB2 s inst,
    fun s inst _ => reach_SUB3 s inst,
    fun s inst _ => reach_SUB4 s inst,
    fun s inst _ => reach_SWI s inst,
    fun s inst _ => reach_SXTB s inst,
    fun s inst _ => reach_SXTH s inst,
    fun s inst _ => reach_TST s inst,
    fun s inst _ => reach_UXTB s inst,
    fun s inst _ => reach_UXTH s inst⟩

set_option linter.unusedTactic true
set_option linter.unreachableTactic true

/-! ## Frame facts and the prologue of `execute` -/

/-- Fields no primitive operation of a handler touches. -/
theorem Reach.frame {s t : Thumbulator} (h : Reach s t) :
    t.instructions = s.instructions ∧ t.fetches = s.fetches ∧ t.rom = s.rom ∧
      t.MSB_FIRST = s.MSB_FIRST := by
  induction h with
  | refl => exact ⟨rfl, rfl, rfl, rfl⟩
  | write_register reg data _ ih =>
    unfold Thumbulator.write_register; simp only []; repeat' split
    all_goals exact ih
  | read16 addr _ ih =>
    unfold Thumbulator.read16; simp only []; repeat' split
    all_goals exact ih
  | write16 addr data _ ih =>
    unfold Thumbulator.write16; simp only []; repeat' split
    all_goals exact ih
  | do_zflag x _ ih => unfold Thumbulator.do_zflag; split <;> exact ih
  | do_nflag x _ ih => unfold Thumbulator.do_nflag; split <;> exact ih
  | do_cflag a b c _ ih => unfold Thumbulator.do_cflag; simp only []; split <;> exact ih
  | do_sub_vflag a b c _ ih =>
    unfold Thumbulator.do_sub_vflag; simp only []; repeat' split
    all_goals exact ih
  | do_add_vflag a b c _ ih =>
    unfold Thumbulator.do_add_vflag; simp only []; repeat' split
    all_goals exact ih
  | do_cflag_bit x _ ih => unfold Thumbulator.do_cflag_bit; split <;> exact ih
  | do_vflag_bit x _ ih => unfold Thumbulator.do_vflag_bit; split <;> exact ih
  | halfadd v _ ih => exact ih

theorem runChain_reach (s : Thumbulator) (inst pc : Nat) :
    ∀ l : List Pattern, (∀ p ∈ l, ∀ (s : Thumbulator) (inst pc : Nat),
      OReach s (p.handler s inst pc)) → Reach s (runChain s inst pc l).2
  | [], _ => Reach.refl s
  | p :: rest, h => by
    have ih := runChain_reach s inst pc rest (fun q hq => h q (List.mem_cons_of_mem p hq))
    have hp := h p (List.mem_cons_self p rest) s inst pc
    unfold runChain
    split
    · split
      · next r hr => rw [hr] at hp; exact hp
      · exact ih
    · exact ih

/-- The decoding chain changes neither the counters of the prologue nor the ROM. -/
theorem runChain_frame (s : Thumbulator) (inst pc : Nat) :
    (runChain s inst pc chain).2.instructions = s.instructions ∧
    (runChain s inst pc chain).2.fetches = s.fetches ∧
    (runChain s inst pc chain).2.rom = s.rom ∧
    (runChain s inst pc chain).2.MSB_FIRST = s.MSB_FIRST :=
  (runChain_reach s inst pc chain chain_reach).frame

/-- `execute` is its prologue followed by the decoding chain. -/
theorem execute_eq (s : Thumbulator) :
    execute s =
      runChain (entered s) (fetch16 s (sub32 (read_register s 15) 2)).1
        (add32 (read_register s 15) 2) chain :=
  rfl

theorem write_register_instructions (s : Thumbulator) (reg data : Nat) :
    (write_register s reg data).2.instructions = s.instructions :=
  ((Reach.refl s).write_register reg data).frame.1

/-- `fetch16` only counts the fetch. -/
theorem fetch16_snd (s : Thumbulator) (addr : Nat) :
    (fetch16 s addr).2 = { s with fetches := (s.fetches + 1) % 2 ^ 64 } := by
  unfold fetch16
  simp only []
  repeat' split
  all_goals rfl

theorem write_register_15 (s : Thumbulator) (v : Nat) (h : s.cpsr &&& 0x1F = MODE_SVC) :
    (write_register s 15 v).2 = { s with reg_sys := Function.update s.reg_sys 15 v } := by
  simp [write_register, h]

theorem read_register_15 (s : Thumbulator) (h : s.cpsr &&& 0x1F = MODE_SVC) :
    read_register s 15 = s.reg_sys 15 := by
  simp [read_register, h]

/-- The prologue in supervisor mode. -/
theorem entered_svc (s : Thumbulator) (h : s.cpsr &&& 0x1F = MODE_SVC) :
    entered s = { s with
      fetches := (s.fetches + 1) % 2 ^ 64
      instructions := (s.instructions + 1) % 2 ^ 64
      reg_sys := Function.update s.reg_sys 15 (add32 (s.reg_sys 15) 2) } := by
  unfold entered
  rw [fetch16_snd, read_register_15 s h]
  simp [write_register, h]

/-- The prologue changes neither the memories, nor `cpsr`, nor the shadow bank. -/
theorem entered_frame (s : Thumbulator) :
    (entered s).ram = s.ram ∧ (entered s).rom = s.rom ∧ (entered s).cpsr = s.cpsr ∧
    (entered s).reg_svc = s.reg_svc ∧ (entered s).mamcr = s.mamcr ∧
    (entered s).halfadd = s.halfadd ∧ (entered s).MSB_FIRST = s.MSB_FIRST ∧
    (entered s).instructions = (s.instructions + 1) % 2 ^ 64 := by
  unfold entered
  rw [fetch16_snd]
  simp only [write_register]
  split
  · rw [if_neg (by decide)]
    exact ⟨rfl, rfl, rfl, rfl, rfl, rfl, rfl, rfl⟩
  · exact ⟨rfl, rfl, rfl, rfl, rfl, rfl, rfl, rfl⟩

/-- Every call of `execute` adds one to the instruction counter. -/
theorem execute_instructions (s : Thumbulator) :
    (execute s).2.instructions = (s.instructions + 1) % 2 ^ 64 := by
  rw [execute_eq, (runChain_frame _ _ _).1]
  exact (entered_frame s).2.2.2.2.2.2.2

/-! ## Memory accesses -/

theorem top_nibble_le {a v : Nat} (h : a &&& 0xF0000000 = v) : v ≤ a := by
  rw [← h]; exact Nat.and_le_left

/-- `read16` changes nothing but the read counter. -/
theorem read16_snd (s : Thumbulator) (addr : Nat) :
    (read16 s addr).2 = { s with reads := (read16 s addr).2.reads } := by
  unfold read16
  simp only []
  repeat' split
  all_goals rfl

/-- `read32` changes nothing but the read counter. -/
theorem read32_snd (s : Thumbulator) (addr : Nat) :
    (read32 s addr).2 = { s with reads := (read32 s addr).2.reads } := by
  unfold read32
  simp only []
  split
  · rfl
  · split
    · rw [read16_snd, read16_snd s]
    · rfl

/-- `write16` changes only the RAM, MAMCR and the write counter. -/
theorem write16_frame (s : Thumbulator) (addr data : Nat) :
    (write16 s addr data).cpsr = s.cpsr ∧ (write16 s addr data).reg_sys = s.reg_sys ∧
    (write16 s addr data).reg_svc = s.reg_svc ∧ (write16 s addr data).rom = s.rom ∧
    (write16 s addr data).MSB_FIRST = s.MSB_FIRST := by
  unfold write16
  simp only []
  repeat' split
  all_goals exact ⟨rfl, rfl, rfl, rfl, rfl⟩

/-- `write32` changes only the RAM, MAMCR and the write counter. -/
theorem write32_frame (s : Thumbulator) (addr data : Nat) :
    (write32 s addr data).cpsr = s.cpsr ∧ (write32 s addr data).reg_sys = s.reg_sys ∧
    (write32 s addr data).reg_svc = s.reg_svc ∧ (write32 s addr data).rom = s.rom ∧
    (write32 s addr data).MSB_FIRST = s.MSB_FIRST := by
  unfold write32
  simp only []
  repeat' split
  all_goals first
    | exact ⟨rfl, rfl, rfl, rfl, rfl⟩
    | (obtain ⟨a1, a2, a3, a4, a5⟩ := write16_frame s (add32 addr 0) ((data >>> 0) &&& 0xFFFF)
       obtain ⟨b1, b2, b3, b4, b5⟩ := write16_frame
         (write16 s (add32 addr 0) ((data >>> 0) &&& 0xFFFF)) (add32 addr 2)
         ((data >>> 16) &&& 0xFFFF)
       exact ⟨b1.trans a1, b2.trans a2, b3.trans a3, b4.trans a4, b5.trans a5⟩)

theorem write16_mamcr (s : Thumbulator) (v : Nat) :
    write16 s 0xE01FC000 v = { s with writes := (s.writes + 1) % 2 ^ 64, mamcr := v } := by
  simp +decide [write16]

theorem read16_mamcr (s : Thumbulator) : (read16 s 0xE01FC000).1 = s.mamcr := by
  simp +decide [read16]

theorem read16_ram (s : Thumbulator) (a : Nat) (h0 : a % 2 = 0) (h1 : 0x40000000 ≤ a)
    (h2 : a < 0x40002000) :
    (read16 s a).1 = loadHalf s (s.ram ((a - 0x40000000) / 2)) := by
  obtain ⟨e1, e2⟩ := ram_addr a h1 h2
  unfold read16
  simp only []
  rw [if_neg (by omega), if_neg (by omega), if_neg (by rw [and_one_eq]; omega),
    if_neg (by rw [e1]; decide), if_pos e1, e2]
  rfl

theorem write16_ram (s : Thumbulator) (a d : Nat) (h0 : a % 2 = 0) (h1 : 0x40000000 ≤ a)
    (h2 : a < 0x40002000) (h3 : a ≤ 0x40000028 ∨ 0x40000C00 ≤ a) :
    write16 s a d = { s with
      writes := (s.writes + 1) % 2 ^ 64
      ram := Function.update s.ram ((a - 0x40000000) / 2) (storeHalf s d) } := by
  obtain ⟨e1, e2⟩ := ram_addr a h1 h2
  unfold write16
  simp only []
  rw [if_neg (by omega), if_neg (by omega), if_neg (by rw [and_one_eq]; omega), if_pos e1, e2]
  rfl

theorem read32_ram (s : Thumbulator) (a : Nat) (h : WritableWord a) :
    (read32 s a).1 = ramWord s a := by
  obtain ⟨h4, hr⟩ := h
  have h1 : 0x40000000 ≤ a := by omega
  have h2 : a + 3 < 0x40002000 := by omega
  obtain ⟨e1, _⟩ := ram_addr a h1 (by omega)
  unfold read32
  simp only []
  rw [if_neg (by rw [and_three_eq]; omega), if_pos (Or.inr e1),
    show add32 a 2 = a + 2 by unfold add32; omega, show add32 a 0 = a by unfold add32; omega,
    read16_ram s (a + 2) (by omega) (by omega) (by omega), read16_snd,
    read16_ram _ a (by omega) h1 (by omega)]
  rfl

theorem write32_ram (s : Thumbulator) (a d : Nat) (h : WritableWord a) :
    write32 s a d = { s with
      writes := ((s.writes + 1) % 2 ^ 64 + 1) % 2 ^ 64
      ram := Function.update
        (Function.update s.ram ((a - 0x40000000) / 2) (storeHalf s ((d >>> 0) &&& 0xFFFF)))
        ((a + 2 - 0x40000000) / 2) (storeHalf s ((d >>> 16) &&& 0xFFFF)) } := by
  obtain ⟨h4, hr⟩ := h
  have h1 : 0x40000000 ≤ a := by omega
  obtain ⟨e1, _⟩ := ram_addr a h1 (by omega)
  unfold write32
  simp only []
  rw [if_neg (by rw [and_three_eq]; omega), if_neg (by rw [e1]; decide),
    if_neg (by rw [e1]; decide), if_neg (by rw [e1]; decide), if_pos e1,
    show add32 a 2 = a + 2 by unfold add32; omega, show add32 a 0 = a by unfold add32; omega,
    write16_ram s a _ (by omega) h1 (by omega) (by omega),
    write16_ram _ (a + 2) _ (by omega) (by omega) (by omega) (by omega)]
  rfl

theorem ramWord_congr (s t : Thumbulator) (a : Nat) (h1 : t.ram = s.ram)
    (h2 : t.MSB_FIRST = s.MSB_FIRST) : ramWord t a = ramWord s a := by
  unfold ramWord loadHalf
  rw [h1, h2]

/-- A stored word is read back. -/
theorem ramWord_write32_same (s : Thumbulator) (a d : Nat) (h : WritableWord a)
    (hd : d < 2 ^ 32) : ramWord (write32 s a d) a = d := by
  have h1 : 0x40000000 ≤ a := by have := h.1; have := h.2; omega
  rw [write32_ram s a d h]
  unfold ramWord
  simp only []
  rw [Function.update_same,
    Function.update_noteq (by have := h.1; omega : (a - 0x40000000) / 2 ≠ (a + 2 - 0x40000000) / 2),
    Function.update_same, loadHalf_storeHalf s _ (by rfl), loadHalf_storeHalf s _ (by rfl)]
  exact halves_eq d hd

/-- A store to one word leaves the other words as they were. -/
theorem ramWord_write32_other (s : Thumbulator) (a b d : Nat) (ha : WritableWord a)
    (hb : WritableWord b) (hab : b ≠ a) : ramWord (write32 s a d) b = ramWord s b := by
  have a4 := ha.1
  have b4 := hb.1
  have a1 : 0x40000000 ≤ a := by have := ha.2; omega
  have b1 : 0x40000000 ≤ b := by have := hb.2; omega
  rw [write32_ram s a d ha]
  unfold ramWord
  simp only []
  rw [Function.update_noteq (by omega), Function.update_noteq (by omega),
    Function.update_noteq (by omega), Function.update_noteq (by omega)]
  rfl

/-! ## Decoding -/

/-- Two patterns whose fixed bits disagree on a common mask bit match no
common opcode. -/
theorem pattern_disjoint {inst m v m' v' : Nat} (h : inst &&& m = v)
    (hd : v &&& m' ≠ v' &&& m) : inst &&& m' ≠ v' := by
  intro h'
  apply hd
  rw [← h, ← h', Nat.and_assoc, Nat.and_assoc, Nat.and_comm m m']

theorem runChain_cons (s : Thumbulator) (inst pc : Nat) (p : Pattern) (rest : List Pattern) :
    runChain s inst pc (p :: rest) =
      if inst &&& p.mask = p.value then
        match p.handler s inst pc with
        | some r => r
        | none => runChain s inst pc rest
      else runChain s inst pc rest := rfl

theorem runChain_skip (s : Thumbulator) (inst pc : Nat) (rest : List Pattern) :
    ∀ pre : List Pattern,
      (∀ q ∈ pre, inst &&& q.mask ≠ q.value ∨ q.handler s inst pc = none) →
      runChain s inst pc (pre ++ rest) = runChain s inst pc rest
  | [], _ => rfl
  | q :: pre, h => by
    have ih := runChain_skip s inst pc rest pre (fun x hx => h x (List.mem_cons_of_mem q hx))
    show runChain s inst pc (q :: (pre ++ rest)) = _
    rw [runChain_cons]
    rcases h q (List.mem_cons_self q pre) with hq | hq
    · rw [if_neg hq]; exact ih
    · rw [hq]; simp only [ite_self]; exact ih

theorem runChain_cons_hit (s : Thumbulator) (inst pc : Nat) (p : Pattern) (rest : List Pattern)
    (r : Nat × Thumbulator) (hm : inst &&& p.mask = p.value)
    (hh : p.handler s inst pc = some r) : runChain s inst pc (p :: rest) = r := by
  rw [runChain_cons, if_pos hm, hh]

/-- Decoding: an opcode matching `(m, v)` that no block before position `n`
can match is handled by block `n` of the chain when that block matches and
returns. -/
theorem decode_hit (s : Thumbulator) (inst pc n m v : Nat) (p : Pattern)
    (rest : List Pattern) (r : Nat × Thumbulator) (h : inst &&& m = v)
    (hpre : ∀ q ∈ chain.take n, v &&& q.mask ≠ q.value &&& m)
    (hp : chain.drop n = p :: rest) (hm : inst &&& p.mask = p.value)
    (hh : p.handler s inst pc = some r) : runChain s inst pc chain = r := by
  have e : chain = chain.take n ++ (p :: rest) := by rw [← hp, List.take_append_drop]
  rw [e, runChain_skip s inst pc (p :: rest) (chain.take n)
    (fun q hq => Or.inl (pattern_disjoint h (hpre q hq)))]
  exact runChain_cons_hit s inst pc p rest r hm hh

theorem decode_B2 (s : Thumbulator) (inst pc : Nat) (h : inst &&& 0xF800 = 0xE000) :
    runChain s inst pc chain = exec_B2 s inst pc :=
  decode_hit s inst pc 12 0xF800 0xE000 _ _ _ h (by decide) rfl h rfl

theorem decode_BKPT (s : Thumbulator) (inst pc : Nat) (h : inst &&& 0xFF00 = 0xBE00) :
    runChain s inst pc chain = (1, s) :=
  decode_hit s inst pc 14 0xFF00 0xBE00 _ _ _ h (by decide) rfl h rfl

/-! ## The register-list loops -/

theorem regListLoop_succ {σ : Type} (inst : Nat) (body : Nat → σ → σ) (fuel ra rb : Nat)
    (st : σ) :
    regListLoop inst body (fuel + 1) ra rb st =
      if rb ≠ 0 then
        regListLoop inst body fuel (add32 ra 1) (shl32 rb 1 &&& 0xFF)
          (if inst &&& rb ≠ 0 then body ra st else st)
      else (ra, rb, st) := rfl

theorem regListLoop_done {σ : Type} (inst : Nat) (body : Nat → σ → σ) (ra : Nat) (st : σ) :
    ∀ fuel, regListLoop inst body fuel ra 0 st = (ra, 0, st)
  | 0 => rfl
  | fuel + 1 => by rw [regListLoop_succ, if_neg (by decide)]

/-- With eight or more iterations allowed, the register-list loop runs the
body for `ra = 0..7` with `rb = 1 << ra` and then stops with `ra = 8`, `rb = 0`. -/
theorem regListLoop_unroll {σ : Type} (inst : Nat) (body : Nat → σ → σ) (st : σ) (n : Nat) :
    regListLoop inst body (n + 8) 0 0x01 st =
      (8, 0, List.foldl (regStep inst body) st [0, 1, 2, 3, 4, 5, 6, 7]) := by
  show regListLoop inst body (n + 7 + 1) 0 1 st = _
  rw [regListLoop_succ, if_pos (by decide), show add32 0 1 = 1 from rfl,
    show shl32 1 1 &&& 0xFF = 2 from rfl]
  rw [regListLoop_succ, if_pos (by decide), show add32 1 1 = 2 from rfl,
    show shl32 2 1 &&& 0xFF = 4 from rfl]
  rw [regListLoop_succ, if_pos (by decide), show add32 2 1 = 3 from rfl,
    show shl32 4 1 &&& 0xFF = 8 from rfl]
  rw [regListLoop_succ, if_pos (by decide), show add32 3 1 = 4 from rfl,
    show shl32 8 1 &&& 0xFF = 16 from rfl]
  rw [regListLoop_succ, if_pos (by decide), show add32 4 1 = 5 from rfl,
    show shl32 16 1 &&& 0xFF = 32 from rfl]
  rw [regListLoop_succ, if_pos (by decide), show add32 5 1 = 6 from rfl,
    show shl32 32 1 &&& 0xFF = 64 from rfl]
  rw [regListLoop_succ, if_pos (by decide), show add32 6 1 = 7 from rfl,
    show shl32 64 1 &&& 0xFF = 128 from rfl]
  rw [regListLoop_succ, if_pos (by decide), show add32 7 1 = 8 from rfl,
    show shl32 128 1 &&& 0xFF = 0 from rfl]
  rw [regListLoop_done]
  rfl

/-! ## The loop of `run` -/

/-- The state after `reset`. -/
theorem reset_snd (s : Thumbulator) :
    (reset s).2 = { s with
      cpsr := 0xF3
      reg_svc := Function.update (Function.update s.reg_svc 13 0x40001fb4) 14 0x00000c00
      reg_sys := Function.update s.reg_sys 15 0x00000c0b
      mamcr := 0, instructions := 0, fetches := 0, reads := 0, writes := 0 } := rfl

theorem runLoop_succ (fuel : Nat) (s : Thumbulator) :
    runLoop (fuel + 1) s =
      if (execute s).1 ≠ 0 then some (execute s).2
      else if (execute s).2.instructions > 500000 then some (execute s).2
      else runLoop fuel (execute s).2 := rfl

/-- More fuel does not change the result of a loop that has exited. -/
theorem runLoop_mono : ∀ (fuel : Nat) (s t : Thumbulator), runLoop fuel s = some t →
    ∀ k, runLoop (fuel + k) s = some t
  | 0, _, _, h, _ => by simp [runLoop] at h
  | fuel + 1, s, t, h, k => by
    rw [show fuel + 1 + k = (fuel + k) + 1 by omega, runLoop_succ]
    rw [runLoop_succ] at h
    split
    · rwa [if_pos (by assumption)] at h
    · rw [if_neg (by assumption)] at h
      split
      · rwa [if_pos (by assumption)] at h
      · rw [if_neg (by assumption)] at h
        exact runLoop_mono fuel _ t h k

/-- From a state whose counter is `500001 - n`, the loop exits within `n`
calls of `execute`, with the counter at most 500001. -/
theorem runLoop_exits : ∀ (n : Nat) (s : Thumbulator), s.instructions + n = 500001 → 1 ≤ n →
    ∃ t, runLoop n s = some t ∧ t.instructions ≤ 500001
  | 0, _, _, h1 => absurd h1 (by decide)
  | n + 1, s, h, _ => by
    have hi : (execute s).2.instructions = s.instructions + 1 := by
      rw [execute_instructions]; omega
    rw [runLoop_succ]
    split
    · exact ⟨_, rfl, by omega⟩
    · split
      · exact ⟨_, rfl, by omega⟩
      · exact runLoop_exits n (execute s).2 (by omega) (by omega)

/-- Loop exit of `run` for every state. -/
theorem run_exits (s : Thumbulator) :
    ∃ t, (∀ k, run (500001 + k) s = some t) ∧ t.instructions ≤ 500001 := by
  obtain ⟨t, ht, hle⟩ := runLoop_exits 500001 (reset s).2 (Nat.zero_add 500001)
    (Nat.le_add_left 1 500000)
  exact ⟨t, fun k => runLoop_mono 500001 _ t ht k, hle⟩

/-- The fetch at the reset entry point `0xc09` reads ROM halfword `0x604`. -/
theorem fetch16_entry (t : Thumbulator) :
    (fetch16 t 0xc09).1 = loadHalf t (t.rom 0x604) := by
  unfold fetch16
  simp only []
  rw [if_pos (by decide), if_neg (by decide)]
  rfl

/-! ## Block transfers: registers, register lists and loops -/

theorem low_reg_index : ∀ r < 8, r &&& 0xF = r ∧ r ≠ 13 ∧ r ≠ 14 ∧ r ≠ 15 := by decide

theorem read_register_low (s : Thumbulator) (r : Nat) (h : s.cpsr &&& 0x1F = MODE_SVC)
    (hr : r < 8) : read_register s r = s.reg_sys r := by
  obtain ⟨e, h13, h14, _⟩ := low_reg_index r hr
  unfold read_register
  simp only []
  rw [if_pos h, e, if_neg (by omega)]

theorem write_register_low (s : Thumbulator) (r v : Nat) (h : s.cpsr &&& 0x1F = MODE_SVC)
    (hr : r < 8) :
    (write_register s r v).2 = { s with reg_sys := Function.update s.reg_sys r v } := by
  obtain ⟨e, h13, h14, _⟩ := low_reg_index r hr
  unfold write_register
  simp only []
  rw [if_pos h, e, if_neg (by omega)]

theorem read_register_13 (s : Thumbulator) (h : s.cpsr &&& 0x1F = MODE_SVC) :
    read_register s 13 = s.reg_svc 13 := by
  have e : (13 : Nat) &&& 0xF = 13 := by decide
  simp [read_register, h, e]

theorem write_register_13 (s : Thumbulator) (v : Nat) (h : s.cpsr &&& 0x1F = MODE_SVC) :
    (write_register s 13 v).2 = { s with reg_svc := Function.update s.reg_svc 13 v } := by
  have e : (13 : Nat) &&& 0xF = 13 := by decide
  simp [write_register, h, e]

/-- In an opcode `hi | L` with an 8-bit list `L` below the fixed bits `hi`,
the loop test `inst & rb` for `rb = 1 << ra` reads bit `ra` of `L`. -/
theorem list_bit (hi L : Nat) (hhi : hi % 2 ^ 8 = 0) (ra : Nat) (hra : ra < 8) :
    (hi ||| L) &&& (1 <<< ra) ≠ 0 ↔ L.testBit ra = true := by
  rw [Nat.one_shiftLeft, and_two_pow_ne_zero, Nat.testBit_or]
  have h0 : hi.testBit ra = false := by
    have := Nat.testBit_mod_two_pow hi 8 ra
    rw [hhi, Nat.zero_testBit] at this
    simpa [hra] using this.symm
  rw [h0, Bool.false_or]

theorem listOffset_succ (L n : Nat) :
    listOffset L (n + 1) = listOffset L n + (if L.testBit n = true then 4 else 0) := by
  unfold listOffset
  rw [List.range_succ, List.countP_append, List.countP_singleton]
  split <;> omega

theorem listOffset_mono (L : Nat) : ∀ (n r : Nat), r < n → L.testBit r = true →
    listOffset L r + 4 ≤ listOffset L n
  | 0, _, h, _ => absurd h (Nat.not_lt_zero _)
  | n + 1, r, h, hb => by
    rw [listOffset_succ]
    by_cases hr : r = n
    · subst hr; rw [if_pos hb]
    · have := listOffset_mono L n r (by omega) hb
      omega

theorem listOffset_le (L : Nat) : ∀ n, listOffset L n ≤ 4 * n
  | 0 => by simp [listOffset]
  | n + 1 => by
    rw [listOffset_succ]
    have := listOffset_le L n
    split <;> omega

theorem listOffset_eight (L : Nat) : listOffset L 8 = 4 * popcount8 L := rfl

theorem foldl_range_succ {σ : Type} (f : σ → Nat → σ) (st : σ) (n : Nat) :
    (List.range (n + 1)).foldl f st = f ((List.range n).foldl f st) n := by
  rw [List.range_succ, List.foldl_append]
  rfl

theorem regStep_eq {σ : Type} (inst : Nat) (body : Nat → σ → σ) (st : σ) (ra : Nat) :
    regStep inst body st ra = if inst &&& (1 <<< ra) ≠ 0 then body ra st else st := rfl

/-- The address reached by a register-list loop whose body advances it by 4. -/
theorem fold_sp (inst L : Nat) (body : Nat → Nat × Thumbulator → Nat × Thumbulator)
    (hbody : ∀ ra st, (body ra st).1 = add32 st.1 4)
    (hbit : ∀ ra < 8, (inst &&& (1 <<< ra) ≠ 0 ↔ L.testBit ra = true))
    (st : Nat × Thumbulator) (hst : st.1 < 2 ^ 32) :
    ∀ n, n ≤ 8 →
      ((List.range n).foldl (regStep inst body) st).1 = (st.1 + listOffset L n) % 2 ^ 32
  | 0, _ => by
    show st.1 = (st.1 + listOffset L 0) % 2 ^ 32
    rw [show listOffset L 0 = 0 from rfl]
    omega
  | n + 1, hn => by
    have ih := fold_sp inst L body hbody hbit st hst n (by omega)
    rw [foldl_range_succ, listOffset_succ, regStep_eq]
    by_cases hb : L.testBit n = true
    · rw [if_pos ((hbit n (by omega)).mpr hb), hbody, ih, if_pos hb]
      unfold add32
      omega
    · rw [if_neg (fun h => hb ((hbit n (by omega)).mp h)), ih, if_neg hb]
      rfl

/-- A property of the state kept by the body is kept by the loop. -/
theorem fold_inv (inst : Nat) (body : Nat → Nat × Thumbulator → Nat × Thumbulator)
    (P : Thumbulator → Prop) (hbody : ∀ ra st, P st.2 → P (body ra st).2)
    (st : Nat × Thumbulator) (hst : P st.2) :
    ∀ l : List Nat, P (l.foldl (regStep inst body) st).2 := by
  intro l
  induction l generalizing st with
  | nil => exact hst
  | cons ra l ih =>
    rw [List.foldl_cons]
    apply ih
    rw [regStep_eq]
    split
    · exact hbody ra st hst
    · exact hst

theorem write_register_frame (s : Thumbulator) (reg data : Nat) :
    (write_register s reg data).2.cpsr = s.cpsr ∧ (write_register s reg data).2.ram = s.ram ∧
    (write_register s reg data).2.MSB_FIRST = s.MSB_FIRST ∧
    (write_register s reg data).2.rom = s.rom := by
  unfold write_register
  simp only []
  repeat' split
  all_goals exact ⟨rfl, rfl, rfl, rfl⟩

theorem storeBody_fst (ra : Nat) (st : Nat × Thumbulator) :
    (storeBody ra st).1 = add32 st.1 4 := rfl

theorem loadBody_fst (ra : Nat) (st : Nat × Thumbulator) :
    (loadBody ra st).1 = add32 st.1 4 := rfl

theorem storeBody_snd (ra : Nat) (st : Nat × Thumbulator) :
    (storeBody ra st).2 = write32 st.2 st.1 (read_register st.2 ra) := rfl

theorem loadBody_snd (ra : Nat) (st : Nat × Thumbulator) :
    (loadBody ra st).2 = (write_register (read32 st.2 st.1).2 ra (read32 st.2 st.1).1).2 := rfl

theorem storeBody_cpsr (ra : Nat) (st : Nat × Thumbulator) :
    (storeBody ra st).2.cpsr = st.2.cpsr := by
  rw [storeBody_snd]; exact (write32_frame _ _ _).1

theorem loadBody_cpsr (ra : Nat) (st : Nat × Thumbulator) :
    (loadBody ra st).2.cpsr = st.2.cpsr := by
  rw [loadBody_snd, (write_register_frame _ _ _).1, read32_snd]

theorem exec_STMIA_eq (s : Thumbulator) (inst : Nat) :
    exec_STMIA s inst =
      (0, (write_register
        ((List.range 8).foldl (regStep inst storeBody)
          (read_register s ((inst >>> 8) &&& 0x7), s)).2 ((inst >>> 8) &&& 0x7)
        ((List.range 8).foldl (regStep inst storeBody)
          (read_register s ((inst >>> 8) &&& 0x7), s)).1).2) := by
  unfold exec_STMIA
  simp only []
  rw [show regListFuel = 1 + 8 from rfl, regListLoop_unroll,
    show [0, 1, 2, 3, 4, 5, 6, 7] = List.range 8 from rfl]

theorem exec_LDMIA_eq (s : Thumbulator) (inst : Nat) :
    exec_LDMIA s inst =
      (0, (write_register
        ((List.range 8).foldl (regStep inst loadBody)
          (read_register s ((inst >>> 8) &&& 0x7), s)).2 ((inst >>> 8) &&& 0x7)
        ((List.range 8).foldl (regStep inst loadBody)
          (read_register s ((inst >>> 8) &&& 0x7), s)).1).2) := by
  unfold exec_LDMIA
  simp only []
  rw [show regListFuel = 1 + 8 from rfl, regListLoop_unroll,
    show [0, 1, 2, 3, 4, 5, 6, 7] = List.range 8 from rfl]

theorem decode_LDMIA (s : Thumbulator) (inst pc : Nat) (h : inst &&& 0xF800 = 0xC800) :
    runChain s inst pc chain = exec_LDMIA s inst :=
  decode_hit s inst pc 25 0xF800 0xC800 _ _ _ h (by decide) rfl h rfl

theorem decode_STMIA (s : Thumbulator) (inst pc : Nat) (h : inst &&& 0xF800 = 0xC000) :
    runChain s inst pc chain = exec_STMIA s inst :=
  decode_hit s inst pc 55 0xF800 0xC000 _ _ _ h (by decide) rfl h rfl

theorem decode_POP (s : Thumbulator) (inst pc : Nat) (h : inst &&& 0xFE00 = 0xBC00) :
    runChain s inst pc chain = exec_POP s inst :=
  decode_hit s inst pc 47 0xFE00 0xBC00 _ _ _ h (by decide) rfl h rfl

theorem decode_PUSH (s : Thumbulator) (inst pc : Nat) (h : inst &&& 0xFE00 = 0xB400) :
    runChain s inst pc chain = exec_PUSH s inst :=
  decode_hit s inst pc 48 0xFE00 0xB400 _ _ _ h (by decide) rfl h rfl

/-- Bit facts of the LDMIA/STMIA encodings `base | rn << 8 | L`. -/
theorem block_bits : ∀ rn < 8, ∀ L < 256,
    (0xC000 ||| (rn <<< 8) ||| L) &&& 0xF800 = 0xC000 ∧
    ((0xC000 ||| (rn <<< 8) ||| L) >>> 8) &&& 0x7 = rn ∧
    (0xC800 ||| (rn <<< 8) ||| L) &&& 0xF800 = 0xC800 ∧
    ((0xC800 ||| (rn <<< 8) ||| L) >>> 8) &&& 0x7 = rn ∧
    (0xC000 ||| (rn <<< 8)) % 2 ^ 8 = 0 ∧ (0xC800 ||| (rn <<< 8)) % 2 ^ 8 = 0 := by
  decide!

/-- Bit facts of the PUSH/POP encodings `base | L` without the LR/PC bit. -/
theorem stack_bits : ∀ L < 256,
    (0xB400 ||| L) &&& 0xFE00 = 0xB400 ∧ (0xB400 ||| L) &&& 0x100 = 0 ∧
    (0xBC00 ||| L) &&& 0xFE00 = 0xBC00 ∧ (0xBC00 ||| L) &&& 0x100 = 0 := by
  decide!

theorem read_write_register_low (s : Thumbulator) (r v : Nat)
    (h : s.cpsr &&& 0x1F = MODE_SVC) (hr : r < 8) :
    read_register (write_register s r v).2 r = v := by
  rw [read_register_low _ r (by rw [(write_register_frame s r v).1]; exact h) hr,
    write_register_low s r v h hr]
  exact Function.update_same _ _ _

/-- Register `rn` after a block-transfer handler whose loop body advances the
address by 4 and keeps `cpsr`. -/
theorem block_writeback (s : Thumbulator) (inst rn L : Nat)
    (body : Nat → Nat × Thumbulator → Nat × Thumbulator)
    (hfst : ∀ ra st, (body ra st).1 = add32 st.1 4)
    (hcpsr : ∀ ra st, (body ra st).2.cpsr = st.2.cpsr)
    (hbit : ∀ ra < 8, (inst &&& (1 <<< ra) ≠ 0 ↔ L.testBit ra = true))
    (hsvc : s.cpsr &&& 0x1F = MODE_SVC) (hrn : rn < 8) (hB : read_register s rn < 2 ^ 32) :
    read_register (write_register
        ((List.range 8).foldl (regStep inst body) (read_register s rn, s)).2 rn
        ((List.range 8).foldl (regStep inst body) (read_register s rn, s)).1).2 rn
      = (read_register s rn + 4 * popcount8 L) % 2 ^ 32 := by
  have hc := fold_inv inst body (fun t => t.cpsr = s.cpsr)
    (fun ra st h => (hcpsr ra st).trans h) (read_register s rn, s) rfl (List.range 8)
  rw [read_write_register_low _ rn _ (by rw [hc]; exact hsvc) hrn,
    fold_sp inst L body hfst hbit _ hB 8 (Nat.le_refl 8), listOffset_eight]

/-- The addresses of a block transfer over writable words do not wrap. -/
theorem block_addr_lt (L base : Nat) (hbase : base < 2 ^ 32)
    (hgood : ∀ r < 8, L.testBit r = true → WritableWord (base + listOffset L r)) :
    ∀ n, n ≤ 8 → base + listOffset L n < 2 ^ 32
  | 0, _ => by rw [show listOffset L 0 = 0 from rfl]; omega
  | n + 1, hn => by
    have ih := block_addr_lt L base hbase hgood n (by omega)
    rw [listOffset_succ]
    split
    · next hb =>
      have := (hgood n (by omega) hb).2
      omega
    · omega

/-- The store loop of PUSH and STMIA over registers `0..n-1`, from the address
`base`, when every listed register gets a writable word. -/
theorem storeFold (inst L base : Nat) (s : Thumbulator) (hsvc : s.cpsr &&& 0x1F = MODE_SVC)
    (hbit : ∀ ra < 8, (inst &&& (1 <<< ra) ≠ 0 ↔ L.testBit ra = true))
    (hregs : ∀ r < 8, s.reg_sys r < 2 ^ 32) (hbase : base < 2 ^ 32)
    (hgood : ∀ r < 8, L.testBit r = true → WritableWord (base + listOffset L r)) :
    ∀ n, n ≤ 8 →
      ((List.range n).foldl (regStep inst storeBody) (base, s)).1 = base + listOffset L n ∧
      ((List.range n).foldl (regStep inst storeBody) (base, s)).2.reg_sys = s.reg_sys ∧
      ((List.range n).foldl (regStep inst storeBody) (base, s)).2.reg_svc = s.reg_svc ∧
      ((List.range n).foldl (regStep inst storeBody) (base, s)).2.cpsr = s.cpsr ∧
      ((List.range n).foldl (regStep inst storeBody) (base, s)).2.MSB_FIRST = s.MSB_FIRST ∧
      ∀ r < n, L.testBit r = true →
        ramWord ((List.range n).foldl (regStep inst storeBody) (base, s)).2
          (base + listOffset L r) = s.reg_sys r
  | 0, _ => ⟨rfl, rfl, rfl, rfl, rfl, fun r hr => absurd hr (Nat.not_lt_zero r)⟩
  | n + 1, hn => by
    obtain ⟨i1, i2, i3, i4, i5, i6⟩ :=
      storeFold inst L base s hsvc hbit hregs hbase hgood n (by omega)
    rw [foldl_range_succ, regStep_eq, listOffset_succ]
    generalize (List.range n).foldl (regStep inst storeBody) (base, s) = F at i1 i2 i3 i4 i5 i6
    by_cases hb : L.testBit n = true
    · have hw := hgood n (by omega) hb
      have hF : F.2.cpsr &&& 0x1F = MODE_SVC := by rw [i4]; exact hsvc
      obtain ⟨f1, f2, f3, _, f5⟩ := write32_frame F.2 F.1 (read_register F.2 n)
      rw [if_pos ((hbit n (by omega)).mpr hb), if_pos hb, storeBody_fst, storeBody_snd]
      refine ⟨?_, f2.trans i2, f3.trans i3, f1.trans i4, f5.trans i5, fun r hr hbr => ?_⟩
      · rw [i1]
        have := block_addr_lt L base hbase hgood (n + 1) hn
        rw [listOffset_succ, if_pos hb] at this
        unfold add32
        omega
      · rw [i1, read_register_low F.2 n hF (by omega), i2]
        by_cases hrn : r = n
        · subst hrn
          exact ramWord_write32_same F.2 _ _ hw (hregs r (by omega))
        · have hlt : r < n := by omega
          have hm := listOffset_mono L n r hlt hbr
          rw [ramWord_write32_other F.2 _ _ _ hw (hgood r (by omega) hbr) (by omega)]
          exact i6 r hlt hbr
    · rw [if_neg (fun h => hb ((hbit n (by omega)).mp h)), if_neg hb]
      refine ⟨i1, i2, i3, i4, i5, fun r hr hbr => ?_⟩
      have hlt : r < n := by
        rcases Nat.lt_succ_iff_lt_or_eq.mp hr with h | h
        · exact h
        · subst h; exact absurd hbr hb
      exact i6 r hlt hbr

/-- The load loop of POP and LDMIA over registers `0..n-1`, from the address
`base`, when every listed register has a writable word. -/
theorem loadFold (inst L base : Nat) (t : Thumbulator) (hsvc : t.cpsr &&& 0x1F = MODE_SVC)
    (hbit : ∀ ra < 8, (inst &&& (1 <<< ra) ≠ 0 ↔ L.testBit ra = true))
    (hbase : base < 2 ^ 32)
    (hgood : ∀ r < 8, L.testBit r = true → WritableWord (base + listOffset L r)) :
    ∀ n, n ≤ 8 →
      ((List.range n).foldl (regStep inst loadBody) (base, t)).1 = base + listOffset L n ∧
      ((List.range n).foldl (regStep inst loadBody) (base, t)).2.ram = t.ram ∧
      ((List.range n).foldl (regStep inst loadBody) (base, t)).2.reg_svc = t.reg_svc ∧
      ((List.range n).foldl (regStep inst loadBody) (base, t)).2.cpsr = t.cpsr ∧
      ((List.range n).foldl (regStep inst loadBody) (base, t)).2.MSB_FIRST = t.MSB_FIRST ∧
      ∀ r < n, L.testBit r = true →
        ((List.range n).foldl (regStep inst loadBody) (base, t)).2.reg_sys r
          = ramWord t (base + listOffset L r)
  | 0, _ => ⟨rfl, rfl, rfl, rfl, rfl, fun r hr => absurd hr (Nat.not_lt_zero r)⟩
  | n + 1, hn => by
    obtain ⟨i1, i2, i3, i4, i5, i6⟩ := loadFold inst L base t hsvc hbit hbase hgood n (by omega)
    rw [foldl_range_succ, regStep_eq, listOffset_succ]
    generalize (List.range n).foldl (regStep inst loadBody) (base, t) = G at i1 i2 i3 i4 i5 i6
    by_cases hb : L.testBit n = true
    · have hw := hgood n (by omega) hb
      have hG : (read32 G.2 G.1).2.cpsr &&& 0x1F = MODE_SVC := by
        rw [read32_snd, i4]; exact hsvc
      rw [if_pos ((hbit n (by omega)).mpr hb), if_pos hb, loadBody_fst, loadBody_snd,
        write_register_low _ n _ hG (by omega)]
      refine ⟨?_, ?_, ?_, ?_, ?_, fun r hr hbr => ?_⟩
      · rw [i1]
        have := block_addr_lt L base hbase hgood (n + 1) hn
        rw [listOffset_succ, if_pos hb] at this
        unfold add32
        omega
      · rw [read32_snd]; exact i2
      · rw [read32_snd]; exact i3
      · rw [read32_snd]; exact i4
      · rw [read32_snd]; exact i5
      · show Function.update (read32 G.2 G.1).2.reg_sys n (read32 G.2 G.1).1 r = _
        by_cases hrn : r = n
        · subst hrn
          rw [Function.update_same, i1, read32_ram _ _ hw]
          exact ramWord_congr t G.2 _ i2 i5
        · have hlt : r < n := by omega
          rw [Function.update_noteq hrn, read32_snd]
          exact i6 r hlt hbr
    · rw [if_neg (fun h => hb ((hbit n (by omega)).mp h)), if_neg hb]
      refine ⟨i1, i2, i3, i4, i5, fun r hr hbr => ?_⟩
      have hlt : r < n := by
        rcases Nat.lt_succ_iff_lt_or_eq.mp hr with h | h
        · exact h
        · subst h; exact absurd hbr hb
      exact i6 r hlt hbr

/-- The counting loop of PUSH counts the listed registers. -/
theorem countFold (inst L : Nat)
    (hbit : ∀ ra < 8, (inst &&& (1 <<< ra) ≠ 0 ↔ L.testBit ra = true)) :
    ∀ n, n ≤ 8 →
      (List.range n).foldl (regStep inst countBody) 0
        = (List.range n).countP (fun i => L.testBit i)
  | 0, _ => rfl
  | n + 1, hn => by
    have ih := countFold inst L hbit n (by omega)
    have hle : (List.range n).countP (fun i => L.testBit i) ≤ n := by
      have := List.countP_le_length (fun i => L.testBit i) (l := List.range n)
      rwa [List.length_range] at this
    rw [foldl_range_succ, regStep_eq, ih, List.range_succ, List.countP_append,
      List.countP_singleton]
    by_cases hb : L.testBit n = true
    · rw [if_pos ((hbit n (by omega)).mpr hb), if_pos hb]
      unfold countBody add32
      omega
    · rw [if_neg (fun h => hb ((hbit n (by omega)).mp h)), if_neg hb]
      rfl

theorem popcount8_le (L : Nat) : popcount8 L ≤ 8 := by
  have := List.countP_le_length (fun i => L.testBit i) (l := List.range 8)
  rwa [List.length_range] at this

theorem exec_PUSH_eq (s : Thumbulator) (inst L : Nat)
    (hbit : ∀ ra < 8, (inst &&& (1 <<< ra) ≠ 0 ↔ L.testBit ra = true))
    (h100 : inst &&& 0x100 = 0) :
    exec_PUSH s inst =
      (0, (write_register
        ((List.range 8).foldl (regStep inst storeBody)
          (sub32 (read_register s 13) (4 * popcount8 L), s)).2 13
        (sub32 (read_register s 13) (4 * popcount8 L))).2) := by
  have hk := popcount8_le L
  have h4 : shl32 (popcount8 L) 2 = 4 * popcount8 L := by
    unfold shl32; rw [Nat.shiftLeft_eq]; omega
  unfold exec_PUSH
  simp only []
  rw [show regListFuel = 1 + 8 from rfl, regListLoop_unroll, regListLoop_unroll,
    show [0, 1, 2, 3, 4, 5, 6, 7] = List.range 8 from rfl, countFold inst L hbit 8 (Nat.le_refl 8),
    if_neg (not_not.mpr h100), if_neg (not_not.mpr h100)]
  simp only []
  rw [show List.countP (fun i => L.testBit i) (List.range 8) = popcount8 L from rfl, h4]

theorem exec_POP_eq (s : Thumbulator) (inst : Nat) (h100 : inst &&& 0x100 = 0) :
    exec_POP s inst =
      (0, (write_register
        ((List.range 8).foldl (regStep inst loadBody) (read_register s 13, s)).2 13
        ((List.range 8).foldl (regStep inst loadBody) (read_register s 13, s)).1).2) := by
  unfold exec_POP
  simp only []
  rw [show regListFuel = 1 + 8 from rfl, regListLoop_unroll,
    show [0, 1, 2, 3, 4, 5, 6, 7] = List.range 8 from rfl, if_neg (not_not.mpr h100)]

/-- Words of a contiguous range of writable bytes are writable words. -/
theorem writable_words (L base : Nat) (hb4 : base % 4 = 0)
    (hram : ∀ x, base ≤ x → x < base + 4 * popcount8 L → InWritableRAM x) :
    ∀ r < 8, L.testBit r = true → WritableWord (base + listOffset L r) := by
  intro r hr hbr
  have hm := listOffset_mono L 8 r hr hbr
  rw [listOffset_eight] at hm
  have h4 : listOffset L r % 4 = 0 := by unfold listOffset; omega
  have w0 := hram (base + listOffset L r) (by omega) (by omega)
  have w3 := hram (base + listOffset L r + 3) (by omega) (by omega)
  unfold InWritableRAM at w0 w3
  unfold WritableWord
  omega

/-! ## The B(2) step -/

/-- Bit facts of the B(2) encoding `0xE000 | imm11`. -/
theorem imm11_bits : ∀ imm < 2048,
    (0xE000 ||| imm) &&& 0xF800 = 0xE000 ∧ ((0xE000 ||| imm) >>> 0) &&& 0x7FF = imm ∧
    (imm &&& (1 <<< 10) ≠ 0 ↔ 1024 ≤ imm) ∧
    imm ||| shl32 (not32 0) 11 = imm + 0xFFFFF800 := by
  decide!

/-- The branch target computed by the B(2) block. -/
theorem exec_B2_target (imm pc : Nat) (himm : imm < 2048) :
    add32 (add32 (shl32 (if ((0xE000 ||| imm) >>> 0) &&& 0x7FF &&& (1 <<< 10) ≠ 0 then
        ((0xE000 ||| imm) >>> 0) &&& 0x7FF ||| shl32 (not32 0) 11
        else ((0xE000 ||| imm) >>> 0) &&& 0x7FF) 1) pc) 2 =
      (pc + 2 + 2 * imm + (if 1024 ≤ imm then 2 ^ 32 - 4096 else 0)) % 2 ^ 32 := by
  obtain ⟨_, h2, h3, h4⟩ := imm11_bits imm himm
  rw [h2]
  by_cases h : 1024 ≤ imm
  · rw [if_pos (h3.mpr h), h4, if_pos h]
    simp only [add32, shl32, Nat.shiftLeft_eq]
    omega
  · rw [if_neg (fun hh => h (h3.mp hh)), if_neg h]
    simp only [add32, shl32, Nat.shiftLeft_eq]
    omega

/-- One `execute` step on a B(2) opcode, as a state. -/
theorem execute_B2 (s : Thumbulator) (imm : Nat) (himm : imm < 2048)
    (hsvc : s.cpsr &&& 0x1F = MODE_SVC) (hfetch : Fetches s (0xE000 ||| imm)) :
    execute s = (0, { s with
      fetches := (s.fetches + 1) % 2 ^ 64
      instructions := (s.instructions + 1) % 2 ^ 64
      reg_sys := Function.update s.reg_sys 15
        ((add32 (s.reg_sys 15) 2 + 2 + 2 * imm + (if 1024 ≤ imm then 2 ^ 32 - 4096 else 0))
          % 2 ^ 32) }) := by
  unfold Fetches at hfetch
  rw [execute_eq, hfetch, decode_B2 _ _ _ (imm11_bits imm himm).1]
  unfold exec_B2
  simp only []
  rw [exec_B2_target imm _ himm, entered_svc s hsvc, read_register_15 s hsvc]
  simp [write_register, hsvc]

/-! ## The breakpoint step -/

theorem imm8_bkpt : ∀ imm8 < 256, (0xBE00 ||| imm8) &&& 0xFF00 = 0xBE00 := by
  decide!

/-- One `execute` step on a breakpoint opcode: the prologue, then `return(1)`. -/
theorem execute_BKPT (s : Thumbulator) (imm8 : Nat) (himm : imm8 < 256)
    (hfetch : Fetches s (0xBE00 ||| imm8)) : execute s = (1, entered s) := by
  unfold Fetches at hfetch
  rw [execute_eq, hfetch, decode_BKPT _ _ _ (imm8_bkpt imm8 himm)]

/-! ## Claim C1: `do_cflag` -/

/-- C1: for 32-bit `a`, `b` and `c` in {0,1}, after `do_cflag(a,b,c)` bit 29
(the C bit) of `cpsr` is set exactly when `a + b + c >= 2^32` over the
naturals, and every other bit of `cpsr` is unchanged. -/
theorem do_cflag_carry_out (s : Thumbulator) (a b c : Nat) (hs : s.cpsr < 2 ^ 32)
    (ha : a < 2 ^ 32) (hb : b < 2 ^ 32) (hc : c ≤ 1) :
    ((do_cflag s a b c).cpsr.testBit 29 = true ↔ 2 ^ 32 ≤ a + b + c) ∧
    ∀ i, i ≠ 29 → (do_cflag s a b c).cpsr.testBit i = s.cpsr.testBit i := by
  refine ⟨?_, fun i hi => ?_⟩
  · rw [do_cflag_testBit s a b c hs ha hb hc]; simp
  · rw [do_cflag_testBit s a b c hs ha hb hc, if_neg hi]

/-- Witness for C1 at `a = b = 0x80000000`, `c = 0`: the carry is set. -/
theorem do_cflag_carry_out_witness :
    ((do_cflag ⟨false, fun _ => 0, fun _ => 0, 0, 0xF3, fun _ => 0, fun _ => 0, 0, 0, 0, 0, 0⟩
        0x80000000 0x80000000 0).cpsr.testBit 29 = true ↔
      2 ^ 32 ≤ 0x80000000 + 0x80000000 + 0) ∧
    ∀ i, i ≠ 29 →
      (do_cflag ⟨false, fun _ => 0, fun _ => 0, 0, 0xF3, fun _ => 0, fun _ => 0, 0, 0, 0, 0, 0⟩
        0x80000000 0x80000000 0).cpsr.testBit i = (0xF3 : Nat).testBit i :=
  do_cflag_carry_out ⟨false, fun _ => 0, fun _ => 0, 0, 0xF3, fun _ => 0, fun _ => 0, 0, 0, 0, 0, 0⟩
    0x80000000 0x80000000 0 (by decide) (by decide) (by decide) (by decide)

/-! ## Claim C2: the instruction ceiling of `run` -/

theorem spinning_step (t : Thumbulator) (h : Spinning t) :
    (execute t).1 = 0 ∧ Spinning (execute t).2 := by
  obtain ⟨h1, h2, h3, h4⟩ := h
  have hsvc : t.cpsr &&& 0x1F = MODE_SVC := by rw [h3]; decide
  have hfetch : Fetches t (0xE000 ||| 0x7FE) := by
    unfold Fetches
    rw [read_register_15 t hsvc, h4, show sub32 0xc0b 2 = 0xc09 by decide, fetch16_entry]
    simp [loadHalf, h1, h2]
  rw [execute_B2 t 0x7FE (by decide) hsvc hfetch]
  refine ⟨rfl, h1, h2, h3, ?_⟩
  simp +decide [h4, add32]

theorem spinning_reset : Spinning (reset spinState).2 := by
  refine ⟨rfl, rfl, by decide, by simp [reset]⟩

theorem spinning_runs_on : ∀ (n : Nat) (t : Thumbulator), Spinning t →
    t.instructions + n ≤ 500000 → runLoop n t = none
  | 0, _, _, _ => rfl
  | n + 1, t, h, hn => by
    obtain ⟨h0, hs⟩ := spinning_step t h
    have hi : (execute t).2.instructions = t.instructions + 1 := by
      rw [execute_instructions]; omega
    rw [runLoop_succ, if_neg (by rw [h0]; decide), if_neg (by omega)]
    exact spinning_runs_on n _ hs (by omega)

theorem spinning_exits : ∀ (n : Nat) (t : Thumbulator), Spinning t →
    t.instructions + n = 500001 → 1 ≤ n → ∃ u, runLoop n t = some u ∧ u.instructions = 500001
  | 0, _, _, _, h1 => absurd h1 (by decide)
  | n + 1, t, h, hn, _ => by
    obtain ⟨h0, hs⟩ := spinning_step t h
    have hi : (execute t).2.instructions = t.instructions + 1 := by
      rw [execute_instructions]; omega
    rw [runLoop_succ, if_neg (by rw [h0]; decide)]
    by_cases hlast : n = 0
    · subst hlast
      rw [if_pos (by omega)]
      exact ⟨_, rfl, by omega⟩
    · rw [if_neg (by omega)]
      exact spinning_exits n _ hs (by omega) (by omega)

/-- C2 (as stated) fails: on the ROM of `B .` the loop of `run` has not exited
after 500,000 calls of `execute`, and it returns after the 500,001st with the
instruction counter at 500001. -/
theorem run_spin_500001 :
    run 500000 spinState = none ∧
    ∃ t, run 500001 spinState = some t ∧ t.instructions = 500001 :=
  ⟨spinning_runs_on 500000 _ spinning_reset (Nat.le_of_eq (Nat.zero_add 500000)),
   spinning_exits 500001 _ spinning_reset (Nat.zero_add 500001) (Nat.le_add_left 1 500000)⟩

/-- C2 (amended): for every state, `run` returns after at most 500,001 calls
of `execute`, with the instruction counter at most 500001. -/
theorem run_instruction_ceiling (s : Thumbulator) :
    ∃ t, (∀ k, run (500001 + k) s = some t) ∧ t.instructions ≤ 500001 :=
  run_exits s

/-! ## Claim C3: overlap of the patterns -/

theorem chain_pairwise :
    chain.Pairwise (fun p q =>
      p.value &&& q.mask = q.value &&& p.mask → (p.op, q.op) ∈ overlapping) := by
  decide!

/-- The two patterns of an overlapping pair are both satisfied by the union of
their expected values. -/
theorem chain_pairwise_meet :
    chain.Pairwise (fun p q => (p.op, q.op) ∈ overlapping →
      (p.value ||| q.value) < 2 ^ 16 ∧ (p.value ||| q.value) &&& p.mask = p.value ∧
      (p.value ||| q.value) &&& q.mask = q.value) := by
  decide!

/-- C3 (as stated) fails: the opcode `0x4600` satisfies two patterns of the
chain, CPY (`0xFFC0`/`0x4600`) and MOV(3) (`0xFF00`/`0x4600`). -/
theorem opcode_4600_matches_two_patterns :
    (chain.filter (fun p => 0x4600 &&& p.mask == p.value)).map Pattern.op
      = [Op.CPY, Op.MOV3] := by
  decide!

/-- C3 (amended): two different blocks of the chain whose patterns are both
satisfied by the same opcode are, in chain order, one of the four pairs
(ADD(1), MOV(2)), (B(1), SWI), (B(2), BL/BLX(1)), (CPY, MOV(3)); and the
patterns of each of these four pairs are both satisfied by some 16-bit
opcode. -/
theorem chain_overlaps (i j : Nat) (p q : Pattern) (hij : i < j)
    (hp : chain[i]? = some p) (hq : chain[j]? = some q) :
    (∀ inst : Nat, inst &&& p.mask = p.value → inst &&& q.mask = q.value →
      (p.op, q.op) ∈ overlapping) ∧
    ((p.op, q.op) ∈ overlapping →
      ∃ inst : Nat, inst < 2 ^ 16 ∧ inst &&& p.mask = p.value ∧
        inst &&& q.mask = q.value) := by
  obtain ⟨hi, rfl⟩ := List.getElem?_eq_some.mp hp
  obtain ⟨hj, rfl⟩ := List.getElem?_eq_some.mp hq
  refine ⟨fun inst hmp hmq => ?_, fun hmem => ?_⟩
  · have h := List.pairwise_iff_getElem.mp chain_pairwise i j hi hj hij
    apply h
    by_contra hne
    exact pattern_disjoint hmp hne hmq
  · exact ⟨_, List.pairwise_iff_getElem.mp chain_pairwise_meet i j hi hj hij hmem⟩

/-- Witness for C3 (amended): the blocks at the positions 23 (CPY) and 42
(MOV(3)) are one of the four pairs, and some 16-bit opcode satisfies both
patterns. -/
theorem chain_overlaps_witness :
    (23 < 42 ∧ (chain[23]?).map Pattern.op = some Op.CPY ∧
      (chain[42]?).map Pattern.op = some Op.MOV3) ∧
    (0x4600 &&& 0xFFC0 = 0x4600 → 0x4600 &&& 0xFF00 = 0x4600 →
      (Op.CPY, Op.MOV3) ∈ overlapping) ∧
    ∃ inst : Nat, inst < 2 ^ 16 ∧ inst &&& 0xFFC0 = 0x4600 ∧ inst &&& 0xFF00 = 0x4600 :=
  ⟨⟨by decide, rfl, rfl⟩,
    (chain_overlaps 23 42
      (Pattern.mk Op.CPY 0xFFC0 0x4600 (fun s inst _ => some (exec_CPY s inst)))
      (Pattern.mk Op.MOV3 0xFF00 0x4600 (fun s inst _ => some (exec_MOV3 s inst)))
      (by decide) rfl rfl).1 0x4600,
    (chain_overlaps 23 42
      (Pattern.mk Op.CPY 0xFFC0 0x4600 (fun s inst _ => some (exec_CPY s inst)))
      (Pattern.mk Op.MOV3 0xFF00 0x4600 (fun s inst _ => some (exec_MOV3 s inst)))
      (by decide) rfl rfl).2 (by decide)⟩

/-! ## Claim C4: PUSH/POP round trip -/

/-- C4: PUSH/POP round trip.  In supervisor mode, with 32-bit register
values, a 4-byte-aligned stack pointer `SP` and an 8-bit register list `L`
(LR/PC bit clear) such that the `4 * popcount(L)` bytes below `SP` lie in
writable RAM: after PUSH `L` in `s`, then any change of the registers of the
shared bank (state `u`: same RAM, shadow bank, mode and build as after the
PUSH), then POP `L`, every register listed in `L` has the value it had before
the PUSH and register 13 equals `SP`. -/
theorem push_pop_roundtrip (s u : Thumbulator) (L : Nat) (hL : L < 256)
    (hsvc : s.cpsr &&& 0x1F = MODE_SVC) (hregs : ∀ r < 8, s.reg_sys r < 2 ^ 32)
    (hsp : read_register s 13 < 2 ^ 32) (hsp4 : read_register s 13 % 4 = 0)
    (hk : 4 * popcount8 L ≤ read_register s 13)
    (hram : ∀ x, read_register s 13 - 4 * popcount8 L ≤ x → x < read_register s 13 →
      InWritableRAM x)
    (hpush : Fetches s (0xB400 ||| L))
    (hram_u : u.ram = (execute s).2.ram) (hsvc_u : u.reg_svc = (execute s).2.reg_svc)
    (hcpsr_u : u.cpsr &&& 0x1F = MODE_SVC) (hmsb_u : u.MSB_FIRST = (execute s).2.MSB_FIRST)
    (hpop : Fetches u (0xBC00 ||| L)) :
    (∀ r < 8, L.testBit r = true → read_register (execute u).2 r = read_register s r) ∧
    read_register (execute u).2 13 = read_register s 13 := by
  obtain ⟨b1, b2, b3, b4⟩ := stack_bits L hL
  have hbitS : ∀ ra < 8, ((0xB400 ||| L) &&& (1 <<< ra) ≠ 0 ↔ L.testBit ra = true) :=
    fun ra hra => list_bit 0xB400 L (by decide) ra hra
  have hbitL : ∀ ra < 8, ((0xBC00 ||| L) &&& (1 <<< ra) ≠ 0 ↔ L.testBit ra = true) :=
    fun ra hra => list_bit 0xBC00 L (by decide) ra hra
  -- the PUSH step
  have hs1 := entered_svc s hsvc
  have hsvc1 : (entered s).cpsr &&& 0x1F = MODE_SVC := by
    rw [(entered_frame s).2.2.1]; exact hsvc
  have h13 : read_register (entered s) 13 = read_register s 13 := by
    rw [read_register_13 _ hsvc1, read_register_13 s hsvc, (entered_frame s).2.2.2.1]
  have hregs1 : ∀ r < 8, (entered s).reg_sys r = s.reg_sys r := by
    intro r hr
    rw [hs1]
    exact Function.update_noteq (low_reg_index r hr).2.2.2 _ _
  have hsub : sub32 (read_register s 13) (4 * popcount8 L)
      = read_register s 13 - 4 * popcount8 L := by
    unfold sub32; omega
  have hgood := writable_words L (read_register s 13 - 4 * popcount8 L) (by omega)
    (fun x h1 h2 => hram x h1 (by omega))
  obtain ⟨_, _, f3, f4, f5, f6⟩ := storeFold (0xB400 ||| L) L
    (read_register s 13 - 4 * popcount8 L) (entered s) hsvc1 hbitS
    (fun r hr => by rw [hregs1 r hr]; exact hregs r hr) (by omega) hgood 8 (Nat.le_refl 8)
  have hex : (execute s).2 = (write_register
      ((List.range 8).foldl (regStep (0xB400 ||| L) storeBody)
        (read_register s 13 - 4 * popcount8 L, entered s)).2 13
      (read_register s 13 - 4 * popcount8 L)).2 := by
    unfold Fetches at hpush
    rw [execute_eq, hpush, decode_PUSH _ _ _ b1, exec_PUSH_eq _ _ L hbitS b2, h13, hsub]
  generalize (List.range 8).foldl (regStep (0xB400 ||| L) storeBody)
    (read_register s 13 - 4 * popcount8 L, entered s) = F at f3 f4 f5 f6 hex
  have hF : F.2.cpsr &&& 0x1F = MODE_SVC := by rw [f4]; exact hsvc1
  rw [hex, write_register_13 _ _ hF] at hram_u hsvc_u hmsb_u
  -- the POP step
  have hsvcu1 : (entered u).cpsr &&& 0x1F = MODE_SVC := by
    rw [(entered_frame u).2.2.1]; exact hcpsr_u
  have hu13 : read_register (entered u) 13 = read_register s 13 - 4 * popcount8 L := by
    rw [read_register_13 _ hsvcu1, (entered_frame u).2.2.2.1, hsvc_u]
    simp only [Function.update_same]
  obtain ⟨g1, _, _, g4, _, g6⟩ := loadFold (0xBC00 ||| L) L
    (read_register s 13 - 4 * popcount8 L) (entered u) hsvcu1 hbitL (by omega) hgood 8
    (Nat.le_refl 8)
  have hexu : (execute u).2 = (write_register
      ((List.range 8).foldl (regStep (0xBC00 ||| L) loadBody)
        (read_register s 13 - 4 * popcount8 L, entered u)).2 13
      ((List.range 8).foldl (regStep (0xBC00 ||| L) loadBody)
        (read_register s 13 - 4 * popcount8 L, entered u)).1).2 := by
    unfold Fetches at hpop
    rw [execute_eq, hpop, decode_POP _ _ _ b3, exec_POP_eq _ _ b4, hu13]
  generalize (List.range 8).foldl (regStep (0xBC00 ||| L) loadBody)
    (read_register s 13 - 4 * popcount8 L, entered u) = G at g1 g4 g6 hexu
  have hG : G.2.cpsr &&& 0x1F = MODE_SVC := by rw [g4]; exact hsvcu1
  rw [hexu, write_register_13 _ _ hG]
  refine ⟨fun r hr hbr => ?_, ?_⟩
  · rw [read_register_low s r hsvc hr, read_register_low _ r (by exact hG) hr]
    show G.2.reg_sys r = _
    rw [g6 r hr hbr, ← hregs1 r hr, ← f6 r hr hbr]
    apply ramWord_congr
    · rw [(entered_frame u).1, hram_u]
    · rw [(entered_frame u).2.2.2.2.2.2.1, hmsb_u]
  · rw [read_register_13 _ (by exact hG)]
    simp only [Function.update_same]
    rw [g1, listOffset_eight]
    omega

/-- Witness for C4: `PUSH {r0, r2}`, registers cleared, `POP {r0, r2}`. -/
theorem push_pop_roundtrip_witness :
    (Fetches pushState (0xB400 ||| 5) ∧ Fetches popState (0xBC00 ||| 5)) ∧
    (∀ r < 8, (5 : Nat).testBit r = true →
      read_register (execute popState).2 r = read_register pushState r) ∧
    read_register (execute popState).2 13 = read_register pushState 13 :=
  ⟨⟨by decide, by decide⟩,
   push_pop_roundtrip pushState popState 5 (by decide) (by decide) (by decide) (by decide)
    (by decide) (by decide)
    (fun x h1 h2 => by
      rw [show read_register pushState 13 = 0x40001fb4 by decide,
        show popcount8 5 = 2 by decide] at h1
      rw [show read_register pushState 13 = 0x40001fb4 by decide] at h2
      unfold InWritableRAM
      omega)
    (by decide) rfl rfl (by decide) rfl (by decide)⟩

/-- C5: STMIA/LDMIA round trip.  In supervisor mode, with 32-bit register
values, a base register `Rn` (0..7) holding a 4-byte-aligned address `B` and an
8-bit register list `L` whose `4 * popcount(L)` bytes from `B` lie in writable
RAM: after STMIA `Rn!, L` in `s`, then any change of the registers that gives
`Rn` the value `B` again (state `u`: same RAM and build as after the STMIA,
supervisor mode), then LDMIA `Rn!, L`, every register listed in `L` other than
`Rn` has the value it had before the STMIA. -/
theorem stmia_ldmia_roundtrip (s u : Thumbulator) (rn L : Nat) (hrn : rn < 8) (hL : L < 256)
    (hsvc : s.cpsr &&& 0x1F = MODE_SVC) (hregs : ∀ r < 8, s.reg_sys r < 2 ^ 32)
    (hB4 : read_register s rn % 4 = 0)
    (hram : ∀ x, read_register s rn ≤ x → x < read_register s rn + 4 * popcount8 L →
      InWritableRAM x)
    (hst : Fetches s (0xC000 ||| (rn <<< 8) ||| L))
    (hram_u : u.ram = (execute s).2.ram) (hcpsr_u : u.cpsr &&& 0x1F = MODE_SVC)
    (hmsb_u : u.MSB_FIRST = (execute s).2.MSB_FIRST)
    (hB_u : read_register u rn = read_register s rn)
    (hld : Fetches u (0xC800 ||| (rn <<< 8) ||| L)) :
    ∀ r < 8, r ≠ rn → L.testBit r = true →
      read_register (execute u).2 r = read_register s r := by
  obtain ⟨b1, b2, b3, b4, b5, b6⟩ := block_bits rn hrn L hL
  have hbitS := fun ra hra => list_bit (0xC000 ||| (rn <<< 8)) L b5 ra hra
  have hbitL := fun ra hra => list_bit (0xC800 ||| (rn <<< 8)) L b6 ra hra
  have hBlt : read_register s rn < 2 ^ 32 := by
    rw [read_register_low s rn hsvc hrn]; exact hregs rn hrn
  -- the STMIA step
  have hsvc1 : (entered s).cpsr &&& 0x1F = MODE_SVC := by
    rw [(entered_frame s).2.2.1]; exact hsvc
  have hregs1 : ∀ r < 8, (entered s).reg_sys r = s.reg_sys r := by
    intro r hr
    rw [entered_svc s hsvc]
    exact Function.update_noteq (low_reg_index r hr).2.2.2 _ _
  have hrd : read_register (entered s) rn = read_register s rn := by
    rw [read_register_low _ rn hsvc1 hrn, read_register_low s rn hsvc hrn, hregs1 rn hrn]
  have hgood := writable_words L (read_register s rn) hB4 hram
  obtain ⟨_, _, _, f4, f5, f6⟩ := storeFold (0xC000 ||| (rn <<< 8) ||| L) L
    (read_register s rn) (entered s) hsvc1 hbitS
    (fun r hr => by rw [hregs1 r hr]; exact hregs r hr) hBlt hgood 8 (Nat.le_refl 8)
  have hex : (execute s).2 = (write_register
      ((List.range 8).foldl (regStep (0xC000 ||| (rn <<< 8) ||| L) storeBody)
        (read_register s rn, entered s)).2 rn
      ((List.range 8).foldl (regStep (0xC000 ||| (rn <<< 8) ||| L) storeBody)
        (read_register s rn, entered s)).1).2 := by
    unfold Fetches at hst
    rw [execute_eq, hst, decode_STMIA _ _ _ b1, exec_STMIA_eq, b2, hrd]
  generalize (List.range 8).foldl (regStep (0xC000 ||| (rn <<< 8) ||| L) storeBody)
    (read_register s rn, entered s) = F at f4 f5 f6 hex
  have hF : F.2.cpsr &&& 0x1F = MODE_SVC := by rw [f4]; exact hsvc1
  rw [hex, write_register_low _ rn _ hF hrn] at hram_u hmsb_u
  -- the LDMIA step
  have hsvcu1 : (entered u).cpsr &&& 0x1F = MODE_SVC := by
    rw [(entered_frame u).2.2.1]; exact hcpsr_u
  have hurd : read_register (entered u) rn = read_register s rn := by
    rw [← hB_u, read_register_low _ rn hsvcu1 hrn, read_register_low u rn hcpsr_u hrn,
      entered_svc u hcpsr_u]
    exact Function.update_noteq (low_reg_index rn hrn).2.2.2 _ _
  obtain ⟨_, _, _, g4, _, g6⟩ := loadFold (0xC800 ||| (rn <<< 8) ||| L) L
    (read_register s rn) (entered u) hsvcu1 hbitL hBlt hgood 8 (Nat.le_refl 8)
  have hexu : (execute u).2 = (write_register
      ((List.range 8).foldl (regStep (0xC800 ||| (rn <<< 8) ||| L) loadBody)
        (read_register s rn, entered u)).2 rn
      ((List.range 8).foldl (regStep (0xC800 ||| (rn <<< 8) ||| L) loadBody)
        (read_register s rn, entered u)).1).2 := by
    unfold Fetches at hld
    rw [execute_eq, hld, decode_LDMIA _ _ _ b3, exec_LDMIA_eq, b4, hurd]
  generalize (List.range 8).foldl (regStep (0xC800 ||| (rn <<< 8) ||| L) loadBody)
    (read_register s rn, entered u) = G at g4 g6 hexu
  have hG : G.2.cpsr &&& 0x1F = MODE_SVC := by rw [g4]; exact hsvcu1
  intro r hr hne hbr
  rw [hexu, write_register_low _ rn _ hG hrn, read_register_low s r hsvc hr,
    read_register_low _ r (by exact hG) hr]
  show Function.update G.2.reg_sys rn G.1 r = _
  rw [Function.update_noteq hne, g6 r hr hbr, ← hregs1 r hr, ← f6 r hr hbr]
  apply ramWord_congr
  · rw [(entered_frame u).1, hram_u]
  · rw [(entered_frame u).2.2.2.2.2.2.1, hmsb_u]

/-- Witness for C5: `STMIA r1!, {r0, r2}`, registers cleared and `r1` set
back, `LDMIA r1!, {r0, r2}`. -/
theorem stmia_ldmia_roundtrip_witness :
    (Fetches storeState (0xC000 ||| (1 <<< 8) ||| 5) ∧
      Fetches loadState (0xC800 ||| (1 <<< 8) ||| 5)) ∧
    ∀ r < 8, r ≠ 1 → (5 : Nat).testBit r = true →
      read_register (execute loadState).2 r = read_register storeState r :=
  ⟨⟨by decide, by decide⟩,
   stmia_ldmia_roundtrip storeState loadState 1 5 (by decide) (by decide) (by decide)
    (by decide) (by decide)
    (fun x h1 h2 => by
      rw [show read_register storeState 1 = 0x40001000 by decide] at h1
      rw [show read_register storeState 1 = 0x40001000 by decide,
        show popcount8 5 = 2 by decide] at h2
      unfold InWritableRAM
      omega)
    (by decide) rfl (by decide) rfl (by decide) (by decide)⟩

/-! ## Claim C6: base write-back of LDMIA and STMIA -/

/-- C6: in supervisor mode, after one STMIA or LDMIA step with base register
`Rn` (0..7) holding the 32-bit value `B` and the 8-bit register list `L`, `Rn`
holds `(B + 4 * popcount(L)) mod 2^32`, for every list (also one containing
`Rn`) and every memory map. -/
theorem block_transfer_writeback (s : Thumbulator) (rn L : Nat) (hrn : rn < 8) (hL : L < 256)
    (hsvc : s.cpsr &&& 0x1F = MODE_SVC) (hB : read_register s rn < 2 ^ 32)
    (hf : Fetches s (0xC000 ||| (rn <<< 8) ||| L) ∨ Fetches s (0xC800 ||| (rn <<< 8) ||| L)) :
    read_register (execute s).2 rn = (read_register s rn + 4 * popcount8 L) % 2 ^ 32 := by
  obtain ⟨b1, b2, b3, b4, b5, b6⟩ := block_bits rn hrn L hL
  have hsvc1 : (entered s).cpsr &&& 0x1F = MODE_SVC := by
    rw [(entered_frame s).2.2.1]; exact hsvc
  have hrd : read_register (entered s) rn = read_register s rn := by
    rw [read_register_low _ rn hsvc1 hrn, read_register_low s rn hsvc hrn, entered_svc s hsvc]
    exact Function.update_noteq (low_reg_index rn hrn).2.2.2 _ _
  rcases hf with hf | hf
  · unfold Fetches at hf
    rw [execute_eq, hf, decode_STMIA _ _ _ b1, exec_STMIA_eq, b2, ← hrd]
    exact block_writeback (entered s) _ rn L storeBody storeBody_fst storeBody_cpsr
      (fun ra hra => list_bit _ L b5 ra hra) hsvc1 hrn (by rw [hrd]; exact hB)
  · unfold Fetches at hf
    rw [execute_eq, hf, decode_LDMIA _ _ _ b3, exec_LDMIA_eq, b4, ← hrd]
    exact block_writeback (entered s) _ rn L loadBody loadBody_fst loadBody_cpsr
      (fun ra hra => list_bit _ L b6 ra hra) hsvc1 hrn (by rw [hrd]; exact hB)

/-- Witness for C6: `STMIA r1!, {r0-r7}` with an unmapped base address. -/
theorem block_transfer_writeback_witness :
    Fetches stmState (0xC000 ||| (1 <<< 8) ||| 0xFF) ∧
    read_register (execute stmState).2 1
      = (read_register stmState 1 + 4 * popcount8 0xFF) % 2 ^ 32 :=
  ⟨by decide, block_transfer_writeback stmState 1 0xFF (by decide) (by decide) (by decide)
    (by decide) (Or.inl (by decide))⟩

/-! ## Claim C7: unconditional branch B(2) -/

/-- C7: in supervisor mode, one `execute` step on the opcode `0xE000 | imm11`
of a signed displacement `d` in [-1024, 1023] returns 0 and leaves register 15
equal to `(pc + 2 + 2*d) mod 2^32`, where `pc` is the old register 15 plus 2;
`cpsr`, the shadow bank and every other register of the shared bank are
unchanged. -/
theorem B2_branch (s : Thumbulator) (d : Int) (hlo : -1024 ≤ d) (hhi : d ≤ 1023)
    (hsvc : s.cpsr &&& 0x1F = MODE_SVC)
    (hfetch : Fetches s (0xE000 ||| (d % 2048).toNat)) :
    (execute s).1 = 0 ∧
    read_register (execute s).2 15 =
      ((((add32 (read_register s 15) 2 : Nat) : Int) + 2 + 2 * d) % 2 ^ 32).toNat ∧
    (execute s).2.cpsr = s.cpsr ∧
    (execute s).2.reg_svc = s.reg_svc ∧
    ∀ i, i ≠ 15 → (execute s).2.reg_sys i = s.reg_sys i := by
  have himm : (d % 2048).toNat < 2048 := by omega
  rw [execute_B2 s _ himm hsvc hfetch]
  refine ⟨rfl, ?_, rfl, rfl, fun i hi => ?_⟩
  · have e : ∀ t : Thumbulator, t.cpsr = s.cpsr → read_register t 15 = t.reg_sys 15 :=
      fun t ht => read_register_15 t (by rw [ht]; exact hsvc)
    rw [e s rfl, e _ (by rfl)]
    simp only [Function.update_same]
    generalize add32 (s.reg_sys 15) 2 = pc
    split <;> omega
  · simp only [Function.update_noteq hi]

/-- Witness for C7 at the extreme displacement -1024. -/
theorem B2_branch_witness :
    (execute branchState).1 = 0 ∧
    read_register (execute branchState).2 15 =
      ((((add32 (read_register branchState 15) 2 : Nat) : Int) + 2 + 2 * (-1024)) % 2 ^ 32).toNat ∧
    (execute branchState).2.cpsr = branchState.cpsr ∧
    (execute branchState).2.reg_svc = branchState.reg_svc ∧
    ∀ i, i ≠ 15 → (execute branchState).2.reg_sys i = branchState.reg_sys i :=
  B2_branch branchState (-1024) (by decide) (by decide) (by decide) (by decide)

/-! ## Claim C8: a ROM of breakpoints -/

/-- C8: when every halfword of the ROM image is a breakpoint opcode
`0xBE00 | imm8`, `run` returns after a single call of `execute`, with the
instruction counter equal to 1 and the RAM unchanged. -/
theorem run_breakpoint_rom (s : Thumbulator)
    (h : ∀ i, ∃ imm8, imm8 < 256 ∧ loadHalf s (s.rom i) = 0xBE00 ||| imm8) (k : Nat) :
    ∃ t, run (k + 1) s = some t ∧ t.instructions = 1 ∧ t.ram = s.ram := by
  obtain ⟨imm8, himm, hrom⟩ := h 0x604
  have hsvc : (reset s).2.cpsr &&& 0x1F = MODE_SVC := by
    rw [reset_snd]
    show (0xF3 : Nat) &&& 0x1F = MODE_SVC
    decide
  have hfetch : Fetches (reset s).2 (0xBE00 ||| imm8) := by
    unfold Fetches
    rw [read_register_15 _ hsvc, show (reset s).2.reg_sys 15 = 0xc0b by simp [reset_snd],
      show sub32 0xc0b 2 = 0xc09 by decide, fetch16_entry, ← hrom, reset_snd]
    simp only [loadHalf]
  have hex := execute_BKPT (reset s).2 imm8 himm hfetch
  refine ⟨entered (reset s).2, ?_, ?_, ?_⟩
  · unfold run
    rw [runLoop_succ, hex, if_pos Nat.one_ne_zero]
  · rw [(entered_frame _).2.2.2.2.2.2.2, reset_snd]
    rfl
  · rw [(entered_frame _).1, reset_snd]

/-- Witness for C8: the ROM filled with `0xBE00`. -/
theorem run_breakpoint_rom_witness :
    (∀ i, ∃ imm8, imm8 < 256 ∧ loadHalf bkptState (bkptState.rom i) = 0xBE00 ||| imm8) ∧
    ∃ t, run 1 bkptState = some t ∧ t.instructions = 1 ∧ t.ram = bkptState.ram :=
  ⟨fun _ => ⟨0, by decide, rfl⟩, run_breakpoint_rom bkptState (fun _ => ⟨0, by decide, rfl⟩) 0⟩

/-! ## Claim C9: the MAMCR register -/

/-- C9: a value written to the MAMCR address `0xE01FC000` by `write16` is
read back by `read16`; a `write16` to any other address with top nibble `0xE`
changes neither MAMCR nor the RAM, and a `read16` from it returns 0. -/
theorem mamcr_register (s : Thumbulator) (v a : Nat) (ha : a &&& 0xF0000000 = 0xE0000000)
    (hne : a ≠ 0xE01FC000) :
    (read16 (write16 s 0xE01FC000 v) 0xE01FC000).1 = v ∧
    (write16 s a v).mamcr = s.mamcr ∧ (write16 s a v).ram = s.ram ∧ (read16 s a).1 = 0 := by
  have hle := top_nibble_le ha
  refine ⟨?_, ?_, ?_, ?_⟩
  · rw [read16_mamcr, write16_mamcr]
  · unfold write16
    simp only []
    rw [if_neg (by omega), if_neg (by omega)]
    split
    · rfl
    · simp [ha, hne]
  · unfold write16
    simp only []
    rw [if_neg (by omega), if_neg (by omega)]
    split
    · rfl
    · simp [ha, hne]
  · unfold read16
    simp only []
    rw [if_neg (by omega), if_neg (by omega)]
    split
    · rfl
    · simp [ha, hne]

/-- Witness for C9 at the unmapped peripheral address `0xE0000000`. -/
theorem mamcr_register_witness :
    (0xE0000000 &&& 0xF0000000 = 0xE0000000 ∧ 0xE0000000 ≠ 0xE01FC000) ∧
    (read16 (write16 bkptState 0xE01FC000 0x12345678) 0xE01FC000).1 = 0x12345678 ∧
    (write16 bkptState 0xE0000000 0x12345678).mamcr = bkptState.mamcr ∧
    (write16 bkptState 0xE0000000 0x12345678).ram = bkptState.ram ∧
    (read16 bkptState 0xE0000000).1 = 0 :=
  ⟨⟨by decide, by decide⟩,
   mamcr_register bkptState 0x12345678 0xE0000000 (by decide) (by decide)⟩

/-! ## Claim C10: `run` is total -/

/-- C10: `run` is total.  In every register-list loop, allowing more than
`regListFuel` tests of the loop condition changes nothing: the loop leaves by
its own condition (`rb = 0`) after exactly eight iterations (`ra = 8`).  And for
every state the loop of `run` exits within 500,001 calls of `execute`, whether
or not a step signals termination. -/
theorem run_total :
    (∀ (σ : Type) (inst : Nat) (body : Nat → σ → σ) (st : σ) (k : Nat),
      regListLoop inst body (regListFuel + k) 0 0x01 st
        = regListLoop inst body regListFuel 0 0x01 st ∧
      (regListLoop inst body regListFuel 0 0x01 st).1 = 8 ∧
      (regListLoop inst body regListFuel 0 0x01 st).2.1 = 0) ∧
    ∀ s : Thumbulator, ∃ t, ∀ k, run (500001 + k) s = some t := by
  refine ⟨fun σ inst body st k => ?_, fun s => ?_⟩
  · have h1 := regListLoop_unroll inst body st (1 + k)
    have h2 := regListLoop_unroll inst body st 1
    rw [show regListFuel + k = 1 + k + 8 by unfold regListFuel; omega, h1,
      show regListFuel = 1 + 8 from rfl, h2]
    exact ⟨rfl, rfl, rfl⟩
  · obtain ⟨t, ht, _⟩ := run_exits s
    exact ⟨t, ht⟩

/-! ## More facts about the bus -/

theorem write16_ram_other (s : Thumbulator) (a d : Nat) (h : a &&& 0xF0000000 ≠ 0x40000000) :
    (write16 s a d).ram = s.ram := by
  unfold write16
  simp only []
  repeat' split
  all_goals rfl

theorem write16_mamcr_other (s : Thumbulator) (a d : Nat) (h : a ≠ 0xE01FC000) :
    (write16 s a d).mamcr = s.mamcr := by
  unfold write16
  simp only []
  repeat' split
  all_goals rfl

/-! ## Decoding of the terminating opcodes -/

theorem testBit_FF00 (i : Nat) :
    (0xFF00 : Nat).testBit i = (decide (8 ≤ i) && decide (i < 16)) := by
  by_cases hi : i < 16
  · have h : ∀ i < 16, (0xFF00 : Nat).testBit i = (decide (8 ≤ i) && decide (i < 16)) := by
      decide
    exact h i hi
  · rw [Nat.testBit_lt_two_pow
      (Nat.lt_of_lt_of_le (show 0xFF00 < 2 ^ 16 by decide) (Nat.pow_le_pow_right (by decide)
        (show 16 ≤ i by omega)))]
    simp [hi]

/-- The high byte of a 16-bit opcode. -/
theorem and_FF00 (x : Nat) (hx : x < 2 ^ 16) : x &&& 0xFF00 = 2 ^ 8 * (x / 2 ^ 8) := by
  apply Nat.eq_of_testBit_eq
  intro i
  rw [Nat.testBit_and, testBit_FF00, Nat.testBit_mul_pow_two, ← Nat.shiftRight_eq_div_pow,
    Nat.testBit_shiftRight]
  by_cases h8 : 8 ≤ i
  · by_cases h16 : i < 16
    · simp [h8, h16, show 8 + (i - 8) = i by omega]
    · simp [h8, h16, show 8 + (i - 8) = i by omega,
        Nat.testBit_lt_two_pow (Nat.lt_of_lt_of_le hx (Nat.pow_le_pow_right (by decide)
          (show 16 ≤ i by omega)))]
  · simp [h8]

/-- An opcode in the range `[256 * v, 256 * v + 255]` has high byte `v`. -/
theorem high_byte (op v : Nat) (h1 : 256 * v ≤ op) (h2 : op ≤ 256 * v + 255) (hv : v < 256) :
    op &&& 0xFF00 = 256 * v := by
  rw [and_FF00 op (by omega)]
  omega

/-- The condition field of an opcode with the high byte `v >> 8`. -/
theorem cond_field (inst v : Nat) (h : inst &&& 0xFF00 = v) :
    (inst >>> 8) &&& 0xF = (v >>> 8) &&& 0xF := by
  rw [← h]
  apply Nat.eq_of_testBit_eq
  intro i
  simp only [Nat.testBit_and, Nat.testBit_shiftRight, testBit_FF00]
  by_cases hi : i < 4
  · simp [show 8 + i < 16 by omega]
  · rw [Nat.testBit_lt_two_pow (Nat.lt_of_lt_of_le (show 0xF < 2 ^ 4 by decide)
      (Nat.pow_le_pow_right (by decide) (show 4 ≤ i by omega)))]
    simp

theorem exec_B1_reserved (s : Thumbulator) (inst pc : Nat)
    (h : (inst >>> 8) &&& 0xF = 0xE ∨ (inst >>> 8) &&& 0xF = 0xF) :
    exec_B1 s inst pc = none := by
  unfold exec_B1
  rcases h with h | h <;> simp +decide only [h, if_false]

/-- An opcode no pattern of a list matches falls through that list. -/
theorem runChain_miss (s : Thumbulator) (inst pc : Nat) (l : List Pattern)
    (h : ∀ q ∈ l, inst &&& q.mask ≠ q.value ∨ q.handler s inst pc = none) :
    runChain s inst pc l = (1, s) := by
  have e := runChain_skip s inst pc [] l h
  rw [List.append_nil] at e
  exact e

/-- Decoding past the B(1) block: an opcode with the high byte `0xDE` or
`0xDF` falls through every block before SWI. -/
theorem decode_past_B1 (s : Thumbulator) (inst pc v : Nat) (h : inst &&& 0xFF00 = v)
    (hv : v = 0xDE00 ∨ v = 0xDF00) :
    runChain s inst pc chain = runChain s inst pc (chain.drop 67) := by
  have hB1 : exec_B1 s inst pc = none := by
    apply exec_B1_reserved
    rw [cond_field inst v h]
    rcases hv with hv | hv <;> rw [hv] <;> decide
  have e : chain = chain.take 11 ++ (((chain.drop 11).take 1 ++ (chain.drop 12).take 55)
      ++ chain.drop 67) := rfl
  have h1 : ∀ q ∈ chain.take 11, v &&& q.mask ≠ q.value &&& 0xFF00 := by
    rcases hv with hv | hv <;> rw [hv] <;> decide
  have h2 : ∀ q ∈ (chain.drop 12).take 55, v &&& q.mask ≠ q.value &&& 0xFF00 := by
    rcases hv with hv | hv <;> rw [hv] <;> decide
  rw [e, runChain_skip s inst pc _ (chain.take 11)
      (fun q hq => Or.inl (pattern_disjoint h (h1 q hq))),
    runChain_skip s inst pc (chain.drop 67) _]
  · rw [← e]
  · intro q hq
    rcases List.mem_append.1 hq with hq | hq
    · right
      have e1 : (chain.drop 11).take 1 = [Pattern.mk Op.B1 0xF000 0xD000 exec_B1] := rfl
      rw [e1, List.mem_singleton] at hq
      rw [hq]
      exact hB1
    · exact Or.inl (pattern_disjoint h (h2 q hq))

theorem decode_SWI (s : Thumbulator) (inst pc : Nat) (h : inst &&& 0xFF00 = 0xDF00) :
    runChain s inst pc chain = (1, s) := by
  rw [decode_past_B1 s inst pc _ h (Or.inr rfl)]
  exact runChain_cons_hit s inst pc _ _ _ h rfl

theorem decode_reserved_branch (s : Thumbulator) (inst pc : Nat) (h : inst &&& 0xFF00 = 0xDE00) :
    runChain s inst pc chain = (1, s) := by
  rw [decode_past_B1 s inst pc _ h (Or.inl rfl)]
  exact runChain_miss s inst pc _
    (fun q hq => Or.inl (pattern_disjoint h
      ((by decide : ∀ q ∈ chain.drop 67, 0xDE00 &&& q.mask ≠ q.value &&& 0xFF00) q hq)))

theorem decode_CPS (s : Thumbulator) (inst pc : Nat) (h : inst &&& 0xFFE8 = 0xB660) :
    runChain s inst pc chain = (1, s) :=
  decode_hit s inst pc 22 0xFFE8 0xB660 _ _ _ h (by decide) rfl h rfl

theorem decode_SETEND (s : Thumbulator) (inst pc : Nat) (h : inst &&& 0xFFF7 = 0xB650) :
    runChain s inst pc chain = (1, s) :=
  decode_hit s inst pc 54 0xFFF7 0xB650 _ _ _ h (by decide) rfl h rfl

/-! ## Handlers and the parity of register 15 -/

set_option linter.unusedTactic false
set_option linter.unreachableTactic false

theorem low3_ne_pc (x : Nat) : (x &&& 0x7) &&& 0xF ≠ 15 := by
  intro h
  have h1 : (x &&& 0x7) &&& 0xF ≤ x &&& 0x7 := Nat.and_le_left
  have h2 : x &&& 0x7 ≤ 0x7 := Nat.and_le_right
  omega

theorem sp_ne_pc : (13 : Nat) &&& 0xF ≠ 15 := by decide

theorem lr_ne_pc : (14 : Nat) &&& 0xF ≠ 15 := by decide

theorem KeepsPC.keeps_read32 {s t : Thumbulator} (addr : Nat) (h : KeepsPC s t) :
    KeepsPC s (read32 t addr).2 := by
  unfold Thumbulator.read32
  split
  · exact h
  · split
    · exact KeepsPC.read16 _ (KeepsPC.read16 _ h)
    · exact h

theorem KeepsPC.keeps_write32 {s t : Thumbulator} (addr data : Nat) (h : KeepsPC s t) :
    KeepsPC s (write32 t addr data) := by
  unfold Thumbulator.write32
  repeat' split
  all_goals first | exact h | exact KeepsPC.write16 _ _ (KeepsPC.write16 _ _ h)

theorem KeepsPC.keeps_cond {s a b : Thumbulator} {c : Prop} [Decidable c]
    (ha : KeepsPC s a) (hb : KeepsPC s b) : KeepsPC s (if c then a else b) := by
  split
  · exact ha
  · exact hb

theorem KeepsPC.keeps_snd_cond {s : Thumbulator} {a b : Nat × Thumbulator} {c : Prop} [Decidable c]
    (ha : KeepsPC s a.2) (hb : KeepsPC s b.2) : KeepsPC s (if c then a else b).2 := by
  split
  · exact ha
  · exact hb

theorem OKeepsPC.keeps_opt_cond {s : Thumbulator} {a b : Option (Nat × Thumbulator)} {c : Prop}
    [Decidable c] (ha : OKeepsPC s a) (hb : OKeepsPC s b) :
    OKeepsPC s (if c then a else b) := by
  split
  · exact ha
  · exact hb

theorem OKeepsPC.keeps_none {s : Thumbulator} : OKeepsPC s none := trivial

theorem OKeepsPC.keeps_some_pair {s t : Thumbulator} {n : Nat} (h : KeepsPC s t) :
    OKeepsPC s (some (n, t)) := h

theorem OKeepsPC.keeps_some_cond {s : Thumbulator} {a b : Nat × Thumbulator} {c : Prop}
    [Decidable c] (ha : OKeepsPC s (some a)) (hb : OKeepsPC s (some b)) :
    OKeepsPC s (some (if c then a else b)) := by
  split
  · exact ha
  · exact hb

theorem keeps_ADC (s : Thumbulator) (inst : Nat) : OKeepsPC s (some (exec_ADC s inst)) := by
  simp only [exec_ADC]
  repeat' (with_reducible first
    | (guard_target =ₛ KeepsPC s s; exact KeepsPC.refl s)
    | exact low3_ne_pc _ | exact sp_ne_pc | exact lr_ne_pc
    | exact OKeepsPC.keeps_none
    | apply OKeepsPC.keeps_opt_cond | apply OKeepsPC.keeps_some_pair | apply OKeepsPC.keeps_some_cond
    | apply KeepsPC.keeps_cond | apply KeepsPC.keeps_snd_cond
    | apply KeepsPC.write_low | apply KeepsPC.do_zflag | apply KeepsPC.do_nflag
    | apply KeepsPC.do_cflag | apply KeepsPC.do_add_vflag | apply KeepsPC.do_sub_vflag
    | apply KeepsPC.do_cflag_bit | apply KeepsPC.do_vflag_bit
    | apply KeepsPC.read16 | apply KeepsPC.write16 | apply KeepsPC.keeps_read32 | apply KeepsPC.keeps_write32
    | apply KeepsPC.halfadd)

theorem keeps_ADD1 (s : Thumbulator) (inst : Nat) : OKeepsPC s (exec_ADD1 s inst) := by
  simp only [exec_ADD1]
  repeat' (with_reducible first
    | (guard_target =ₛ KeepsPC s s; exact KeepsPC.refl s)
    | exact low3_ne_pc _ | exact sp_ne_pc | exact lr_ne_pc
    | exact OKeepsPC.keeps_none
    | apply OKeepsPC.keeps_opt_cond | apply OKeepsPC.keeps_some_pair | apply OKeepsPC.keeps_some_cond
    | apply KeepsPC.keeps_cond | apply KeepsPC.keeps_snd_cond
    | apply KeepsPC.write_low | apply KeepsPC.do_zflag | apply KeepsPC.do_nflag
    | apply KeepsPC.do_cflag | apply KeepsPC.do_add_vflag | apply KeepsPC.do_sub_vflag
    | apply KeepsPC.do_cflag_bit | apply KeepsPC.do_vflag_bit
    | apply KeepsPC.read16 | apply KeepsPC.write16 | apply KeepsPC.keeps_read32 | apply KeepsPC.keeps_write32
    | apply KeepsPC.halfadd)

theorem keeps_ADD2 (s : Thumbulator) (inst : Nat) : OKeepsPC s (some (exec_ADD2 s inst)) := by
  simp only [exec_ADD2]
  repeat' (with_reducible first
    | (guard_target =ₛ KeepsPC s s; exact KeepsPC.refl s)
    | exact low3_ne_pc _ | exact sp_ne_pc | exact lr_ne_pc
    | exact OKeepsPC.keeps_none
    | apply OKeepsPC.keeps_opt_cond | apply OKeepsPC.keeps_some_pair | apply OKeepsPC.keeps_some_cond
    | apply KeepsPC.keeps_cond | apply KeepsPC.keeps_snd_cond
    | apply KeepsPC.write_low | apply KeepsPC.do_zflag | apply KeepsPC.do_nflag
    | apply KeepsPC.do_cflag | apply KeepsPC.do_add_vflag | apply KeepsPC.do_sub_vflag
    | apply KeepsPC.do_cflag_bit | apply KeepsPC.do_vflag_bit
    | apply KeepsPC.read16 | apply KeepsPC.write16 | apply KeepsPC.keeps_read32 | apply KeepsPC.keeps_write32
    | apply KeepsPC.halfadd)

theorem keeps_ADD3 (s : Thumbulator) (inst : Nat) : OKeepsPC s (some (exec_ADD3 s inst)) := by
  simp only [exec_ADD3]
  repeat' (with_reducible first
    | (guard_target =ₛ KeepsPC s s; exact KeepsPC.refl s)
    | exact low3_ne_pc _ | exact sp_ne_pc | exact lr_ne_pc
    | exact OKeepsPC.keeps_none
    | apply OKeepsPC.keeps_opt_cond | apply OKeepsPC.keeps_some_pair | apply OKeepsPC.keeps_some_cond
    | apply KeepsPC.keeps_cond | apply KeepsPC.keeps_snd_cond
    | apply KeepsPC.write_low | apply KeepsPC.do_zflag | apply KeepsPC.do_nflag
    | apply KeepsPC.do_cflag | apply KeepsPC.do_add_vflag | apply KeepsPC.do_sub_vflag
    | apply KeepsPC.do_cflag_bit | apply KeepsPC.do_vflag_bit
    | apply KeepsPC.read16 | apply KeepsPC.write16 | apply KeepsPC.keeps_read32 | apply KeepsPC.keeps_write32
    | apply KeepsPC.halfadd)

theorem keeps_ADD5 (s : Thumbulator) (inst : Nat) : OKeepsPC s (some (exec_ADD5 s inst)) := by
  simp only [exec_ADD5]
  repeat' (with_reducible first
    | (guard_target =ₛ KeepsPC s s; exact KeepsPC.refl s)
    | exact low3_ne_pc _ | exact sp_ne_pc | exact lr_ne_pc
    | exact OKeepsPC.keeps_none
    | apply OKeepsPC.keeps_opt_cond | apply OKeepsPC.keeps_some_pair | apply OKeepsPC.keeps_some_cond
    | apply KeepsPC.keeps_cond | apply KeepsPC.keeps_snd_cond
    | apply KeepsPC.write_low | apply KeepsPC.do_zflag | apply KeepsPC.do_nflag
    | apply KeepsPC.do_cflag | apply KeepsPC.do_add_vflag | apply KeepsPC.do_sub_vflag
    | apply KeepsPC.do_cflag_bit | apply KeepsPC.do_vflag_bit
    | apply KeepsPC.read16 | apply KeepsPC.write16 | apply KeepsPC.keeps_read32 | apply KeepsPC.keeps_write32
    | apply KeepsPC.halfadd)

theorem keeps_ADD6 (s : Thumbulator) (inst : Nat) : OKeepsPC s (some (exec_ADD6 s inst)) := by
  simp only [exec_ADD6]
  repeat' (with_reducible first
    | (guard_target =ₛ KeepsPC s s; exact KeepsPC.refl s)
    | exact low3_ne_pc _ | exact sp_ne_pc | exact lr_ne_pc
    | exact OKeepsPC.keeps_none
    | apply OKeepsPC.keeps_opt_cond | apply OKeepsPC.keeps_some_pair | apply OKeepsPC.keeps_some_cond
    | apply KeepsPC.keeps_cond | apply KeepsPC.keeps_snd_cond
    | apply KeepsPC.write_low | apply KeepsPC.do_zflag | apply KeepsPC.do_nflag
    | apply KeepsPC.do_cflag | apply KeepsPC.do_add_vflag | apply KeepsPC.do_sub_vflag
    | apply KeepsPC.do_cflag_bit | apply KeepsPC.do_vflag_bit
    | apply KeepsPC.read16 | apply KeepsPC.write16 | apply KeepsPC.keeps_read32 | apply KeepsPC.keeps_write32
    | apply KeepsPC.halfadd)

theorem keeps_ADD7 (s : Thumbulator) (inst : Nat) : OKeepsPC s (some (exec_ADD7 s inst)) := by
  simp only [exec_ADD7]
  repeat' (with_reducible first
    | (guard_target =ₛ KeepsPC s s; exact KeepsPC.refl s)
    | exact low3_ne_pc _ | exact sp_ne_pc | exact lr_ne_pc
    | exact OKeepsPC.keeps_none
    | apply OKeepsPC.keeps_opt_cond | apply OKeepsPC.keeps_some_pair | apply OKeepsPC.keeps_some_cond
    | apply KeepsPC.keeps_cond | apply KeepsPC.keeps_snd_cond
    | apply KeepsPC.write_low | apply KeepsPC.do_zflag | apply KeepsPC.do_nflag
    | apply KeepsPC.do_cflag | apply KeepsPC.do_add_vflag | apply KeepsPC.do_sub_vflag
    | apply KeepsPC.do_cflag_bit | apply KeepsPC.do_vflag_bit
    | apply KeepsPC.read16 | apply KeepsPC.write16 | apply KeepsPC.keeps_read32 | apply KeepsPC.keeps_write32
    | apply KeepsPC.halfadd)

theorem keeps_AND (s : Thumbulator) (inst : Nat) : OKeepsPC s (some (exec_AND s inst)) := by
  simp only [exec_AND]
  repeat' (with_reducible first
    | (guard_target =ₛ KeepsPC s s; exact KeepsPC.refl s)
    | exact low3_ne_pc _ | exact sp_ne_pc | exact lr_ne_pc
    | exact OKeepsPC.keeps_none
    | apply OKeepsPC.keeps_opt_cond | apply OKeepsPC.keeps_some_pair | apply OKeepsPC.keeps_some_cond
    | apply KeepsPC.keeps_cond | apply KeepsPC.keeps_snd_cond
    | apply KeepsPC.write_low | apply KeepsPC.do_zflag | apply KeepsPC.do_nflag
    | apply KeepsPC.do_cflag | apply KeepsPC.do_add_vflag | apply KeepsPC.do_sub_vflag
    | apply KeepsPC.do_cflag_bit | apply KeepsPC.do_vflag_bit
    | apply KeepsPC.read16 | apply KeepsPC.write16 | apply KeepsPC.keeps_read32 | apply KeepsPC.keeps_write32
    | apply KeepsPC.halfadd)

theorem keeps_ASR1 (s : Thumbulator) (inst : Nat) : OKeepsPC s (some (exec_ASR1 s inst)) := by
  simp only [exec_ASR1]
  repeat' (with_reducible first
    | (guard_target =ₛ KeepsPC s s; exact KeepsPC.refl s)
    | exact low3_ne_pc _ | exact sp_ne_pc | exact lr_ne_pc
    | exact OKeepsPC.keeps_none
    | apply OKeepsPC.keeps_opt_cond | apply OKeepsPC.keeps_some_pair | apply OKeepsPC.keeps_some_cond
    | apply KeepsPC.keeps_cond | apply KeepsPC.keeps_snd_cond
    | apply KeepsPC.write_low | apply KeepsPC.do_zflag | apply KeepsPC.do_nflag
    | apply KeepsPC.do_cflag | apply KeepsPC.do_add_vflag | apply KeepsPC.do_sub_vflag
    | apply KeepsPC.do_cflag_bit | apply KeepsPC.do_vflag_bit
    | apply KeepsPC.read16 | apply KeepsPC.write16 | apply KeepsPC.keeps_read32 | apply KeepsPC.keeps_write32
    | apply KeepsPC.halfadd)

theorem keeps_ASR2 (s : Thumbulator) (inst : Nat) : OKeepsPC s (some (exec_ASR2 s inst)) := by
  simp only [exec_ASR2]
  repeat' (with_reducible first
    | (guard_target =ₛ KeepsPC s s; exact KeepsPC.refl s)
    | exact low3_ne_pc _ | exact sp_ne_pc | exact lr_ne_pc
    | exact OKeepsPC.keeps_none
    | apply OKeepsPC.keeps_opt_cond | apply OKeepsPC.keeps_some_pair | apply OKeepsPC.keeps_some_cond
    | apply KeepsPC.keeps_cond | apply KeepsPC.keeps_snd_cond
    | apply KeepsPC.write_low | apply KeepsPC.do_zflag | apply KeepsPC.do_nflag
    | apply KeepsPC.do_cflag | apply KeepsPC.do_add_vflag | apply KeepsPC.do_sub_vflag
    | apply KeepsPC.do_cflag_bit | apply KeepsPC.do_vflag_bit
    | apply KeepsPC.read16 | apply KeepsPC.write16 | apply KeepsPC.keeps_read32 | apply KeepsPC.keeps_write32
    | apply KeepsPC.halfadd)

theorem keeps_BIC (s : Thumbulator) (inst : Nat) : OKeepsPC s (some (exec_BIC s inst)) := by
  simp only [exec_BIC]
  repeat' (with_reducible first
    | (guard_target =ₛ KeepsPC s s; exact KeepsPC.refl s)
    | exact low3_ne_pc _ | exact sp_ne_pc | exact lr_ne_pc
    | exact OKeepsPC.keeps_none
    | apply OKeepsPC.keeps_opt_cond | apply OKeepsPC.keeps_some_pair | apply OKeepsPC.keeps_some_cond
    | apply KeepsPC.keeps_cond | apply KeepsPC.keeps_snd_cond
    | apply KeepsPC.write_low | apply KeepsPC.do_zflag | apply KeepsPC.do_nflag
    | apply KeepsPC.do_cflag | apply KeepsPC.do_add_vflag | apply KeepsPC.do_sub_vflag
    | apply KeepsPC.do_cflag_bit | apply KeepsPC.do_vflag_bit
    | apply KeepsPC.read16 | apply KeepsPC.write16 | apply KeepsPC.keeps_read32 | apply KeepsPC.keeps_write32
    | apply KeepsPC.halfadd)

theorem keeps_BKPT (s : Thumbulator) (inst : Nat) : OKeepsPC s (some (exec_BKPT s inst)) := by
  simp only [exec_BKPT]
  repeat' (with_reducible first
    | (guard_target =ₛ KeepsPC s s; exact KeepsPC.refl s)
    | exact low3_ne_pc _ | exact sp_ne_pc | exact lr_ne_pc
    | exact OKeepsPC.keeps_none
    | apply OKeepsPC.keeps_opt_cond | apply OKeepsPC.keeps_some_pair | apply OKeepsPC.keeps_some_cond
    | apply KeepsPC.keeps_cond | apply KeepsPC.keeps_snd_cond
    | apply KeepsPC.write_low | apply KeepsPC.do_zflag | apply KeepsPC.do_nflag
    | apply KeepsPC.do_cflag | apply KeepsPC.do_add_vflag | apply KeepsPC.do_sub_vflag
    | apply KeepsPC.do_cflag_bit | apply KeepsPC.do_vflag_bit
    | apply KeepsPC.read16 | apply KeepsPC.write16 | apply KeepsPC.keeps_read32 | apply KeepsPC.keeps_write32
    | apply KeepsPC.halfadd)

theorem keeps_CMN (s : Thumbulator) (inst : Nat) : OKeepsPC s (some (exec_CMN s inst)) := by
  simp only [exec_CMN]
  repeat' (with_reducible first
    | (guard_target =ₛ KeepsPC s s; exact KeepsPC.refl s)
    | exact low3_ne_pc _ | exact sp_ne_pc | exact lr_ne_pc
    | exact OKeepsPC.keeps_none
    | apply OKeepsPC.keeps_opt_cond | apply OKeepsPC.keeps_some_pair | apply OKeepsPC.keeps_some_cond
    | apply KeepsPC.keeps_cond | apply KeepsPC.keeps_snd_cond
    | apply KeepsPC.write_low | apply KeepsPC.do_zflag | apply KeepsPC.do_nflag
    | apply KeepsPC.do_cflag | apply KeepsPC.do_add_vflag | apply KeepsPC.do_sub_vflag
    | apply KeepsPC.do_cflag_bit | apply KeepsPC.do_vflag_bit
    | apply KeepsPC.read16 | apply KeepsPC.write16 | apply KeepsPC.keeps_read32 | apply KeepsPC.keeps_write32
    | apply KeepsPC.halfadd)

theorem keeps_CMP1 (s : Thumbulator) (inst : Nat) : OKeepsPC s (some (exec_CMP1 s inst)) := by
  simp only [exec_CMP1]
  repeat' (with_reducible first
    | (guard_target =ₛ KeepsPC s s; exact KeepsPC.refl s)
    | exact low3_ne_pc _ | exact sp_ne_pc | exact lr_ne_pc
    | exact OKeepsPC.keeps_none
    | apply OKeepsPC.keeps_opt_cond | apply OKeepsPC.keeps_some_pair | apply OKeepsPC.keeps_some_cond
    | apply KeepsPC.keeps_cond | apply KeepsPC.keeps_snd_cond
    | apply KeepsPC.write_low | apply KeepsPC.do_zflag | apply KeepsPC.do_nflag
    | apply KeepsPC.do_cflag | apply KeepsPC.do_add_vflag | apply KeepsPC.do_sub_vflag
    | apply KeepsPC.do_cflag_bit | apply KeepsPC.do_vflag_bit
    | apply KeepsPC.read16 | apply KeepsPC.write16 | apply KeepsPC.keeps_read32 | apply KeepsPC.keeps_write32
    | apply KeepsPC.halfadd)

theorem keeps_CMP2 (s : Thumbulator) (inst : Nat) : OKeepsPC s (some (exec_CMP2 s inst)) := by
  simp only [exec_CMP2]
  repeat' (with_reducible first
    | (guard_target =ₛ KeepsPC s s; exact KeepsPC.refl s)
    | exact low3_ne_pc _ | exact sp_ne_pc | exact lr_ne_pc
    | exact OKeepsPC.keeps_none
    | apply OKeepsPC.keeps_opt_cond | apply OKeepsPC.keeps_some_pair | apply OKeepsPC.keeps_some_cond
    | apply KeepsPC.keeps_cond | apply KeepsPC.keeps_snd_cond
    | apply KeepsPC.write_low | apply KeepsPC.do_zflag | apply KeepsPC.do_nflag
    | apply KeepsPC.do_cflag | apply KeepsPC.do_add_vflag | apply KeepsPC.do_sub_vflag
    | apply KeepsPC.do_cflag_bit | apply KeepsPC.do_vflag_bit
    | apply KeepsPC.read16 | apply KeepsPC.write16 | apply KeepsPC.keeps_read32 | apply KeepsPC.keeps_write32
    | apply KeepsPC.halfadd)

theorem keeps_CMP3 (s : Thumbulator) (inst : Nat) : OKeepsPC s (some (exec_CMP3 s inst)) := by
  simp only [exec_CMP3]
  repeat' (with_reducible first
    | (guard_target =ₛ KeepsPC s s; exact KeepsPC.refl s)
    | exact low3_ne_pc _ | exact sp_ne_pc | exact lr_ne_pc
    | exact OKeepsPC.keeps_none
    | apply OKeepsPC.keeps_opt_cond | apply OKeepsPC.keeps_some_pair | apply OKeepsPC.keeps_some_cond
    | apply KeepsPC.keeps_cond | apply KeepsPC.keeps_snd_cond
    | apply KeepsPC.write_low | apply KeepsPC.do_zflag | apply KeepsPC.do_nflag
    | apply KeepsPC.do_cflag | apply KeepsPC.do_add_vflag | apply KeepsPC.do_sub_vflag
    | apply KeepsPC.do_cflag_bit | apply KeepsPC.do_vflag_bit
    | apply KeepsPC.read16 | apply KeepsPC.write16 | apply KeepsPC.keeps_read32 | apply KeepsPC.keeps_write32
    | apply KeepsPC.halfadd)

theorem keeps_CPS (s : Thumbulator) (inst : Nat) : OKeepsPC s (some (exec_CPS s inst)) := by
  simp only [exec_CPS]
  repeat' (with_reducible first
    | (guard_target =ₛ KeepsPC s s; exact KeepsPC.refl s)
    | exact low3_ne_pc _ | exact sp_ne_pc | exact lr_ne_pc
    | exact OKeepsPC.keeps_none
    | apply OKeepsPC.keeps_opt_cond | apply OKeepsPC.keeps_some_pair | apply OKeepsPC.keeps_some_cond
    | apply KeepsPC.keeps_cond | apply KeepsPC.keeps_snd_cond
    | apply KeepsPC.write_low | apply KeepsPC.do_zflag | apply KeepsPC.do_nflag
    | apply KeepsPC.do_cflag | apply KeepsPC.do_add_vflag | apply KeepsPC.do_sub_vflag
    | apply KeepsPC.do_cflag_bit | apply KeepsPC.do_vflag_bit
    | apply KeepsPC.read16 | apply KeepsPC.write16 | apply KeepsPC.keeps_read32 | apply KeepsPC.keeps_write32
    | apply KeepsPC.halfadd)

theorem keeps_CPY (s : Thumbulator) (inst : Nat) : OKeepsPC s (some (exec_CPY s inst)) := by
  simp only [exec_CPY]
  repeat' (with_reducible first
    | (guard_target =ₛ KeepsPC s s; exact KeepsPC.refl s)
    | exact low3_ne_pc _ | exact sp_ne_pc | exact lr_ne_pc
    | exact OKeepsPC.keeps_none
    | apply OKeepsPC.keeps_opt_cond | apply OKeepsPC.keeps_some_pair | apply OKeepsPC.keeps_some_cond
    | apply KeepsPC.keeps_cond | apply KeepsPC.keeps_snd_cond
    | apply KeepsPC.write_low | apply KeepsPC.do_zflag | apply KeepsPC.do_nflag
    | apply KeepsPC.do_cflag | apply KeepsPC.do_add_vflag | apply KeepsPC.do_sub_vflag
    | apply KeepsPC.do_cflag_bit | apply KeepsPC.do_vflag_bit
    | apply KeepsPC.read16 | apply KeepsPC.write16 | apply KeepsPC.keeps_read32 | apply KeepsPC.keeps_write32
    | apply KeepsPC.halfadd)

theorem keeps_EOR (s : Thumbulator) (inst : Nat) : OKeepsPC s (some (exec_EOR s inst)) := by
  simp only [exec_EOR]
  repeat' (with_reducible first
    | (guard_target =ₛ KeepsPC s s; exact KeepsPC.refl s)
    | exact low3_ne_pc _ | exact sp_ne_pc | exact lr_ne_pc
    | exact OKeepsPC.keeps_none
    | apply OKeepsPC.keeps_opt_cond | apply OKeepsPC.keeps_some_pair | apply OKeepsPC.keeps_some_cond
    | apply KeepsPC.keeps_cond | apply KeepsPC.keeps_snd_cond
    | apply KeepsPC.write_low | apply KeepsPC.do_zflag | apply KeepsPC.do_nflag
    | apply KeepsPC.do_cflag | apply KeepsPC.do_add_vflag | apply KeepsPC.do_sub_vflag
    | apply KeepsPC.do_cflag_bit | apply KeepsPC.do_vflag_bit
    | apply KeepsPC.read16 | apply KeepsPC.write16 | apply KeepsPC.keeps_read32 | apply KeepsPC.keeps_write32
    | apply KeepsPC.halfadd)

theorem keeps_LDR1 (s : Thumbulator) (inst : Nat) : OKeepsPC s (some (exec_LDR1 s inst)) := by
  simp only [exec_LDR1]
  repeat' (with_reducible first
    | (guard_target =ₛ KeepsPC s s; exact KeepsPC.refl s)
    | exact low3_ne_pc _ | exact sp_ne_pc | exact lr_ne_pc
    | exact OKeepsPC.keeps_none
    | apply OKeepsPC.keeps_opt_cond | apply OKeepsPC.keeps_some_pair | apply OKeepsPC.keeps_some_cond
    | apply KeepsPC.keeps_cond | apply KeepsPC.keeps_snd_cond
    | apply KeepsPC.write_low | apply KeepsPC.do_zflag | apply KeepsPC.do_nflag
    | apply KeepsPC.do_cflag | apply KeepsPC.do_add_vflag | apply KeepsPC.do_sub_vflag
    | apply KeepsPC.do_cflag_bit | apply KeepsPC.do_vflag_bit
    | apply KeepsPC.read16 | apply KeepsPC.write16 | apply KeepsPC.keeps_read32 | apply KeepsPC.keeps_write32
    | apply KeepsPC.halfadd)

theorem keeps_LDR2 (s : Thumbulator) (inst : Nat) : OKeepsPC s (some (exec_LDR2 s inst)) := by
  simp only [exec_LDR2]
  repeat' (with_reducible first
    | (guard_target =ₛ KeepsPC s s; exact KeepsPC.refl s)
    | exact low3_ne_pc _ | exact sp_ne_pc | exact lr_ne_pc
    | exact OKeepsPC.keeps_none
    | apply OKeepsPC.keeps_opt_cond | apply OKeepsPC.keeps_some_pair | apply OKeepsPC.keeps_some_cond
    | apply KeepsPC.keeps_cond | apply KeepsPC.keeps_snd_cond
    | apply KeepsPC.write_low | apply KeepsPC.do_zflag | apply KeepsPC.do_nflag
    | apply KeepsPC.do_cflag | apply KeepsPC.do_add_vflag | apply KeepsPC.do_sub_vflag
    | apply KeepsPC.do_cflag_bit | apply KeepsPC.do_vflag_bit
    | apply KeepsPC.read16 | apply KeepsPC.write16 | apply KeepsPC.keeps_read32 | apply KeepsPC.keeps_write32
    | apply KeepsPC.halfadd)

theorem keeps_LDR3 (s : Thumbulator) (inst : Nat) : OKeepsPC s (some (exec_LDR3 s inst)) := by
  simp only [exec_LDR3]
  repeat' (with_reducible first
    | (guard_target =ₛ KeepsPC s s; exact KeepsPC.refl s)
    | exact low3_ne_pc _ | exact sp_ne_pc | exact lr_ne_pc
    | exact OKeepsPC.keeps_none
    | apply OKeepsPC.keeps_opt_cond | apply OKeepsPC.keeps_some_pair | apply OKeepsPC.keeps_some_cond
    | apply KeepsPC.keeps_cond | apply KeepsPC.keeps_snd_cond
    | apply KeepsPC.write_low | apply KeepsPC.do_zflag | apply KeepsPC.do_nflag
    | apply KeepsPC.do_cflag | apply KeepsPC.do_add_vflag | apply KeepsPC.do_sub_vflag
    | apply KeepsPC.do_cflag_bit | apply KeepsPC.do_vflag_bit
    | apply KeepsPC.read16 | apply KeepsPC.write16 | apply KeepsPC.keeps_read32 | apply KeepsPC.keeps_write32
    | apply KeepsPC.halfadd)

theorem keeps_LDR4 (s : Thumbulator) (inst : Nat) : OKeepsPC s (some (exec_LDR4 s inst)) := by
  simp only [exec_LDR4]
  repeat' (with_reducible first
    | (guard_target =ₛ KeepsPC s s; exact KeepsPC.refl s)
    | exact low3_ne_pc _ | exact sp_ne_pc | exact lr_ne_pc
    | exact OKeepsPC.keeps_none
    | apply OKeepsPC.keeps_opt_cond | apply OKeepsPC.keeps_some_pair | apply OKeepsPC.keeps_some_cond
    | apply KeepsPC.keeps_cond | apply KeepsPC.keeps_snd_cond
    | apply KeepsPC.write_low | apply KeepsPC.do_zflag | apply KeepsPC.do_nflag
    | apply KeepsPC.do_cflag | apply KeepsPC.do_add_vflag | apply KeepsPC.do_sub_vflag
    | apply KeepsPC.do_cflag_bit | apply KeepsPC.do_vflag_bit
    | apply KeepsPC.read16 | apply KeepsPC.write16 | apply KeepsPC.keeps_read32 | apply KeepsPC.keeps_write32
    | apply KeepsPC.halfadd)

theorem keeps_LDRB1 (s : Thumbulator) (inst : Nat) : OKeepsPC s (some (exec_LDRB1 s inst)) := by
  simp only [exec_LDRB1]
  repeat' (with_reducible first
    | (guard_target =ₛ KeepsPC s s; exact KeepsPC.refl s)
    | exact low3_ne_pc _ | exact sp_ne_pc | exact lr_ne_pc
    | exact OKeepsPC.keeps_none
    | apply OKeepsPC.keeps_opt_cond | apply OKeepsPC.keeps_some_pair | apply OKeepsPC.keeps_some_cond
    | apply KeepsPC.keeps_cond | apply KeepsPC.keeps_snd_cond
    | apply KeepsPC.write_low | apply KeepsPC.do_zflag | apply KeepsPC.do_nflag
    | apply KeepsPC.do_cflag | apply KeepsPC.do_add_vflag | apply KeepsPC.do_sub_vflag
    | apply KeepsPC.do_cflag_bit | apply KeepsPC.do_vflag_bit
    | apply KeepsPC.read16 | apply KeepsPC.write16 | apply KeepsPC.keeps_read32 | apply KeepsPC.keeps_write32
    | apply KeepsPC.halfadd)

theorem keeps_LDRB2 (s : Thumbulator) (inst : Nat) : OKeepsPC s (some (exec_LDRB2 s inst)) := by
  simp only [exec_LDRB2]
  repeat' (with_reducible first
    | (guard_target =ₛ KeepsPC s s; exact KeepsPC.refl s)
    | exact low3_ne_pc _ | exact sp_ne_pc | exact lr_ne_pc
    | exact OKeepsPC.keeps_none
    | apply OKeepsPC.keeps_opt_cond | apply OKeepsPC.keeps_some_pair | apply OKeepsPC.keeps_some_cond
    | apply KeepsPC.keeps_cond | apply KeepsPC.keeps_snd_cond
    | apply KeepsPC.write_low | apply KeepsPC.do_zflag | apply KeepsPC.do_nflag
    | apply KeepsPC.do_cflag | apply KeepsPC.do_add_vflag | apply KeepsPC.do_sub_vflag
    | apply KeepsPC.do_cflag_bit | apply KeepsPC.do_vflag_bit
    | apply KeepsPC.read16 | apply KeepsPC.write16 | apply KeepsPC.keeps_read32 | apply KeepsPC.keeps_write32
    | apply KeepsPC.halfadd)

theorem keeps_LDRH1 (s : Thumbulator) (inst : Nat) : OKeepsPC s (some (exec_LDRH1 s inst)) := by
  simp only [exec_LDRH1]
  repeat' (with_reducible first
    | (guard_target =ₛ KeepsPC s s; exact KeepsPC.refl s)
    | exact low3_ne_pc _ | exact sp_ne_pc | exact lr_ne_pc
    | exact OKeepsPC.keeps_none
    | apply OKeepsPC.keeps_opt_cond | apply OKeepsPC.keeps_some_pair | apply OKeepsPC.keeps_some_cond
    | apply KeepsPC.keeps_cond | apply KeepsPC.keeps_snd_cond
    | apply KeepsPC.write_low | apply KeepsPC.do_zflag | apply KeepsPC.do_nflag
    | apply KeepsPC.do_cflag | apply KeepsPC.do_add_vflag | apply KeepsPC.do_sub_vflag
    | apply KeepsPC.do_cflag_bit | apply KeepsPC.do_vflag_bit
    | apply KeepsPC.read16 | apply KeepsPC.write16 | apply KeepsPC.keeps_read32 | apply KeepsPC.keeps_write32
    | apply KeepsPC.halfadd)

theorem keeps_LDRH2 (s : Thumbulator) (inst : Nat) : OKeepsPC s (some (exec_LDRH2 s inst)) := by
  simp only [exec_LDRH2]
  repeat' (with_reducible first
    | (guard_target =ₛ KeepsPC s s; exact KeepsPC.refl s)
    | exact low3_ne_pc _ | exact sp_ne_pc | exact lr_ne_pc
    | exact OKeepsPC.keeps_none
    | apply OKeepsPC.keeps_opt_cond | apply OKeepsPC.keeps_some_pair | apply OKeepsPC.keeps_some_cond
    | apply KeepsPC.keeps_cond | apply KeepsPC.keeps_snd_cond
    | apply KeepsPC.write_low | apply KeepsPC.do_zflag | apply KeepsPC.do_nflag
    | apply KeepsPC.do_cflag | apply KeepsPC.do_add_vflag | apply KeepsPC.do_sub_vflag
    | apply KeepsPC.do_cflag_bit | apply KeepsPC.do_vflag_bit
    | apply KeepsPC.read16 | apply KeepsPC.write16 | apply KeepsPC.keeps_read32 | apply KeepsPC.keeps_write32
    | apply KeepsPC.halfadd)

theorem keeps_LDRSB (s : Thumbulator) (inst : Nat) : OKeepsPC s (some (exec_LDRSB s inst)) := by
  simp only [exec_LDRSB]
  repeat' (with_reducible first
    | (guard_target =ₛ KeepsPC s s; exact KeepsPC.refl s)
    | exact low3_ne_pc _ | exact sp_ne_pc | exact lr_ne_pc
    | exact OKeepsPC.keeps_none
    | apply OKeepsPC.keeps_opt_cond | apply OKeepsPC.keeps_some_pair | apply OKeepsPC.keeps_some_cond
    | apply KeepsPC.keeps_cond | apply KeepsPC.keeps_snd_cond
    | apply KeepsPC.write_low | apply KeepsPC.do_zflag | apply KeepsPC.do_nflag
    | apply KeepsPC.do_cflag | apply KeepsPC.do_add_vflag | apply KeepsPC.do_sub_vflag
    | apply KeepsPC.do_cflag_bit | apply KeepsPC.do_vflag_bit
    | apply KeepsPC.read16 | apply KeepsPC.write16 | apply KeepsPC.keeps_read32 | apply KeepsPC.keeps_write32
    | apply KeepsPC.halfadd)

theorem keeps_LDRSH (s : Thumbulator) (inst : Nat) : OKeepsPC s (some (exec_LDRSH s inst)) := by
  simp only [exec_LDRSH]
  repeat' (with_reducible first
    | (guard_target =ₛ KeepsPC s s; exact KeepsPC.refl s)
    | exact low3_ne_pc _ | exact sp_ne_pc | exact lr_ne_pc
    | exact OKeepsPC.keeps_none
    | apply OKeepsPC.keeps_opt_cond | apply OKeepsPC.keeps_some_pair | apply OKeepsPC.keeps_some_cond
    | apply KeepsPC.keeps_cond | apply KeepsPC.keeps_snd_cond
    | apply KeepsPC.write_low | apply KeepsPC.do_zflag | apply KeepsPC.do_nflag
    | apply KeepsPC.do_cflag | apply KeepsPC.do_add_vflag | apply KeepsPC.do_sub_vflag
    | apply KeepsPC.do_cflag_bit | apply KeepsPC.do_vflag_bit
    | apply KeepsPC.read16 | apply KeepsPC.write16 | apply KeepsPC.keeps_read32 | apply KeepsPC.keeps_write32
    | apply KeepsPC.halfadd)

theorem keeps_LSL1 (s : Thumbulator) (inst : Nat) : OKeepsPC s (some (exec_LSL1 s inst)) := by
  simp only [exec_LSL1]
  repeat' (with_reducible first
    | (guard_target =ₛ KeepsPC s s; exact KeepsPC.refl s)
    | exact low3_ne_pc _ | exact sp_ne_pc | exact lr_ne_pc
    | exact OKeepsPC.keeps_none
    | apply OKeepsPC.keeps_opt_cond | apply OKeepsPC.keeps_some_pair | apply OKeepsPC.keeps_some_cond
    | apply KeepsPC.keeps_cond | apply KeepsPC.keeps_snd_cond
    | apply KeepsPC.write_low | apply KeepsPC.do_zflag | apply KeepsPC.do_nflag
    | apply KeepsPC.do_cflag | apply KeepsPC.do_add_vflag | apply KeepsPC.do_sub_vflag
    | apply KeepsPC.do_cflag_bit | apply KeepsPC.do_vflag_bit
    | apply KeepsPC.read16 | apply KeepsPC.write16 | apply KeepsPC.keeps_read32 | apply KeepsPC.keeps_write32
    | apply KeepsPC.halfadd)

theorem keeps_LSL2 (s : Thumbulator) (inst : Nat) : OKeepsPC s (some (exec_LSL2 s inst)) := by
  simp only [exec_LSL2]
  repeat' (with_reducible first
    | (guard_target =ₛ KeepsPC s s; exact KeepsPC.refl s)
    | exact low3_ne_pc _ | exact sp_ne_pc | exact lr_ne_pc
    | exact OKeepsPC.keeps_none
    | apply OKeepsPC.keeps_opt_cond | apply OKeepsPC.keeps_some_pair | apply OKeepsPC.keeps_some_cond
    | apply KeepsPC.keeps_cond | apply KeepsPC.keeps_snd_cond
    | apply KeepsPC.write_low | apply KeepsPC.do_zflag | apply KeepsPC.do_nflag
    | apply KeepsPC.do_cflag | apply KeepsPC.do_add_vflag | apply KeepsPC.do_sub_vflag
    | apply KeepsPC.do_cflag_bit | apply KeepsPC.do_vflag_bit
    | apply KeepsPC.read16 | apply KeepsPC.write16 | apply KeepsPC.keeps_read32 | apply KeepsPC.keeps_write32
    | apply KeepsPC.halfadd)

theorem keeps_LSR1 (s : Thumbulator) (inst : Nat) : OKeepsPC s (some (exec_LSR1 s inst)) := by
  simp only [exec_LSR1]
  repeat' (with_reducible first
    | (guard_target =ₛ KeepsPC s s; exact KeepsPC.refl s)
    | exact low3_ne_pc _ | exact sp_ne_pc | exact lr_ne_pc
    | exact OKeepsPC.keeps_none
    | apply OKeepsPC.keeps_opt_cond | apply OKeepsPC.keeps_some_pair | apply OKeepsPC.keeps_some_cond
    | apply KeepsPC.keeps_cond | apply KeepsPC.keeps_snd_cond
    | apply KeepsPC.write_low | apply KeepsPC.do_zflag | apply KeepsPC.do_nflag
    | apply KeepsPC.do_cflag | apply KeepsPC.do_add_vflag | apply KeepsPC.do_sub_vflag
    | apply KeepsPC.do_cflag_bit | apply KeepsPC.do_vflag_bit
    | apply KeepsPC.read16 | apply KeepsPC.write16 | apply KeepsPC.keeps_read32 | apply KeepsPC.keeps_write32
    | apply KeepsPC.halfadd)

theorem keeps_LSR2 (s : Thumbulator) (inst : Nat) : OKeepsPC s (some (exec_LSR2 s inst)) := by
  simp only [exec_LSR2]
  repeat' (with_reducible first
    | (guard_target =ₛ KeepsPC s s; exact KeepsPC.refl s)
    | exact low3_ne_pc _ | exact sp_ne_pc | exact lr_ne_pc
    | exact OKeepsPC.keeps_none
    | apply OKeepsPC.keeps_opt_cond | apply OKeepsPC.keeps_some_pair | apply OKeepsPC.keeps_some_cond
    | apply KeepsPC.keeps_cond | apply KeepsPC.keeps_snd_cond
    | apply KeepsPC.write_low | apply KeepsPC.do_zflag | apply KeepsPC.do_nflag
    | apply KeepsPC.do_cflag | apply KeepsPC.do_add_vflag | apply KeepsPC.do_sub_vflag
    | apply KeepsPC.do_cflag_bit | apply KeepsPC.do_vflag_bit
    | apply KeepsPC.read16 | apply KeepsPC.write16 | apply KeepsPC.keeps_read32 | apply KeepsPC.keeps_write32
    | apply KeepsPC.halfadd)

theorem keeps_MOV1 (s : Thumbulator) (inst : Nat) : OKeepsPC s (some (exec_MOV1 s inst)) := by
  simp only [exec_MOV1]
  repeat' (with_reducible first
    | (guard_target =ₛ KeepsPC s s; exact KeepsPC.refl s)
    | exact low3_ne_pc _ | exact sp_ne_pc | exact lr_ne_pc
    | exact OKeepsPC.keeps_none
    | apply OKeepsPC.keeps_opt_cond | apply OKeepsPC.keeps_some_pair | apply OKeepsPC.keeps_some_cond
    | apply KeepsPC.keeps_cond | apply KeepsPC.keeps_snd_cond
    | apply KeepsPC.write_low | apply KeepsPC.do_zflag | apply KeepsPC.do_nflag
    | apply KeepsPC.do_cflag | apply KeepsPC.do_add_vflag | apply KeepsPC.do_sub_vflag
    | apply KeepsPC.do_cflag_bit | apply KeepsPC.do_vflag_bit
    | apply KeepsPC.read16 | apply KeepsPC.write16 | apply KeepsPC.keeps_read32 | apply KeepsPC.keeps_write32
    | apply KeepsPC.halfadd)

theorem keeps_MOV2 (s : Thumbulator) (inst : Nat) : OKeepsPC s (some (exec_MOV2 s inst)) := by
  simp only [exec_MOV2]
  repeat' (with_reducible first
    | (guard_target =ₛ KeepsPC s s; exact KeepsPC.refl s)
    | exact low3_ne_pc _ | exact sp_ne_pc | exact lr_ne_pc
    | exact OKeepsPC.keeps_none
    | apply OKeepsPC.keeps_opt_cond | apply OKeepsPC.keeps_some_pair | apply OKeepsPC.keeps_some_cond
    | apply KeepsPC.keeps_cond | apply KeepsPC.keeps_snd_cond
    | apply KeepsPC.write_low | apply KeepsPC.do_zflag | apply KeepsPC.do_nflag
    | apply KeepsPC.do_cflag | apply KeepsPC.do_add_vflag | apply KeepsPC.do_sub_vflag
    | apply KeepsPC.do_cflag_bit | apply KeepsPC.do_vflag_bit
    | apply KeepsPC.read16 | apply KeepsPC.write16 | apply KeepsPC.keeps_read32 | apply KeepsPC.keeps_write32
    | apply KeepsPC.halfadd)

theorem keeps_MUL (s : Thumbulator) (inst : Nat) : OKeepsPC s (some (exec_MUL s inst)) := by
  simp only [exec_MUL]
  repeat' (with_reducible first
    | (guard_target =ₛ KeepsPC s s; exact KeepsPC.refl s)
    | exact low3_ne_pc _ | exact sp_ne_pc | exact lr_ne_pc
    | exact OKeepsPC.keeps_none
    | apply OKeepsPC.keeps_opt_cond | apply OKeepsPC.keeps_some_pair | apply OKeepsPC.keeps_some_cond
    | apply KeepsPC.keeps_cond | apply KeepsPC.keeps_snd_cond
    | apply KeepsPC.write_low | apply KeepsPC.do_zflag | apply KeepsPC.do_nflag
    | apply KeepsPC.do_cflag | apply KeepsPC.do_add_vflag | apply KeepsPC.do_sub_vflag
    | apply KeepsPC.do_cflag_bit | apply KeepsPC.do_vflag_bit
    | apply KeepsPC.read16 | apply KeepsPC.write16 | apply KeepsPC.keeps_read32 | apply KeepsPC.keeps_write32
    | apply KeepsPC.halfadd)

theorem keeps_MVN (s : Thumbulator) (inst : Nat) : OKeepsPC s (some (exec_MVN s inst)) := by
  simp only [exec_MVN]
  repeat' (with_reducible first
    | (guard_target =ₛ KeepsPC s s; exact KeepsPC.refl s)
    | exact low3_ne_pc _ | exact sp_ne_pc | exact lr_ne_pc
    | exact OKeepsPC.keeps_none
    | apply OKeepsPC.keeps_opt_cond | apply OKeepsPC.keeps_some_pair | apply OKeepsPC.keeps_some_cond
    | apply KeepsPC.keeps_cond | apply KeepsPC.keeps_snd_cond
    | apply KeepsPC.write_low | apply KeepsPC.do_zflag | apply KeepsPC.do_nflag
    | apply KeepsPC.do_cflag | apply KeepsPC.do_add_vflag | apply KeepsPC.do_sub_vflag
    | apply KeepsPC.do_cflag_bit | apply KeepsPC.do_vflag_bit
    | apply KeepsPC.read16 | apply KeepsPC.write16 | apply KeepsPC.keeps_read32 | apply KeepsPC.keeps_write32
    | apply KeepsPC.halfadd)

theorem keeps_NEG (s : Thumbulator) (inst : Nat) : OKeepsPC s (some (exec_NEG s inst)) := by
  simp only [exec_NEG]
  repeat' (with_reducible first
    | (guard_target =ₛ KeepsPC s s; exact KeepsPC.refl s)
    | exact low3_ne_pc _ | exact sp_ne_pc | exact lr_ne_pc
    | exact OKeepsPC.keeps_none
    | apply OKeepsPC.keeps_opt_cond | apply OKeepsPC.keeps_some_pair | apply OKeepsPC.keeps_some_cond
    | apply KeepsPC.keeps_cond | apply KeepsPC.keeps_snd_cond
    | apply KeepsPC.write_low | apply KeepsPC.do_zflag | apply KeepsPC.do_nflag
    | apply KeepsPC.do_cflag | apply KeepsPC.do_add_vflag | apply KeepsPC.do_sub_vflag
    | apply KeepsPC.do_cflag_bit | apply KeepsPC.do_vflag_bit
    | apply KeepsPC.read16 | apply KeepsPC.write16 | apply KeepsPC.keeps_read32 | apply KeepsPC.keeps_write32
    | apply KeepsPC.halfadd)

theorem keeps_ORR (s : Thumbulator) (inst : Nat) : OKeepsPC s (some (exec_ORR s inst)) := by
  simp only [exec_ORR]
  repeat' (with_reducible first
    | (guard_target =ₛ KeepsPC s s; exact KeepsPC.refl s)
    | exact low3_ne_pc _ | exact sp_ne_pc | exact lr_ne_pc
    | exact OKeepsPC.keeps_none
    | apply OKeepsPC.keeps_opt_cond | apply OKeepsPC.keeps_some_pair | apply OKeepsPC.keeps_some_cond
    | apply KeepsPC.keeps_cond | apply KeepsPC.keeps_snd_cond
    | apply KeepsPC.write_low | apply KeepsPC.do_zflag | apply KeepsPC.do_nflag
    | apply KeepsPC.do_cflag | apply KeepsPC.do_add_vflag | apply KeepsPC.do_sub_vflag
    | apply KeepsPC.do_cflag_bit | apply KeepsPC.do_vflag_bit
    | apply KeepsPC.read16 | apply KeepsPC.write16 | apply KeepsPC.keeps_read32 | apply KeepsPC.keeps_write32
    | apply KeepsPC.halfadd)

theorem keeps_REV (s : Thumbulator) (inst : Nat) : OKeepsPC s (some (exec_REV s inst)) := by
  simp only [exec_REV]
  repeat' (with_reducible first
    | (guard_target =ₛ KeepsPC s s; exact KeepsPC.refl s)
    | exact low3_ne_pc _ | exact sp_ne_pc | exact lr_ne_pc
    | exact OKeepsPC.keeps_none
    | apply OKeepsPC.keeps_opt_cond | apply OKeepsPC.keeps_some_pair | apply OKeepsPC.keeps_some_cond
    | apply KeepsPC.keeps_cond | apply KeepsPC.keeps_snd_cond
    | apply KeepsPC.write_low | apply KeepsPC.do_zflag | apply KeepsPC.do_nflag
    | apply KeepsPC.do_cflag | apply KeepsPC.do_add_vflag | apply KeepsPC.do_sub_vflag
    | apply KeepsPC.do_cflag_bit | apply KeepsPC.do_vflag_bit
    | apply KeepsPC.read16 | apply KeepsPC.write16 | apply KeepsPC.keeps_read32 | apply KeepsPC.keeps_write32
    | apply KeepsPC.halfadd)

theorem keeps_REV16 (s : Thumbulator) (inst : Nat) : OKeepsPC s (some (exec_REV16 s inst)) := by
  simp only [exec_REV16]
  repeat' (with_reducible first
    | (guard_target =ₛ KeepsPC s s; exact KeepsPC.refl s)
    | exact low3_ne_pc _ | exact sp_ne_pc | exact lr_ne_pc
    | exact OKeepsPC.keeps_none
    | apply OKeepsPC.keeps_opt_cond | apply OKeepsPC.keeps_some_pair | apply OKeepsPC.keeps_some_cond
    | apply KeepsPC.keeps_cond | apply KeepsPC.keeps_snd_cond
    | apply KeepsPC.write_low | apply KeepsPC.do_zflag | apply KeepsPC.do_nflag
    | apply KeepsPC.do_cflag | apply KeepsPC.do_add_vflag | apply KeepsPC.do_sub_vflag
    | apply KeepsPC.do_cflag_bit | apply KeepsPC.do_vflag_bit
    | apply KeepsPC.read16 | apply KeepsPC.write16 | apply KeepsPC.keeps_read32 | apply KeepsPC.keeps_write32
    | apply KeepsPC.halfadd)

theorem keeps_REVSH (s : Thumbulator) (inst : Nat) : OKeepsPC s (some (exec_REVSH s inst)) := by
  simp only [exec_REVSH]
  repeat' (with_reducible first
    | (guard_target =ₛ KeepsPC s s; exact KeepsPC.refl s)
    | exact low3_ne_pc _ | exact sp_ne_pc | exact lr_ne_pc
    | exact OKeepsPC.keeps_none
    | apply OKeepsPC.keeps_opt_cond | apply OKeepsPC.keeps_some_pair | apply OKeepsPC.keeps_some_cond
    | apply KeepsPC.keeps_cond | apply KeepsPC.keeps_snd_cond
    | apply KeepsPC.write_low | apply KeepsPC.do_zflag | apply KeepsPC.do_nflag
    | apply KeepsPC.do_cflag | apply KeepsPC.do_add_vflag | apply KeepsPC.do_sub_vflag
    | apply KeepsPC.do_cflag_bit | apply KeepsPC.do_vflag_bit
    | apply KeepsPC.read16 | apply KeepsPC.write16 | apply KeepsPC.keeps_read32 | apply KeepsPC.keeps_write32
    | apply KeepsPC.halfadd)

theorem keeps_ROR (s : Thumbulator) (inst : Nat) : OKeepsPC s (some (exec_ROR s inst)) := by
  simp only [exec_ROR]
  repeat' (with_reducible first
    | (guard_target =ₛ KeepsPC s s; exact KeepsPC.refl s)
    | exact low3_ne_pc _ | exact sp_ne_pc | exact lr_ne_pc
    | exact OKeepsPC.keeps_none
    | apply OKeepsPC.keeps_opt_cond | apply OKeepsPC.keeps_some_pair | apply OKeepsPC.keeps_some_cond
    | apply KeepsPC.keeps_cond | apply KeepsPC.keeps_snd_cond
    | apply KeepsPC.write_low | apply KeepsPC.do_zflag | apply KeepsPC.do_nflag
    | apply KeepsPC.do_cflag | apply KeepsPC.do_add_vflag | apply KeepsPC.do_sub_vflag
    | apply KeepsPC.do_cflag_bit | apply KeepsPC.do_vflag_bit
    | apply KeepsPC.read16 | apply KeepsPC.write16 | apply KeepsPC.keeps_read32 | apply KeepsPC.keeps_write32
    | apply KeepsPC.halfadd)

theorem keeps_SBC (s : Thumbulator) (inst : Nat) : OKeepsPC s (some (exec_SBC s inst)) := by
  simp only [exec_SBC]
  repeat' (with_reducible first
    | (guard_target =ₛ KeepsPC s s; exact KeepsPC.refl s)
    | exact low3_ne_pc _ | exact sp_ne_pc | exact lr_ne_pc
    | exact OKeepsPC.keeps_none
    | apply OKeepsPC.keeps_opt_cond | apply OKeepsPC.keeps_some_pair | apply OKeepsPC.keeps_some_cond
    | apply KeepsPC.keeps_cond | apply KeepsPC.keeps_snd_cond
    | apply KeepsPC.write_low | apply KeepsPC.do_zflag | apply KeepsPC.do_nflag
    | apply KeepsPC.do_cflag | apply KeepsPC.do_add_vflag | apply KeepsPC.do_sub_vflag
    | apply KeepsPC.do_cflag_bit | apply KeepsPC.do_vflag_bit
    | apply KeepsPC.read16 | apply KeepsPC.write16 | apply KeepsPC.keeps_read32 | apply KeepsPC.keeps_write32
    | apply KeepsPC.halfadd)

theorem keeps_SETEND (s : Thumbulator) (inst : Nat) : OKeepsPC s (some (exec_SETEND s inst)) := by
  simp only [exec_SETEND]
  repeat' (with_reducible first
    | (guard_target =ₛ KeepsPC s s; exact KeepsPC.refl s)
    | exact low3_ne_pc _ | exact sp_ne_pc | exact lr_ne_pc
    | exact OKeepsPC.keeps_none
    | apply OKeepsPC.keeps_opt_cond | apply OKeepsPC.keeps_some_pair | apply OKeepsPC.keeps_some_cond
    | apply KeepsPC.keeps_cond | apply KeepsPC.keeps_snd_cond
    | apply KeepsPC.write_low | apply KeepsPC.do_zflag | apply KeepsPC.do_nflag
    | apply KeepsPC.do_cflag | apply KeepsPC.do_add_vflag | apply KeepsPC.do_sub_vflag
    | apply KeepsPC.do_cflag_bit | apply KeepsPC.do_vflag_bit
    | apply KeepsPC.read16 | apply KeepsPC.write16 | apply KeepsPC.keeps_read32 | apply KeepsPC.keeps_write32
    | apply KeepsPC.halfadd)

theorem keeps_STR1 (s : Thumbulator) (inst : Nat) : OKeepsPC s (some (exec_STR1 s inst)) := by
  simp only [exec_STR1]
  repeat' (with_reducible first
    | (guard_target =ₛ KeepsPC s s; exact KeepsPC.refl s)
    | exact low3_ne_pc _ | exact sp_ne_pc | exact lr_ne_pc
    | exact OKeepsPC.keeps_none
    | apply OKeepsPC.keeps_opt_cond | apply OKeepsPC.keeps_some_pair | apply OKeepsPC.keeps_some_cond
    | apply KeepsPC.keeps_cond | apply KeepsPC.keeps_snd_cond
    | apply KeepsPC.write_low | apply KeepsPC.do_zflag | apply KeepsPC.do_nflag
    | apply KeepsPC.do_cflag | apply KeepsPC.do_add_vflag | apply KeepsPC.do_sub_vflag
    | apply KeepsPC.do_cflag_bit | apply KeepsPC.do_vflag_bit
    | apply KeepsPC.read16 | apply KeepsPC.write16 | apply KeepsPC.keeps_read32 | apply KeepsPC.keeps_write32
    | apply KeepsPC.halfadd)

theorem keeps_STR2 (s : Thumbulator) (inst : Nat) : OKeepsPC s (some (exec_STR2 s inst)) := by
  simp only [exec_STR2]
  repeat' (with_reducible first
    | (guard_target =ₛ KeepsPC s s; exact KeepsPC.refl s)
    | exact low3_ne_pc _ | exact sp_ne_pc | exact lr_ne_pc
    | exact OKeepsPC.keeps_none
    | apply OKeepsPC.keeps_opt_cond | apply OKeepsPC.keeps_some_pair | apply OKeepsPC.keeps_some_cond
    | apply KeepsPC.keeps_cond | apply KeepsPC.keeps_snd_cond
    | apply KeepsPC.write_low | apply KeepsPC.do_zflag | apply KeepsPC.do_nflag
    | apply KeepsPC.do_cflag | apply KeepsPC.do_add_vflag | apply KeepsPC.do_sub_vflag
    | apply KeepsPC.do_cflag_bit | apply KeepsPC.do_vflag_bit
    | apply KeepsPC.read16 | apply KeepsPC.write16 | apply KeepsPC.keeps_read32 | apply KeepsPC.keeps_write32
    | apply KeepsPC.halfadd)

theorem keeps_STR3 (s : Thumbulator) (inst : Nat) : OKeepsPC s (some (exec_STR3 s inst)) := by
  simp only [exec_STR3]
  repeat' (with_reducible first
    | (guard_target =ₛ KeepsPC s s; exact KeepsPC.refl s)
    | exact low3_ne_pc _ | exact sp_ne_pc | exact lr_ne_pc
    | exact OKeepsPC.keeps_none
    | apply OKeepsPC.keeps_opt_cond | apply OKeepsPC.keeps_some_pair | apply OKeepsPC.keeps_some_cond
    | apply KeepsPC.keeps_cond | apply KeepsPC.keeps_snd_cond
    | apply KeepsPC.write_low | apply KeepsPC.do_zflag | apply KeepsPC.do_nflag
    | apply KeepsPC.do_cflag | apply KeepsPC.do_add_vflag | apply KeepsPC.do_sub_vflag
    | apply KeepsPC.do_cflag_bit | apply KeepsPC.do_vflag_bit
    | apply KeepsPC.read16 | apply KeepsPC.write16 | apply KeepsPC.keeps_read32 | apply KeepsPC.keeps_write32
    | apply KeepsPC.halfadd)

theorem keeps_STRB1 (s : Thumbulator) (inst : Nat) : OKeepsPC s (some (exec_STRB1 s inst)) := by
  simp only [exec_STRB1]
  repeat' (with_reducible first
    | (guard_target =ₛ KeepsPC s s; exact KeepsPC.refl s)
    | exact low3_ne_pc _ | exact sp_ne_pc | exact lr_ne_pc
    | exact OKeepsPC.keeps_none
    | apply OKeepsPC.keeps_opt_cond | apply OKeepsPC.keeps_some_pair | apply OKeepsPC.keeps_some_cond
    | apply KeepsPC.keeps_cond | apply KeepsPC.keeps_snd_cond
    | apply KeepsPC.write_low | apply KeepsPC.do_zflag | apply KeepsPC.do_nflag
    | apply KeepsPC.do_cflag | apply KeepsPC.do_add_vflag | apply KeepsPC.do_sub_vflag
    | apply KeepsPC.do_cflag_bit | apply KeepsPC.do_vflag_bit
    | apply KeepsPC.read16 | apply KeepsPC.write16 | apply KeepsPC.keeps_read32 | apply KeepsPC.keeps_write32
    | apply KeepsPC.halfadd)

theorem keeps_STRB2 (s : Thumbulator) (inst : Nat) : OKeepsPC s (some (exec_STRB2 s inst)) := by
  simp only [exec_STRB2]
  repeat' (with_reducible first
    | (guard_target =ₛ KeepsPC s s; exact KeepsPC.refl s)
    | exact low3_ne_pc _ | exact sp_ne_pc | exact lr_ne_pc
    | exact OKeepsPC.keeps_none
    | apply OKeepsPC.keeps_opt_cond | apply OKeepsPC.keeps_some_pair | apply OKeepsPC.keeps_some_cond
    | apply KeepsPC.keeps_cond | apply KeepsPC.keeps_snd_cond
    | apply KeepsPC.write_low | apply KeepsPC.do_zflag | apply KeepsPC.do_nflag
    | apply KeepsPC.do_cflag | apply KeepsPC.do_add_vflag | apply KeepsPC.do_sub_vflag
    | apply KeepsPC.do_cflag_bit | apply KeepsPC.do_vflag_bit
    | apply KeepsPC.read16 | apply KeepsPC.write16 | apply KeepsPC.keeps_read32 | apply KeepsPC.keeps_write32
    | apply KeepsPC.halfadd)

theorem keeps_STRH1 (s : Thumbulator) (inst : Nat) : OKeepsPC s (some (exec_STRH1 s inst)) := by
  simp only [exec_STRH1]
  repeat' (with_reducible first
    | (guard_target =ₛ KeepsPC s s; exact KeepsPC.refl s)
    | exact low3_ne_pc _ | exact sp_ne_pc | exact lr_ne_pc
    | exact OKeepsPC.keeps_none
    | apply OKeepsPC.keeps_opt_cond | apply OKeepsPC.keeps_some_pair | apply OKeepsPC.keeps_some_cond
    | apply KeepsPC.keeps_cond | apply KeepsPC.keeps_snd_cond
    | apply KeepsPC.write_low | apply KeepsPC.do_zflag | apply KeepsPC.do_nflag
    | apply KeepsPC.do_cflag | apply KeepsPC.do_add_vflag | apply KeepsPC.do_sub_vflag
    | apply KeepsPC.do_cflag_bit | apply KeepsPC.do_vflag_bit
    | apply KeepsPC.read16 | apply KeepsPC.write16 | apply KeepsPC.keeps_read32 | apply KeepsPC.keeps_write32
    | apply KeepsPC.halfadd)

theorem keeps_STRH2 (s : Thumbulator) (inst : Nat) : OKeepsPC s (some (exec_STRH2 s inst)) := by
  simp only [exec_STRH2]
  repeat' (with_reducible first
    | (guard_target =ₛ KeepsPC s s; exact KeepsPC.refl s)
    | exact low3_ne_pc _ | exact sp_ne_pc | exact lr_ne_pc
    | exact OKeepsPC.keeps_none
    | apply OKeepsPC.keeps_opt_cond | apply OKeepsPC.keeps_some_pair | apply OKeepsPC.keeps_some_cond
    | apply KeepsPC.keeps_cond | apply KeepsPC.keeps_snd_cond
    | apply KeepsPC.write_low | apply KeepsPC.do_zflag | apply KeepsPC.do_nflag
    | apply KeepsPC.do_cflag | apply KeepsPC.do_add_vflag | apply KeepsPC.do_sub_vflag
    | apply KeepsPC.do_cflag_bit | apply KeepsPC.do_vflag_bit
    | apply KeepsPC.read16 | apply KeepsPC.write16 | apply KeepsPC.keeps_read32 | apply KeepsPC.keeps_write32
    | apply KeepsPC.halfadd)

theorem keeps_SUB1 (s : Thumbulator) (inst : Nat) : OKeepsPC s (some (exec_SUB1 s inst)) := by
  simp only [exec_SUB1]
  repeat' (with_reducible first
    | (guard_target =ₛ KeepsPC s s; exact KeepsPC.refl s)
    | exact low3_ne_pc _ | exact sp_ne_pc | exact lr_ne_pc
    | exact OKeepsPC.keeps_none
    | apply OKeepsPC.keeps_opt_cond | apply OKeepsPC.keeps_some_pair | apply OKeepsPC.keeps_some_cond
    | apply KeepsPC.keeps_cond | apply KeepsPC.keeps_snd_cond
    | apply KeepsPC.write_low | apply KeepsPC.do_zflag | apply KeepsPC.do_nflag
    | apply KeepsPC.do_cflag | apply KeepsPC.do_add_vflag | apply KeepsPC.do_sub_vflag
    | apply KeepsPC.do_cflag_bit | apply KeepsPC.do_vflag_bit
    | apply KeepsPC.read16 | apply KeepsPC.write16 | apply KeepsPC.keeps_read32 | apply KeepsPC.keeps_write32
    | apply KeepsPC.halfadd)

theorem keeps_SUB2 (s : Thumbulator) (inst : Nat) : OKeepsPC s (some (exec_SUB2 s inst)) := by
  simp only [exec_SUB2]
  repeat' (with_reducible first
    | (guard_target =ₛ KeepsPC s s; exact KeepsPC.refl s)
    | exact low3_ne_pc _ | exact sp_ne_pc | exact lr_ne_pc
    | exact OKeepsPC.keeps_none
    | apply OKeepsPC.keeps_opt_cond | apply OKeepsPC.keeps_some_pair | apply OKeepsPC.keeps_some_cond
    | apply KeepsPC.keeps_cond | apply KeepsPC.keeps_snd_cond
    | apply KeepsPC.write_low | apply KeepsPC.do_zflag | apply KeepsPC.do_nflag
    | apply KeepsPC.do_cflag | apply KeepsPC.do_add_vflag | apply KeepsPC.do_sub_vflag
    | apply KeepsPC.do_cflag_bit | apply KeepsPC.do_vflag_bit
    | apply KeepsPC.read16 | apply KeepsPC.write16 | apply KeepsPC.keeps_read32 | apply KeepsPC.keeps_write32
    | apply KeepsPC.halfadd)

theorem keeps_SUB3 (s : Thumbulator) (inst : Nat) : OKeepsPC s (some (exec_SUB3 s inst)) := by
  simp only [exec_SUB3]
  repeat' (with_reducible first
    | (guard_target =ₛ KeepsPC s s; exact KeepsPC.refl s)
    | exact low3_ne_pc _ | exact sp_ne_pc | exact lr_ne_pc
    | exact OKeepsPC.keeps_none
    | apply OKeepsPC.keeps_opt_cond | apply OKeepsPC.keeps_some_pair | apply OKeepsPC.keeps_some_cond
    | apply KeepsPC.keeps_cond | apply KeepsPC.keeps_snd_cond
    | apply KeepsPC.write_low | apply KeepsPC.do_zflag | apply KeepsPC.do_nflag
    | apply KeepsPC.do_cflag | apply KeepsPC.do_add_vflag | apply KeepsPC.do_sub_vflag
    | apply KeepsPC.do_cflag_bit | apply KeepsPC.do_vflag_bit
    | apply KeepsPC.read16 | apply KeepsPC.write16 | apply KeepsPC.keeps_read32 | apply KeepsPC.keeps_write32
    | apply KeepsPC.halfadd)

theorem keeps_SUB4 (s : Thumbulator) (inst : Nat) : OKeepsPC s (some (exec_SUB4 s inst)) := by
  simp only [exec_SUB4]
  repeat' (with_reducible first
    | (guard_target =ₛ KeepsPC s s; exact KeepsPC.refl s)
    | exact low3_ne_pc _ | exact sp_ne_pc | exact lr_ne_pc
    | exact OKeepsPC.keeps_none
    | apply OKeepsPC.keeps_opt_cond | apply OKeepsPC.keeps_some_pair | apply OKeepsPC.keeps_some_cond
    | apply KeepsPC.keeps_cond | apply KeepsPC.keeps_snd_cond
    | apply KeepsPC.write_low | apply KeepsPC.do_zflag | apply KeepsPC.do_nflag
    | apply KeepsPC.do_cflag | apply KeepsPC.do_add_vflag | apply KeepsPC.do_sub_vflag
    | apply KeepsPC.do_cflag_bit | apply KeepsPC.do_vflag_bit
    | apply KeepsPC.read16 | apply KeepsPC.write16 | apply KeepsPC.keeps_read32 | apply KeepsPC.keeps_write32
    | apply KeepsPC.halfadd)

theorem keeps_SWI (s : Thumbulator) (inst : Nat) : OKeepsPC s (some (exec_SWI s inst)) := by
  simp only [exec_SWI]
  repeat' (with_reducible first
    | (guard_target =ₛ KeepsPC s s; exact KeepsPC.refl s)
    | exact low3_ne_pc _ | exact sp_ne_pc | exact lr_ne_pc
    | exact OKeepsPC.keeps_none
    | apply OKeepsPC.keeps_opt_cond | apply OKeepsPC.keeps_some_pair | apply OKeepsPC.keeps_some_cond
    | apply KeepsPC.keeps_cond | apply KeepsPC.keeps_snd_cond
    | apply KeepsPC.write_low | apply KeepsPC.do_zflag | apply KeepsPC.do_nflag
    | apply KeepsPC.do_cflag | apply KeepsPC.do_add_vflag | apply KeepsPC.do_sub_vflag
    | apply KeepsPC.do_cflag_bit | apply KeepsPC.do_vflag_bit
    | apply KeepsPC.read16 | apply KeepsPC.write16 | apply KeepsPC.keeps_read32 | apply KeepsPC.keeps_write32
    | apply KeepsPC.halfadd)

theorem keeps_SXTB (s : Thumbulator) (inst : Nat) : OKeepsPC s (some (exec_SXTB s inst)) := by
  simp only [exec_SXTB]
  repeat' (with_reducible first
    | (guard_target =ₛ KeepsPC s s; exact KeepsPC.refl s)
    | exact low3_ne_pc _ | exact sp_ne_pc | exact lr_ne_pc
    | exact OKeepsPC.keeps_none
    | apply OKeepsPC.keeps_opt_cond | apply OKeepsPC.keeps_some_pair | apply OKeepsPC.keeps_some_cond
    | apply KeepsPC.keeps_cond | apply KeepsPC.keeps_snd_cond
    | apply KeepsPC.write_low | apply KeepsPC.do_zflag | apply KeepsPC.do_nflag
    | apply KeepsPC.do_cflag | apply KeepsPC.do_add_vflag | apply KeepsPC.do_sub_vflag
    | apply KeepsPC.do_cflag_bit | apply KeepsPC.do_vflag_bit
    | apply KeepsPC.read16 | apply KeepsPC.write16 | apply KeepsPC.keeps_read32 | apply KeepsPC.keeps_write32
    | apply KeepsPC.halfadd)

theorem keeps_SXTH (s : Thumbulator) (inst : Nat) : OKeepsPC s (some (exec_SXTH s inst)) := by
  simp only [exec_SXTH]
  repeat' (with_reducible first
    | (guard_target =ₛ KeepsPC s s; exact KeepsPC.refl s)
    | exact low3_ne_pc _ | exact sp_ne_pc | exact lr_ne_pc
    | exact OKeepsPC.keeps_none
    | apply OKeepsPC.keeps_opt_cond | apply OKeepsPC.keeps_some_pair | apply OKeepsPC.keeps_some_cond
    | apply KeepsPC.keeps_cond | apply KeepsPC.keeps_snd_cond
    | apply KeepsPC.write_low | apply KeepsPC.do_zflag | apply KeepsPC.do_nflag
    | apply KeepsPC.do_cflag | apply KeepsPC.do_add_vflag | apply KeepsPC.do_sub_vflag
    | apply KeepsPC.do_cflag_bit | apply KeepsPC.do_vflag_bit
    | apply KeepsPC.read16 | apply KeepsPC.write16 | apply KeepsPC.keeps_read32 | apply KeepsPC.keeps_write32
    | apply KeepsPC.halfadd)

theorem keeps_TST (s : Thumbulator) (inst : Nat) : OKeepsPC s (some (exec_TST s inst)) := by
  simp only [exec_TST]
  repeat' (with_reducible first
    | (guard_target =ₛ KeepsPC s s; exact KeepsPC.refl s)
    | exact low3_ne_pc _ | exact sp_ne_pc | exact lr_ne_pc
    | exact OKeepsPC.keeps_none
    | apply OKeepsPC.keeps_opt_cond | apply OKeepsPC.keeps_some_pair | apply OKeepsPC.keeps_some_cond
    | apply KeepsPC.keeps_cond | apply KeepsPC.keeps_snd_cond
    | apply KeepsPC.write_low | apply KeepsPC.do_zflag | apply KeepsPC.do_nflag
    | apply KeepsPC.do_cflag | apply KeepsPC.do_add_vflag | apply KeepsPC.do_sub_vflag
    | apply KeepsPC.do_cflag_bit | apply KeepsPC.do_vflag_bit
    | apply KeepsPC.read16 | apply KeepsPC.write16 | apply KeepsPC.keeps_read32 | apply KeepsPC.keeps_write32
    | apply KeepsPC.halfadd)

theorem keeps_UXTB (s : Thumbulator) (inst : Nat) : OKeepsPC s (some (exec_UXTB s inst)) := by
  simp only [exec_UXTB]
  repeat' (with_reducible first
    | (guard_target =ₛ KeepsPC s s; exact KeepsPC.refl s)
    | exact low3_ne_pc _ | exact sp_ne_pc | exact lr_ne_pc
    | exact OKeepsPC.keeps_none
    | apply OKeepsPC.keeps_opt_cond | apply OKeepsPC.keeps_some_pair | apply OKeepsPC.keeps_some_cond
    | apply KeepsPC.keeps_cond | apply KeepsPC.keeps_snd_cond
    | apply KeepsPC.write_low | apply KeepsPC.do_zflag | apply KeepsPC.do_nflag
    | apply KeepsPC.do_cflag | apply KeepsPC.do_add_vflag | apply KeepsPC.do_sub_vflag
    | apply KeepsPC.do_cflag_bit | apply KeepsPC.do_vflag_bit
    | apply KeepsPC.read16 | apply KeepsPC.write16 | apply KeepsPC.keeps_read32 | apply KeepsPC.keeps_write32
    | apply KeepsPC.halfadd)

theorem keeps_UXTH (s : Thumbulator) (inst : Nat) : OKeepsPC s (some (exec_UXTH s inst)) := by
  simp only [exec_UXTH]
  repeat' (with_reducible first
    | (guard_target =ₛ KeepsPC s s; exact KeepsPC.refl s)
    | exact low3_ne_pc _ | exact sp_ne_pc | exact lr_ne_pc
    | exact OKeepsPC.keeps_none
    | apply OKeepsPC.keeps_opt_cond | apply OKeepsPC.keeps_some_pair | apply OKeepsPC.keeps_some_cond
    | apply KeepsPC.keeps_cond | apply KeepsPC.keeps_snd_cond
    | apply KeepsPC.write_low | apply KeepsPC.do_zflag | apply KeepsPC.do_nflag
    | apply KeepsPC.do_cflag | apply KeepsPC.do_add_vflag | apply KeepsPC.do_sub_vflag
    | apply KeepsPC.do_cflag_bit | apply KeepsPC.do_vflag_bit
    | apply KeepsPC.read16 | apply KeepsPC.write16 | apply KeepsPC.keeps_read32 | apply KeepsPC.keeps_write32
    | apply KeepsPC.halfadd)

theorem branch_target_odd (x pc : Nat) (h : pc % 2 = 1) :
    add32 (add32 (shl32 x 1) pc) 2 % 2 = 1 := by
  unfold add32 shl32
  rw [Nat.shiftLeft_eq]
  omega

theorem link_target_odd (x pc : Nat) (h : pc % 2 = 1) : add32 (shl32 x 1) pc % 2 = 1 := by
  unfold add32 shl32
  rw [Nat.shiftLeft_eq]
  omega

theorem high_reg_ne_pc (x y : Nat) (h : (x &&& 0x7) ||| (y &&& 0x8) ≠ 15) :
    ((x &&& 0x7) ||| (y &&& 0x8)) &&& 0xF ≠ 15 := by
  have h1 : x &&& 0x7 < 2 ^ 4 := Nat.lt_of_le_of_lt Nat.and_le_right (by decide)
  have h2 : y &&& 0x8 < 2 ^ 4 := Nat.lt_of_le_of_lt Nat.and_le_right (by decide)
  have h3 := Nat.or_lt_two_pow h1 h2
  have e : ((x &&& 0x7) ||| (y &&& 0x8)) &&& 0xF = ((x &&& 0x7) ||| (y &&& 0x8)) % 2 ^ 4 :=
    Nat.and_pow_two_sub_one_eq_mod _ 4
  rw [e, Nat.mod_eq_of_lt h3]
  exact h

theorem keeps_B1 (s : Thumbulator) (inst pc : Nat) (hpc : pc % 2 = 1) :
    OKeepsPC s (exec_B1 s inst pc) := by
  simp only [exec_B1]
  repeat' (with_reducible first
    | (guard_target =ₛ KeepsPC s s; exact KeepsPC.refl s)
    | exact OKeepsPC.keeps_none
    | apply OKeepsPC.keeps_opt_cond | apply OKeepsPC.keeps_some_pair | apply OKeepsPC.keeps_some_cond
    | apply KeepsPC.keeps_cond | apply KeepsPC.keeps_snd_cond
    | refine KeepsPC.write_odd _ _ (branch_target_odd _ _ hpc) ?_)

theorem keeps_B2 (s : Thumbulator) (inst pc : Nat) (hpc : pc % 2 = 1) :
    OKeepsPC s (some (exec_B2 s inst pc)) := by
  simp only [exec_B2]
  exact KeepsPC.write_odd _ _ (branch_target_odd _ _ hpc) (KeepsPC.refl s)

theorem keeps_BL (s : Thumbulator) (inst pc : Nat) (hpc : pc % 2 = 1) :
    OKeepsPC s (exec_BL s inst pc) := by
  simp only [exec_BL]
  repeat' (with_reducible first
    | (guard_target =ₛ KeepsPC s s; exact KeepsPC.refl s)
    | exact lr_ne_pc
    | exact OKeepsPC.keeps_none
    | apply OKeepsPC.keeps_opt_cond | apply OKeepsPC.keeps_some_pair | apply OKeepsPC.keeps_some_cond
    | refine KeepsPC.write_odd _ _ (link_target_odd _ _ hpc) ?_
    | apply KeepsPC.write_low
    | apply KeepsPC.halfadd)

theorem keeps_BLX2 (s : Thumbulator) (inst pc : Nat) :
    OKeepsPC s (some (exec_BLX2 s inst pc)) := by
  simp only [exec_BLX2]
  split
  · next h =>
    rw [and_one_eq] at h
    exact KeepsPC.write_odd _ _ (by omega) (KeepsPC.write_low _ _ lr_ne_pc (KeepsPC.refl s))
  · exact KeepsPC.refl s

theorem keeps_BX (s : Thumbulator) (inst : Nat) : OKeepsPC s (some (exec_BX s inst)) := by
  simp only [exec_BX]
  split
  · next h =>
    rw [and_one_eq] at h
    exact KeepsPC.write_odd _ _ (by omega) (KeepsPC.refl s)
  · exact KeepsPC.refl s

theorem keeps_ADD4 (s : Thumbulator) (inst : Nat)
    (hrd : ((inst >>> 0) &&& 0x7) ||| ((inst >>> 4) &&& 0x8) ≠ 15) :
    OKeepsPC s (some (exec_ADD4 s inst)) := by
  simp only [exec_ADD4]
  exact KeepsPC.write_low _ _ (high_reg_ne_pc _ _ hrd) (KeepsPC.refl s)

theorem keeps_MOV3 (s : Thumbulator) (inst : Nat)
    (hrd : ((inst >>> 0) &&& 0x7) ||| ((inst >>> 4) &&& 0x8) ≠ 15) :
    OKeepsPC s (some (exec_MOV3 s inst)) := by
  simp only [exec_MOV3]
  exact KeepsPC.write_low _ _ (high_reg_ne_pc _ _ hrd) (KeepsPC.refl s)

theorem KeepsPC.keeps_loadLoop {s : Thumbulator} (inst : Nat) :
    ∀ (fuel ra rb : Nat) (st : Nat × Thumbulator), ra + fuel ≤ 15 → KeepsPC s st.2 →
      KeepsPC s (regListLoop inst loadBody fuel ra rb st).2.2.2
  | 0, _, _, _, _, h => h
  | fuel + 1, ra, rb, st, hra, h => by
    unfold regListLoop
    split
    · apply KeepsPC.keeps_loadLoop inst fuel
      · unfold add32; omega
      · split
        · refine KeepsPC.write_low _ _ ?_ (KeepsPC.keeps_read32 _ h)
          have h1 : ra &&& 0xF ≤ ra := Nat.and_le_left
          omega
        · exact h
    · exact h

theorem KeepsPC.keeps_storeLoop {s : Thumbulator} (inst : Nat) :
    ∀ (fuel ra rb : Nat) (st : Nat × Thumbulator), KeepsPC s st.2 →
      KeepsPC s (regListLoop inst storeBody fuel ra rb st).2.2.2
  | 0, _, _, _, h => h
  | fuel + 1, ra, rb, st, h => by
    unfold regListLoop
    split
    · apply KeepsPC.keeps_storeLoop inst fuel
      split
      · exact KeepsPC.keeps_write32 _ _ h
      · exact h
    · exact h

theorem keeps_LDMIA (s : Thumbulator) (inst : Nat) : OKeepsPC s (some (exec_LDMIA s inst)) := by
  simp only [exec_LDMIA]
  apply OKeepsPC.keeps_some_pair
  exact KeepsPC.write_low _ _ (low3_ne_pc _)
    (KeepsPC.keeps_loadLoop _ _ _ _ _ (by decide) (KeepsPC.refl s))

theorem keeps_STMIA (s : Thumbulator) (inst : Nat) : OKeepsPC s (some (exec_STMIA s inst)) := by
  simp only [exec_STMIA]
  apply OKeepsPC.keeps_some_pair
  exact KeepsPC.write_low _ _ (low3_ne_pc _) (KeepsPC.keeps_storeLoop _ _ _ _ _ (KeepsPC.refl s))

theorem keeps_POP (s : Thumbulator) (inst : Nat) (h : ¬ inst &&& 0x100 ≠ 0) :
    OKeepsPC s (some (exec_POP s inst)) := by
  simp only [exec_POP]
  rw [if_neg h]
  apply OKeepsPC.keeps_some_pair
  exact KeepsPC.write_low _ _ sp_ne_pc (KeepsPC.keeps_loadLoop _ _ _ _ _ (by decide) (KeepsPC.refl s))

theorem keeps_PUSH (s : Thumbulator) (inst : Nat) : OKeepsPC s (some (exec_PUSH s inst)) := by
  simp only [exec_PUSH]
  apply OKeepsPC.keeps_some_pair
  refine KeepsPC.write_low _ _ sp_ne_pc (KeepsPC.keeps_cond ?_ ?_)
  · exact KeepsPC.keeps_write32 _ _ (KeepsPC.keeps_storeLoop _ _ _ _ _ (KeepsPC.refl s))
  · exact KeepsPC.keeps_storeLoop _ _ _ _ _ (KeepsPC.refl s)


/-- Every handler of the chain keeps register 15 odd when the advanced counter
`pc` is odd and the opcode does not load register 15. -/
theorem chain_keeps : ∀ p ∈ chain, ∀ (s : Thumbulator) (inst pc : Nat), pc % 2 = 1 →
    ¬ LoadsPC inst → inst &&& p.mask = p.value → OKeepsPC s (p.handler s inst pc) := by
  simp only [chain, List.forall_mem_cons, List.not_mem_nil, false_implies, implies_true,
    and_true]
  exact ⟨fun s inst _ _ _ _ => keeps_ADC s inst,
    fun s inst _ _ _ _ => keeps_ADD1 s inst,
    fun s inst _ _ _ _ => keeps_ADD2 s inst,
    fun s inst _ _ _ _ => keeps_ADD3 s inst,
    fun s inst _ _ hl hm => keeps_ADD4 s inst (fun h => hl (Or.inl ⟨Or.inl hm, h⟩)),
    fun s inst _ _ _ _ => keeps_ADD5 s inst,
    fun s inst _ _ _ _ => keeps_ADD6 s inst,
    fun s inst _ _ _ _ => keeps_ADD7 s inst,
    fun s inst _ _ _ _ => keeps_AND s inst,
    fun s inst _ _ _ _ => keeps_ASR1 s inst,
    fun s inst _ _ _ _ => keeps_ASR2 s inst,
    fun s inst pc hpc _ _ => keeps_B1 s inst pc hpc,
    fun s inst pc hpc _ _ => keeps_B2 s inst pc hpc,
    fun s inst _ _ _ _ => keeps_BIC s inst,
    fun s inst _ _ _ _ => keeps_BKPT s inst,
    fun s inst pc hpc _ _ => keeps_BL s inst pc hpc,
    fun s inst pc _ _ _ => keeps_BLX2 s inst pc,
    fun s inst _ _ _ _ => keeps_BX s inst,
    fun s inst _ _ _ _ => keeps_CMN s inst,
    fun s inst _ _ _ _ => keeps_CMP1 s inst,
    fun s inst _ _ _ _ => keeps_CMP2 s inst,
    fun s inst _ _ _ _ => keeps_CMP3 s inst,
    fun s inst _ _ _ _ => keeps_CPS s inst,
    fun s inst _ _ _ _ => keeps_CPY s inst,
    fun s inst _ _ _ _ => keeps_EOR s inst,
    fun s inst _ _ _ _ => keeps_LDMIA s inst,
    fun s inst _ _ _ _ => keeps_LDR1 s inst,
    fun s inst _ _ _ _ => keeps_LDR2 s inst,
    fun s inst _ _ _ _ => keeps_LDR3 s inst,
    fun s inst _ _ _ _ => keeps_LDR4 s inst,
    fun s inst _ _ _ _ => keeps_LDRB1 s inst,
    fun s inst _ _ _ _ => keeps_LDRB2 s inst,
    fun s inst _ _ _ _ => keeps_LDRH1 s inst,
    fun s inst _ _ _ _ => keeps_LDRH2 s inst,
    fun s inst _ _ _ _ => keeps_LDRSB s inst,
    fun s inst _ _ _ _ => keeps_LDRSH s inst,
    fun s inst _ _ _ _ => keeps_LSL1 s inst,
    fun s inst _ _ _ _ => keeps_LSL2 s inst,
    fun s inst _ _ _ _ => keeps_LSR1 s inst,
    fun s inst _ _ _ _ => keeps_LSR2 s inst,
    fun s inst _ _ _ _ => keeps_MOV1 s inst,
    fun s inst _ _ _ _ => keeps_MOV2 s inst,
    fun s inst _ _ hl hm => keeps_MOV3 s inst (fun h => hl (Or.inl ⟨Or.inr hm, h⟩)),
    fun s inst _ _ _ _ => keeps_MUL s inst,
    fun s inst _ _ _ _ => keeps_MVN s inst,
    fun s inst _ _ _ _ => keeps_NEG s inst,
    fun s inst _ _ _ _ => keeps_ORR s inst,
    fun s inst _ _ hl hm => keeps_POP s inst (fun h => hl (Or.inr ⟨hm, h⟩)),
    fun s inst _ _ _ _ => keeps_PUSH s inst,
    fun s inst _ _ _ _ => keeps_REV s inst,
    fun s inst _ _ _ _ => keeps_REV16 s inst,
    fun s inst _ _ _ _ => keeps_REVSH s inst,
    fun s inst _ _ _ _ => keeps_ROR s inst,
    fun s inst _ _ _ _ => keeps_SBC s inst,
    fun s inst _ _ _ _ => keeps_SETEND s inst,
    fun s inst _ _ _ _ => keeps_STMIA s inst,
    fun s inst _ _ _ _ => keeps_STR1 s inst,
    fun s inst _ _ _ _ => keeps_STR2 s inst,
    fun s inst _ _ _ _ => keeps_STR3 s inst,
    fun s inst _ _ _ _ => keeps_STRB1 s inst,
    fun s inst _ _ _ _ => keeps_STRB2 s inst,
    fun s inst _ _ _ _ => keeps_STRH1 s inst,
    fun s inst _ _ _ _ => keeps_STRH2 s inst,
    fun s inst _ _ _ _ => keeps_SUB1 s inst,
    fun s inst _ _ _ _ => keeps_SUB2 s inst,
    fun s inst _ _ _ _ => keeps_SUB3 s inst,
    fun s inst _ _ _ _ => keeps_SUB4 s inst,
    fun s inst _ _ _ _ => keeps_SWI s inst,
    fun s inst _ _ _ _ => keeps_SXTB s inst,
    fun s inst _ _ _ _ => keeps_SXTH s inst,
    fun s inst _ _ _ _ => keeps_TST s inst,
    fun s inst _ _ _ _ => keeps_UXTB s inst,
    fun s inst _ _ _ _ => keeps_UXTH s inst⟩

set_option linter.unusedTactic true
set_option linter.unreachableTactic true

/-! ## The bits of `cpsr` below the flags -/

theorem flag_set_low (x m i : Nat) (hm : m ∈ [CPSR_N, CPSR_Z, CPSR_C, CPSR_V]) (hi : i < 28) :
    (x ||| m).testBit i = x.testBit i := by
  have h : ∀ m ∈ [CPSR_N, CPSR_Z, CPSR_C, CPSR_V], ∀ i < 28, m.testBit i = false := by decide
  rw [Nat.testBit_or, h m hm i hi, Bool.or_false]

theorem flag_clear_low (x m i : Nat) (hm : m ∈ [CPSR_N, CPSR_Z, CPSR_C, CPSR_V]) (hi : i < 28) :
    (x &&& not32 m).testBit i = x.testBit i := by
  have h : ∀ m ∈ [CPSR_N, CPSR_Z, CPSR_C, CPSR_V], ∀ i < 28, (not32 m).testBit i = true := by
    decide
  rw [Nat.testBit_and, h m hm i hi, Bool.and_true]

/-- No primitive operation of a handler changes a bit of `cpsr` below bit 28. -/
theorem Reach.cpsr_low {s t : Thumbulator} (h : Reach s t) :
    ∀ i < 28, t.cpsr.testBit i = s.cpsr.testBit i := by
  induction h with
  | refl => exact fun _ _ => rfl
  | write_register reg data _ ih =>
    unfold Thumbulator.write_register; simp only []; repeat' split
    all_goals exact ih
  | read16 addr _ ih =>
    unfold Thumbulator.read16; simp only []; repeat' split
    all_goals exact ih
  | write16 addr data _ ih =>
    unfold Thumbulator.write16; simp only []; repeat' split
    all_goals exact ih
  | do_zflag x _ ih =>
    intro i hi
    unfold Thumbulator.do_zflag
    split
    · exact (flag_set_low _ _ i (by decide) hi).trans (ih i hi)
    · exact (flag_clear_low _ _ i (by decide) hi).trans (ih i hi)
  | do_nflag x _ ih =>
    intro i hi
    unfold Thumbulator.do_nflag
    split
    · exact (flag_set_low _ _ i (by decide) hi).trans (ih i hi)
    · exact (flag_clear_low _ _ i (by decide) hi).trans (ih i hi)
  | do_cflag a b c _ ih =>
    intro i hi
    unfold Thumbulator.do_cflag
    simp only []
    split
    · exact (flag_set_low _ _ i (by decide) hi).trans
        ((flag_clear_low _ _ i (by decide) hi).trans (ih i hi))
    · exact (flag_clear_low _ _ i (by decide) hi).trans (ih i hi)
  | do_sub_vflag a b c _ ih =>
    intro i hi
    unfold Thumbulator.do_sub_vflag
    simp only []
    repeat' split
    all_goals first
      | exact (flag_set_low _ _ i (by decide) hi).trans
          ((flag_clear_low _ _ i (by decide) hi).trans (ih i hi))
      | exact (flag_clear_low _ _ i (by decide) hi).trans (ih i hi)
  | do_add_vflag a b c _ ih =>
    intro i hi
    unfold Thumbulator.do_add_vflag
    simp only []
    repeat' split
    all_goals first
      | exact (flag_set_low _ _ i (by decide) hi).trans
          ((flag_clear_low _ _ i (by decide) hi).trans (ih i hi))
      | exact (flag_clear_low _ _ i (by decide) hi).trans (ih i hi)
  | do_cflag_bit x _ ih =>
    intro i hi
    unfold Thumbulator.do_cflag_bit
    split
    · exact (flag_set_low _ _ i (by decide) hi).trans (ih i hi)
    · exact (flag_clear_low _ _ i (by decide) hi).trans (ih i hi)
  | do_vflag_bit x _ ih =>
    intro i hi
    unfold Thumbulator.do_vflag_bit
    split
    · exact (flag_set_low _ _ i (by decide) hi).trans (ih i hi)
    · exact (flag_clear_low _ _ i (by decide) hi).trans (ih i hi)
  | halfadd v _ ih => exact ih

/-- The mode field is a function of the bits below bit 5. -/
theorem mode_of_bits {x y : Nat} (h : ∀ i < 28, x.testBit i = y.testBit i) :
    x &&& 0x1F = y &&& 0x1F := by
  apply Nat.eq_of_testBit_eq
  intro i
  rw [Nat.testBit_and, Nat.testBit_and]
  by_cases hi : i < 28
  · rw [h i hi]
  · rw [Nat.testBit_lt_two_pow (Nat.lt_of_lt_of_le (show 0x1F < 2 ^ 28 by decide)
      (Nat.pow_le_pow_right (by decide) (show 28 ≤ i by omega)))]
    simp

/-- No primitive operation of a handler changes the mode field. -/
theorem Reach.mode {s t : Thumbulator} (h : Reach s t) : t.cpsr &&& 0x1F = s.cpsr &&& 0x1F :=
  mode_of_bits h.cpsr_low

/-- One `execute` step keeps the bits of `cpsr` below bit 28. -/
theorem execute_cpsr_low (s : Thumbulator) :
    ∀ i < 28, (execute s).2.cpsr.testBit i = s.cpsr.testBit i := by
  intro i hi
  rw [execute_eq, (runChain_reach _ _ _ chain chain_reach).cpsr_low i hi, (entered_frame s).2.2.1]

theorem execute_mode (s : Thumbulator) : (execute s).2.cpsr &&& 0x1F = s.cpsr &&& 0x1F :=
  mode_of_bits (execute_cpsr_low s)

/-! ## The parity of register 15 -/

theorem KeepsPC.reach {s t : Thumbulator} (h : KeepsPC s t) : Reach s t := by
  induction h with
  | refl => exact Reach.refl _
  | write_low reg data _ _ ih => exact Reach.write_register reg data ih
  | write_odd reg data _ _ ih => exact Reach.write_register reg data ih
  | read16 addr _ ih => exact Reach.read16 addr ih
  | write16 addr data _ ih => exact Reach.write16 addr data ih
  | do_zflag x _ ih => exact Reach.do_zflag x ih
  | do_nflag x _ ih => exact Reach.do_nflag x ih
  | do_cflag a b c _ ih => exact Reach.do_cflag a b c ih
  | do_sub_vflag a b c _ ih => exact Reach.do_sub_vflag a b c ih
  | do_add_vflag a b c _ ih => exact Reach.do_add_vflag a b c ih
  | do_cflag_bit x _ ih => exact Reach.do_cflag_bit x ih
  | do_vflag_bit x _ ih => exact Reach.do_vflag_bit x ih
  | halfadd v _ ih => exact Reach.halfadd v ih

theorem write_register_pc (s : Thumbulator) (reg data : Nat) :
    (write_register s reg data).2.reg_sys 15 = s.reg_sys 15 ∨
    (reg &&& 0xF = 15 ∧ (write_register s reg data).2.reg_sys 15 = data) := by
  unfold write_register
  simp only []
  split
  · split
    · exact Or.inl rfl
    · by_cases h : reg &&& 0xF = 15
      · right
        refine ⟨h, ?_⟩
        show Function.update s.reg_sys (reg &&& 0xF) data 15 = data
        rw [h, Function.update_same]
      · left
        exact Function.update_noteq (Ne.symm h) _ _
  · exact Or.inl rfl

/-- Operations that write register 15 only with odd values keep it odd. -/
theorem KeepsPC.odd {s t : Thumbulator} (h : KeepsPC s t) (hs : s.reg_sys 15 % 2 = 1) :
    t.reg_sys 15 % 2 = 1 := by
  induction h with
  | refl => exact hs
  | write_low reg data hreg _ ih =>
    rcases write_register_pc _ reg data with e | e
    · rw [e]; exact ih
    · exact absurd e.1 hreg
  | write_odd reg data hdata _ ih =>
    rcases write_register_pc _ reg data with e | e
    · rw [e]; exact ih
    · rw [e.2]; exact hdata
  | read16 addr _ ih =>
    unfold Thumbulator.read16; simp only []; repeat' split
    all_goals exact ih
  | write16 addr data _ ih =>
    unfold Thumbulator.write16; simp only []; repeat' split
    all_goals exact ih
  | do_zflag x _ ih => unfold Thumbulator.do_zflag; split <;> exact ih
  | do_nflag x _ ih => unfold Thumbulator.do_nflag; split <;> exact ih
  | do_cflag a b c _ ih => unfold Thumbulator.do_cflag; simp only []; split <;> exact ih
  | do_sub_vflag a b c _ ih =>
    unfold Thumbulator.do_sub_vflag; simp only []; repeat' split
    all_goals exact ih
  | do_add_vflag a b c _ ih =>
    unfold Thumbulator.do_add_vflag; simp only []; repeat' split
    all_goals exact ih
  | do_cflag_bit x _ ih => unfold Thumbulator.do_cflag_bit; split <;> exact ih
  | do_vflag_bit x _ ih => unfold Thumbulator.do_vflag_bit; split <;> exact ih
  | halfadd v _ ih => exact ih

theorem runChain_keeps (s : Thumbulator) (inst pc : Nat) :
    ∀ l : List Pattern,
      (∀ p ∈ l, inst &&& p.mask = p.value → OKeepsPC s (p.handler s inst pc)) →
      KeepsPC s (runChain s inst pc l).2
  | [], _ => KeepsPC.refl s
  | p :: rest, h => by
    have ih := runChain_keeps s inst pc rest (fun q hq => h q (List.mem_cons_of_mem p hq))
    have hp := h p (List.mem_cons_self p rest)
    unfold runChain
    split
    · next hm =>
      have hp := hp hm
      split
      · next r hr => rw [hr] at hp; exact hp
      · exact ih
    · exact ih

/-- One step in supervisor mode from an odd register 15, on an opcode that
does not load register 15: the mode is kept and register 15 stays odd. -/
theorem execute_pc_odd (s : Thumbulator) (op : Nat) (hsvc : s.cpsr &&& 0x1F = MODE_SVC)
    (hodd : s.reg_sys 15 % 2 = 1) (hf : Fetches s op) (hl : ¬ LoadsPC op) :
    (execute s).2.cpsr &&& 0x1F = MODE_SVC ∧ (execute s).2.reg_sys 15 % 2 = 1 := by
  refine ⟨(execute_mode s).trans hsvc, ?_⟩
  unfold Fetches at hf
  have hpc : add32 (read_register s 15) 2 % 2 = 1 := by
    rw [read_register_15 s hsvc]; unfold add32; omega
  rw [execute_eq, hf]
  apply (runChain_keeps (entered s) op _ chain
    (fun p hp hm => chain_keeps p hp (entered s) op _ hpc hl hm)).odd
  rw [entered_svc s hsvc]
  show Function.update s.reg_sys 15 (add32 (s.reg_sys 15) 2) 15 % 2 = 1
  rw [Function.update_same]
  unfold add32; omega

/-! ## Handlers commute with state transformations -/

theorem Commutes.comm_read32_fst {f : Thumbulator → Thumbulator} (h : Commutes f) (s : Thumbulator)
    (a : Nat) : (read32 (f s) a).1 = (read32 s a).1 := by
  unfold read32
  simp only [h.read16_fst, h.read16_snd]
  split
  · rfl
  · split <;> rfl

theorem Commutes.comm_read32_snd {f : Thumbulator → Thumbulator} (h : Commutes f) (s : Thumbulator)
    (a : Nat) : (read32 (f s) a).2 = f (read32 s a).2 := by
  unfold read32
  simp only [h.read16_fst, h.read16_snd]
  split
  · rfl
  · split <;> rfl

theorem Commutes.comm_write32 {f : Thumbulator → Thumbulator} (h : Commutes f) (s : Thumbulator)
    (a d : Nat) : write32 (f s) a d = f (write32 s a d) := by
  unfold Thumbulator.write32
  simp only [h.write16]
  repeat' split
  all_goals rfl

theorem comm_ADC {f : Thumbulator → Thumbulator} (h : Commutes f) (s : Thumbulator)
    (inst : Nat) :
    exec_ADC (f s) inst = ((exec_ADC s inst).1, f (exec_ADC s inst).2) := by
  simp only [exec_ADC, h.cpsr, h.halfadd, h.read_register, h.write_register_fst,
    h.write_register_snd, h.read16_fst, h.read16_snd, h.write16, h.comm_read32_fst, h.comm_read32_snd,
    h.comm_write32, h.do_zflag, h.do_nflag, h.do_cflag, h.do_sub_vflag, h.do_add_vflag,
    h.do_cflag_bit, h.do_vflag_bit, h.set_halfadd,
    apply_ite Prod.fst, apply_ite Prod.snd, ← apply_ite f]

theorem comm_ADD1 {f : Thumbulator → Thumbulator} (h : Commutes f) (s : Thumbulator)
    (inst : Nat) :
    exec_ADD1 (f s) inst = (exec_ADD1 s inst).map (fun r => (r.1, f r.2)) := by
  simp only [exec_ADD1, h.cpsr, h.halfadd, h.read_register, h.write_register_fst,
    h.write_register_snd, h.read16_fst, h.read16_snd, h.write16, h.comm_read32_fst, h.comm_read32_snd,
    h.comm_write32, h.do_zflag, h.do_nflag, h.do_cflag, h.do_sub_vflag, h.do_add_vflag,
    h.do_cflag_bit, h.do_vflag_bit, h.set_halfadd,
    apply_ite Prod.fst, apply_ite Prod.snd, ← apply_ite f,
    apply_ite (Option.map _), Option.map_some', Option.map_none']

theorem comm_ADD2 {f : Thumbulator → Thumbulator} (h : Commutes f) (s : Thumbulator)
    (inst : Nat) :
    exec_ADD2 (f s) inst = ((exec_ADD2 s inst).1, f (exec_ADD2 s inst).2) := by
  simp only [exec_ADD2, h.cpsr, h.halfadd, h.read_register, h.write_register_fst,
    h.write_register_snd, h.read16_fst, h.read16_snd, h.write16, h.comm_read32_fst, h.comm_read32_snd,
    h.comm_write32, h.do_zflag, h.do_nflag, h.do_cflag, h.do_sub_vflag, h.do_add_vflag,
    h.do_cflag_bit, h.do_vflag_bit, h.set_halfadd,
    apply_ite Prod.fst, apply_ite Prod.snd, ← apply_ite f]

theorem comm_ADD3 {f : Thumbulator → Thumbulator} (h : Commutes f) (s : Thumbulator)
    (inst : Nat) :
    exec_ADD3 (f s) inst = ((exec_ADD3 s inst).1, f (exec_ADD3 s inst).2) := by
  simp only [exec_ADD3, h.cpsr, h.halfadd, h.read_register, h.write_register_fst,
    h.write_register_snd, h.read16_fst, h.read16_snd, h.write16, h.comm_read32_fst, h.comm_read32_snd,
    h.comm_write32, h.do_zflag, h.do_nflag, h.do_cflag, h.do_sub_vflag, h.do_add_vflag,
    h.do_cflag_bit, h.do_vflag_bit, h.set_halfadd,
    apply_ite Prod.fst, apply_ite Prod.snd, ← apply_ite f]

theorem comm_ADD4 {f : Thumbulator → Thumbulator} (h : Commutes f) (s : Thumbulator)
    (inst : Nat) :
    exec_ADD4 (f s) inst = ((exec_ADD4 s inst).1, f (exec_ADD4 s inst).2) := by
  simp only [exec_ADD4, h.cpsr, h.halfadd, h.read_register, h.write_register_fst,
    h.write_register_snd, h.read16_fst, h.read16_snd, h.write16, h.comm_read32_fst, h.comm_read32_snd,
    h.comm_write32, h.do_zflag, h.do_nflag, h.do_cflag, h.do_sub_vflag, h.do_add_vflag,
    h.do_cflag_bit, h.do_vflag_bit, h.set_halfadd,
    apply_ite Prod.fst, apply_ite Prod.snd, ← apply_ite f]

theorem comm_ADD5 {f : Thumbulator → Thumbulator} (h : Commutes f) (s : Thumbulator)
    (inst : Nat) :
    exec_ADD5 (f s) inst = ((exec_ADD5 s inst).1, f (exec_ADD5 s inst).2) := by
  simp only [exec_ADD5, h.cpsr, h.halfadd, h.read_register, h.write_register_fst,
    h.write_register_snd, h.read16_fst, h.read16_snd, h.write16, h.comm_read32_fst, h.comm_read32_snd,
    h.comm_write32, h.do_zflag, h.do_nflag, h.do_cflag, h.do_sub_vflag, h.do_add_vflag,
    h.do_cflag_bit, h.do_vflag_bit, h.set_halfadd,
    apply_ite Prod.fst, apply_ite Prod.snd, ← apply_ite f]

theorem comm_ADD6 {f : Thumbulator → Thumbulator} (h : Commutes f) (s : Thumbulator)
    (inst : Nat) :
    exec_ADD6 (f s) inst = ((exec_ADD6 s inst).1, f (exec_ADD6 s inst).2) := by
  simp only [exec_ADD6, h.cpsr, h.halfadd, h.read_register, h.write_register_fst,
    h.write_register_snd, h.read16_fst, h.read16_snd, h.write16, h.comm_read32_fst, h.comm_read32_snd,
    h.comm_write32, h.do_zflag, h.do_nflag, h.do_cflag, h.do_sub_vflag, h.do_add_vflag,
    h.do_cflag_bit, h.do_vflag_bit, h.set_halfadd,
    apply_ite Prod.fst, apply_ite Prod.snd, ← apply_ite f]

theorem comm_ADD7 {f : Thumbulator → Thumbulator} (h : Commutes f) (s : Thumbulator)
    (inst : Nat) :
    exec_ADD7 (f s) inst = ((exec_ADD7 s inst).1, f (exec_ADD7 s inst).2) := by
  simp only [exec_ADD7, h.cpsr, h.halfadd, h.read_register, h.write_register_fst,
    h.write_register_snd, h.read16_fst, h.read16_snd, h.write16, h.comm_read32_fst, h.comm_read32_snd,
    h.comm_write32, h.do_zflag, h.do_nflag, h.do_cflag, h.do_sub_vflag, h.do_add_vflag,
    h.do_cflag_bit, h.do_vflag_bit, h.set_halfadd,
    apply_ite Prod.fst, apply_ite Prod.snd, ← apply_ite f]

theorem comm_AND {f : Thumbulator → Thumbulator} (h : Commutes f) (s : Thumbulator)
    (inst : Nat) :
    exec_AND (f s) inst = ((exec_AND s inst).1, f (exec_AND s inst).2) := by
  simp only [exec_AND, h.cpsr, h.halfadd, h.read_register, h.write_register_fst,
    h.write_register_snd, h.read16_fst, h.read16_snd, h.write16, h.comm_read32_fst, h.comm_read32_snd,
    h.comm_write32, h.do_zflag, h.do_nflag, h.do_cflag, h.do_sub_vflag, h.do_add_vflag,
    h.do_cflag_bit, h.do_vflag_bit, h.set_halfadd,
    apply_ite Prod.fst, apply_ite Prod.snd, ← apply_ite f]

theorem comm_ASR1 {f : Thumbulator → Thumbulator} (h : Commutes f) (s : Thumbulator)
    (inst : Nat) :
    exec_ASR1 (f s) inst = ((exec_ASR1 s inst).1, f (exec_ASR1 s inst).2) := by
  simp only [exec_ASR1, h.cpsr, h.halfadd, h.read_register, h.write_register_fst,
    h.write_register_snd, h.read16_fst, h.read16_snd, h.write16, h.comm_read32_fst, h.comm_read32_snd,
    h.comm_write32, h.do_zflag, h.do_nflag, h.do_cflag, h.do_sub_vflag, h.do_add_vflag,
    h.do_cflag_bit, h.do_vflag_bit, h.set_halfadd,
    apply_ite Prod.fst, apply_ite Prod.snd, ← apply_ite f]

theorem comm_ASR2 {f : Thumbulator → Thumbulator} (h : Commutes f) (s : Thumbulator)
    (inst : Nat) :
    exec_ASR2 (f s) inst = ((exec_ASR2 s inst).1, f (exec_ASR2 s inst).2) := by
  simp only [exec_ASR2, h.cpsr, h.halfadd, h.read_register, h.write_register_fst,
    h.write_register_snd, h.read16_fst, h.read16_snd, h.write16, h.comm_read32_fst, h.comm_read32_snd,
    h.comm_write32, h.do_zflag, h.do_nflag, h.do_cflag, h.do_sub_vflag, h.do_add_vflag,
    h.do_cflag_bit, h.do_vflag_bit, h.set_halfadd,
    apply_ite Prod.fst, apply_ite Prod.snd, ← apply_ite f]

theorem comm_B1 {f : Thumbulator → Thumbulator} (h : Commutes f) (s : Thumbulator)
    (inst pc : Nat) :
    exec_B1 (f s) inst pc = (exec_B1 s inst pc).map (fun r => (r.1, f r.2)) := by
  simp only [exec_B1, h.cpsr, h.halfadd, h.read_register, h.write_register_fst,
    h.write_register_snd, h.read16_fst, h.read16_snd, h.write16, h.comm_read32_fst, h.comm_read32_snd,
    h.comm_write32, h.do_zflag, h.do_nflag, h.do_cflag, h.do_sub_vflag, h.do_add_vflag,
    h.do_cflag_bit, h.do_vflag_bit, h.set_halfadd,
    apply_ite Prod.fst, apply_ite Prod.snd, ← apply_ite f,
    apply_ite (Option.map _), Option.map_some', Option.map_none']

theorem comm_B2 {f : Thumbulator → Thumbulator} (h : Commutes f) (s : Thumbulator)
    (inst pc : Nat) :
    exec_B2 (f s) inst pc = ((exec_B2 s inst pc).1, f (exec_B2 s inst pc).2) := by
  simp only [exec_B2, h.cpsr, h.halfadd, h.read_register, h.write_register_fst,
    h.write_register_snd, h.read16_fst, h.read16_snd, h.write16, h.comm_read32_fst, h.comm_read32_snd,
    h.comm_write32, h.do_zflag, h.do_nflag, h.do_cflag, h.do_sub_vflag, h.do_add_vflag,
    h.do_cflag_bit, h.do_vflag_bit, h.set_halfadd,
    apply_ite Prod.fst, apply_ite Prod.snd, ← apply_ite f]

theorem comm_BIC {f : Thumbulator → Thumbulator} (h : Commutes f) (s : Thumbulator)
    (inst : Nat) :
    exec_BIC (f s) inst = ((exec_BIC s inst).1, f (exec_BIC s inst).2) := by
  simp only [exec_BIC, h.cpsr, h.halfadd, h.read_register, h.write_register_fst,
    h.write_register_snd, h.read16_fst, h.read16_snd, h.write16, h.comm_read32_fst, h.comm_read32_snd,
    h.comm_write32, h.do_zflag, h.do_nflag, h.do_cflag, h.do_sub_vflag, h.do_add_vflag,
    h.do_cflag_bit, h.do_vflag_bit, h.set_halfadd,
    apply_ite Prod.fst, apply_ite Prod.snd, ← apply_ite f]

theorem comm_BKPT {f : Thumbulator → Thumbulator} (_h : Commutes f) (s : Thumbulator)
    (inst : Nat) :
    exec_BKPT (f s) inst = ((exec_BKPT s inst).1, f (exec_BKPT s inst).2) :=
  rfl

theorem comm_BL {f : Thumbulator → Thumbulator} (h : Commutes f) (s : Thumbulator)
    (inst pc : Nat) :
    exec_BL (f s) inst pc = (exec_BL s inst pc).map (fun r => (r.1, f r.2)) := by
  simp only [exec_BL, h.halfadd, h.read_register, h.write_register_fst,
    h.write_register_snd, h.read16_fst, h.read16_snd, h.write16, h.comm_read32_fst, h.comm_read32_snd,
    h.comm_write32, h.do_zflag, h.do_nflag, h.do_cflag, h.do_sub_vflag, h.do_add_vflag,
    h.do_cflag_bit, h.do_vflag_bit, h.set_halfadd,
    apply_ite Prod.fst, apply_ite Prod.snd, ← apply_ite f,
    apply_ite (Option.map _), Option.map_some', Option.map_none']

theorem comm_BLX2 {f : Thumbulator → Thumbulator} (h : Commutes f) (s : Thumbulator)
    (inst pc : Nat) :
    exec_BLX2 (f s) inst pc = ((exec_BLX2 s inst pc).1, f (exec_BLX2 s inst pc).2) := by
  simp only [exec_BLX2, h.cpsr, h.halfadd, h.read_register, h.write_register_fst,
    h.write_register_snd, h.read16_fst, h.read16_snd, h.write16, h.comm_read32_fst, h.comm_read32_snd,
    h.comm_write32, h.do_zflag, h.do_nflag, h.do_cflag, h.do_sub_vflag, h.do_add_vflag,
    h.do_cflag_bit, h.do_vflag_bit, h.set_halfadd,
    apply_ite Prod.fst, apply_ite Prod.snd, ← apply_ite f]
  split <;> rfl

theorem comm_BX {f : Thumbulator → Thumbulator} (h : Commutes f) (s : Thumbulator)
    (inst : Nat) :
    exec_BX (f s) inst = ((exec_BX s inst).1, f (exec_BX s inst).2) := by
  simp only [exec_BX, h.cpsr, h.halfadd, h.read_register, h.write_register_fst,
    h.write_register_snd, h.read16_fst, h.read16_snd, h.write16, h.comm_read32_fst, h.comm_read32_snd,
    h.comm_write32, h.do_zflag, h.do_nflag, h.do_cflag, h.do_sub_vflag, h.do_add_vflag,
    h.do_cflag_bit, h.do_vflag_bit, h.set_halfadd,
    apply_ite Prod.fst, apply_ite Prod.snd, ← apply_ite f]
  split <;> rfl

theorem comm_CMN {f : Thumbulator → Thumbulator} (h : Commutes f) (s : Thumbulator)
    (inst : Nat) :
    exec_CMN (f s) inst = ((exec_CMN s inst).1, f (exec_CMN s inst).2) := by
  simp only [exec_CMN, h.cpsr, h.halfadd, h.read_register, h.write_register_fst,
    h.write_register_snd, h.read16_fst, h.read16_snd, h.write16, h.comm_read32_fst, h.comm_read32_snd,
    h.comm_write32, h.do_zflag, h.do_nflag, h.do_cflag, h.do_sub_vflag, h.do_add_vflag,
    h.do_cflag_bit, h.do_vflag_bit, h.set_halfadd,
    apply_ite Prod.fst, apply_ite Prod.snd, ← apply_ite f]

theorem comm_CMP1 {f : Thumbulator → Thumbulator} (h : Commutes f) (s : Thumbulator)
    (inst : Nat) :
    exec_CMP1 (f s) inst = ((exec_CMP1 s inst).1, f (exec_CMP1 s inst).2) := by
  simp only [exec_CMP1, h.cpsr, h.halfadd, h.read_register, h.write_register_fst,
    h.write_register_snd, h.read16_fst, h.read16_snd, h.write16, h.comm_read32_fst, h.comm_read32_snd,
    h.comm_write32, h.do_zflag, h.do_nflag, h.do_cflag, h.do_sub_vflag, h.do_add_vflag,
    h.do_cflag_bit, h.do_vflag_bit, h.set_halfadd,
    apply_ite Prod.fst, apply_ite Prod.snd, ← apply_ite f]

theorem comm_CMP2 {f : Thumbulator → Thumbulator} (h : Commutes f) (s : Thumbulator)
    (inst : Nat) :
    exec_CMP2 (f s) inst = ((exec_CMP2 s inst).1, f (exec_CMP2 s inst).2) := by
  simp only [exec_CMP2, h.cpsr, h.halfadd, h.read_register, h.write_register_fst,
    h.write_register_snd, h.read16_fst, h.read16_snd, h.write16, h.comm_read32_fst, h.comm_read32_snd,
    h.comm_write32, h.do_zflag, h.do_nflag, h.do_cflag, h.do_sub_vflag, h.do_add_vflag,
    h.do_cflag_bit, h.do_vflag_bit, h.set_halfadd,
    apply_ite Prod.fst, apply_ite Prod.snd, ← apply_ite f]

theorem comm_CMP3 {f : Thumbulator → Thumbulator} (h : Commutes f) (s : Thumbulator)
    (inst : Nat) :
    exec_CMP3 (f s) inst = ((exec_CMP3 s inst).1, f (exec_CMP3 s inst).2) := by
  simp only [exec_CMP3, h.cpsr, h.halfadd, h.read_register, h.write_register_fst,
    h.write_register_snd, h.read16_fst, h.read16_snd, h.write16, h.comm_read32_fst, h.comm_read32_snd,
    h.comm_write32, h.do_zflag, h.do_nflag, h.do_cflag, h.do_sub_vflag, h.do_add_vflag,
    h.do_cflag_bit, h.do_vflag_bit, h.set_halfadd,
    apply_ite Prod.fst, apply_ite Prod.snd, ← apply_ite f]

theorem comm_CPS {f : Thumbulator → Thumbulator} (_h : Commutes f) (s : Thumbulator)
    (inst : Nat) :
    exec_CPS (f s) inst = ((exec_CPS s inst).1, f (exec_CPS s inst).2) :=
  rfl

theorem comm_CPY {f : Thumbulator → Thumbulator} (h : Commutes f) (s : Thumbulator)
    (inst : Nat) :
    exec_CPY (f s) inst = ((exec_CPY s inst).1, f (exec_CPY s inst).2) := by
  simp only [exec_CPY, h.cpsr, h.halfadd, h.read_register, h.write_register_fst,
    h.write_register_snd, h.read16_fst, h.read16_snd, h.write16, h.comm_read32_fst, h.comm_read32_snd,
    h.comm_write32, h.do_zflag, h.do_nflag, h.do_cflag, h.do_sub_vflag, h.do_add_vflag,
    h.do_cflag_bit, h.do_vflag_bit, h.set_halfadd,
    apply_ite Prod.fst, apply_ite Prod.snd, ← apply_ite f]

theorem comm_EOR {f : Thumbulator → Thumbulator} (h : Commutes f) (s : Thumbulator)
    (inst : Nat) :
    exec_EOR (f s) inst = ((exec_EOR s inst).1, f (exec_EOR s inst).2) := by
  simp only [exec_EOR, h.cpsr, h.halfadd, h.read_register, h.write_register_fst,
    h.write_register_snd, h.read16_fst, h.read16_snd, h.write16, h.comm_read32_fst, h.comm_read32_snd,
    h.comm_write32, h.do_zflag, h.do_nflag, h.do_cflag, h.do_sub_vflag, h.do_add_vflag,
    h.do_cflag_bit, h.do_vflag_bit, h.set_halfadd,
    apply_ite Prod.fst, apply_ite Prod.snd, ← apply_ite f]

theorem comm_LDR1 {f : Thumbulator → Thumbulator} (h : Commutes f) (s : Thumbulator)
    (inst : Nat) :
    exec_LDR1 (f s) inst = ((exec_LDR1 s inst).1, f (exec_LDR1 s inst).2) := by
  simp only [exec_LDR1, h.cpsr, h.halfadd, h.read_register, h.write_register_fst,
    h.write_register_snd, h.read16_fst, h.read16_snd, h.write16, h.comm_read32_fst, h.comm_read32_snd,
    h.comm_write32, h.do_zflag, h.do_nflag, h.do_cflag, h.do_sub_vflag, h.do_add_vflag,
    h.do_cflag_bit, h.do_vflag_bit, h.set_halfadd,
    apply_ite Prod.fst, apply_ite Prod.snd, ← apply_ite f]

theorem comm_LDR2 {f : Thumbulator → Thumbulator} (h : Commutes f) (s : Thumbulator)
    (inst : Nat) :
    exec_LDR2 (f s) inst = ((exec_LDR2 s inst).1, f (exec_LDR2 s inst).2) := by
  simp only [exec_LDR2, h.cpsr, h.halfadd, h.read_register, h.write_register_fst,
    h.write_register_snd, h.read16_fst, h.read16_snd, h.write16, h.comm_read32_fst, h.comm_read32_snd,
    h.comm_write32, h.do_zflag, h.do_nflag, h.do_cflag, h.do_sub_vflag, h.do_add_vflag,
    h.do_cflag_bit, h.do_vflag_bit, h.set_halfadd,
    apply_ite Prod.fst, apply_ite Prod.snd, ← apply_ite f]

theorem comm_LDR3 {f : Thumbulator → Thumbulator} (h : Commutes f) (s : Thumbulator)
    (inst : Nat) :
    exec_LDR3 (f s) inst = ((exec_LDR3 s inst).1, f (exec_LDR3 s inst).2) := by
  simp only [exec_LDR3, h.cpsr, h.halfadd, h.read_register, h.write_register_fst,
    h.write_register_snd, h.read16_fst, h.read16_snd, h.write16, h.comm_read32_fst, h.comm_read32_snd,
    h.comm_write32, h.do_zflag, h.do_nflag, h.do_cflag, h.do_sub_vflag, h.do_add_vflag,
    h.do_cflag_bit, h.do_vflag_bit, h.set_halfadd,
    apply_ite Prod.fst, apply_ite Prod.snd, ← apply_ite f]

theorem comm_LDR4 {f : Thumbulator → Thumbulator} (h : Commutes f) (s : Thumbulator)
    (inst : Nat) :
    exec_LDR4 (f s) inst = ((exec_LDR4 s inst).1, f (exec_LDR4 s inst).2) := by
  simp only [exec_LDR4, h.cpsr, h.halfadd, h.read_register, h.write_register_fst,
    h.write_register_snd, h.read16_fst, h.read16_snd, h.write16, h.comm_read32_fst, h.comm_read32_snd,
    h.comm_write32, h.do_zflag, h.do_nflag, h.do_cflag, h.do_sub_vflag, h.do_add_vflag,
    h.do_cflag_bit, h.do_vflag_bit, h.set_halfadd,
    apply_ite Prod.fst, apply_ite Prod.snd, ← apply_ite f]

theorem comm_LDRB1 {f : Thumbulator → Thumbulator} (h : Commutes f) (s : Thumbulator)
    (inst : Nat) :
    exec_LDRB1 (f s) inst = ((exec_LDRB1 s inst).1, f (exec_LDRB1 s inst).2) := by
  simp only [exec_LDRB1, h.cpsr, h.halfadd, h.read_register, h.write_register_fst,
    h.write_register_snd, h.read16_fst, h.read16_snd, h.write16, h.comm_read32_fst, h.comm_read32_snd,
    h.comm_write32, h.do_zflag, h.do_nflag, h.do_cflag, h.do_sub_vflag, h.do_add_vflag,
    h.do_cflag_bit, h.do_vflag_bit, h.set_halfadd,
    apply_ite Prod.fst, apply_ite Prod.snd, ← apply_ite f]

theorem comm_LDRB2 {f : Thumbulator → Thumbulator} (h : Commutes f) (s : Thumbulator)
    (inst : Nat) :
    exec_LDRB2 (f s) inst = ((exec_LDRB2 s inst).1, f (exec_LDRB2 s inst).2) := by
  simp only [exec_LDRB2, h.cpsr, h.halfadd, h.read_register, h.write_register_fst,
    h.write_register_snd, h.read16_fst, h.read16_snd, h.write16, h.comm_read32_fst, h.comm_read32_snd,
    h.comm_write32, h.do_zflag, h.do_nflag, h.do_cflag, h.do_sub_vflag, h.do_add_vflag,
    h.do_cflag_bit, h.do_vflag_bit, h.set_halfadd,
    apply_ite Prod.fst, apply_ite Prod.snd, ← apply_ite f]

theorem comm_LDRH1 {f : Thumbulator → Thumbulator} (h : Commutes f) (s : Thumbulator)
    (inst : Nat) :
    exec_LDRH1 (f s) inst = ((exec_LDRH1 s inst).1, f (exec_LDRH1 s inst).2) := by
  simp only [exec_LDRH1, h.cpsr, h.halfadd, h.read_register, h.write_register_fst,
    h.write_register_snd, h.read16_fst, h.read16_snd, h.write16, h.comm_read32_fst, h.comm_read32_snd,
    h.comm_write32, h.do_zflag, h.do_nflag, h.do_cflag, h.do_sub_vflag, h.do_add_vflag,
    h.do_cflag_bit, h.do_vflag_bit, h.set_halfadd,
    apply_ite Prod.fst, apply_ite Prod.snd, ← apply_ite f]

theorem comm_LDRH2 {f : Thumbulator → Thumbulator} (h : Commutes f) (s : Thumbulator)
    (inst : Nat) :
    exec_LDRH2 (f s) inst = ((exec_LDRH2 s inst).1, f (exec_LDRH2 s inst).2) := by
  simp only [exec_LDRH2, h.cpsr, h.halfadd, h.read_register, h.write_register_fst,
    h.write_register_snd, h.read16_fst, h.read16_snd, h.write16, h.comm_read32_fst, h.comm_read32_snd,
    h.comm_write32, h.do_zflag, h.do_nflag, h.do_cflag, h.do_sub_vflag, h.do_add_vflag,
    h.do_cflag_bit, h.do_vflag_bit, h.set_halfadd,
    apply_ite Prod.fst, apply_ite Prod.snd, ← apply_ite f]

theorem comm_LDRSB {f : Thumbulator → Thumbulator} (h : Commutes f) (s : Thumbulator)
    (inst : Nat) :
    exec_LDRSB (f s) inst = ((exec_LDRSB s inst).1, f (exec_LDRSB s inst).2) := by
  simp only [exec_LDRSB, h.cpsr, h.halfadd, h.read_register, h.write_register_fst,
    h.write_register_snd, h.read16_fst, h.read16_snd, h.write16, h.comm_read32_fst, h.comm_read32_snd,
    h.comm_write32, h.do_zflag, h.do_nflag, h.do_cflag, h.do_sub_vflag, h.do_add_vflag,
    h.do_cflag_bit, h.do_vflag_bit, h.set_halfadd,
    apply_ite Prod.fst, apply_ite Prod.snd, ← apply_ite f]

theorem comm_LDRSH {f : Thumbulator → Thumbulator} (h : Commutes f) (s : Thumbulator)
    (inst : Nat) :
    exec_LDRSH (f s) inst = ((exec_LDRSH s inst).1, f (exec_LDRSH s inst).2) := by
  simp only [exec_LDRSH, h.cpsr, h.halfadd, h.read_register, h.write_register_fst,
    h.write_register_snd, h.read16_fst, h.read16_snd, h.write16, h.comm_read32_fst, h.comm_read32_snd,
    h.comm_write32, h.do_zflag, h.do_nflag, h.do_cflag, h.do_sub_vflag, h.do_add_vflag,
    h.do_cflag_bit, h.do_vflag_bit, h.set_halfadd,
    apply_ite Prod.fst, apply_ite Prod.snd, ← apply_ite f]

theorem comm_LSL1 {f : Thumbulator → Thumbulator} (h : Commutes f) (s : Thumbulator)
    (inst : Nat) :
    exec_LSL1 (f s) inst = ((exec_LSL1 s inst).1, f (exec_LSL1 s inst).2) := by
  simp only [exec_LSL1, h.cpsr, h.halfadd, h.read_register, h.write_register_fst,
    h.write_register_snd, h.read16_fst, h.read16_snd, h.write16, h.comm_read32_fst, h.comm_read32_snd,
    h.comm_write32, h.do_zflag, h.do_nflag, h.do_cflag, h.do_sub_vflag, h.do_add_vflag,
    h.do_cflag_bit, h.do_vflag_bit, h.set_halfadd,
    apply_ite Prod.fst, apply_ite Prod.snd, ← apply_ite f]

theorem comm_LSL2 {f : Thumbulator → Thumbulator} (h : Commutes f) (s : Thumbulator)
    (inst : Nat) :
    exec_LSL2 (f s) inst = ((exec_LSL2 s inst).1, f (exec_LSL2 s inst).2) := by
  simp only [exec_LSL2, h.cpsr, h.halfadd, h.read_register, h.write_register_fst,
    h.write_register_snd, h.read16_fst, h.read16_snd, h.write16, h.comm_read32_fst, h.comm_read32_snd,
    h.comm_write32, h.do_zflag, h.do_nflag, h.do_cflag, h.do_sub_vflag, h.do_add_vflag,
    h.do_cflag_bit, h.do_vflag_bit, h.set_halfadd,
    apply_ite Prod.fst, apply_ite Prod.snd, ← apply_ite f]

theorem comm_LSR1 {f : Thumbulator → Thumbulator} (h : Commutes f) (s : Thumbulator)
    (inst : Nat) :
    exec_LSR1 (f s) inst = ((exec_LSR1 s inst).1, f (exec_LSR1 s inst).2) := by
  simp only [exec_LSR1, h.cpsr, h.halfadd, h.read_register, h.write_register_fst,
    h.write_register_snd, h.read16_fst, h.read16_snd, h.write16, h.comm_read32_fst, h.comm_read32_snd,
    h.comm_write32, h.do_zflag, h.do_nflag, h.do_cflag, h.do_sub_vflag, h.do_add_vflag,
    h.do_cflag_bit, h.do_vflag_bit, h.set_halfadd,
    apply_ite Prod.fst, apply_ite Prod.snd, ← apply_ite f]

theorem comm_LSR2 {f : Thumbulator → Thumbulator} (h : Commutes f) (s : Thumbulator)
    (inst : Nat) :
    exec_LSR2 (f s) inst = ((exec_LSR2 s inst).1, f (exec_LSR2 s inst).2) := by
  simp only [exec_LSR2, h.cpsr, h.halfadd, h.read_register, h.write_register_fst,
    h.write_register_snd, h.read16_fst, h.read16_snd, h.write16, h.comm_read32_fst, h.comm_read32_snd,
    h.comm_write32, h.do_zflag, h.do_nflag, h.do_cflag, h.do_sub_vflag, h.do_add_vflag,
    h.do_cflag_bit, h.do_vflag_bit, h.set_halfadd,
    apply_ite Prod.fst, apply_ite Prod.snd, ← apply_ite f]

theorem comm_MOV1 {f : Thumbulator → Thumbulator} (h : Commutes f) (s : Thumbulator)
    (inst : Nat) :
    exec_MOV1 (f s) inst = ((exec_MOV1 s inst).1, f (exec_MOV1 s inst).2) := by
  simp only [exec_MOV1, h.cpsr, h.halfadd, h.read_register, h.write_register_fst,
    h.write_register_snd, h.read16_fst, h.read16_snd, h.write16, h.comm_read32_fst, h.comm_read32_snd,
    h.comm_write32, h.do_zflag, h.do_nflag, h.do_cflag, h.do_sub_vflag, h.do_add_vflag,
    h.do_cflag_bit, h.do_vflag_bit, h.set_halfadd,
    apply_ite Prod.fst, apply_ite Prod.snd, ← apply_ite f]

theorem comm_MOV2 {f : Thumbulator → Thumbulator} (h : Commutes f) (s : Thumbulator)
    (inst : Nat) :
    exec_MOV2 (f s) inst = ((exec_MOV2 s inst).1, f (exec_MOV2 s inst).2) := by
  simp only [exec_MOV2, h.cpsr, h.halfadd, h.read_register, h.write_register_fst,
    h.write_register_snd, h.read16_fst, h.read16_snd, h.write16, h.comm_read32_fst, h.comm_read32_snd,
    h.comm_write32, h.do_zflag, h.do_nflag, h.do_cflag, h.do_sub_vflag, h.do_add_vflag,
    h.do_cflag_bit, h.do_vflag_bit, h.set_halfadd,
    apply_ite Prod.fst, apply_ite Prod.snd, ← apply_ite f]

theorem comm_MOV3 {f : Thumbulator → Thumbulator} (h : Commutes f) (s : Thumbulator)
    (inst : Nat) :
    exec_MOV3 (f s) inst = ((exec_MOV3 s inst).1, f (exec_MOV3 s inst).2) := by
  simp only [exec_MOV3, h.cpsr, h.halfadd, h.read_register, h.write_register_fst,
    h.write_register_snd, h.read16_fst, h.read16_snd, h.write16, h.comm_read32_fst, h.comm_read32_snd,
    h.comm_write32, h.do_zflag, h.do_nflag, h.do_cflag, h.do_sub_vflag, h.do_add_vflag,
    h.do_cflag_bit, h.do_vflag_bit, h.set_halfadd,
    apply_ite Prod.fst, apply_ite Prod.snd, ← apply_ite f]

theorem comm_MUL {f : Thumbulator → Thumbulator} (h : Commutes f) (s : Thumbulator)
    (inst : Nat) :
    exec_MUL (f s) inst = ((exec_MUL s inst).1, f (exec_MUL s inst).2) := by
  simp only [exec_MUL, h.cpsr, h.halfadd, h.read_register, h.write_register_fst,
    h.write_register_snd, h.read16_fst, h.read16_snd, h.write16, h.comm_read32_fst, h.comm_read32_snd,
    h.comm_write32, h.do_zflag, h.do_nflag, h.do_cflag, h.do_sub_vflag, h.do_add_vflag,
    h.do_cflag_bit, h.do_vflag_bit, h.set_halfadd,
    apply_ite Prod.fst, apply_ite Prod.snd, ← apply_ite f]

theorem comm_MVN {f : Thumbulator → Thumbulator} (h : Commutes f) (s : Thumbulator)
    (inst : Nat) :
    exec_MVN (f s) inst = ((exec_MVN s inst).1, f (exec_MVN s inst).2) := by
  simp only [exec_MVN, h.cpsr, h.halfadd, h.read_register, h.write_register_fst,
    h.write_register_snd, h.read16_fst, h.read16_snd, h.write16, h.comm_read32_fst, h.comm_read32_snd,
    h.comm_write32, h.do_zflag, h.do_nflag, h.do_cflag, h.do_sub_vflag, h.do_add_vflag,
    h.do_cflag_bit, h.do_vflag_bit, h.set_halfadd,
    apply_ite Prod.fst, apply_ite Prod.snd, ← apply_ite f]

theorem comm_NEG {f : Thumbulator → Thumbulator} (h : Commutes f) (s : Thumbulator)
    (inst : Nat) :
    exec_NEG (f s) inst = ((exec_NEG s inst).1, f (exec_NEG s inst).2) := by
  simp only [exec_NEG, h.cpsr, h.halfadd, h.read_register, h.write_register_fst,
    h.write_register_snd, h.read16_fst, h.read16_snd, h.write16, h.comm_read32_fst, h.comm_read32_snd,
    h.comm_write32, h.do_zflag, h.do_nflag, h.do_cflag, h.do_sub_vflag, h.do_add_vflag,
    h.do_cflag_bit, h.do_vflag_bit, h.set_halfadd,
    apply_ite Prod.fst, apply_ite Prod.snd, ← apply_ite f]

theorem comm_ORR {f : Thumbulator → Thumbulator} (h : Commutes f) (s : Thumbulator)
    (inst : Nat) :
    exec_ORR (f s) inst = ((exec_ORR s inst).1, f (exec_ORR s inst).2) := by
  simp only [exec_ORR, h.cpsr, h.halfadd, h.read_register, h.write_register_fst,
    h.write_register_snd, h.read16_fst, h.read16_snd, h.write16, h.comm_read32_fst, h.comm_read32_snd,
    h.comm_write32, h.do_zflag, h.do_nflag, h.do_cflag, h.do_sub_vflag, h.do_add_vflag,
    h.do_cflag_bit, h.do_vflag_bit, h.set_halfadd,
    apply_ite Prod.fst, apply_ite Prod.snd, ← apply_ite f]

theorem comm_REV {f : Thumbulator → Thumbulator} (h : Commutes f) (s : Thumbulator)
    (inst : Nat) :
    exec_REV (f s) inst = ((exec_REV s inst).1, f (exec_REV s inst).2) := by
  simp only [exec_REV, h.cpsr, h.halfadd, h.read_register, h.write_register_fst,
    h.write_register_snd, h.read16_fst, h.read16_snd, h.write16, h.comm_read32_fst, h.comm_read32_snd,
    h.comm_write32, h.do_zflag, h.do_nflag, h.do_cflag, h.do_sub_vflag, h.do_add_vflag,
    h.do_cflag_bit, h.do_vflag_bit, h.set_halfadd,
    apply_ite Prod.fst, apply_ite Prod.snd, ← apply_ite f]

theorem comm_REV16 {f : Thumbulator → Thumbulator} (h : Commutes f) (s : Thumbulator)
    (inst : Nat) :
    exec_REV16 (f s) inst = ((exec_REV16 s inst).1, f (exec_REV16 s inst).2) := by
  simp only [exec_REV16, h.cpsr, h.halfadd, h.read_register, h.write_register_fst,
    h.write_register_snd, h.read16_fst, h.read16_snd, h.write16, h.comm_read32_fst, h.comm_read32_snd,
    h.comm_write32, h.do_zflag, h.do_nflag, h.do_cflag, h.do_sub_vflag, h.do_add_vflag,
    h.do_cflag_bit, h.do_vflag_bit, h.set_halfadd,
    apply_ite Prod.fst, apply_ite Prod.snd, ← apply_ite f]

theorem comm_REVSH {f : Thumbulator → Thumbulator} (h : Commutes f) (s : Thumbulator)
    (inst : Nat) :
    exec_REVSH (f s) inst = ((exec_REVSH s inst).1, f (exec_REVSH s inst).2) := by
  simp only [exec_REVSH, h.cpsr, h.halfadd, h.read_register, h.write_register_fst,
    h.write_register_snd, h.read16_fst, h.read16_snd, h.write16, h.comm_read32_fst, h.comm_read32_snd,
    h.comm_write32, h.do_zflag, h.do_nflag, h.do_cflag, h.do_sub_vflag, h.do_add_vflag,
    h.do_cflag_bit, h.do_vflag_bit, h.set_halfadd,
    apply_ite Prod.fst, apply_ite Prod.snd, ← apply_ite f]

theorem comm_ROR {f : Thumbulator → Thumbulator} (h : Commutes f) (s : Thumbulator)
    (inst : Nat) :
    exec_ROR (f s) inst = ((exec_ROR s inst).1, f (exec_ROR s inst).2) := by
  simp only [exec_ROR, h.cpsr, h.halfadd, h.read_register, h.write_register_fst,
    h.write_register_snd, h.read16_fst, h.read16_snd, h.write16, h.comm_read32_fst, h.comm_read32_snd,
    h.comm_write32, h.do_zflag, h.do_nflag, h.do_cflag, h.do_sub_vflag, h.do_add_vflag,
    h.do_cflag_bit, h.do_vflag_bit, h.set_halfadd,
    apply_ite Prod.fst, apply_ite Prod.snd, ← apply_ite f]

theorem comm_SBC {f : Thumbulator → Thumbulator} (h : Commutes f) (s : Thumbulator)
    (inst : Nat) :
    exec_SBC (f s) inst = ((exec_SBC s inst).1, f (exec_SBC s inst).2) := by
  simp only [exec_SBC, h.cpsr, h.halfadd, h.read_register, h.write_register_fst,
    h.write_register_snd, h.read16_fst, h.read16_snd, h.write16, h.comm_read32_fst, h.comm_read32_snd,
    h.comm_write32, h.do_zflag, h.do_nflag, h.do_cflag, h.do_sub_vflag, h.do_add_vflag,
    h.do_cflag_bit, h.do_vflag_bit, h.set_halfadd,
    apply_ite Prod.fst, apply_ite Prod.snd, ← apply_ite f]

theorem comm_SETEND {f : Thumbulator → Thumbulator} (_h : Commutes f) (s : Thumbulator)
    (inst : Nat) :
    exec_SETEND (f s) inst = ((exec_SETEND s inst).1, f (exec_SETEND s inst).2) :=
  rfl

theorem comm_STR1 {f : Thumbulator → Thumbulator} (h : Commutes f) (s : Thumbulator)
    (inst : Nat) :
    exec_STR1 (f s) inst = ((exec_STR1 s inst).1, f (exec_STR1 s inst).2) := by
  simp only [exec_STR1, h.cpsr, h.halfadd, h.read_register, h.write_register_fst,
    h.write_register_snd, h.read16_fst, h.read16_snd, h.write16, h.comm_read32_fst, h.comm_read32_snd,
    h.comm_write32, h.do_zflag, h.do_nflag, h.do_cflag, h.do_sub_vflag, h.do_add_vflag,
    h.do_cflag_bit, h.do_vflag_bit, h.set_halfadd,
    apply_ite Prod.fst, apply_ite Prod.snd, ← apply_ite f]

theorem comm_STR2 {f : Thumbulator → Thumbulator} (h : Commutes f) (s : Thumbulator)
    (inst : Nat) :
    exec_STR2 (f s) inst = ((exec_STR2 s inst).1, f (exec_STR2 s inst).2) := by
  simp only [exec_STR2, h.cpsr, h.halfadd, h.read_register, h.write_register_fst,
    h.write_register_snd, h.read16_fst, h.read16_snd, h.write16, h.comm_read32_fst, h.comm_read32_snd,
    h.comm_write32, h.do_zflag, h.do_nflag, h.do_cflag, h.do_sub_vflag, h.do_add_vflag,
    h.do_cflag_bit, h.do_vflag_bit, h.set_halfadd,
    apply_ite Prod.fst, apply_ite Prod.snd, ← apply_ite f]

theorem comm_STR3 {f : Thumbulator → Thumbulator} (h : Commutes f) (s : Thumbulator)
    (inst : Nat) :
    exec_STR3 (f s) inst = ((exec_STR3 s inst).1, f (exec_STR3 s inst).2) := by
  simp only [exec_STR3, h.cpsr, h.halfadd, h.read_register, h.write_register_fst,
    h.write_register_snd, h.read16_fst, h.read16_snd, h.write16, h.comm_read32_fst, h.comm_read32_snd,
    h.comm_write32, h.do_zflag, h.do_nflag, h.do_cflag, h.do_sub_vflag, h.do_add_vflag,
    h.do_cflag_bit, h.do_vflag_bit, h.set_halfadd,
    apply_ite Prod.fst, apply_ite Prod.snd, ← apply_ite f]

theorem comm_STRB1 {f : Thumbulator → Thumbulator} (h : Commutes f) (s : Thumbulator)
    (inst : Nat) :
    exec_STRB1 (f s) inst = ((exec_STRB1 s inst).1, f (exec_STRB1 s inst).2) := by
  simp only [exec_STRB1, h.cpsr, h.halfadd, h.read_register, h.write_register_fst,
    h.write_register_snd, h.read16_fst, h.read16_snd, h.write16, h.comm_read32_fst, h.comm_read32_snd,
    h.comm_write32, h.do_zflag, h.do_nflag, h.do_cflag, h.do_sub_vflag, h.do_add_vflag,
    h.do_cflag_bit, h.do_vflag_bit, h.set_halfadd,
    apply_ite Prod.fst, apply_ite Prod.snd, ← apply_ite f]

theorem comm_STRB2 {f : Thumbulator → Thumbulator} (h : Commutes f) (s : Thumbulator)
    (inst : Nat) :
    exec_STRB2 (f s) inst = ((exec_STRB2 s inst).1, f (exec_STRB2 s inst).2) := by
  simp only [exec_STRB2, h.cpsr, h.halfadd, h.read_register, h.write_register_fst,
    h.write_register_snd, h.read16_fst, h.read16_snd, h.write16, h.comm_read32_fst, h.comm_read32_snd,
    h.comm_write32, h.do_zflag, h.do_nflag, h.do_cflag, h.do_sub_vflag, h.do_add_vflag,
    h.do_cflag_bit, h.do_vflag_bit, h.set_halfadd,
    apply_ite Prod.fst, apply_ite Prod.snd, ← apply_ite f]

theorem comm_STRH1 {f : Thumbulator → Thumbulator} (h : Commutes f) (s : Thumbulator)
    (inst : Nat) :
    exec_STRH1 (f s) inst = ((exec_STRH1 s inst).1, f (exec_STRH1 s inst).2) := by
  simp only [exec_STRH1, h.cpsr, h.halfadd, h.read_register, h.write_register_fst,
    h.write_register_snd, h.read16_fst, h.read16_snd, h.write16, h.comm_read32_fst, h.comm_read32_snd,
    h.comm_write32, h.do_zflag, h.do_nflag, h.do_cflag, h.do_sub_vflag, h.do_add_vflag,
    h.do_cflag_bit, h.do_vflag_bit, h.set_halfadd,
    apply_ite Prod.fst, apply_ite Prod.snd, ← apply_ite f]

theorem comm_STRH2 {f : Thumbulator → Thumbulator} (h : Commutes f) (s : Thumbulator)
    (inst : Nat) :
    exec_STRH2 (f s) inst = ((exec_STRH2 s inst).1, f (exec_STRH2 s inst).2) := by
  simp only [exec_STRH2, h.cpsr, h.halfadd, h.read_register, h.write_register_fst,
    h.write_register_snd, h.read16_fst, h.read16_snd, h.write16, h.comm_read32_fst, h.comm_read32_snd,
    h.comm_write32, h.do_zflag, h.do_nflag, h.do_cflag, h.do_sub_vflag, h.do_add_vflag,
    h.do_cflag_bit, h.do_vflag_bit, h.set_halfadd,
    apply_ite Prod.fst, apply_ite Prod.snd, ← apply_ite f]

theorem comm_SUB1 {f : Thumbulator → Thumbulator} (h : Commutes f) (s : Thumbulator)
    (inst : Nat) :
    exec_SUB1 (f s) inst = ((exec_SUB1 s inst).1, f (exec_SUB1 s inst).2) := by
  simp only [exec_SUB1, h.cpsr, h.halfadd, h.read_register, h.write_register_fst,
    h.write_register_snd, h.read16_fst, h.read16_snd, h.write16, h.comm_read32_fst, h.comm_read32_snd,
    h.comm_write32, h.do_zflag, h.do_nflag, h.do_cflag, h.do_sub_vflag, h.do_add_vflag,
    h.do_cflag_bit, h.do_vflag_bit, h.set_halfadd,
    apply_ite Prod.fst, apply_ite Prod.snd, ← apply_ite f]

theorem comm_SUB2 {f : Thumbulator → Thumbulator} (h : Commutes f) (s : Thumbulator)
    (inst : Nat) :
    exec_SUB2 (f s) inst = ((exec_SUB2 s inst).1, f (exec_SUB2 s inst).2) := by
  simp only [exec_SUB2, h.cpsr, h.halfadd, h.read_register, h.write_register_fst,
    h.write_register_snd, h.read16_fst, h.read16_snd, h.write16, h.comm_read32_fst, h.comm_read32_snd,
    h.comm_write32, h.do_zflag, h.do_nflag, h.do_cflag, h.do_sub_vflag, h.do_add_vflag,
    h.do_cflag_bit, h.do_vflag_bit, h.set_halfadd,
    apply_ite Prod.fst, apply_ite Prod.snd, ← apply_ite f]

theorem comm_SUB3 {f : Thumbulator → Thumbulator} (h : Commutes f) (s : Thumbulator)
    (inst : Nat) :
    exec_SUB3 (f s) inst = ((exec_SUB3 s inst).1, f (exec_SUB3 s inst).2) := by
  simp only [exec_SUB3, h.cpsr, h.halfadd, h.read_register, h.write_register_fst,
    h.write_register_snd, h.read16_fst, h.read16_snd, h.write16, h.comm_read32_fst, h.comm_read32_snd,
    h.comm_write32, h.do_zflag, h.do_nflag, h.do_cflag, h.do_sub_vflag, h.do_add_vflag,
    h.do_cflag_bit, h.do_vflag_bit, h.set_halfadd,
    apply_ite Prod.fst, apply_ite Prod.snd, ← apply_ite f]

theorem comm_SUB4 {f : Thumbulator → Thumbulator} (h : Commutes f) (s : Thumbulator)
    (inst : Nat) :
    exec_SUB4 (f s) inst = ((exec_SUB4 s inst).1, f (exec_SUB4 s inst).2) := by
  simp only [exec_SUB4, h.cpsr, h.halfadd, h.read_register, h.write_register_fst,
    h.write_register_snd, h.read16_fst, h.read16_snd, h.write16, h.comm_read32_fst, h.comm_read32_snd,
    h.comm_write32, h.do_zflag, h.do_nflag, h.do_cflag, h.do_sub_vflag, h.do_add_vflag,
    h.do_cflag_bit, h.do_vflag_bit, h.set_halfadd,
    apply_ite Prod.fst, apply_ite Prod.snd, ← apply_ite f]

theorem comm_SWI {f : Thumbulator → Thumbulator} (_h : Commutes f) (s : Thumbulator)
    (inst : Nat) :
    exec_SWI (f s) inst = ((exec_SWI s inst).1, f (exec_SWI s inst).2) :=
  rfl

theorem comm_SXTB {f : Thumbulator → Thumbulator} (h : Commutes f) (s : Thumbulator)
    (inst : Nat) :
    exec_SXTB (f s) inst = ((exec_SXTB s inst).1, f (exec_SXTB s inst).2) := by
  simp only [exec_SXTB, h.cpsr, h.halfadd, h.read_register, h.write_register_fst,
    h.write_register_snd, h.read16_fst, h.read16_snd, h.write16, h.comm_read32_fst, h.comm_read32_snd,
    h.comm_write32, h.do_zflag, h.do_nflag, h.do_cflag, h.do_sub_vflag, h.do_add_vflag,
    h.do_cflag_bit, h.do_vflag_bit, h.set_halfadd,
    apply_ite Prod.fst, apply_ite Prod.snd, ← apply_ite f]

theorem comm_SXTH {f : Thumbulator → Thumbulator} (h : Commutes f) (s : Thumbulator)
    (inst : Nat) :
    exec_SXTH (f s) inst = ((exec_SXTH s inst).1, f (exec_SXTH s inst).2) := by
  simp only [exec_SXTH, h.cpsr, h.halfadd, h.read_register, h.write_register_fst,
    h.write_register_snd, h.read16_fst, h.read16_snd, h.write16, h.comm_read32_fst, h.comm_read32_snd,
    h.comm_write32, h.do_zflag, h.do_nflag, h.do_cflag, h.do_sub_vflag, h.do_add_vflag,
    h.do_cflag_bit, h.do_vflag_bit, h.set_halfadd,
    apply_ite Prod.fst, apply_ite Prod.snd, ← apply_ite f]

theorem comm_TST {f : Thumbulator → Thumbulator} (h : Commutes f) (s : Thumbulator)
    (inst : Nat) :
    exec_TST (f s) inst = ((exec_TST s inst).1, f (exec_TST s inst).2) := by
  simp only [exec_TST, h.cpsr, h.halfadd, h.read_register, h.write_register_fst,
    h.write_register_snd, h.read16_fst, h.read16_snd, h.write16, h.comm_read32_fst, h.comm_read32_snd,
    h.comm_write32, h.do_zflag, h.do_nflag, h.do_cflag, h.do_sub_vflag, h.do_add_vflag,
    h.do_cflag_bit, h.do_vflag_bit, h.set_halfadd,
    apply_ite Prod.fst, apply_ite Prod.snd, ← apply_ite f]

theorem comm_UXTB {f : Thumbulator → Thumbulator} (h : Commutes f) (s : Thumbulator)
    (inst : Nat) :
    exec_UXTB (f s) inst = ((exec_UXTB s inst).1, f (exec_UXTB s inst).2) := by
  simp only [exec_UXTB, h.cpsr, h.halfadd, h.read_register, h.write_register_fst,
    h.write_register_snd, h.read16_fst, h.read16_snd, h.write16, h.comm_read32_fst, h.comm_read32_snd,
    h.comm_write32, h.do_zflag, h.do_nflag, h.do_cflag, h.do_sub_vflag, h.do_add_vflag,
    h.do_cflag_bit, h.do_vflag_bit, h.set_halfadd,
    apply_ite Prod.fst, apply_ite Prod.snd, ← apply_ite f]

theorem comm_UXTH {f : Thumbulator → Thumbulator} (h : Commutes f) (s : Thumbulator)
    (inst : Nat) :
    exec_UXTH (f s) inst = ((exec_UXTH s inst).1, f (exec_UXTH s inst).2) := by
  simp only [exec_UXTH, h.cpsr, h.halfadd, h.read_register, h.write_register_fst,
    h.write_register_snd, h.read16_fst, h.read16_snd, h.write16, h.comm_read32_fst, h.comm_read32_snd,
    h.comm_write32, h.do_zflag, h.do_nflag, h.do_cflag, h.do_sub_vflag, h.do_add_vflag,
    h.do_cflag_bit, h.do_vflag_bit, h.set_halfadd,
    apply_ite Prod.fst, apply_ite Prod.snd, ← apply_ite f]

theorem regListLoop_comm {f : Thumbulator → Thumbulator} (inst : Nat)
    (body : Nat → Nat × Thumbulator → Nat × Thumbulator)
    (hb : ∀ ra sp s, body ra (sp, f s) = ((body ra (sp, s)).1, f (body ra (sp, s)).2)) :
    ∀ (fuel ra rb sp : Nat) (s : Thumbulator),
      regListLoop inst body fuel ra rb (sp, f s) =
        ((regListLoop inst body fuel ra rb (sp, s)).1,
          (regListLoop inst body fuel ra rb (sp, s)).2.1,
          (regListLoop inst body fuel ra rb (sp, s)).2.2.1,
          f (regListLoop inst body fuel ra rb (sp, s)).2.2.2)
  | 0, _, _, _, _ => rfl
  | fuel + 1, ra, rb, sp, s => by
    rw [regListLoop_succ, regListLoop_succ]
    split
    · have e : (if inst &&& rb ≠ 0 then body ra (sp, f s) else (sp, f s)) =
          ((if inst &&& rb ≠ 0 then body ra (sp, s) else (sp, s)).1,
            f (if inst &&& rb ≠ 0 then body ra (sp, s) else (sp, s)).2) := by
        split
        · exact hb ra sp s
        · rfl
      rw [e]
      exact regListLoop_comm inst body hb fuel _ _ _ _
    · rfl

theorem Commutes.comm_loadBody {f : Thumbulator → Thumbulator} (h : Commutes f) (ra sp : Nat)
    (s : Thumbulator) :
    loadBody ra (sp, f s) = ((loadBody ra (sp, s)).1, f (loadBody ra (sp, s)).2) := by
  simp only [Thumbulator.loadBody, h.comm_read32_fst, h.comm_read32_snd, h.write_register_snd]

theorem Commutes.comm_storeBody {f : Thumbulator → Thumbulator} (h : Commutes f) (ra sp : Nat)
    (s : Thumbulator) :
    storeBody ra (sp, f s) = ((storeBody ra (sp, s)).1, f (storeBody ra (sp, s)).2) := by
  simp only [Thumbulator.storeBody, h.read_register, h.comm_write32]

theorem comm_LDMIA {f : Thumbulator → Thumbulator} (h : Commutes f) (s : Thumbulator)
    (inst : Nat) :
    exec_LDMIA (f s) inst = ((exec_LDMIA s inst).1, f (exec_LDMIA s inst).2) := by
  simp only [exec_LDMIA, h.read_register, regListLoop_comm inst loadBody h.comm_loadBody,
    h.write_register_snd]

theorem comm_STMIA {f : Thumbulator → Thumbulator} (h : Commutes f) (s : Thumbulator)
    (inst : Nat) :
    exec_STMIA (f s) inst = ((exec_STMIA s inst).1, f (exec_STMIA s inst).2) := by
  simp only [exec_STMIA, h.read_register, regListLoop_comm inst storeBody h.comm_storeBody,
    h.write_register_snd]

theorem comm_POP {f : Thumbulator → Thumbulator} (h : Commutes f) (s : Thumbulator)
    (inst : Nat) :
    exec_POP (f s) inst = ((exec_POP s inst).1, f (exec_POP s inst).2) := by
  simp only [exec_POP, h.read_register, regListLoop_comm inst loadBody h.comm_loadBody,
    h.comm_read32_fst, h.comm_read32_snd, h.write_register_snd, apply_ite Prod.fst, apply_ite Prod.snd,
    ← apply_ite f]

theorem comm_PUSH {f : Thumbulator → Thumbulator} (h : Commutes f) (s : Thumbulator)
    (inst : Nat) :
    exec_PUSH (f s) inst = ((exec_PUSH s inst).1, f (exec_PUSH s inst).2) := by
  simp only [exec_PUSH, h.read_register, regListLoop_comm inst storeBody h.comm_storeBody,
    h.comm_write32, h.write_register_snd, ← apply_ite f]


/-- Every handler of the chain commutes with `f`. -/
theorem chain_comm {f : Thumbulator → Thumbulator} (h : Commutes f) :
    ∀ p ∈ chain, ∀ (s : Thumbulator) (inst pc : Nat),
      p.handler (f s) inst pc = (p.handler s inst pc).map (fun r => (r.1, f r.2)) := by
  simp only [chain, List.forall_mem_cons, List.not_mem_nil, false_implies, implies_true,
    and_true]
  exact ⟨fun s inst pc => congrArg some (comm_ADC h s inst),
    fun s inst pc => comm_ADD1 h s inst,
    fun s inst pc => congrArg some (comm_ADD2 h s inst),
    fun s inst pc => congrArg some (comm_ADD3 h s inst),
    fun s inst pc => congrArg some (comm_ADD4 h s inst),
    fun s inst pc => congrArg some (comm_ADD5 h s inst),
    fun s inst pc => congrArg some (comm_ADD6 h s inst),
    fun s inst pc => congrArg some (comm_ADD7 h s inst),
    fun s inst pc => congrArg some (comm_AND h s inst),
    fun s inst pc => congrArg some (comm_ASR1 h s inst),
    fun s inst pc => congrArg some (comm_ASR2 h s inst),
    fun s inst pc => comm_B1 h s inst pc,
    fun s inst pc => congrArg some (comm_B2 h s inst pc),
    fun s inst pc => congrArg some (comm_BIC h s inst),
    fun s inst pc => congrArg some (comm_BKPT h s inst),
    fun s inst pc => comm_BL h s inst pc,
    fun s inst pc => congrArg some (comm_BLX2 h s inst pc),
    fun s inst pc => congrArg some (comm_BX h s inst),
    fun s inst pc => congrArg some (comm_CMN h s inst),
    fun s inst pc => congrArg some (comm_CMP1 h s inst),
    fun s inst pc => congrArg some (comm_CMP2 h s inst),
    fun s inst pc => congrArg some (comm_CMP3 h s inst),
    fun s inst pc => congrArg some (comm_CPS h s inst),
    fun s inst pc => congrArg some (comm_CPY h s inst),
    fun s inst pc => congrArg some (comm_EOR h s inst),
    fun s inst pc => congrArg some (comm_LDMIA h s inst),
    fun s inst pc => congrArg some (comm_LDR1 h s inst),
    fun s inst pc => congrArg some (comm_LDR2 h s inst),
    fun s inst pc => congrArg some (comm_LDR3 h s inst),
    fun s inst pc => congrArg some (comm_LDR4 h s inst),
    fun s inst pc => congrArg some (comm_LDRB1 h s inst),
    fun s inst pc => congrArg some (comm_LDRB2 h s inst),
    fun s inst pc => congrArg some (comm_LDRH1 h s inst),
    fun s inst pc => congrArg some (comm_LDRH2 h s inst),
    fun s inst pc => congrArg some (comm_LDRSB h s inst),
    fun s inst pc => congrArg some (comm_LDRSH h s inst),
    fun s inst pc => congrArg some (comm_LSL1 h s inst),
    fun s inst pc => congrArg some (comm_LSL2 h s inst),
    fun s inst pc => congrArg some (comm_LSR1 h s inst),
    fun s inst pc => congrArg some (comm_LSR2 h s inst),
    fun s inst pc => congrArg some (comm_MOV1 h s inst),
    fun s inst pc => congrArg some (comm_MOV2 h s inst),
    fun s inst pc => congrArg some (comm_MOV3 h s inst),
    fun s inst pc => congrArg some (comm_MUL h s inst),
    fun s inst pc => congrArg some (comm_MVN h s inst),
    fun s inst pc => congrArg some (comm_NEG h s inst),
    fun s inst pc => congrArg some (comm_ORR h s inst),
    fun s inst pc => congrArg some (comm_POP h s inst),
    fun s inst pc => congrArg some (comm_PUSH h s inst),
    fun s inst pc => congrArg some (comm_REV h s inst),
    fun s inst pc => congrArg some (comm_REV16 h s inst),
    fun s inst pc => congrArg some (comm_REVSH h s inst),
    fun s inst pc => congrArg some (comm_ROR h s inst),
    fun s inst pc => congrArg some (comm_SBC h s inst),
    fun s inst pc => congrArg some (comm_SETEND h s inst),
    fun s inst pc => congrArg some (comm_STMIA h s inst),
    fun s inst pc => congrArg some (comm_STR1 h s inst),
    fun s inst pc => congrArg some (comm_STR2 h s inst),
    fun s inst pc => congrArg some (comm_STR3 h s inst),
    fun s inst pc => congrArg some (comm_STRB1 h s inst),
    fun s inst pc => congrArg some (comm_STRB2 h s inst),
    fun s inst pc => congrArg some (comm_STRH1 h s inst),
    fun s inst pc => congrArg some (comm_STRH2 h s inst),
    fun s inst pc => congrArg some (comm_SUB1 h s inst),
    fun s inst pc => congrArg some (comm_SUB2 h s inst),
    fun s inst pc => congrArg some (comm_SUB3 h s inst),
    fun s inst pc => congrArg some (comm_SUB4 h s inst),
    fun s inst pc => congrArg some (comm_SWI h s inst),
    fun s inst pc => congrArg some (comm_SXTB h s inst),
    fun s inst pc => congrArg some (comm_SXTH h s inst),
    fun s inst pc => congrArg some (comm_TST h s inst),
    fun s inst pc => congrArg some (comm_UXTB h s inst),
    fun s inst pc => congrArg some (comm_UXTH h s inst)⟩

theorem runChain_comm {f : Thumbulator → Thumbulator} (s : Thumbulator) (inst pc : Nat) :
    ∀ l : List Pattern,
      (∀ p ∈ l, p.handler (f s) inst pc = (p.handler s inst pc).map (fun r => (r.1, f r.2))) →
      runChain (f s) inst pc l = ((runChain s inst pc l).1, f (runChain s inst pc l).2)
  | [], _ => rfl
  | p :: rest, h => by
    have ih := runChain_comm s inst pc rest (fun q hq => h q (List.mem_cons_of_mem p hq))
    have hp := h p (List.mem_cons_self p rest)
    rw [runChain_cons, runChain_cons, hp]
    split
    · cases p.handler s inst pc with
      | none => exact ih
      | some r => rfl
    · exact ih

/-- One `execute` step commutes with `f`. -/
theorem execute_comm {f : Thumbulator → Thumbulator} (h : Commutes f) (s : Thumbulator) :
    execute (f s) = ((execute s).1, f (execute s).2) := by
  have e : entered (f s) = f (entered s) := by
    unfold entered
    simp only [h.read_register, h.fetch16_snd, h.write_register_snd, h.instructions,
      h.set_instructions]
  rw [execute_eq, execute_eq, e, h.read_register, h.fetch16_fst]
  exact runChain_comm _ _ _ chain (fun p hp => chain_comm h p hp _ _ _)

theorem runLoop_comm {f : Thumbulator → Thumbulator} (h : Commutes f) :
    ∀ (fuel : Nat) (s : Thumbulator), runLoop fuel (f s) = (runLoop fuel s).map f
  | 0, _ => rfl
  | fuel + 1, s => by
    have e := execute_comm h s
    rw [runLoop_succ, runLoop_succ]
    generalize execute (f s) = r' at e ⊢
    generalize execute s = r at e ⊢
    obtain ⟨n, t⟩ := r
    subst e
    show (if n ≠ 0 then some (f t) else if (f t).instructions > 500000 then some (f t)
      else runLoop fuel (f t)) = Option.map f (if n ≠ 0 then some t
        else if t.instructions > 500000 then some t else runLoop fuel t)
    rw [h.instructions t, runLoop_comm h fuel t]
    by_cases h1 : n ≠ 0
    · rw [if_pos h1, if_pos h1, Option.map_some']
    · rw [if_neg h1, if_neg h1]
      by_cases h2 : t.instructions > 500000
      · rw [if_pos h2, if_pos h2, Option.map_some']
      · rw [if_neg h2, if_neg h2]

/-- The function `run` commutes with `f`. -/
theorem run_comm {f : Thumbulator → Thumbulator} (h : Commutes f) (fuel : Nat)
    (s : Thumbulator) : run fuel (f s) = (run fuel s).map f := by
  unfold run
  rw [h.reset_snd]
  exact runLoop_comm h fuel _

/-! ## Array indices -/

/-- The ROM index computed by `fetch16` and `read16` is inside an array of
`ROMSIZE` bytes. -/
theorem rom_index_lt (addr : Nat) : (addr &&& ROMADDMASK) >>> 1 < 16384 := by
  have h : addr &&& 0x7FFF ≤ 0x7FFF := Nat.and_le_right
  show (addr &&& 0x7FFF) >>> 1 < 16384
  rw [Nat.shiftRight_eq_div_pow]
  omega

/-- The RAM index computed by `fetch16`, `read16` and `write16` is inside an
array of `RAMSIZE` bytes. -/
theorem ram_index_lt (addr : Nat) : (addr &&& RAMADDMASK) >>> 1 < 4096 := by
  have h : addr &&& 0x1FFF ≤ 0x1FFF := Nat.and_le_right
  show (addr &&& 0x1FFF) >>> 1 < 4096
  rw [Nat.shiftRight_eq_div_pow]
  omega

theorem clip_rom (s : Thumbulator) (addr : Nat) :
    (clip s).rom ((addr &&& ROMADDMASK) >>> 1) = s.rom ((addr &&& ROMADDMASK) >>> 1) :=
  if_pos (rom_index_lt addr)

theorem clip_ram (s : Thumbulator) (addr : Nat) :
    (clip s).ram ((addr &&& RAMADDMASK) >>> 1) = s.ram ((addr &&& RAMADDMASK) >>> 1) :=
  if_pos (ram_index_lt addr)

theorem clip_fetch16 (s : Thumbulator) (addr : Nat) :
    fetch16 (clip s) addr = ((fetch16 s addr).1, clip (fetch16 s addr).2) := by
  unfold fetch16
  simp only []
  split
  · split
    · rfl
    · exact congrArg (fun x => (loadHalf s x, _)) (clip_rom s addr)
  · split
    · exact congrArg (fun x => (loadHalf s x, _)) (clip_ram s addr)
    · rfl

theorem clip_read16 (s : Thumbulator) (addr : Nat) :
    read16 (clip s) addr = ((read16 s addr).1, clip (read16 s addr).2) := by
  unfold read16
  simp only []
  split
  · rfl
  · split
    · rfl
    · split
      · rfl
      · split
        · exact congrArg (fun x => (loadHalf s x, _)) (clip_rom s addr)
        · split
          · exact congrArg (fun x => (loadHalf s x, _)) (clip_ram s addr)
          · split
            · split <;> rfl
            · rfl

theorem clip_update (s : Thumbulator) (addr v : Nat) :
    Function.update (clip s).ram ((addr &&& RAMADDMASK) >>> 1) v =
      fun i => if i < 4096 then Function.update s.ram ((addr &&& RAMADDMASK) >>> 1) v i else 0 := by
  funext i
  by_cases hi : i = (addr &&& RAMADDMASK) >>> 1
  · rw [hi, Function.update_same, if_pos (ram_index_lt addr), Function.update_same]
  · rw [Function.update_noteq hi, Function.update_noteq hi]
    rfl

theorem clip_write16 (s : Thumbulator) (addr data : Nat) :
    write16 (clip s) addr data = clip (write16 s addr data) := by
  unfold write16
  simp only []
  split
  · rfl
  · split
    · rfl
    · split
      · rfl
      · split
        · show ({ clip s with
              writes := (s.writes + 1) % 2 ^ 64
              ram := Function.update (clip s).ram ((addr &&& RAMADDMASK) >>> 1)
                (storeHalf s data) } : Thumbulator) = _
          rw [clip_update]
          rfl
        · split
          · split <;> rfl
          · rfl

theorem clip_write_register (s : Thumbulator) (r v : Nat) :
    write_register (clip s) r v = ((write_register s r v).1, clip (write_register s r v).2) := by
  unfold write_register
  simp only [show (clip s).cpsr = s.cpsr from rfl]
  split
  · split <;> rfl
  · rfl

/-- The interpreter commutes with `clip`. -/
theorem clip_commutes : Commutes clip where
  cpsr _ := rfl
  halfadd _ := rfl
  instructions _ := rfl
  set_halfadd _ _ := rfl
  set_instructions _ _ := rfl
  read_register _ _ := rfl
  write_register_fst s r v := by rw [clip_write_register]
  write_register_snd s r v := by rw [clip_write_register]
  fetch16_fst s a := by rw [clip_fetch16]
  fetch16_snd s a := by rw [clip_fetch16]
  read16_fst s a := by rw [clip_read16]
  read16_snd s a := by rw [clip_read16]
  write16 := clip_write16
  do_zflag s x := by unfold Thumbulator.do_zflag; split <;> rfl
  do_nflag s x := by unfold Thumbulator.do_nflag; split <;> rfl
  do_cflag s a b c := by unfold Thumbulator.do_cflag; simp only []; split <;> rfl
  do_sub_vflag s a b c := by
    unfold Thumbulator.do_sub_vflag; simp only []; repeat' split
    all_goals rfl
  do_add_vflag s a b c := by
    unfold Thumbulator.do_add_vflag; simp only []; repeat' split
    all_goals rfl
  do_cflag_bit s x := by unfold Thumbulator.do_cflag_bit; split <;> rfl
  do_vflag_bit s x := by unfold Thumbulator.do_vflag_bit; split <;> rfl
  reset_snd _ := rfl

/-! ## The flag primitives bit by bit -/

/-- Bit 31 of a 32-bit word is its sign. -/
theorem sign_bit (x : Nat) (hx : x < 2 ^ 32) : x.testBit 31 = decide (2 ^ 31 ≤ x) := by
  rw [Nat.testBit_to_div_mod]
  congr 1
  apply propext
  constructor <;> intro h <;> omega

/-- The test `x & 0x80000000` of the C code. -/
theorem and_sign (x : Nat) : x &&& 0x80000000 = if x.testBit 31 = true then 0x80000000 else 0 := by
  have e : x &&& 2 ^ 31 = (x.testBit 31).toNat * 2 ^ 31 := Nat.and_two_pow x 31
  show x &&& 2 ^ 31 = _
  rw [e]
  cases x.testBit 31 <;> rfl

theorem and_sign_ne_zero (x : Nat) : x &&& 0x80000000 ≠ 0 ↔ x.testBit 31 = true := by
  rw [and_sign]
  cases x.testBit 31 <;> decide

theorem and_sign_eq (x y : Nat) :
    x &&& 0x80000000 = y &&& 0x80000000 ↔ x.testBit 31 = y.testBit 31 := by
  rw [and_sign, and_sign]
  cases x.testBit 31 <;> cases y.testBit 31 <;> decide

theorem xor_sign_ne_zero (x y : Nat) :
    (x &&& 0x80000000) ^^^ (y &&& 0x80000000) ≠ 0 ↔ x.testBit 31 ≠ y.testBit 31 := by
  rw [and_sign, and_sign]
  cases x.testBit 31 <;> cases y.testBit 31 <;> decide

theorem flag_set_lt (x m : Nat) (hx : x < 2 ^ 32)
    (hm : m ∈ [CPSR_N, CPSR_Z, CPSR_C, CPSR_V]) : x ||| m < 2 ^ 32 := by
  have h : ∀ m ∈ [CPSR_N, CPSR_Z, CPSR_C, CPSR_V], m < 2 ^ 32 := by decide
  exact Nat.or_lt_two_pow hx (h m hm)

theorem flag_clear_lt (x m : Nat) (hx : x < 2 ^ 32) : x &&& m < 2 ^ 32 :=
  Nat.lt_of_le_of_lt Nat.and_le_left hx

/-- Every bit of `cpsr` after setting or clearing the flag of bit `k` on the
condition `c`. -/
theorem flag_update_testBit (x m k : Nat) (c : Prop) [Decidable c] (hx : x < 2 ^ 32)
    (hk : k < 32) (hm : m = 2 ^ k) (i : Nat) :
    (if c then x ||| m else x &&& not32 m).testBit i =
      if i = k then decide c else x.testBit i := by
  have hn : not32 m = 0xFFFFFFFF - 2 ^ k := by
    rw [hm]
    unfold not32
    rw [Nat.mod_eq_of_lt (Nat.pow_lt_pow_right (by decide) hk)]
  by_cases hc : c
  · rw [if_pos hc, testBit_setflag x m k hm]
    by_cases hi : i = k
    · simp [hi, hc]
    · simp [hi]
  · rw [if_neg hc, testBit_clearflag x (not32 m) k hx hk hn]
    by_cases hi : i = k
    · simp [hi, hc]
    · simp [hi]

theorem do_nflag_cpsr (s : Thumbulator) (x : Nat) :
    (do_nflag s x).cpsr = if x &&& 0x80000000 ≠ 0 then s.cpsr ||| CPSR_N
      else s.cpsr &&& not32 CPSR_N := by
  unfold do_nflag
  split <;> rfl

theorem do_zflag_cpsr (s : Thumbulator) (x : Nat) :
    (do_zflag s x).cpsr = if x = 0 then s.cpsr ||| CPSR_Z else s.cpsr &&& not32 CPSR_Z := by
  unfold do_zflag
  split <;> rfl

theorem do_cflag_bit_cpsr (s : Thumbulator) (x : Nat) :
    (do_cflag_bit s x).cpsr = if x ≠ 0 then s.cpsr ||| CPSR_C else s.cpsr &&& not32 CPSR_C := by
  unfold do_cflag_bit
  split <;> rfl

theorem do_vflag_bit_cpsr (s : Thumbulator) (x : Nat) :
    (do_vflag_bit s x).cpsr = if x ≠ 0 then s.cpsr ||| CPSR_V else s.cpsr &&& not32 CPSR_V := by
  unfold do_vflag_bit
  split <;> rfl

theorem do_add_vflag_cpsr (s : Thumbulator) (a b c : Nat) :
    (do_add_vflag s a b c).cpsr =
      if a.testBit 31 = b.testBit 31 ∧ b.testBit 31 ≠ c.testBit 31 then
        (s.cpsr &&& not32 CPSR_V) ||| CPSR_V
      else s.cpsr &&& not32 CPSR_V := by
  unfold do_add_vflag
  simp only [and_sign_eq, ne_eq]
  by_cases h1 : a.testBit 31 = b.testBit 31
  · by_cases h2 : b.testBit 31 = c.testBit 31
    · rw [if_pos h1, if_neg (not_not.mpr h2), if_neg (fun h => h.2 h2)]
    · rw [if_pos h1, if_pos h2, if_pos ⟨h1, h2⟩]
  · rw [if_neg h1, if_neg (fun h => h1 h.1)]

theorem do_sub_vflag_cpsr (s : Thumbulator) (a b c : Nat) :
    (do_sub_vflag s a b c).cpsr =
      if a.testBit 31 ≠ b.testBit 31 ∧ b.testBit 31 = c.testBit 31 then
        (s.cpsr &&& not32 CPSR_V) ||| CPSR_V
      else s.cpsr &&& not32 CPSR_V := by
  unfold do_sub_vflag
  simp only [xor_sign_ne_zero, and_sign_eq, ne_eq]
  by_cases h1 : a.testBit 31 = b.testBit 31
  · rw [if_neg (not_not.mpr h1), if_neg (fun h => h.1 h1)]
  · by_cases h2 : b.testBit 31 = c.testBit 31
    · rw [if_pos h1, if_pos h2, if_pos ⟨h1, h2⟩]
    · rw [if_pos h1, if_neg h2, if_neg (fun h => h2 h.2)]

theorem do_nflag_lt (s : Thumbulator) (x : Nat) (hs : s.cpsr < 2 ^ 32) :
    (do_nflag s x).cpsr < 2 ^ 32 := by
  rw [do_nflag_cpsr]
  split
  · exact flag_set_lt _ _ hs (by decide)
  · exact flag_clear_lt _ _ hs

theorem do_zflag_lt (s : Thumbulator) (x : Nat) (hs : s.cpsr < 2 ^ 32) :
    (do_zflag s x).cpsr < 2 ^ 32 := by
  rw [do_zflag_cpsr]
  split
  · exact flag_set_lt _ _ hs (by decide)
  · exact flag_clear_lt _ _ hs

theorem do_cflag_bit_lt (s : Thumbulator) (x : Nat) (hs : s.cpsr < 2 ^ 32) :
    (do_cflag_bit s x).cpsr < 2 ^ 32 := by
  rw [do_cflag_bit_cpsr]
  split
  · exact flag_set_lt _ _ hs (by decide)
  · exact flag_clear_lt _ _ hs

theorem do_vflag_bit_lt (s : Thumbulator) (x : Nat) (hs : s.cpsr < 2 ^ 32) :
    (do_vflag_bit s x).cpsr < 2 ^ 32 := by
  rw [do_vflag_bit_cpsr]
  split
  · exact flag_set_lt _ _ hs (by decide)
  · exact flag_clear_lt _ _ hs

theorem do_cflag_lt (s : Thumbulator) (a b c : Nat) (hs : s.cpsr < 2 ^ 32) :
    (do_cflag s a b c).cpsr < 2 ^ 32 := by
  unfold do_cflag
  simp only []
  split
  · exact flag_set_lt _ _ (flag_clear_lt _ _ hs) (by decide)
  · exact flag_clear_lt _ _ hs

theorem do_add_vflag_lt (s : Thumbulator) (a b c : Nat) (hs : s.cpsr < 2 ^ 32) :
    (do_add_vflag s a b c).cpsr < 2 ^ 32 := by
  rw [do_add_vflag_cpsr]
  split
  · exact flag_set_lt _ _ (flag_clear_lt _ _ hs) (by decide)
  · exact flag_clear_lt _ _ hs

theorem do_sub_vflag_lt (s : Thumbulator) (a b c : Nat) (hs : s.cpsr < 2 ^ 32) :
    (do_sub_vflag s a b c).cpsr < 2 ^ 32 := by
  rw [do_sub_vflag_cpsr]
  split
  · exact flag_set_lt _ _ (flag_clear_lt _ _ hs) (by decide)
  · exact flag_clear_lt _ _ hs

/-- Every bit of `cpsr` after `do_nflag`. -/
theorem do_nflag_testBit (s : Thumbulator) (x : Nat) (hs : s.cpsr < 2 ^ 32) (i : Nat) :
    (do_nflag s x).cpsr.testBit i = if i = 31 then x.testBit 31 else s.cpsr.testBit i := by
  rw [do_nflag_cpsr, flag_update_testBit _ CPSR_N 31 _ hs (by decide) (by decide)]
  split
  · simp only [and_sign_ne_zero]
    cases x.testBit 31 <;> rfl
  · rfl

/-- Every bit of `cpsr` after `do_zflag`. -/
theorem do_zflag_testBit (s : Thumbulator) (x : Nat) (hs : s.cpsr < 2 ^ 32) (i : Nat) :
    (do_zflag s x).cpsr.testBit i = if i = 30 then decide (x = 0) else s.cpsr.testBit i := by
  rw [do_zflag_cpsr, flag_update_testBit _ CPSR_Z 30 _ hs (by decide) (by decide)]

/-- Every bit of `cpsr` after `do_cflag_bit`. -/
theorem do_cflag_bit_testBit (s : Thumbulator) (x : Nat) (hs : s.cpsr < 2 ^ 32) (i : Nat) :
    (do_cflag_bit s x).cpsr.testBit i =
      if i = 29 then decide (x ≠ 0) else s.cpsr.testBit i := by
  rw [do_cflag_bit_cpsr, flag_update_testBit _ CPSR_C 29 _ hs (by decide) (by decide)]

/-- Every bit of `cpsr` after `do_vflag_bit`. -/
theorem do_vflag_bit_testBit (s : Thumbulator) (x : Nat) (hs : s.cpsr < 2 ^ 32) (i : Nat) :
    (do_vflag_bit s x).cpsr.testBit i =
      if i = 28 then decide (x ≠ 0) else s.cpsr.testBit i := by
  rw [do_vflag_bit_cpsr, flag_update_testBit _ CPSR_V 28 _ hs (by decide) (by decide)]

theorem set_after_clear (x m : Nat) (c : Prop) [Decidable c] :
    (if c then (x &&& not32 m) ||| m else x &&& not32 m) =
      if c then (x &&& not32 m) ||| m else (x &&& not32 m) &&& not32 m := by
  split
  · rfl
  · rw [Nat.and_assoc, Nat.and_self]

/-- Every bit of `cpsr` after `do_add_vflag`. -/
theorem do_add_vflag_testBit (s : Thumbulator) (a b c : Nat) (hs : s.cpsr < 2 ^ 32) (i : Nat) :
    (do_add_vflag s a b c).cpsr.testBit i =
      if i = 28 then decide (a.testBit 31 = b.testBit 31 ∧ b.testBit 31 ≠ c.testBit 31)
      else s.cpsr.testBit i := by
  rw [do_add_vflag_cpsr, set_after_clear,
    flag_update_testBit _ CPSR_V 28 _ (flag_clear_lt _ _ hs) (by decide) (by decide)]
  split
  · rfl
  · next hi =>
    exact (testBit_clearflag _ (not32 CPSR_V) 28 hs (by decide) (by decide) i).trans
      (by simp [hi])

/-- Every bit of `cpsr` after `do_sub_vflag`. -/
theorem do_sub_vflag_testBit (s : Thumbulator) (a b c : Nat) (hs : s.cpsr < 2 ^ 32) (i : Nat) :
    (do_sub_vflag s a b c).cpsr.testBit i =
      if i = 28 then decide (a.testBit 31 ≠ b.testBit 31 ∧ b.testBit 31 = c.testBit 31)
      else s.cpsr.testBit i := by
  rw [do_sub_vflag_cpsr, set_after_clear,
    flag_update_testBit _ CPSR_V 28 _ (flag_clear_lt _ _ hs) (by decide) (by decide)]
  split
  · rfl
  · next hi =>
    exact (testBit_clearflag _ (not32 CPSR_V) 28 hs (by decide) (by decide) i).trans
      (by simp [hi])

/-- The signed value of a 32-bit word, by its sign bit. -/
theorem signed32_eq (x : Nat) (hx : x < 2 ^ 32) :
    signed32 x = if x.testBit 31 = true then (x : Int) - 2 ^ 32 else (x : Int) := by
  unfold signed32
  rw [Nat.mod_eq_of_lt hx, sign_bit x hx]
  by_cases h : 2 ^ 31 ≤ x
  · rw [if_neg (by omega), if_pos (by simpa using h)]
  · rw [if_pos (by omega), if_neg (by simpa using h)]

/-! ## Flag operations leave everything but `cpsr` alone -/

theorem do_nflag_state (s : Thumbulator) (x : Nat) :
    do_nflag s x = { s with cpsr := (do_nflag s x).cpsr } := by
  unfold do_nflag
  split <;> rfl

theorem do_zflag_state (s : Thumbulator) (x : Nat) :
    do_zflag s x = { s with cpsr := (do_zflag s x).cpsr } := by
  unfold do_zflag
  split <;> rfl

theorem do_cflag_state (s : Thumbulator) (a b c : Nat) :
    do_cflag s a b c = { s with cpsr := (do_cflag s a b c).cpsr } := by
  unfold do_cflag
  simp only []
  split <;> rfl

theorem do_sub_vflag_state (s : Thumbulator) (a b c : Nat) :
    do_sub_vflag s a b c = { s with cpsr := (do_sub_vflag s a b c).cpsr } := by
  unfold do_sub_vflag
  simp only []
  repeat' split
  all_goals rfl

theorem do_add_vflag_state (s : Thumbulator) (a b c : Nat) :
    do_add_vflag s a b c = { s with cpsr := (do_add_vflag s a b c).cpsr } := by
  unfold do_add_vflag
  simp only []
  repeat' split
  all_goals rfl

theorem do_cflag_bit_state (s : Thumbulator) (x : Nat) :
    do_cflag_bit s x = { s with cpsr := (do_cflag_bit s x).cpsr } := by
  unfold do_cflag_bit
  split <;> rfl

theorem do_vflag_bit_state (s : Thumbulator) (x : Nat) :
    do_vflag_bit s x = { s with cpsr := (do_vflag_bit s x).cpsr } := by
  unfold do_vflag_bit
  split <;> rfl

/-! ## The flags of a comparison -/

theorem sub32_eq_zero (a b : Nat) (ha : a < 2 ^ 32) (hb : b < 2 ^ 32) :
    sub32 a b = 0 ↔ a = b := by
  unfold sub32
  omega

theorem not32_lt (b : Nat) : not32 b < 2 ^ 32 := by
  unfold not32
  omega

theorem sub_carry_iff (a b : Nat) (ha : a < 2 ^ 32) (hb : b < 2 ^ 32) :
    2 ^ 32 ≤ a + not32 b + 1 ↔ b ≤ a := by
  unfold not32
  omega

/-- For the flags N and V of `a - b`: N differs from V exactly when `a < b`
as signed integers. -/
theorem sub_lt_iff (a b : Nat) (ha : a < 2 ^ 32) (hb : b < 2 ^ 32) :
    ((sub32 a b).testBit 31 ≠
        decide (a.testBit 31 ≠ b.testBit 31 ∧ b.testBit 31 = (sub32 a b).testBit 31)) ↔
      signed32 a < signed32 b := by
  have hr : sub32 a b < 2 ^ 32 := Nat.mod_lt _ (by decide)
  have hv : sub32 a b = (a + (2 ^ 32 - b)) % 2 ^ 32 := by
    unfold sub32
    rw [Nat.mod_eq_of_lt hb]
  rw [signed32_eq a ha, signed32_eq b hb, sign_bit a ha, sign_bit b hb, sign_bit _ hr]
  by_cases h1 : 2 ^ 31 ≤ a <;> by_cases h2 : 2 ^ 31 ≤ b <;>
    by_cases h3 : 2 ^ 31 ≤ sub32 a b <;>
    simp only [h1, h2, h3, decide_True, decide_False, if_true, if_false, ne_eq, not_true,
      not_false_eq_true, and_true, and_false, true_and, false_and, Bool.false_eq_true,
      Bool.true_eq_false, false_iff, true_iff, not_or, not_lt, not_le, and_self] <;>
    omega

/-- The state after the four flag calls of a compare block on `a` and `b`. -/
theorem compare_flags (t : Thumbulator) (a b : Nat) (ht : t.cpsr < 2 ^ 32) (ha : a < 2 ^ 32)
    (hb : b < 2 ^ 32) :
    (do_sub_vflag (do_cflag (do_zflag (do_nflag t (sub32 a b)) (sub32 a b)) a (not32 b) 1)
        a b (sub32 a b)) =
      { t with cpsr := (do_sub_vflag (do_cflag (do_zflag (do_nflag t (sub32 a b)) (sub32 a b))
        a (not32 b) 1) a b (sub32 a b)).cpsr } ∧
    ∀ i, (do_sub_vflag (do_cflag (do_zflag (do_nflag t (sub32 a b)) (sub32 a b)) a (not32 b) 1)
        a b (sub32 a b)).cpsr.testBit i =
      if i = 28 then
        decide (a.testBit 31 ≠ b.testBit 31 ∧ b.testBit 31 = (sub32 a b).testBit 31)
      else if i = 29 then decide (b ≤ a)
      else if i = 30 then decide (a = b)
      else if i = 31 then (sub32 a b).testBit 31
      else t.cpsr.testBit i := by
  have h1 := do_nflag_lt t (sub32 a b) ht
  have h2 := do_zflag_lt _ (sub32 a b) h1
  have h3 := do_cflag_lt _ a (not32 b) 1 h2
  constructor
  · rw [do_sub_vflag_state, do_cflag_state, do_zflag_state, do_nflag_state]
  · intro i
    rw [do_sub_vflag_testBit _ _ _ _ h3, do_cflag_testBit _ _ _ _ h2 ha (not32_lt b) (by decide),
      do_zflag_testBit _ _ h1, do_nflag_testBit _ _ ht]
    simp only [sub_carry_iff a b ha hb, sub32_eq_zero a b ha hb]

/-! ## Reading registers at decode time -/

/-- What `read_register` returns when a handler runs: the value before the
step, except for register 15, which holds the advanced counter. -/
theorem read_entered (s : Thumbulator) (r : Nat) (hsvc : s.cpsr &&& 0x1F = MODE_SVC) :
    read_register (entered s) r =
      if r &&& 0xF = 15 then add32 (read_register s 15) 2 else read_register s r := by
  rw [entered_svc s hsvc, read_register_15 s hsvc]
  unfold read_register
  simp only [hsvc, if_true]
  by_cases h : r &&& 0xF = 15
  · rw [if_pos h, h, if_neg (by decide)]
    exact Function.update_same _ _ _
  · rw [if_neg h]
    split
    · rfl
    · exact Function.update_noteq h _ _

theorem read_entered_low (s : Thumbulator) (x : Nat) (hsvc : s.cpsr &&& 0x1F = MODE_SVC) :
    read_register (entered s) (x &&& 0x7) = read_register s (x &&& 0x7) := by
  rw [read_entered s _ hsvc, if_neg (low3_ne_pc x)]

theorem decode_CMP1 (s : Thumbulator) (inst pc : Nat) (h : inst &&& 0xF800 = 0x2800) :
    runChain s inst pc chain = exec_CMP1 s inst :=
  decode_hit s inst pc 19 0xF800 0x2800 _ _ _ h (by decide) rfl h rfl

theorem decode_CMP2 (s : Thumbulator) (inst pc : Nat) (h : inst &&& 0xFFC0 = 0x4280) :
    runChain s inst pc chain = exec_CMP2 s inst :=
  decode_hit s inst pc 20 0xFFC0 0x4280 _ _ _ h (by decide) rfl h rfl

theorem decode_CMP3 (s : Thumbulator) (inst pc : Nat) (h : inst &&& 0xFF00 = 0x4500) :
    runChain s inst pc chain = exec_CMP3 s inst :=
  decode_hit s inst pc 21 0xFF00 0x4500 _ _ _ h (by decide) rfl h rfl

/-! ## The B(1) step -/

/-- Fields of the B(1) encoding `0xD000 | cond<<8 | imm8`. -/
theorem b1_fields : ∀ cond < 14, ∀ imm8 < 256,
    (0xD000 ||| (cond <<< 8) ||| imm8) &&& 0xF000 = 0xD000 ∧
    ((0xD000 ||| (cond <<< 8) ||| imm8) >>> 0) &&& 0xFF = imm8 ∧
    ((0xD000 ||| (cond <<< 8) ||| imm8) >>> 8) &&& 0xF = cond := by
  decide!

theorem imm8_bits : ∀ imm8 < 256,
    (imm8 &&& 0x80 ≠ 0 ↔ 128 ≤ imm8) ∧ imm8 ||| shl32 (not32 0) 8 = imm8 + 0xFFFFFF00 := by
  decide!

/-- The branch target computed by the B(1) block. -/
theorem exec_B1_target (imm8 pc : Nat) (himm : imm8 < 256) :
    add32 (add32 (shl32 (if imm8 &&& 0x80 ≠ 0 then imm8 ||| shl32 (not32 0) 8 else imm8) 1)
      pc) 2 = (((pc : Int) + 2 + 2 * sext8 imm8) % 2 ^ 32).toNat := by
  obtain ⟨h1, h2⟩ := imm8_bits imm8 himm
  unfold sext8
  by_cases h : 128 ≤ imm8
  · rw [if_pos (h1.mpr h), h2, if_neg (by omega)]
    simp only [add32, shl32, Nat.shiftLeft_eq]
    omega
  · rw [if_neg (fun hh => h (h1.mp hh)), if_pos (by omega)]
    simp only [add32, shl32, Nat.shiftLeft_eq]
    omega

theorem flag_test (x k : Nat) : (x &&& 1 <<< k ≠ 0 ↔ x.testBit k = true) ∧
    (x &&& 1 <<< k = 0 ↔ x.testBit k = false) := by
  rw [Nat.one_shiftLeft]
  have h := and_two_pow_ne_zero x k
  constructor
  · exact h
  · constructor
    · intro h0
      cases hb : x.testBit k
      · rfl
      · exact absurd h0 (h.mpr hb)
    · intro hb
      by_contra h0
      rw [h.mp h0] at hb
      exact Bool.noConfusion hb

/-- The B(1) block for a condition code below 14: the branch is taken exactly
when the condition holds on the flags. -/
theorem exec_B1_cond (t : Thumbulator) (inst pc cond : Nat) (hcond : cond < 14)
    (hf : (inst >>> 8) &&& 0xF = cond) :
    exec_B1 t inst pc = some (0,
      if condHolds cond (t.cpsr.testBit 31) (t.cpsr.testBit 30) (t.cpsr.testBit 29)
          (t.cpsr.testBit 28) = true then
        (write_register t 15 (add32 (add32 (shl32 (if (inst >>> 0) &&& 0xFF &&& 0x80 ≠ 0 then
          (inst >>> 0) &&& 0xFF ||| shl32 (not32 0) 8 else (inst >>> 0) &&& 0xFF) 1) pc) 2)).2
      else t) := by
  unfold exec_B1
  simp only [hf, CPSR_N, CPSR_Z, CPSR_C, CPSR_V, (flag_test t.cpsr 31).1, (flag_test t.cpsr 31).2,
    (flag_test t.cpsr 30).1, (flag_test t.cpsr 30).2, (flag_test t.cpsr 29).1,
    (flag_test t.cpsr 29).2, (flag_test t.cpsr 28).1, (flag_test t.cpsr 28).2]
  generalize t.cpsr.testBit 31 = n
  generalize t.cpsr.testBit 30 = z
  generalize t.cpsr.testBit 29 = c
  generalize t.cpsr.testBit 28 = v
  generalize (write_register t 15 _).2 = u
  interval_cases cond <;> cases n <;> cases z <;> cases c <;> cases v <;> rfl

/-! ## Reading a register after a write -/

theorem read_write_register (s : Thumbulator) (n v m : Nat)
    (hsvc : s.cpsr &&& 0x1F = MODE_SVC) :
    read_register (write_register s n v).2 m =
      if m &&& 15 = n &&& 15 then v else read_register s m := by
  unfold write_register read_register
  simp only [hsvc, if_true]
  by_cases hn : n &&& 15 = 13 ∨ n &&& 15 = 14
  · rw [if_pos hn]
    simp only [hsvc, if_true]
    by_cases hm : m &&& 15 = 13 ∨ m &&& 15 = 14
    · rw [if_pos hm, if_pos hm]
      by_cases e : m &&& 15 = n &&& 15
      · rw [if_pos e, e, Function.update_same]
      · rw [if_neg e, Function.update_noteq e]
    · rw [if_neg hm, if_neg hm, if_neg]
      intro e
      exact hm (e ▸ hn)
  · rw [if_neg hn]
    simp only [hsvc, if_true]
    by_cases hm : m &&& 15 = 13 ∨ m &&& 15 = 14
    · rw [if_pos hm, if_pos hm, if_neg]
      intro e
      exact hn (e ▸ hm)
    · rw [if_neg hm, if_neg hm]
      by_cases e : m &&& 15 = n &&& 15
      · rw [if_pos e, e, Function.update_same]
      · rw [if_neg e, Function.update_noteq e]

theorem entered_mode (s : Thumbulator) (hsvc : s.cpsr &&& 0x1F = MODE_SVC) :
    (entered s).cpsr &&& 0x1F = MODE_SVC := by
  rw [(entered_frame s).2.2.1]
  exact hsvc

theorem write_register_mode (s : Thumbulator) (n v : Nat) (hsvc : s.cpsr &&& 0x1F = MODE_SVC) :
    (write_register s n v).2.cpsr &&& 0x1F = MODE_SVC := by
  rw [(write_register_frame s n v).1]
  exact hsvc

/-! ## The branch-with-link pair -/

/-- Fields of the first half `0xF000 | hi` and of the latch it leaves. -/
theorem bl_first_fields : ∀ hi < 2048,
    (0xF000 ||| hi) &&& 0xF800 = 0xF000 ∧ (0xF000 ||| hi) &&& 0xE000 = 0xE000 ∧
    (0xF000 ||| hi) &&& 0x1800 = 0x1000 ∧
    shl32 (if (0xF000 ||| hi) &&& ((1 <<< 11) - 1) &&& (1 <<< 10) ≠ 0 then
        (0xF000 ||| hi) &&& ((1 <<< 11) - 1) ||| not32 ((1 <<< 11) - 1)
        else (0xF000 ||| hi) &&& ((1 <<< 11) - 1)) 11 =
      (if hi < 1024 then hi * 2048 else hi * 2048 + 2 ^ 32 - 2 ^ 22) := by
  decide!

/-- Fields of the second half `0xF800 | lo`. -/
theorem bl_second_fields : ∀ lo < 2048,
    (0xF800 ||| lo) &&& 0xF800 = 0xF800 ∧ (0xF800 ||| lo) &&& 0xE000 = 0xE000 ∧
    (0xF800 ||| lo) &&& 0x1800 = 0x1800 ∧ (0xF800 ||| lo) &&& ((1 <<< 11) - 1) = lo := by
  decide!

theorem or_low_bits (x lo : Nat) (hx : x % 2 ^ 11 = 0) (hlo : lo < 2 ^ 11) :
    x ||| lo = x + lo := by
  have e : x = 2 ^ 11 * (x / 2 ^ 11) := by omega
  rw [e]
  exact (Nat.mul_add_lt_is_or hlo _).symm

/-- The branch target computed by the second half from the latch. -/
theorem exec_BL_target (hi lo pc : Nat) (hhi : hi < 2048) (hlo : lo < 2048) :
    add32 (shl32 (shl32 (if (0xF000 ||| hi) &&& ((1 <<< 11) - 1) &&& (1 <<< 10) ≠ 0 then
        (0xF000 ||| hi) &&& ((1 <<< 11) - 1) ||| not32 ((1 <<< 11) - 1)
        else (0xF000 ||| hi) &&& ((1 <<< 11) - 1)) 11 |||
      ((0xF800 ||| lo) &&& ((1 <<< 11) - 1))) 1) pc =
      (((pc : Int) + 2 * (sext11 hi * 2048 + (lo : Int))) % 2 ^ 32).toNat := by
  rw [(bl_first_fields hi hhi).2.2.2, (bl_second_fields lo hlo).2.2.2]
  unfold sext11
  by_cases h : hi < 1024
  · rw [if_pos h, if_pos h, or_low_bits _ lo (by omega) hlo]
    simp only [add32, shl32, Nat.shiftLeft_eq]
    omega
  · rw [if_neg h, if_neg h, or_low_bits _ lo (by omega) hlo]
    simp only [add32, shl32, Nat.shiftLeft_eq]
    omega

/-- One `execute` step on a first half: the opcode is latched. -/
theorem execute_BL_first (s : Thumbulator) (hi : Nat) (hhi : hi < 2048)
    (hsvc : s.cpsr &&& 0x1F = MODE_SVC) (hfetch : Fetches s (0xF000 ||| hi)) :
    execute s = (0, { s with
      halfadd := 0xF000 ||| hi
      fetches := (s.fetches + 1) % 2 ^ 64
      instructions := (s.instructions + 1) % 2 ^ 64
      reg_sys := Function.update s.reg_sys 15 (add32 (s.reg_sys 15) 2) }) := by
  obtain ⟨f1, f2, f3, _⟩ := bl_first_fields hi hhi
  have hh : exec_BL (entered s) (0xF000 ||| hi) (add32 (read_register s 15) 2) =
      some (0, { entered s with halfadd := 0xF000 ||| hi }) := by
    unfold exec_BL
    rw [if_pos f3]
  unfold Fetches at hfetch
  rw [execute_eq, hfetch,
    decode_hit (entered s) _ _ 15 0xF800 0xF000 _ _ _ f1 (by decide) rfl f2 hh,
    entered_svc s hsvc]

/-- One `execute` step on a second half, from a state whose latch holds the
first half `0xF000 | hi`. -/
theorem execute_BL_second (t : Thumbulator) (hi lo : Nat) (hhi : hi < 2048) (hlo : lo < 2048)
    (hsvc : t.cpsr &&& 0x1F = MODE_SVC) (hlatch : t.halfadd = 0xF000 ||| hi)
    (hfetch : Fetches t (0xF800 ||| lo)) :
    execute t = (0, { t with
      fetches := (t.fetches + 1) % 2 ^ 64
      instructions := (t.instructions + 1) % 2 ^ 64
      reg_svc := Function.update t.reg_svc 14 (sub32 (add32 (t.reg_sys 15) 2) 2)
      reg_sys := Function.update (Function.update t.reg_sys 15 (add32 (t.reg_sys 15) 2)) 15
        ((((add32 (t.reg_sys 15) 2 : Nat) : Int) + 2 * (sext11 hi * 2048 + (lo : Int)))
          % 2 ^ 32).toNat }) := by
  obtain ⟨f1, f2, f3, _⟩ := bl_second_fields lo hlo
  have hh : exec_BL (entered t) (0xF800 ||| lo) (add32 (read_register t 15) 2) =
      some (0, (write_register (write_register (entered t) 14
        (sub32 (add32 (t.reg_sys 15) 2) 2)).2 15
        ((((add32 (t.reg_sys 15) 2 : Nat) : Int) + 2 * (sext11 hi * 2048 + (lo : Int)))
          % 2 ^ 32).toNat).2) := by
    unfold exec_BL
    rw [if_neg (by rw [f3]; decide), if_pos f3]
    simp only []
    rw [(entered_frame t).2.2.2.2.2.1, hlatch, read_register_15 t hsvc,
      exec_BL_target hi lo _ hhi hlo]
  unfold Fetches at hfetch
  rw [execute_eq, hfetch,
    decode_hit (entered t) _ _ 15 0xF800 0xF800 _ _ _ f1 (by decide) rfl f2 hh,
    entered_svc t hsvc]
  simp +decide [write_register, hsvc]
  rfl

/-! ## Register branches -/

theorem bx_fields : ∀ rm < 16, ∀ link : Bool,
    ((if link = true then 0x4780 else 0x4700) ||| (rm <<< 3)) &&& 0xFF87 =
      (if link = true then 0x4780 else 0x4700) ∧
    ((((if link = true then 0x4780 else 0x4700) ||| (rm <<< 3)) >>> 3) &&& 0xF) = rm ∧
    (rm &&& 0xF = 15 ↔ rm = 15) := by
  decide

/-- Adding 2 keeps bit 0. -/
theorem add32_two_bit0 (t : Nat) : (add32 t 2 &&& 1 ≠ 0) ↔ t.testBit 0 = true := by
  rw [Nat.and_one_is_mod, Nat.testBit_zero, decide_eq_true_iff]
  unfold add32
  omega

theorem decode_BX (s : Thumbulator) (inst pc : Nat) (h : inst &&& 0xFF87 = 0x4700) :
    runChain s inst pc chain = exec_BX s inst :=
  decode_hit s inst pc 17 0xFF87 0x4700 _ _ _ h (by decide) rfl h rfl

theorem decode_BLX2 (s : Thumbulator) (inst pc : Nat) (h : inst &&& 0xFF87 = 0x4780) :
    runChain s inst pc chain = exec_BLX2 s inst pc :=
  decode_hit s inst pc 16 0xFF87 0x4780 _ _ _ h (by decide) rfl h rfl

theorem execute_BX (s : Thumbulator) (op : Nat) (hop : op &&& 0xFF87 = 0x4700)
    (hfetch : Fetches s op) :
    execute s = exec_BX (entered s) op := by
  unfold Fetches at hfetch
  rw [execute_eq, hfetch, decode_BX _ _ _ hop]

theorem execute_BLX2 (s : Thumbulator) (op : Nat) (hop : op &&& 0xFF87 = 0x4780)
    (hfetch : Fetches s op) :
    execute s = exec_BLX2 (entered s) op (add32 (read_register s 15) 2) := by
  unfold Fetches at hfetch
  rw [execute_eq, hfetch, decode_BLX2 _ _ _ hop]

theorem exec_BX_taken (u : Thumbulator) (op t : Nat) (hu : u.cpsr &&& 0x1F = MODE_SVC)
    (hr : read_register u ((op >>> 3) &&& 0xF) = t) (hb : t.testBit 0 = true) :
    (exec_BX u op).1 = 0 ∧ read_register (exec_BX u op).2 15 = (t + 2) % 2 ^ 32 := by
  unfold exec_BX
  simp only []
  rw [hr, if_pos ((add32_two_bit0 t).2 hb)]
  refine ⟨rfl, ?_⟩
  rw [read_write_register _ _ _ _ hu, if_pos rfl]
  rfl

theorem exec_BX_not (u : Thumbulator) (op t : Nat)
    (hr : read_register u ((op >>> 3) &&& 0xF) = t) (hb : t.testBit 0 = false) :
    exec_BX u op = (1, u) := by
  unfold exec_BX
  simp only []
  rw [hr, if_neg (fun h => by rw [(add32_two_bit0 t).1 h] at hb; exact absurd hb (by decide))]

theorem exec_BLX2_taken (u : Thumbulator) (op pc t : Nat) (hu : u.cpsr &&& 0x1F = MODE_SVC)
    (hr : read_register u ((op >>> 3) &&& 0xF) = t) (hb : t.testBit 0 = true) :
    (exec_BLX2 u op pc).1 = 0 ∧ read_register (exec_BLX2 u op pc).2 15 = (t + 2) % 2 ^ 32 ∧
    read_register (exec_BLX2 u op pc).2 14 = sub32 pc 2 := by
  unfold exec_BLX2
  simp only []
  rw [hr, if_pos ((add32_two_bit0 t).2 hb)]
  refine ⟨rfl, ?_, ?_⟩
  · rw [read_write_register _ _ _ _ (write_register_mode _ _ _ hu), if_pos rfl]
    rfl
  · rw [read_write_register _ _ _ _ (write_register_mode _ _ _ hu), if_neg (by decide),
      read_write_register _ _ _ _ hu, if_pos rfl]

theorem exec_BLX2_not (u : Thumbulator) (op pc t : Nat)
    (hr : read_register u ((op >>> 3) &&& 0xF) = t) (hb : t.testBit 0 = false) :
    exec_BLX2 u op pc = (1, u) := by
  unfold exec_BLX2
  simp only []
  rw [hr, if_neg (fun h => by rw [(add32_two_bit0 t).1 h] at hb; exact absurd hb (by decide))]

/-! ## ADD(1) with a zero immediate and MOV(2) -/

theorem read_register_congr (a b : Thumbulator) (r : Nat)
    (hm : a.cpsr &&& 0x1F = b.cpsr &&& 0x1F) (h1 : a.reg_sys = b.reg_sys)
    (h2 : a.reg_svc = b.reg_svc) : read_register a r = read_register b r := by
  unfold read_register
  simp only []
  rw [hm, h1, h2]

theorem mov2_fields : ∀ rn < 8, ∀ rd < 8,
    (0x1C00 ||| (rn <<< 3) ||| rd) &&& 0xFE00 = 0x1C00 ∧
    (0x1C00 ||| (rn <<< 3) ||| rd) &&& 0xFFC0 = 0x1C00 ∧
    ((0x1C00 ||| (rn <<< 3) ||| rd) >>> 6) &&& 0x7 = 0 ∧
    ((0x1C00 ||| (rn <<< 3) ||| rd) >>> 3) &&& 7 = rn ∧
    ((0x1C00 ||| (rn <<< 3) ||| rd) >>> 0) &&& 7 = rd := by
  decide

theorem exec_ADD1_zero (u : Thumbulator) (op : Nat) (h : (op >>> 6) &&& 0x7 = 0) :
    exec_ADD1 u op = none := by
  unfold exec_ADD1
  simp only []
  rw [if_neg (fun hn => hn h)]

/-- Decoding an opcode of the MOV(2) pattern: the ADD(1) block matches but
falls through, and no block before MOV(2) matches. -/
theorem decode_MOV2 (u : Thumbulator) (inst pc : Nat) (h : inst &&& 0xFFC0 = 0x1C00)
    (hz : exec_ADD1 u inst = none) :
    runChain u inst pc chain = exec_MOV2 u inst := by
  have e : chain = chain.take 1 ++ (((chain.drop 1).take 1 ++ (chain.drop 2).take 39)
      ++ chain.drop 41) := rfl
  have h1 : ∀ q ∈ chain.take 1, 0x1C00 &&& q.mask ≠ q.value &&& 0xFFC0 := by decide
  have h2 : ∀ q ∈ (chain.drop 2).take 39, 0x1C00 &&& q.mask ≠ q.value &&& 0xFFC0 := by decide
  rw [e, runChain_skip u inst pc _ (chain.take 1)
      (fun q hq => Or.inl (pattern_disjoint h (h1 q hq))),
    runChain_skip u inst pc (chain.drop 41) _]
  · exact runChain_cons_hit u inst pc _ _ _ h rfl
  · intro q hq
    rcases List.mem_append.1 hq with hq | hq
    · right
      have e1 : (chain.drop 1).take 1 =
          [Pattern.mk Op.ADD1 0xFE00 0x1C00 (fun s inst _ => exec_ADD1 s inst)] := rfl
      rw [e1, List.mem_singleton] at hq
      rw [hq]
      exact hz
    · exact Or.inl (pattern_disjoint h (h2 q hq))

/-- The MOV(2) handler: return code, destination register and flags. -/
theorem exec_MOV2_spec (u : Thumbulator) (op : Nat) (hu : u.cpsr &&& 0x1F = MODE_SVC)
    (hc : u.cpsr < 2 ^ 32) :
    (exec_MOV2 u op).1 = 0 ∧
    read_register (exec_MOV2 u op).2 ((op >>> 0) &&& 7) = read_register u ((op >>> 3) &&& 7) ∧
    ∀ i, (exec_MOV2 u op).2.cpsr.testBit i =
      if i = 28 then false else if i = 29 then false
      else if i = 30 then decide (read_register u ((op >>> 3) &&& 7) = 0)
      else if i = 31 then (read_register u ((op >>> 3) &&& 7)).testBit 31
      else u.cpsr.testBit i := by
  generalize hrc : read_register u ((op >>> 3) &&& 7) = rc
  generalize hw : (write_register u ((op >>> 0) &&& 7) rc).2 = w
  have hwc : w.cpsr = u.cpsr := by rw [← hw, (write_register_frame u _ rc).1]
  have hE : (exec_MOV2 u op).2 = do_vflag_bit (do_cflag_bit (do_zflag (do_nflag w rc) rc) 0) 0 := by
    unfold exec_MOV2
    simp only []
    rw [hrc, hw]
  have h0 : w.cpsr < 2 ^ 32 := by rw [hwc]; exact hc
  have h1 := do_nflag_lt w rc h0
  have h2 := do_zflag_lt _ rc h1
  have h3 := do_cflag_bit_lt _ 0 h2
  have hbits : ∀ i, (do_vflag_bit (do_cflag_bit (do_zflag (do_nflag w rc) rc) 0) 0).cpsr.testBit i =
      if i = 28 then false else if i = 29 then false
      else if i = 30 then decide (rc = 0)
      else if i = 31 then rc.testBit 31
      else u.cpsr.testBit i := by
    intro i
    rw [do_vflag_bit_testBit _ _ h3, do_cflag_bit_testBit _ _ h2, do_zflag_testBit _ _ h1,
      do_nflag_testBit _ _ h0, hwc]
    simp only [ne_eq, not_true_eq_false, decide_False]
  refine ⟨rfl, ?_, ?_⟩
  · have hm : (do_vflag_bit (do_cflag_bit (do_zflag (do_nflag w rc) rc) 0) 0).cpsr &&& 0x1F =
        w.cpsr &&& 0x1F := by
      apply mode_of_bits
      intro i hi
      rw [hbits i, hwc, if_neg (by omega), if_neg (by omega), if_neg (by omega),
        if_neg (by omega)]
    have hregs : (do_vflag_bit (do_cflag_bit (do_zflag (do_nflag w rc) rc) 0) 0).reg_sys =
          w.reg_sys ∧
        (do_vflag_bit (do_cflag_bit (do_zflag (do_nflag w rc) rc) 0) 0).reg_svc = w.reg_svc := by
      rw [do_vflag_bit_state, do_cflag_bit_state, do_zflag_state, do_nflag_state]
      exact ⟨rfl, rfl⟩
    rw [hE, read_register_congr _ w _ hm hregs.1 hregs.2, ← hw,
      read_write_register u _ rc _ hu, if_pos rfl]
  · intro i
    rw [hE]
    exact hbits i

/-! ## Byte order -/

theorem bswap16_lt (x : Nat) : bswap16 x < 2 ^ 16 := by
  unfold bswap16
  rw [and_FFFF_eq]
  omega

theorem bswap16_bswap16 (x : Nat) (hx : x < 2 ^ 16) : bswap16 (bswap16 x) = x := by
  unfold bswap16
  rw [bswap16_eq x hx, bswap16_eq _ (by omega)]
  omega

theorem storeHalf_lt (s : Thumbulator) (d : Nat) : storeHalf s d < 2 ^ 16 := by
  unfold storeHalf
  split
  · rw [and_FFFF_eq]; omega
  · rw [and_FFFF_eq]; omega

theorem toL_fetch16 (s : Thumbulator) (addr : Nat) :
    fetch16 (toL s) addr = ((fetch16 s addr).1, toL (fetch16 s addr).2) := by
  unfold fetch16
  simp only []
  split
  · split
    · rfl
    · rfl
  · split
    · rfl
    · rfl

theorem toL_read16 (s : Thumbulator) (addr : Nat) :
    read16 (toL s) addr = ((read16 s addr).1, toL (read16 s addr).2) := by
  unfold read16
  simp only []
  split
  · rfl
  · split
    · rfl
    · split
      · rfl
      · split
        · rfl
        · split
          · rfl
          · split
            · split <;> rfl
            · rfl

theorem toL_update (s : Thumbulator) (i d : Nat) :
    Function.update (fun j => loadHalf s (s.ram j)) i (d &&& 0xFFFF) =
      fun j => loadHalf s (Function.update s.ram i (storeHalf s d) j) := by
  funext j
  by_cases hj : j = i
  · rw [hj, Function.update_same, Function.update_same, loadHalf_storeHalf s s rfl]
  · rw [Function.update_noteq hj, Function.update_noteq hj]

theorem toL_write16 (s : Thumbulator) (addr data : Nat) :
    write16 (toL s) addr data = toL (write16 s addr data) := by
  unfold write16
  simp only []
  split
  · rfl
  · split
    · rfl
    · split
      · rfl
      · split
        · show ({ toL s with
              writes := (s.writes + 1) % 2 ^ 64
              ram := Function.update (fun j => loadHalf s (s.ram j))
                ((addr &&& RAMADDMASK) >>> 1) (data &&& 0xFFFF) } : Thumbulator) = _
          rw [toL_update]
          rfl
        · split
          · split <;> rfl
          · rfl

theorem toL_write_register (s : Thumbulator) (r v : Nat) :
    write_register (toL s) r v = ((write_register s r v).1, toL (write_register s r v).2) := by
  unfold write_register
  simp only [show (toL s).cpsr = s.cpsr from rfl]
  split
  · split <;> rfl
  · rfl

/-- The interpreter commutes with `toL`. -/
theorem toL_commutes : Commutes toL where
  cpsr _ := rfl
  halfadd _ := rfl
  instructions _ := rfl
  set_halfadd _ _ := rfl
  set_instructions _ _ := rfl
  read_register _ _ := rfl
  write_register_fst s r v := by rw [toL_write_register]
  write_register_snd s r v := by rw [toL_write_register]
  fetch16_fst s a := by rw [toL_fetch16]
  fetch16_snd s a := by rw [toL_fetch16]
  read16_fst s a := by rw [toL_read16]
  read16_snd s a := by rw [toL_read16]
  write16 := toL_write16
  do_zflag s x := by unfold Thumbulator.do_zflag; split <;> rfl
  do_nflag s x := by unfold Thumbulator.do_nflag; split <;> rfl
  do_cflag s a b c := by unfold Thumbulator.do_cflag; simp only []; split <;> rfl
  do_sub_vflag s a b c := by
    unfold Thumbulator.do_sub_vflag; simp only []; repeat' split
    all_goals rfl
  do_add_vflag s a b c := by
    unfold Thumbulator.do_add_vflag; simp only []; repeat' split
    all_goals rfl
  do_cflag_bit s x := by unfold Thumbulator.do_cflag_bit; split <;> rfl
  do_vflag_bit s x := by unfold Thumbulator.do_vflag_bit; split <;> rfl
  reset_snd _ := rfl

/-- The swapped state determines the other one. -/
theorem ByteSwapped.eq_toL {l m : Thumbulator} (h : ByteSwapped l m) : toL m = l := by
  obtain ⟨lM, lrom, lram, lh, lc, lsys, lsvc, lma, li, lf, lr, lw⟩ := l
  obtain ⟨mM, mrom, mram, mh, mc, msys, msvc, mma, mi, mf, mr, mw⟩ := m
  obtain ⟨h1, h2, h3, h4, h5, h6, h7, h8, h9, h10, h11, h12, h13, h14, h15⟩ := h
  simp only [] at h1 h2 h3 h4 h5 h6 h7 h8 h9 h10 h11 h12 h13 h14 h15
  subst h1 h2 h7 h8 h9 h10 h11 h12 h13 h14 h15
  have e1 : (fun i => bswap16 (mrom i)) = lrom := by
    funext i
    rw [h5 i, bswap16_bswap16 _ (h3 i)]
  have e2 : (fun i => bswap16 (mram i)) = lram := by
    funext i
    rw [h6 i, bswap16_bswap16 _ (h4 i)]
  have e : toL ⟨true, mrom, mram, mh, mc, msys, msvc, mma, mi, mf, mr, mw⟩ =
      ⟨false, fun i => bswap16 (mrom i), fun i => bswap16 (mram i), mh, mc, msys, msvc, mma,
        mi, mf, mr, mw⟩ := rfl
  rw [e, e1, e2]

/-- A state of the build with `MSB_FIRST` whose cells are halfwords is the
swap of its image under `toL`. -/
theorem byteSwapped_toL (m : Thumbulator) (hM : m.MSB_FIRST = true)
    (hrom : ∀ i, m.rom i < 2 ^ 16) (hram : ∀ i, m.ram i < 2 ^ 16) : ByteSwapped (toL m) m := by
  have e : ∀ x, loadHalf m x = bswap16 x := by
    intro x
    unfold loadHalf bswap16
    rw [hM, if_pos rfl]
  exact {
    buildL := rfl
    buildM := hM
    rom_range := fun i => by
      show loadHalf m (m.rom i) < 2 ^ 16
      rw [e]; exact bswap16_lt _
    ram_range := fun i => by
      show loadHalf m (m.ram i) < 2 ^ 16
      rw [e]; exact bswap16_lt _
    rom := fun i => by
      show m.rom i = bswap16 (loadHalf m (m.rom i))
      rw [e, bswap16_bswap16 _ (hrom i)]
    ram := fun i => by
      show m.ram i = bswap16 (loadHalf m (m.ram i))
      rw [e, bswap16_bswap16 _ (hram i)]
    halfadd := rfl
    cpsr := rfl
    reg_sys := rfl
    reg_svc := rfl
    mamcr := rfl
    instructions := rfl
    fetches := rfl
    reads := rfl
    writes := rfl }

/-! ## The memory arrays hold halfwords -/

/-- No primitive operation of a handler stores more than a halfword in a RAM
cell. -/
theorem Reach.ram16 {s t : Thumbulator} (h : Reach s t) (h0 : ∀ i, s.ram i < 2 ^ 16) :
    ∀ i, t.ram i < 2 ^ 16 := by
  induction h with
  | refl => exact h0
  | write_register reg data _ ih =>
    unfold Thumbulator.write_register; simp only []; repeat' split
    all_goals exact ih
  | read16 addr _ ih =>
    unfold Thumbulator.read16; simp only []; repeat' split
    all_goals exact ih
  | @write16 t addr data _ ih =>
    intro i
    have hu : Function.update t.ram ((addr &&& RAMADDMASK) >>> 1) (storeHalf t data) i
        < 2 ^ 16 := by
      by_cases hi : i = (addr &&& RAMADDMASK) >>> 1
      · rw [hi, Function.update_same]
        exact storeHalf_lt _ _
      · rw [Function.update_noteq hi]
        exact ih i
    unfold Thumbulator.write16; simp only []; repeat' split
    all_goals first
      | exact ih i
      | exact hu
  | do_zflag x _ ih => unfold Thumbulator.do_zflag; split <;> exact ih
  | do_nflag x _ ih => unfold Thumbulator.do_nflag; split <;> exact ih
  | do_cflag a b c _ ih => unfold Thumbulator.do_cflag; simp only []; split <;> exact ih
  | do_sub_vflag a b c _ ih =>
    unfold Thumbulator.do_sub_vflag; simp only []; repeat' split
    all_goals exact ih
  | do_add_vflag a b c _ ih =>
    unfold Thumbulator.do_add_vflag; simp only []; repeat' split
    all_goals exact ih
  | do_cflag_bit x _ ih => unfold Thumbulator.do_cflag_bit; split <;> exact ih
  | do_vflag_bit x _ ih => unfold Thumbulator.do_vflag_bit; split <;> exact ih
  | halfadd v _ ih => exact ih

/-- A state reached by primitive operations from a state of the build with
`MSB_FIRST` whose cells are halfwords is again the swap of its image. -/
theorem byteSwapped_reach {m t : Thumbulator} (hR : Reach m t) (hM : m.MSB_FIRST = true)
    (hrom : ∀ i, m.rom i < 2 ^ 16) (hram : ∀ i, m.ram i < 2 ^ 16) : ByteSwapped (toL t) t := by
  obtain ⟨_, _, f3, f4⟩ := hR.frame
  exact byteSwapped_toL t (f4.trans hM) (fun i => by rw [f3]; exact hrom i) (hR.ram16 hram)

/-- One `execute` step keeps the build flag and the halfword range of the
cells. -/
theorem execute_cells (s : Thumbulator) (hrom : ∀ i, s.rom i < 2 ^ 16)
    (hram : ∀ i, s.ram i < 2 ^ 16) :
    (execute s).2.MSB_FIRST = s.MSB_FIRST ∧ (∀ i, (execute s).2.rom i < 2 ^ 16) ∧
    ∀ i, (execute s).2.ram i < 2 ^ 16 := by
  have hr := runChain_reach (entered s) (fetch16 s (sub32 (read_register s 15) 2)).1
    (add32 (read_register s 15) 2) chain chain_reach
  rw [← execute_eq] at hr
  obtain ⟨e1, e2, _, _, _, _, e7, _⟩ := entered_frame s
  obtain ⟨_, _, f3, f4⟩ := hr.frame
  refine ⟨f4.trans e7, fun i => ?_, hr.ram16 (fun i => by rw [e1]; exact hram i)⟩
  rw [f3, e2]
  exact hrom i

/-- A property kept by every `execute` step holds when the loop of `run` exits. -/
theorem runLoop_invariant (P : Thumbulator → Prop) (hstep : ∀ s, P s → P (execute s).2) :
    ∀ (fuel : Nat) (s t : Thumbulator), runLoop fuel s = some t → P s → P t
  | 0, _, _, h, _ => by simp [runLoop] at h
  | fuel + 1, s, t, h, hs => by
    rw [runLoop_succ] at h
    have hp := hstep s hs
    generalize execute s = r at h hp
    by_cases h1 : r.1 ≠ 0
    · rw [if_pos h1] at h
      exact Option.some.inj h ▸ hp
    · rw [if_neg h1] at h
      by_cases h2 : r.2.instructions > 500000
      · rw [if_pos h2] at h
        exact Option.some.inj h ▸ hp
      · rw [if_neg h2] at h
        exact runLoop_invariant P hstep fuel r.2 t h hp

/-- The function `run` keeps the build flag and the halfword range of the
cells. -/
theorem run_cells (fuel : Nat) (s t : Thumbulator) (h : run fuel s = some t)
    (hM : s.MSB_FIRST = true) (hrom : ∀ i, s.rom i < 2 ^ 16) (hram : ∀ i, s.ram i < 2 ^ 16) :
    t.MSB_FIRST = true ∧ (∀ i, t.rom i < 2 ^ 16) ∧ ∀ i, t.ram i < 2 ^ 16 := by
  unfold run at h
  refine runLoop_invariant
    (fun u => u.MSB_FIRST = true ∧ (∀ i, u.rom i < 2 ^ 16) ∧ ∀ i, u.ram i < 2 ^ 16)
    (fun u hu => ?_) fuel _ t h ?_
  · obtain ⟨c1, c2, c3⟩ := execute_cells u hu.2.1 hu.2.2
    exact ⟨c1.trans hu.1, c2, c3⟩
  · rw [reset_snd]
    exact ⟨hM, hrom, hram⟩

/-- The pair returned on `toL s` by an operation that commutes with `toL`. -/
theorem swapped_pair (r : Nat × Thumbulator) (hM : r.2.MSB_FIRST = true)
    (hrom : ∀ i, r.2.rom i < 2 ^ 16) (hram : ∀ i, r.2.ram i < 2 ^ 16) :
    ((r.1, toL r.2) : Nat × Thumbulator).1 = r.1 ∧
    ByteSwapped ((r.1, toL r.2) : Nat × Thumbulator).2 r.2 :=
  ⟨rfl, byteSwapped_toL _ hM hrom hram⟩

theorem pushState_swapped : ByteSwapped pushState pushStateM where
  buildL := rfl
  buildM := rfl
  rom_range i := by
    show (if i = 0x604 then 0xB405 else 0xBC05) < 2 ^ 16
    split <;> decide
  ram_range _ := by
    show (0 : Nat) < 2 ^ 16
    decide
  rom i := by
    show (if i = 0x604 then 0x05B4 else 0x05BC) = bswap16 (if i = 0x604 then 0xB405 else 0xBC05)
    split <;> decide
  ram _ := by
    show (0 : Nat) = bswap16 0
    decide
  halfadd := rfl
  cpsr := rfl
  reg_sys := rfl
  reg_svc := rfl
  mamcr := rfl
  instructions := rfl
  fetches := rfl
  reads := rfl
  writes := rfl

/-! ## The bits of `cpsr` outside the flags -/

/-- No primitive operation of a handler sets a bit of `cpsr` above bit 31. -/
theorem Reach.cpsr_lt {s t : Thumbulator} (h : Reach s t) (h0 : s.cpsr < 2 ^ 32) :
    t.cpsr < 2 ^ 32 := by
  induction h with
  | refl => exact h0
  | write_register reg data _ ih =>
    rw [(write_register_frame _ reg data).1]
    exact ih
  | read16 addr _ ih =>
    unfold Thumbulator.read16; simp only []; repeat' split
    all_goals exact ih
  | write16 addr data _ ih =>
    unfold Thumbulator.write16; simp only []; repeat' split
    all_goals exact ih
  | do_zflag x _ ih => exact do_zflag_lt _ x ih
  | do_nflag x _ ih => exact do_nflag_lt _ x ih
  | do_cflag a b c _ ih => exact do_cflag_lt _ a b c ih
  | do_sub_vflag a b c _ ih => exact do_sub_vflag_lt _ a b c ih
  | do_add_vflag a b c _ ih => exact do_add_vflag_lt _ a b c ih
  | do_cflag_bit x _ ih => exact do_cflag_bit_lt _ x ih
  | do_vflag_bit x _ ih => exact do_vflag_bit_lt _ x ih
  | halfadd v _ ih => exact ih

/-- One `execute` step keeps `cpsr` a 32-bit value. -/
theorem execute_cpsr_lt (s : Thumbulator) (h0 : s.cpsr < 2 ^ 32) :
    (execute s).2.cpsr < 2 ^ 32 := by
  have hr := runChain_reach (entered s) (fetch16 s (sub32 (read_register s 15) 2)).1
    (add32 (read_register s 15) 2) chain chain_reach
  rw [← execute_eq] at hr
  exact hr.cpsr_lt (by rw [(entered_frame s).2.2.1]; exact h0)

theorem and_bit_ne_zero (x k : Nat) (h : x.testBit k = true) : x &&& (1 <<< k) ≠ 0 := by
  rw [Nat.one_shiftLeft, Nat.and_two_pow, h]
  exact Nat.pos_iff_ne_zero.1 (by simp)

/-- The low 28 bits pinned to those of the reset value `0xF3`: supervisor mode
with T, I and F set. -/
theorem cpsr_of_reset_bits (x : Nat) (h : ∀ i < 28, x.testBit i = (0xF3 : Nat).testBit i) :
    x &&& 0x1F = MODE_SVC ∧ x &&& CPSR_T ≠ 0 ∧ x &&& CPSR_I ≠ 0 ∧ x &&& CPSR_F ≠ 0 := by
  refine ⟨?_, ?_, ?_, ?_⟩
  · rw [mode_of_bits h]
    decide
  · exact and_bit_ne_zero x 5 (by rw [h 5 (by decide)]; decide)
  · exact and_bit_ne_zero x 7 (by rw [h 7 (by decide)]; decide)
  · exact and_bit_ne_zero x 6 (by rw [h 6 (by decide)]; decide)

/-- Every state reachable from `reset` has the low 28 bits of `cpsr` that
`reset` wrote. -/
theorem Reachable.cpsr_bits {P : Nat → Prop} {s0 t : Thumbulator} (h : Reachable P s0 t) :
    ∀ i < 28, t.cpsr.testBit i = (0xF3 : Nat).testBit i := by
  induction h with
  | reset => exact fun _ _ => rfl
  | step op _ _ _ ih =>
    intro i hi
    rw [execute_cpsr_low _ i hi]
    exact ih i hi

/-- The state in which the loop of `run` exits is reachable from `reset`. -/
theorem run_reachable (fuel : Nat) (s0 t : Thumbulator) (h : run fuel s0 = some t) :
    Reachable (fun _ => True) s0 t := by
  unfold run at h
  exact runLoop_invariant (Reachable (fun _ => True) s0)
    (fun s hs => Reachable.step _ hs rfl trivial) fuel _ t h Reachable.reset

/-! ## Shifts -/

/-- A value below `2^j` and the mask of the bits `j..31` have no bit in common. -/
theorem or_high_mask (a j : Nat) (ha : a < 2 ^ j) (hj : j ≤ 32) :
    a ||| (2 ^ 32 - 2 ^ j) = a + (2 ^ 32 - 2 ^ j) := by
  have e : 2 ^ 32 - 2 ^ j = 2 ^ j * (2 ^ (32 - j) - 1) := by
    rw [Nat.mul_sub, ← Nat.pow_add, Nat.mul_one, Nat.add_sub_cancel' hj]
  rw [e, Nat.or_comm, Nat.add_comm]
  exact (Nat.mul_add_lt_is_or ha _).symm

/-- The sign fill `(~0) << (32 - k)` of the ASR blocks. -/
theorem sign_fill : ∀ k < 32, 1 ≤ k → shl32 (not32 0) (32 - k) = 2 ^ 32 - 2 ^ (32 - k) := by
  decide

/-- The carry test `1 << (k - 1)` of the shift blocks. -/
theorem carry_mask : ∀ k < 33, 1 ≤ k → shl32 1 (k - 1) = 2 ^ (k - 1) := by
  decide

theorem and_carry_mask (x k : Nat) (hk1 : 1 ≤ k) (hk : k < 33) :
    x &&& shl32 1 (k - 1) ≠ 0 ↔ x.testBit (k - 1) = true := by
  rw [carry_mask k hk hk1, Nat.and_two_pow]
  cases x.testBit (k - 1)
  · simp
  · simp

/-- The value computed by the ASR blocks for a shift amount in 1..31. -/
theorem asr_mid (x k : Nat) (hx : x < 2 ^ 32) (hk1 : 1 ≤ k) (hk : k < 32) :
    (if x &&& 0x80000000 ≠ 0 then x >>> k ||| shl32 (not32 0) (32 - k) else x >>> k) =
      ((signed32 x / 2 ^ k) % 2 ^ 32).toNat := by
  rw [sign_fill k hk hk1, signed32_eq x hx, Nat.shiftRight_eq_div_pow]
  have hlt : x / 2 ^ k < 2 ^ (32 - k) := by
    rw [Nat.div_lt_iff_lt_mul (Nat.two_pow_pos k), ← Nat.pow_add,
      Nat.sub_add_cancel (by omega)]
    exact hx
  by_cases hs : x.testBit 31 = true
  · rw [if_pos ((and_sign_ne_zero x).2 hs), if_pos hs, or_high_mask _ _ hlt (by omega)]
    have h31 := sign_bit x hx
    rw [hs] at h31
    have h31 : 2 ^ 31 ≤ x := of_decide_eq_true h31.symm
    clear hlt hs
    interval_cases k <;> omega
  · rw [if_neg (fun h => hs ((and_sign_ne_zero x).1 h)), if_neg hs]
    clear hlt hs
    interval_cases k <;> omega

/-- The value computed by the ASR blocks for a shift amount of 32 or more. -/
theorem asr_big (x k : Nat) (hx : x < 2 ^ 32) (hk : 32 ≤ k) :
    (if x &&& 0x80000000 ≠ 0 then not32 0 else 0) = ((signed32 x / 2 ^ k) % 2 ^ 32).toNat := by
  have hp : (2 : Int) ^ 32 ≤ 2 ^ k := by
    exact_mod_cast Nat.pow_le_pow_right (by decide : 0 < 2) hk
  have hpos : (0 : Int) < 2 ^ k := by positivity
  rw [signed32_eq x hx]
  by_cases hs : x.testBit 31 = true
  · rw [if_pos ((and_sign_ne_zero x).2 hs), if_pos hs]
    have h31 := sign_bit x hx
    rw [hs] at h31
    have h31 : 2 ^ 31 ≤ x := of_decide_eq_true h31.symm
    have e : ((x : Int) - 2 ^ 32) / 2 ^ k = -1 :=
      ((Int.ediv_emod_unique (r := (x : Int) - 2 ^ 32 + 2 ^ k) hpos).2
        ⟨by ring, by omega, by omega⟩).1
    rw [e]
    decide
  · rw [if_neg (fun h => hs ((and_sign_ne_zero x).1 h)), if_neg hs]
    have e : (x : Int) / 2 ^ k = 0 := Int.ediv_eq_zero_of_lt (by omega) (by omega)
    rw [e]
    rfl

theorem asr_zero (x : Nat) (hx : x < 2 ^ 32) : x = ((signed32 x / 2 ^ 0) % 2 ^ 32).toNat := by
  rw [signed32_eq x hx]
  split <;> omega

/-- The tail of the shift blocks: `write_register(rd, rc); do_nflag(rc);
do_zflag(rc)`. -/
theorem shift_tail (u : Thumbulator) (rd res : Nat) (hu : u.cpsr &&& 0x1F = MODE_SVC)
    (hc : u.cpsr < 2 ^ 32) :
    read_register (do_zflag (do_nflag (write_register u rd res).2 res) res) rd = res ∧
    ∀ i, (do_zflag (do_nflag (write_register u rd res).2 res) res).cpsr.testBit i =
      if i = 30 then decide (res = 0) else if i = 31 then res.testBit 31
      else u.cpsr.testBit i := by
  generalize hw : (write_register u rd res).2 = w
  have hwc : w.cpsr = u.cpsr := by rw [← hw, (write_register_frame u _ res).1]
  have h0 : w.cpsr < 2 ^ 32 := by rw [hwc]; exact hc
  have h1 := do_nflag_lt w res h0
  have hbits : ∀ i, (do_zflag (do_nflag w res) res).cpsr.testBit i =
      if i = 30 then decide (res = 0) else if i = 31 then res.testBit 31
      else u.cpsr.testBit i := by
    intro i
    rw [do_zflag_testBit _ _ h1, do_nflag_testBit _ _ h0, hwc]
  refine ⟨?_, hbits⟩
  have hm : (do_zflag (do_nflag w res) res).cpsr &&& 0x1F = w.cpsr &&& 0x1F := by
    apply mode_of_bits
    intro i hi
    rw [hbits i, hwc, if_neg (by omega), if_neg (by omega)]
  have hregs : (do_zflag (do_nflag w res) res).reg_sys = w.reg_sys ∧
      (do_zflag (do_nflag w res) res).reg_svc = w.reg_svc := by
    rw [do_zflag_state, do_nflag_state]
    exact ⟨rfl, rfl⟩
  rw [read_register_congr _ w _ hm hregs.1 hregs.2, ← hw, read_write_register u _ res _ hu,
    if_pos rfl]

/-- The state after `do_cflag_bit`: mode, range and bits of `cpsr`. -/
theorem carry_step (u : Thumbulator) (c : Nat) (hu : u.cpsr &&& 0x1F = MODE_SVC)
    (hc : u.cpsr < 2 ^ 32) :
    (do_cflag_bit u c).cpsr &&& 0x1F = MODE_SVC ∧ (do_cflag_bit u c).cpsr < 2 ^ 32 ∧
    ∀ i, (do_cflag_bit u c).cpsr.testBit i =
      if i = 29 then decide (c ≠ 0) else u.cpsr.testBit i := by
  refine ⟨?_, do_cflag_bit_lt u c hc, do_cflag_bit_testBit u c hc⟩
  rw [← hu]
  apply mode_of_bits
  intro i hi
  rw [do_cflag_bit_testBit u c hc, if_neg (by omega)]

/-- The shift blocks after a carry update: destination register and flags. -/
theorem shift_flags (u : Thumbulator) (rd res c : Nat) (hu : u.cpsr &&& 0x1F = MODE_SVC)
    (hc : u.cpsr < 2 ^ 32) :
    read_register (do_zflag (do_nflag (write_register (do_cflag_bit u c) rd res).2 res) res) rd
      = res ∧
    ∀ i, (do_zflag (do_nflag (write_register (do_cflag_bit u c) rd res).2 res) res).cpsr.testBit i
      = if i = 29 then decide (c ≠ 0) else if i = 30 then decide (res = 0)
        else if i = 31 then res.testBit 31 else u.cpsr.testBit i := by
  obtain ⟨c1, c2, c3⟩ := carry_step u c hu hc
  obtain ⟨t1, t2⟩ := shift_tail (do_cflag_bit u c) rd res c1 c2
  refine ⟨t1, fun i => ?_⟩
  rw [t2 i, c3 i]
  by_cases h29 : i = 29
  · rw [if_pos h29, if_neg (by omega), if_neg (by omega), if_pos h29]
  · rw [if_neg h29, if_neg h29]

/-- The result of an arithmetic shift right of `x` by `k`, as the ASR blocks
compute it, written back and flagged. -/
theorem asr_result (u : Thumbulator) (rd x k : Nat) (r : Nat × Thumbulator)
    (hu : u.cpsr &&& 0x1F = MODE_SVC) (hc : u.cpsr < 2 ^ 32) (hx : x < 2 ^ 32)
    (hr : r = if k = 0 then (x, u)
      else if k < 32 then
        ((if x &&& 0x80000000 ≠ 0 then x >>> k ||| shl32 (not32 0) (32 - k) else x >>> k),
          do_cflag_bit u (x &&& shl32 1 (k - 1)))
      else if x &&& 0x80000000 ≠ 0 then (not32 0, do_cflag_bit u 1)
      else (0, do_cflag_bit u 0)) :
    read_register (do_zflag (do_nflag (write_register r.2 rd r.1).2 r.1) r.1) rd
      = ((signed32 x / 2 ^ k) % 2 ^ 32).toNat ∧
    ∀ i, (do_zflag (do_nflag (write_register r.2 rd r.1).2 r.1) r.1).cpsr.testBit i =
      if i = 29 then (if k = 0 then u.cpsr.testBit 29 else x.testBit (min (k - 1) 31))
      else if i = 30 then decide (((signed32 x / 2 ^ k) % 2 ^ 32).toNat = 0)
      else if i = 31 then (((signed32 x / 2 ^ k) % 2 ^ 32).toNat).testBit 31
      else u.cpsr.testBit i := by
  by_cases h0 : k = 0
  · rw [if_pos h0] at hr
    subst hr
    subst h0
    obtain ⟨t1, t2⟩ := shift_tail u rd x hu hc
    rw [← asr_zero x hx]
    refine ⟨t1, fun i => ?_⟩
    rw [t2 i, if_pos rfl]
    by_cases h29 : i = 29
    · rw [if_pos h29, if_neg (by omega), if_neg (by omega), h29]
    · rw [if_neg h29]
  · rw [if_neg h0] at hr
    by_cases h32 : k < 32
    · rw [if_pos h32, asr_mid x k hx (by omega) h32] at hr
      subst hr
      obtain ⟨t1, t2⟩ := shift_flags u rd ((signed32 x / 2 ^ k) % 2 ^ 32).toNat
        (x &&& shl32 1 (k - 1)) hu hc
      refine ⟨t1, fun i => ?_⟩
      rw [t2 i, if_neg h0, Nat.min_eq_left (by omega)]
      by_cases h29 : i = 29
      · rw [if_pos h29, if_pos h29]
        by_cases hb : x.testBit (k - 1) = true
        · rw [hb]
          exact decide_eq_true ((and_carry_mask x k (by omega) (by omega)).2 hb)
        · rw [Bool.not_eq_true] at hb
          rw [hb]
          exact decide_eq_false (fun h => by
            rw [(and_carry_mask x k (by omega) (by omega)).1 h] at hb
            exact absurd hb (by decide))
      · rw [if_neg h29, if_neg h29]
    · rw [if_neg h32] at hr
      have hR := asr_big x k hx (by omega)
      have hmin : min (k - 1) 31 = 31 := Nat.min_eq_right (by omega)
      by_cases hs : x.testBit 31 = true
      · rw [if_pos ((and_sign_ne_zero x).2 hs)] at hr hR
        subst hr
        obtain ⟨t1, t2⟩ := shift_flags u rd (not32 0) 1 hu hc
        rw [← hR]
        refine ⟨t1, fun i => ?_⟩
        rw [t2 i, if_neg h0, hmin, hs]
        rfl
      · rw [if_neg (fun h => hs ((and_sign_ne_zero x).1 h))] at hr hR
        subst hr
        obtain ⟨t1, t2⟩ := shift_flags u rd 0 0 hu hc
        rw [← hR]
        refine ⟨t1, fun i => ?_⟩
        rw [Bool.not_eq_true] at hs
        rw [t2 i, if_neg h0, hmin, hs]
        rfl

theorem decode_ASR1 (s : Thumbulator) (inst pc : Nat) (h : inst &&& 0xF800 = 0x1000) :
    runChain s inst pc chain = exec_ASR1 s inst :=
  decode_hit s inst pc 9 0xF800 0x1000 _ _ _ h (by decide) rfl h rfl

theorem decode_ASR2 (s : Thumbulator) (inst pc : Nat) (h : inst &&& 0xFFC0 = 0x4100) :
    runChain s inst pc chain = exec_ASR2 s inst :=
  decode_hit s inst pc 10 0xFFC0 0x4100 _ _ _ h (by decide) rfl h rfl

theorem imm5_lt (op : Nat) : (op >>> 6) &&& 0x1F < 32 :=
  Nat.lt_succ_of_le Nat.and_le_right

/-- The ASR(1) block in the form of `asr_result`, with the shift amount 32
for a zero immediate. -/
theorem exec_ASR1_shape (u : Thumbulator) (op x k : Nat)
    (hx : x = read_register u ((op >>> 3) &&& 0x07))
    (hk : k = if (op >>> 6) &&& 0x1F = 0 then 32 else (op >>> 6) &&& 0x1F) :
    ∃ r : Nat × Thumbulator,
      (r = if k = 0 then (x, u)
        else if k < 32 then
          ((if x &&& 0x80000000 ≠ 0 then x >>> k ||| shl32 (not32 0) (32 - k) else x >>> k),
            do_cflag_bit u (x &&& shl32 1 (k - 1)))
        else if x &&& 0x80000000 ≠ 0 then (not32 0, do_cflag_bit u 1)
        else (0, do_cflag_bit u 0)) ∧
      exec_ASR1 u op =
        (0, do_zflag (do_nflag (write_register r.2 ((op >>> 0) &&& 0x07) r.1).2 r.1) r.1) := by
  refine ⟨_, rfl, ?_⟩
  unfold exec_ASR1
  simp only []
  rw [← hx]
  have hlt := imm5_lt op
  by_cases h0 : (op >>> 6) &&& 0x1F = 0
  · rw [if_pos h0] at hk
    rw [if_pos h0, hk, if_neg (show ¬ (32 = 0) by decide),
      if_neg (show ¬ (32 < 32) by decide)]
  · rw [if_neg h0] at hk
    rw [if_neg h0, hk, if_neg h0, if_pos hlt]

/-- The ASR(2) block in the form of `asr_result`. -/
theorem exec_ASR2_shape (u : Thumbulator) (op x k : Nat)
    (hx : x = read_register u ((op >>> 0) &&& 0x07))
    (hk : k = read_register u ((op >>> 3) &&& 0x07) &&& 0xFF) :
    ∃ r : Nat × Thumbulator,
      (r = if k = 0 then (x, u)
        else if k < 32 then
          ((if x &&& 0x80000000 ≠ 0 then x >>> k ||| shl32 (not32 0) (32 - k) else x >>> k),
            do_cflag_bit u (x &&& shl32 1 (k - 1)))
        else if x &&& 0x80000000 ≠ 0 then (not32 0, do_cflag_bit u 1)
        else (0, do_cflag_bit u 0)) ∧
      exec_ASR2 u op =
        (0, do_zflag (do_nflag (write_register r.2 ((op >>> 0) &&& 0x07) r.1).2 r.1) r.1) := by
  refine ⟨_, rfl, ?_⟩
  unfold exec_ASR2
  simp only []
  rw [← hx, ← hk]

/-! ## Byte accesses -/

/-- The halfword address `addr & ~1` of a byte address. -/
theorem and_not_one (a : Nat) (ha : a < 2 ^ 32) : a &&& not32 1 = a - a % 2 := by
  have e : a - a % 2 = 2 ^ 1 * (a / 2 ^ 1) := by omega
  rw [e]
  apply Nat.eq_of_testBit_eq
  intro i
  rw [Nat.testBit_and, show not32 1 = 0xFFFFFFFF - 2 ^ 0 from rfl, testBit_flagmask 0 (by decide),
    Nat.testBit_mul_pow_two, ← Nat.shiftRight_eq_div_pow, Nat.testBit_shiftRight]
  by_cases h0 : i = 0
  · simp [h0]
  · by_cases h32 : i < 32
    · simp [h0, h32, show 1 ≤ i by omega, show 1 + (i - 1) = i by omega]
    · simp [h0, h32, show 1 ≤ i by omega, show 1 + (i - 1) = i by omega,
        testBit_of_lt32 ha (show 32 ≤ i by omega)]

theorem and_FF_eq (a : Nat) : a &&& 0xFF = a % 2 ^ 8 := Nat.and_pow_two_sub_one_eq_mod a 8

/-- The bits 8..15 of any value. -/
theorem and_FF00_any (x : Nat) : x &&& 0xFF00 = 2 ^ 8 * ((x / 2 ^ 8) % 2 ^ 8) := by
  have e : x &&& 0xFF00 = (x &&& 0xFFFF) &&& 0xFF00 := by
    rw [Nat.and_assoc]
    rfl
  rw [e, and_FFFF_eq, and_FF00 _ (Nat.mod_lt _ (by decide))]
  omega

/-- The halfword stored by STRB at an even address: the low byte replaced. -/
theorem byte_merge_even (w v : Nat) :
    ((w &&& 0xFF00) ||| (v &&& 0x00FF)) &&& 0xFFFF = 2 ^ 8 * ((w / 2 ^ 8) % 2 ^ 8) + v % 2 ^ 8 := by
  rw [and_FF00_any, and_FF_eq, ← Nat.mul_add_lt_is_or (Nat.mod_lt _ (by decide)), and_FFFF_eq]
  omega

/-- The halfword stored by STRB at an odd address: the high byte replaced. -/
theorem byte_merge_odd (w v : Nat) :
    ((w &&& 0x00FF) ||| shl32 v 8) &&& 0xFFFF = 2 ^ 8 * (v % 2 ^ 8) + w % 2 ^ 8 := by
  have e1 : shl32 v 8 &&& 0xFFFF = 2 ^ 8 * (v % 2 ^ 8) := by
    rw [and_FFFF_eq]
    unfold shl32
    rw [Nat.shiftLeft_eq]
    omega
  have e2 : (w &&& 0x00FF) &&& 0xFFFF = w % 2 ^ 8 := by
    rw [and_FFFF_eq, and_FF_eq]
    omega
  rw [Nat.and_distrib_right, e1, e2, Nat.or_comm,
    ← Nat.mul_add_lt_is_or (Nat.mod_lt _ (by decide))]

/-- The byte selected by LDRB from a halfword. -/
theorem byte_select (w a : Nat) :
    (if a &&& 1 ≠ 0 then w >>> 8 else w) &&& 0xFF =
      if a % 2 = 1 then (w / 2 ^ 8) % 2 ^ 8 else w % 2 ^ 8 := by
  rw [and_one_eq]
  by_cases h : a % 2 = 1
  · rw [if_pos (by omega), if_pos h, and_FF_eq, Nat.shiftRight_eq_div_pow]
  · rw [if_neg (by omega), if_neg h, and_FF_eq]

/-- The halfword containing a byte address of writable RAM. -/
theorem half_of_byte (a : Nat) (ha : InWritableRAM a) :
    (a &&& not32 1) % 2 = 0 ∧ 0x40000000 ≤ a &&& not32 1 ∧ a &&& not32 1 < 0x40002000 ∧
    (a &&& not32 1 ≤ 0x40000028 ∨ 0x40000C00 ≤ a &&& not32 1) ∧
    ((a &&& not32 1) - 0x40000000) / 2 = (a - 0x40000000) / 2 := by
  unfold InWritableRAM at ha
  rw [and_not_one a (by omega)]
  omega

theorem byte_merge (w v a : Nat) :
    (if a &&& 1 ≠ 0 then (w &&& 0x00FF) ||| shl32 v 8 else (w &&& 0xFF00) ||| (v &&& 0x00FF))
        &&& 0xFFFF =
      if a % 2 = 1 then 2 ^ 8 * (v % 2 ^ 8) + w % 2 ^ 8
      else 2 ^ 8 * ((w / 2 ^ 8) % 2 ^ 8) + v % 2 ^ 8 := by
  rw [and_one_eq]
  by_cases h : a % 2 = 1
  · rw [if_pos (by omega), if_pos h, byte_merge_odd]
  · rw [if_neg (by omega), if_neg h, byte_merge_even]

theorem read16_mode (u : Thumbulator) (addr : Nat) (hu : u.cpsr &&& 0x1F = MODE_SVC) :
    (read16 u addr).2.cpsr &&& 0x1F = MODE_SVC :=
  (Reach.read16 addr (Reach.refl u)).mode.trans hu

/-- The memory effect of the STRB blocks on a byte address `a` of writable
RAM: the read of the containing halfword, the merge and the write. -/
theorem strb_store (u : Thumbulator) (a v : Nat) (ha : InWritableRAM a) :
    write16 (read16 u (a &&& not32 1)).2 (a &&& not32 1)
      ((if a &&& 1 ≠ 0 then ((read16 u (a &&& not32 1)).1 &&& 0x00FF) ||| shl32 v 8
        else ((read16 u (a &&& not32 1)).1 &&& 0xFF00) ||| (v &&& 0x00FF)) &&& 0xFFFF) =
      { u with
        reads := (read16 u (a &&& not32 1)).2.reads
        writes := (u.writes + 1) % 2 ^ 64
        ram := Function.update u.ram ((a - 0x40000000) / 2)
          (storeHalf u (if a % 2 = 1 then
              2 ^ 8 * (v % 2 ^ 8) + loadHalf u (u.ram ((a - 0x40000000) / 2)) % 2 ^ 8
            else 2 ^ 8 * ((loadHalf u (u.ram ((a - 0x40000000) / 2)) / 2 ^ 8) % 2 ^ 8)
              + v % 2 ^ 8)) } := by
  obtain ⟨h0, h1, h2, h3, h4⟩ := half_of_byte a ha
  have e2 := read16_snd u (a &&& not32 1)
  rw [byte_merge, read16_ram u _ h0 h1 h2, h4]
  generalize (read16 u (a &&& not32 1)).2.reads = n at e2 ⊢
  rw [e2, write16_ram _ _ _ h0 h1 h2 h3, h4]
  rfl

/-- The LDRB(1) block on a byte address of writable RAM. -/
theorem exec_LDRB1_spec (u : Thumbulator) (op a : Nat) (hu : u.cpsr &&& 0x1F = MODE_SVC)
    (ha : InWritableRAM a)
    (haddr : a = add32 (read_register u ((op >>> 3) &&& 0x07)) ((op >>> 6) &&& 0x1F)) :
    (exec_LDRB1 u op).1 = 0 ∧
    read_register (exec_LDRB1 u op).2 ((op >>> 0) &&& 0x07) =
      if a % 2 = 1 then (loadHalf u (u.ram ((a - 0x40000000) / 2)) / 2 ^ 8) % 2 ^ 8
      else loadHalf u (u.ram ((a - 0x40000000) / 2)) % 2 ^ 8 := by
  obtain ⟨h0, h1, h2, _, h4⟩ := half_of_byte a ha
  unfold exec_LDRB1
  simp only []
  rw [← haddr, byte_select, read16_ram u _ h0 h1 h2, h4]
  exact ⟨trivial, by rw [read_write_register _ _ _ _ (read16_mode u _ hu), if_pos rfl]⟩

/-- The LDRB(2) block on a byte address of writable RAM. -/
theorem exec_LDRB2_spec (u : Thumbulator) (op a : Nat) (hu : u.cpsr &&& 0x1F = MODE_SVC)
    (ha : InWritableRAM a)
    (haddr : a = add32 (read_register u ((op >>> 3) &&& 0x7))
      (read_register u ((op >>> 6) &&& 0x7))) :
    (exec_LDRB2 u op).1 = 0 ∧
    read_register (exec_LDRB2 u op).2 ((op >>> 0) &&& 0x7) =
      if a % 2 = 1 then (loadHalf u (u.ram ((a - 0x40000000) / 2)) / 2 ^ 8) % 2 ^ 8
      else loadHalf u (u.ram ((a - 0x40000000) / 2)) % 2 ^ 8 := by
  obtain ⟨h0, h1, h2, _, h4⟩ := half_of_byte a ha
  unfold exec_LDRB2
  simp only []
  rw [← haddr, byte_select, read16_ram u _ h0 h1 h2, h4]
  exact ⟨trivial, by rw [read_write_register _ _ _ _ (read16_mode u _ hu), if_pos rfl]⟩

theorem decode_LDRB1 (s : Thumbulator) (inst pc : Nat) (h : inst &&& 0xF800 = 0x7800) :
    runChain s inst pc chain = exec_LDRB1 s inst :=
  decode_hit s inst pc 30 0xF800 0x7800 _ _ _ h (by decide) rfl h rfl

theorem decode_LDRB2 (s : Thumbulator) (inst pc : Nat) (h : inst &&& 0xFE00 = 0x5C00) :
    runChain s inst pc chain = exec_LDRB2 s inst :=
  decode_hit s inst pc 31 0xFE00 0x5C00 _ _ _ h (by decide) rfl h rfl

theorem decode_STRB1 (s : Thumbulator) (inst pc : Nat) (h : inst &&& 0xF800 = 0x7000) :
    runChain s inst pc chain = exec_STRB1 s inst :=
  decode_hit s inst pc 59 0xF800 0x7000 _ _ _ h (by decide) rfl h rfl

theorem decode_STRB2 (s : Thumbulator) (inst pc : Nat) (h : inst &&& 0xFE00 = 0x5400) :
    runChain s inst pc chain = exec_STRB2 s inst :=
  decode_hit s inst pc 60 0xFE00 0x5400 _ _ _ h (by decide) rfl h rfl

/-- One `execute` step on an LDRB opcode whose address `a` is a byte of
writable RAM loads that byte of the containing halfword. -/
theorem execute_LDRB (t : Thumbulator) (op a : Nat) (hsvc : t.cpsr &&& 0x1F = MODE_SVC)
    (hf : Fetches t op)
    (hform :
      (op &&& 0xF800 = 0x7800 ∧
        a = add32 (read_register t ((op >>> 3) &&& 0x07)) ((op >>> 6) &&& 0x1F)) ∨
      (op &&& 0xFE00 = 0x5C00 ∧
        a = add32 (read_register t ((op >>> 3) &&& 0x7)) (read_register t ((op >>> 6) &&& 0x7))))
    (ha : InWritableRAM a) :
    (execute t).1 = 0 ∧
    read_register (execute t).2 ((op >>> 0) &&& 0x07) =
      if a % 2 = 1 then (loadHalf t (t.ram ((a - 0x40000000) / 2)) / 2 ^ 8) % 2 ^ 8
      else loadHalf t (t.ram ((a - 0x40000000) / 2)) % 2 ^ 8 := by
  have hm := entered_mode t hsvc
  have hl : ∀ x, loadHalf (entered t) x = loadHalf t x := by
    intro x
    unfold loadHalf
    rw [(entered_frame t).2.2.2.2.2.2.1]
  unfold Fetches at hf
  rw [execute_eq, hf]
  rcases hform with ⟨hop, e⟩ | ⟨hop, e⟩
  · rw [decode_LDRB1 _ _ _ hop]
    have h := exec_LDRB1_spec (entered t) op a hm ha (by
      rw [e, read_entered_low t _ hsvc])
    rw [hl, (entered_frame t).1] at h
    exact h
  · rw [decode_LDRB2 _ _ _ hop]
    have h := exec_LDRB2_spec (entered t) op a hm ha (by
      rw [e, read_entered_low t _ hsvc, read_entered_low t _ hsvc])
    rw [hl, (entered_frame t).1] at h
    exact h

/-- One `execute` step on an STRB opcode storing the value `v` at the byte
address `a` of writable RAM: the state after the step, for some value `n` of
the read counter. -/
theorem execute_STRB (s : Thumbulator) (op a v : Nat) (hsvc : s.cpsr &&& 0x1F = MODE_SVC)
    (hf : Fetches s op)
    (hform :
      (op &&& 0xF800 = 0x7000 ∧
        a = add32 (read_register s ((op >>> 3) &&& 0x07)) ((op >>> 6) &&& 0x1F) ∧
        v = read_register s ((op >>> 0) &&& 0x07)) ∨
      (op &&& 0xFE00 = 0x5400 ∧
        a = add32 (read_register s ((op >>> 3) &&& 0x7)) (read_register s ((op >>> 6) &&& 0x7)) ∧
        v = read_register s ((op >>> 0) &&& 0x7)))
    (ha : InWritableRAM a) :
    ∃ n, execute s = (0, { s with
        fetches := (s.fetches + 1) % 2 ^ 64
        instructions := (s.instructions + 1) % 2 ^ 64
        reg_sys := Function.update s.reg_sys 15 (add32 (s.reg_sys 15) 2)
        reads := n
        writes := (s.writes + 1) % 2 ^ 64
        ram := Function.update s.ram ((a - 0x40000000) / 2)
          (storeHalf s (if a % 2 = 1 then
              2 ^ 8 * (v % 2 ^ 8) + loadHalf s (s.ram ((a - 0x40000000) / 2)) % 2 ^ 8
            else 2 ^ 8 * ((loadHalf s (s.ram ((a - 0x40000000) / 2)) / 2 ^ 8) % 2 ^ 8)
              + v % 2 ^ 8)) }) := by
  have hl : ∀ x, loadHalf (entered s) x = loadHalf s x := by
    intro x
    unfold loadHalf
    rw [(entered_frame s).2.2.2.2.2.2.1]
  have hst : ∀ x, storeHalf (entered s) x = storeHalf s x := by
    intro x
    unfold storeHalf
    rw [(entered_frame s).2.2.2.2.2.2.1]
  have h := strb_store (entered s) a v ha
  rw [hl, hst, (entered_frame s).1] at h
  have hE : execute s = (0, write16 (read16 (entered s) (a &&& not32 1)).2 (a &&& not32 1)
      ((if a &&& 1 ≠ 0 then ((read16 (entered s) (a &&& not32 1)).1 &&& 0x00FF) ||| shl32 v 8
        else ((read16 (entered s) (a &&& not32 1)).1 &&& 0xFF00) ||| (v &&& 0x00FF))
          &&& 0xFFFF)) := by
    unfold Fetches at hf
    rw [execute_eq, hf]
    rcases hform with ⟨hop, e, ev⟩ | ⟨hop, e, ev⟩
    · rw [decode_STRB1 _ _ _ hop, e, ev, ← read_entered_low s _ hsvc,
        ← read_entered_low s _ hsvc]
      rfl
    · rw [decode_STRB2 _ _ _ hop, e, ev, ← read_entered_low s _ hsvc,
        ← read_entered_low s _ hsvc, ← read_entered_low s _ hsvc]
      rfl
  rw [h] at hE
  generalize (read16 (entered s) (a &&& not32 1)).2.reads = n at hE
  rw [entered_svc s hsvc] at hE
  exact ⟨n, hE⟩

end Thumbulator

namespace RegWriteQueue

/-! ## The register-write queue as a list -/

/-- The array filled by the copy loop of `grow`. -/
theorem copy_loop {α : Type} (g fresh : Nat → α) : ∀ n j : Nat,
    ((List.range n).foldl (fun buffer i => Function.update buffer i (g i)) fresh) j =
      if j < n then g j else fresh j
  | 0, j => by simp
  | n + 1, j => by
    rw [List.range_succ, List.foldl_append, List.foldl_cons, List.foldl_nil]
    by_cases hj : j = n
    · rw [hj, Function.update_same, if_pos (Nat.lt_succ_self n)]
    · rw [Function.update_noteq hj, copy_loop g fresh n j]
      by_cases h : j < n
      · rw [if_pos h, if_pos (by omega)]
      · rw [if_neg h, if_neg (by omega)]

theorem contents_length {α : Type} (q : RegWriteQueue α) : (contents q).length = q.size := by
  unfold contents size
  rw [List.length_map, List.length_range]

/-- Two slots of the ring less than a capacity apart are different. -/
theorem slot_ne (head cap i n : Nat) (hi : i < n) (hn : n < cap + i) :
    (head + i) % cap ≠ (head + n) % cap := by
  intro e
  have h := Nat.sub_mod_eq_zero_of_mod_eq e.symm
  rw [show head + n - (head + i) = n - i by omega, Nat.mod_eq_of_lt (by omega)] at h
  omega

theorem clear_spec {α : Type} (w : Nat) (q : RegWriteQueue α) (h : WellFormed w q) :
    WellFormed w q.clear ∧ contents q.clear = [] ∧ q.clear.myCapacity = q.myCapacity :=
  ⟨⟨h.capacity_pos, h.capacity_lt, Nat.zero_le _, h.capacity_pos,
    (Nat.zero_mod _).symm⟩, rfl, rfl⟩

theorem dequeue_spec {α : Type} (w : Nat) (q : RegWriteQueue α) (h : WellFormed w q) :
    ∃ q1, q.dequeue w = some q1 ∧ WellFormed w q1 ∧ contents q1 = (contents q).tail ∧
      q1.myCapacity = q.myCapacity := by
  obtain ⟨h1, h2, h3, h4, h5⟩ := h
  unfold dequeue
  by_cases hs : q.mySize > 0
  · rw [if_pos hs, if_neg (by omega)]
    have e1 : (q.myHead + 1) % 2 ^ w = q.myHead + 1 := Nat.mod_eq_of_lt (by omega)
    refine ⟨_, rfl, ⟨h1, h2, ?_, ?_, ?_⟩, ?_, rfl⟩
    · show q.mySize - 1 ≤ q.myCapacity
      omega
    · exact Nat.mod_lt _ h1
    · show q.myTail = (((q.myHead + 1) % 2 ^ w) % q.myCapacity + (q.mySize - 1)) % q.myCapacity
      rw [e1, Nat.mod_add_mod, h5, show q.myHead + 1 + (q.mySize - 1) = q.myHead + q.mySize by omega]
    · show (List.range (q.mySize - 1)).map
          (fun i => q.myBuffer ((((q.myHead + 1) % 2 ^ w) % q.myCapacity + i) % q.myCapacity)) =
        ((List.range q.mySize).map
          (fun i => q.myBuffer ((q.myHead + i) % q.myCapacity))).tail
      obtain ⟨n, hn⟩ : ∃ n, q.mySize = n + 1 := ⟨q.mySize - 1, by omega⟩
      rw [hn, Nat.add_sub_cancel, List.range_succ_eq_map, List.map_cons, List.tail_cons,
        List.map_map, e1]
      apply List.map_congr_left
      intro i _
      show q.myBuffer (((q.myHead + 1) % q.myCapacity + i) % q.myCapacity) =
        q.myBuffer ((q.myHead + (i + 1)) % q.myCapacity)
      rw [Nat.mod_add_mod, show q.myHead + 1 + i = q.myHead + (i + 1) by omega]
  · rw [if_neg hs]
    refine ⟨q, rfl, ⟨h1, h2, h3, h4, h5⟩, ?_, rfl⟩
    unfold contents
    rw [show q.mySize = 0 by omega]
    rfl

/-- The store of `enqueue` into a queue that has room. -/
theorem store_spec {α : Type} (w : Nat) (q : RegWriteQueue α) (x : α) (h : WellFormed w q)
    (hroom : q.mySize < q.myCapacity) :
    q.myTail < q.myCapacity ∧
    WellFormed w { q with
      myBuffer := Function.update q.myBuffer q.myTail x
      myTail := ((q.myTail + 1) % 2 ^ w) % q.myCapacity
      mySize := (q.mySize + 1) % 2 ^ w } ∧
    contents { q with
      myBuffer := Function.update q.myBuffer q.myTail x
      myTail := ((q.myTail + 1) % 2 ^ w) % q.myCapacity
      mySize := (q.mySize + 1) % 2 ^ w } = contents q ++ [x] := by
  obtain ⟨h1, h2, h3, h4, h5⟩ := h
  have ht : q.myTail < q.myCapacity := by rw [h5]; exact Nat.mod_lt _ h1
  have e1 : (q.myTail + 1) % 2 ^ w = q.myTail + 1 := Nat.mod_eq_of_lt (by omega)
  have e2 : (q.mySize + 1) % 2 ^ w = q.mySize + 1 := Nat.mod_eq_of_lt (by omega)
  refine ⟨ht, ⟨h1, h2, ?_, h4, ?_⟩, ?_⟩
  · show (q.mySize + 1) % 2 ^ w ≤ q.myCapacity
    rw [e2]
    omega
  · show ((q.myTail + 1) % 2 ^ w) % q.myCapacity =
      (q.myHead + (q.mySize + 1) % 2 ^ w) % q.myCapacity
    rw [e1, e2, h5, Nat.mod_add_mod, Nat.add_assoc]
  · show (List.range ((q.mySize + 1) % 2 ^ w)).map
        (fun i => Function.update q.myBuffer q.myTail x ((q.myHead + i) % q.myCapacity)) =
      (List.range q.mySize).map (fun i => q.myBuffer ((q.myHead + i) % q.myCapacity)) ++ [x]
    rw [e2, List.range_succ, List.map_append, List.map_cons, List.map_nil, ← h5,
      Function.update_same]
    congr 1
    apply List.map_congr_left
    intro i hi
    rw [List.mem_range] at hi
    show Function.update q.myBuffer q.myTail x ((q.myHead + i) % q.myCapacity) = _
    rw [Function.update_noteq]
    rw [h5]
    exact slot_ne q.myHead q.myCapacity i q.mySize hi (by omega)

theorem enqueue_room {α : Type} (w : Nat) (q : RegWriteQueue α) (x : α)
    (fresh : Option (Nat → α)) (h : WellFormed w q) (hroom : q.mySize < q.myCapacity) :
    ∃ q1, q.enqueue w x fresh = some q1 ∧ WellFormed w q1 ∧
      contents q1 = contents q ++ [x] ∧ q1.myCapacity = q.myCapacity := by
  obtain ⟨s1, s2, s3⟩ := store_spec w q x h hroom
  unfold enqueue
  rw [if_neg (by omega), Option.some_bind, if_pos s1]
  exact ⟨_, rfl, s2, s3, rfl⟩

theorem grow_spec {α : Type} (w : Nat) (q : RegWriteQueue α) (buffer : Nat → α)
    (h : WellFormed w q) (hfull : q.mySize = q.myCapacity) (hc : 2 * q.myCapacity < 2 ^ w)
    (hs : q.mySize < 2 ^ 32) :
    ∃ q1, q.grow w (some buffer) = some q1 ∧ WellFormed w q1 ∧ contents q1 = contents q ∧
      q1.myCapacity = 2 * q.myCapacity ∧ q1.mySize = q.mySize := by
  obtain ⟨h1, h2, h3, h4, h5⟩ := h
  have e1 : (q.myCapacity * 2) % 2 ^ w = 2 * q.myCapacity := by
    rw [Nat.mul_comm]
    exact Nat.mod_eq_of_lt hc
  unfold grow
  simp only []
  rw [e1, if_neg (by omega), if_neg (by omega), if_neg (by omega)]
  refine ⟨_, rfl, ⟨?_, ?_, ?_, ?_, ?_⟩, ?_, rfl, rfl⟩
  · show 0 < 2 * q.myCapacity
    omega
  · exact hc
  · show q.mySize ≤ 2 * q.myCapacity
    omega
  · show 0 < 2 * q.myCapacity
    omega
  · show q.mySize = (0 + q.mySize) % (2 * q.myCapacity)
    rw [Nat.zero_add, Nat.mod_eq_of_lt (by omega)]
  · show (List.range q.mySize).map (fun i =>
        ((List.range q.mySize).foldl (fun buffer i => Function.update buffer i
          (q.myBuffer (((q.myHead + i) % 2 ^ w) % q.myCapacity))) buffer)
          ((0 + i) % (2 * q.myCapacity))) =
      (List.range q.mySize).map (fun i => q.myBuffer ((q.myHead + i) % q.myCapacity))
    apply List.map_congr_left
    intro i hi
    rw [List.mem_range] at hi
    show ((List.range q.mySize).foldl (fun buffer i => Function.update buffer i
        (q.myBuffer (((q.myHead + i) % 2 ^ w) % q.myCapacity))) buffer)
        ((0 + i) % (2 * q.myCapacity)) = q.myBuffer ((q.myHead + i) % q.myCapacity)
    rw [Nat.zero_add, Nat.mod_eq_of_lt (by omega),
      copy_loop (fun i => q.myBuffer (((q.myHead + i) % 2 ^ w) % q.myCapacity)) buffer,
      if_pos hi]
    show q.myBuffer (((q.myHead + i) % 2 ^ w) % q.myCapacity) = _
    rw [Nat.mod_eq_of_lt (show q.myHead + i < 2 ^ w by omega)]

theorem enqueue_full {α : Type} (w : Nat) (q : RegWriteQueue α) (x : α) (buffer : Nat → α)
    (h : WellFormed w q) (hfull : q.mySize = q.myCapacity) (hc : 2 * q.myCapacity < 2 ^ w)
    (hs : q.mySize < 2 ^ 32) :
    ∃ q1, q.enqueue w x (some buffer) = some q1 ∧ WellFormed w q1 ∧
      contents q1 = contents q ++ [x] ∧ q1.myCapacity = 2 * q.myCapacity := by
  obtain ⟨g, hg, gw, gc, gcap, gsize⟩ := grow_spec w q buffer h hfull hc hs
  obtain ⟨s1, s2, s3⟩ := store_spec w g x gw (by have := h.capacity_pos; omega)
  unfold enqueue
  rw [if_pos hfull, hg, Option.some_bind, if_pos s1]
  exact ⟨_, rfl, s2, by rw [s3, gc], gcap⟩

/-- On a full queue whose doubled capacity does not fit in `w` bits, or which
holds `2^32` elements or more, `enqueue` yields no queue: the copy loop of
`grow` runs past the new array, or does not end. -/
theorem enqueue_overflow {α : Type} (w : Nat) (q : RegWriteQueue α) (x : α)
    (fresh : Option (Nat → α)) (h : WellFormed w q) (hfull : q.mySize = q.myCapacity)
    (hc : 2 ^ w ≤ 2 * q.myCapacity ∨ 2 ^ 32 ≤ q.mySize) :
    q.enqueue w x fresh = none := by
  have h2 := h.capacity_lt
  unfold enqueue grow
  rw [if_pos hfull]
  cases fresh with
  | none => rfl
  | some buffer =>
    simp only []
    by_cases h32 : 2 ^ 32 ≤ q.mySize
    · rw [if_pos h32]
      rfl
    · have hw : 2 ^ w ≤ q.myCapacity * 2 := by omega
      have e : (q.myCapacity * 2) % 2 ^ w = q.myCapacity * 2 - 2 ^ w := by
        rw [Nat.mod_eq_sub_mod hw, Nat.mod_eq_of_lt (by omega)]
      rw [if_neg h32, e, if_pos (by omega)]
      rfl

theorem size_eq_length {α : Type} (q : RegWriteQueue α) : q.mySize = (contents q).length :=
  (contents_length q).symm

/-- A sequence of operations whose allocations succeed, on a well-formed
queue that either holds at most `2^(w-1)` and at most `2^32` elements
throughout or never fills: the queue follows the list. -/
theorem runOps_spec {α : Type} (w : Nat) : ∀ (ops : List (QueueOp α)) (q : RegWriteQueue α),
    WellFormed w q → allocates ops = true →
    ((2 * (q.mySize + enqueues ops) ≤ 2 ^ w ∧ q.mySize + enqueues ops ≤ 2 ^ 32) ∨
      q.mySize + enqueues ops ≤ q.myCapacity) →
    ∃ q1, runOps w q ops = some q1 ∧ WellFormed w q1 ∧
      contents q1 = ops.foldl listStep (contents q) ∧
      (q.mySize + enqueues ops ≤ q.myCapacity → q1.myCapacity = q.myCapacity)
  | [], q, h, _, _ => ⟨q, rfl, h, rfl, fun _ => rfl⟩
  | QueueOp.enqueue x f :: rest, q, h, ha, hg => by
    have hn : enqueues (QueueOp.enqueue x f :: rest) = enqueues rest + 1 := rfl
    have ha2 : (f.isSome && allocates rest) = true := ha
    rw [Bool.and_eq_true] at ha2
    obtain ⟨buffer, rfl⟩ := Option.isSome_iff_exists.mp ha2.1
    rw [hn] at hg
    by_cases hroom : q.mySize < q.myCapacity
    · obtain ⟨q1, e1, w1, c1, k1⟩ := enqueue_room w q x (some buffer) h hroom
      have hs : q1.mySize = q.mySize + 1 := by
        rw [size_eq_length q1, c1, List.length_append, ← size_eq_length q]
        rfl
      obtain ⟨q2, e2, w2, c2, k2⟩ := runOps_spec w rest q1 w1 ha2.2 (by rw [hs, k1]; omega)
      refine ⟨q2, ?_, w2, ?_, fun hB => ?_⟩
      · show (q.enqueue w x (some buffer)).bind (fun q1 => runOps w q1 rest) = some q2
        rw [e1, Option.some_bind, e2]
      · rw [c2, c1]
        rfl
      · rw [k2 (by rw [hs, k1]; omega), k1]
    · have hfull : q.mySize = q.myCapacity := Nat.le_antisymm h.size_le (Nat.not_lt.1 hroom)
      have hA : 2 * (q.mySize + (enqueues rest + 1)) ≤ 2 ^ w ∧
          q.mySize + (enqueues rest + 1) ≤ 2 ^ 32 := by
        rcases hg with hg | hg
        · exact hg
        · omega
      obtain ⟨q1, e1, w1, c1, k1⟩ :=
        enqueue_full w q x buffer h hfull (by omega) (by omega)
      have hs : q1.mySize = q.mySize + 1 := by
        rw [size_eq_length q1, c1, List.length_append, ← size_eq_length q]
        rfl
      obtain ⟨q2, e2, w2, c2, _⟩ :=
        runOps_spec w rest q1 w1 ha2.2 (Or.inl (by rw [hs]; omega))
      refine ⟨q2, ?_, w2, ?_, fun hB => ?_⟩
      · show (q.enqueue w x (some buffer)).bind (fun q1 => runOps w q1 rest) = some q2
        rw [e1, Option.some_bind, e2]
      · rw [c2, c1]
        rfl
      · omega
  | QueueOp.dequeue :: rest, q, h, ha, hg => by
    have hn : enqueues (QueueOp.dequeue :: rest : List (QueueOp α)) = enqueues rest := rfl
    have ha2 : allocates rest = true := ha
    rw [hn] at hg
    obtain ⟨q1, e1, w1, c1, k1⟩ := dequeue_spec w q h
    have hs : q1.mySize ≤ q.mySize := by
      rw [size_eq_length q1, c1, List.length_tail, ← size_eq_length q]
      exact Nat.sub_le _ _
    obtain ⟨q2, e2, w2, c2, k2⟩ := runOps_spec w rest q1 w1 ha2 (by rw [k1]; omega)
    refine ⟨q2, ?_, w2, ?_, fun hB => ?_⟩
    · show (q.dequeue w).bind (fun q1 => runOps w q1 rest) = some q2
      rw [e1, Option.some_bind, e2]
    · rw [c2, c1]
      rfl
    · rw [hn] at hB
      rw [k2 (by rw [k1]; omega), k1]
  | QueueOp.clear :: rest, q, h, ha, hg => by
    have hn : enqueues (QueueOp.clear :: rest : List (QueueOp α)) = enqueues rest := rfl
    have ha2 : allocates rest = true := ha
    rw [hn] at hg
    obtain ⟨w1, c1, k1⟩ := clear_spec w q h
    have hs : q.clear.mySize = 0 := rfl
    obtain ⟨q2, e2, w2, c2, k2⟩ := runOps_spec w rest q.clear w1 ha2 (by rw [hs, k1]; omega)
    refine ⟨q2, ?_, w2, ?_, fun hB => ?_⟩
    · show (some q.clear).bind (fun q1 => runOps w q1 rest) = some q2
      rw [Option.some_bind, e2]
    · rw [c2, c1]
      rfl
    · rw [hn] at hB
      rw [k2 (by rw [hs, k1]; omega), k1]

theorem create_spec {α : Type} (w capacity : Nat) (buffer : Nat → α) (hpos : 0 < capacity)
    (hlt : capacity < 2 ^ w) :
    ∃ q, create w capacity (some buffer) = some q ∧ WellFormed w q ∧ contents q = [] ∧
      q.myCapacity = capacity ∧ q.mySize = 0 := by
  have e : capacity % 2 ^ w = capacity := Nat.mod_eq_of_lt hlt
  refine ⟨_, rfl, ⟨?_, ?_, Nat.zero_le _, ?_, (Nat.zero_mod _).symm⟩, rfl, e, rfl⟩
  · show 0 < capacity % 2 ^ w
    rw [e]
    exact hpos
  · show capacity % 2 ^ w < 2 ^ w
    rw [e]
    exact hlt
  · show 0 < capacity % 2 ^ w
    rw [e]
    exact hpos

/-- The element returned by `front` is the head of the list. -/
theorem front_spec {α : Type} (w : Nat) (q : RegWriteQueue α) (h : WellFormed w q)
    (hne : contents q ≠ []) : (contents q).head? = some q.front := by
  have hs : q.mySize ≠ 0 := by
    intro e
    apply hne
    unfold contents
    rw [e]
    rfl
  obtain ⟨n, hn⟩ : ∃ n, q.mySize = n + 1 := ⟨q.mySize - 1, by omega⟩
  unfold contents front
  rw [hn, List.range_succ_eq_map, List.map_cons, List.head?_cons, Nat.add_zero,
    Nat.mod_eq_of_lt h.head_lt]

theorem runOps_append {α : Type} (w : Nat) : ∀ (a b : List (QueueOp α)) (q : RegWriteQueue α),
    runOps w q (a ++ b) = (runOps w q a).bind (fun q1 => runOps w q1 b)
  | [], _, _ => rfl
  | op :: rest, b, q => by
    show (applyOp w q op).bind (fun q1 => runOps w q1 (rest ++ b)) =
      ((applyOp w q op).bind (fun q1 => runOps w q1 rest)).bind (fun q1 => runOps w q1 b)
    cases applyOp w q op with
    | none => rfl
    | some q1 =>
      rw [Option.some_bind, Option.some_bind]
      exact runOps_append w rest b q1

theorem enqueues_replicate {α : Type} (x : α) (f : Option (Nat → α)) : ∀ n,
    enqueues (List.replicate n (QueueOp.enqueue x f)) = n
  | 0 => rfl
  | n + 1 => by
    rw [List.replicate_succ]
    show enqueues (List.replicate n (QueueOp.enqueue x f)) + 1 = n + 1
    rw [enqueues_replicate x f n]

theorem allocates_replicate {α : Type} (x : α) (buffer : Nat → α) : ∀ n,
    allocates (List.replicate n (QueueOp.enqueue x (some buffer))) = true
  | 0 => rfl
  | n + 1 => by
    rw [List.replicate_succ]
    show ((some buffer).isSome && allocates (List.replicate n (QueueOp.enqueue x (some buffer))))
      = true
    rw [allocates_replicate x buffer n]
    rfl

theorem foldl_enqueues {α : Type} (x : α) (f : Option (Nat → α)) : ∀ (n : Nat) (l : List α),
    (List.replicate n (QueueOp.enqueue x f)).foldl listStep l = l ++ List.replicate n x
  | 0, l => by
    rw [List.replicate_zero, List.replicate_zero, List.foldl_nil, List.append_nil]
  | n + 1, l => by
    rw [List.replicate_succ, List.foldl_cons, foldl_enqueues x f n, List.replicate_succ]
    show l ++ [x] ++ List.replicate n x = l ++ x :: List.replicate n x
    rw [List.append_assoc]
    rfl

/-- The run of `n` enqueues into a queue with room for them: no allocation
is made and the capacity stays. -/
theorem fill_spec {α : Type} (w : Nat) (x : α) (buffer : Nat → α) (q : RegWriteQueue α)
    (n : Nat) (h : WellFormed w q) (hroom : q.mySize + n ≤ q.myCapacity) :
    ∃ q1, runOps w q (List.replicate n (QueueOp.enqueue x (some buffer))) = some q1 ∧
      WellFormed w q1 ∧ contents q1 = contents q ++ List.replicate n x ∧
      q1.mySize = q.mySize + n ∧ q1.myCapacity = q.myCapacity := by
  have hB : q.mySize + enqueues (List.replicate n (QueueOp.enqueue x (some buffer)))
      ≤ q.myCapacity := by
    rw [enqueues_replicate]
    exact hroom
  obtain ⟨q1, e, wq, c, k⟩ := runOps_spec w _ q h (allocates_replicate x buffer n) (Or.inr hB)
  rw [foldl_enqueues] at c
  refine ⟨q1, e, wq, c, ?_, k hB⟩
  rw [size_eq_length q1, c, List.length_append, List.length_replicate, ← size_eq_length q]

/-- A new queue of capacity `m` takes `2 * m` enqueues when `2 * m` fits in
`w` bits and `m` is less than `2^32`: the first `m` fill it, the next one
doubles its capacity and the remaining ones fill it again. -/
theorem double_fill {α : Type} (w : Nat) (x : α) (buffer : Nat → α) (q : RegWriteQueue α)
    (m : Nat) (h : WellFormed w q) (hs : q.mySize = 0) (hc : q.myCapacity = m)
    (hw : 2 * m < 2 ^ w) (hm : m < 2 ^ 32) :
    ∃ q3, runOps w q (List.replicate (2 * m) (QueueOp.enqueue x (some buffer))) = some q3 ∧
      WellFormed w q3 ∧ contents q3 = contents q ++ List.replicate (2 * m) x ∧
      q3.mySize = 2 * m ∧ q3.myCapacity = 2 * m := by
  have hpos : 0 < m := by rw [← hc]; exact h.capacity_pos
  obtain ⟨q1, e1, w1, c1, s1, k1⟩ := fill_spec w x buffer q m h (by rw [hs, hc]; omega)
  rw [hs, Nat.zero_add] at s1
  rw [hc] at k1
  obtain ⟨q2, e2, w2, c2, k2⟩ :=
    enqueue_full w q1 x buffer w1 (by rw [s1, k1]) (by rw [k1]; exact hw) (by rw [s1]; exact hm)
  have s2 : q2.mySize = m + 1 := by
    rw [size_eq_length q2, c2, List.length_append, ← size_eq_length q1, s1]
    rfl
  rw [k1] at k2
  obtain ⟨q3, e3, w3, c3, s3, k3⟩ :=
    fill_spec w x buffer q2 (m - 1) w2 (by rw [s2, k2]; omega)
  have en : 2 * m = m + ((m - 1) + 1) := by omega
  refine ⟨q3, ?_, w3, ?_, by rw [s3, s2]; omega, by rw [k3, k2]⟩
  · rw [en, List.replicate_add, List.replicate_succ, runOps_append, e1, Option.some_bind]
    show (q1.enqueue w x (some buffer)).bind (fun q => runOps w q _) = some q3
    rw [e2, Option.some_bind, e3]
  · rw [c3, c2, c1, en, List.replicate_add, List.replicate_succ, List.append_assoc,
      List.append_assoc]
    rfl

/-- The queue and the list: a queue built with a capacity `0 < capacity < 2^w`
is well formed and stands for the empty list.  On every well-formed queue
`size()` is the length of the list and at most the capacity,
`myTail = (myHead + mySize) mod myCapacity`, `front()` is the head of a
non-empty list, `clear` empties the list, `dequeue` removes the head and does
nothing on the empty list, and `enqueue` appends at the back, doubling the
capacity when the queue is full, provided the allocation succeeds, the doubled
capacity fits in `w` bits and the queue holds fewer than `2^32` elements; each
operation yields a well-formed queue again.  Hence after every sequence of
operations whose allocations succeed and whose number `n` of enqueue
operations has `2 * n ≤ 2^w` and `n < 2^32`, the queue is well formed and
stands for the list the operations produce from the empty list.  (`size()`
returns `mySize` as a `uInt32`, which is `mySize` itself below `2^32`.) -/
theorem fifo_refinement {α : Type} (w capacity : Nat) (buffer : Nat → α) (hpos : 0 < capacity)
    (hlt : capacity < 2 ^ w) :
    (∃ q0, create w capacity (some buffer) = some q0 ∧ WellFormed w q0 ∧ contents q0 = [] ∧
      ∀ ops : List (QueueOp α), allocates ops = true → 2 * enqueues ops ≤ 2 ^ w →
        enqueues ops < 2 ^ 32 →
        ∃ q, runOps w q0 ops = some q ∧ WellFormed w q ∧
          contents q = ops.foldl listStep [] ∧ q.size = (ops.foldl listStep []).length) ∧
    (∀ q : RegWriteQueue α, WellFormed w q →
      q.size = (contents q).length ∧ q.size ≤ q.myCapacity ∧
      q.myTail = (q.myHead + q.mySize) % q.myCapacity ∧
      (contents q ≠ [] → (contents q).head? = some q.front) ∧
      (WellFormed w q.clear ∧ contents q.clear = []) ∧
      (∃ q1, q.dequeue w = some q1 ∧ WellFormed w q1 ∧ contents q1 = (contents q).tail) ∧
      (∀ (x : α) (b : Nat → α),
        (q.mySize = q.myCapacity → 2 * q.myCapacity < 2 ^ w ∧ q.mySize < 2 ^ 32) →
        ∃ q1, q.enqueue w x (some b) = some q1 ∧ WellFormed w q1 ∧
          contents q1 = contents q ++ [x] ∧
          q1.myCapacity = if q.mySize = q.myCapacity then 2 * q.myCapacity
            else q.myCapacity)) := by
  obtain ⟨q0, e0, w0, c0, _, s0⟩ := create_spec w capacity buffer hpos hlt
  refine ⟨⟨q0, e0, w0, c0, fun ops ha h1 h2 => ?_⟩,
    fun q h => ⟨(contents_length q).symm, h.size_le, h.tail_eq,
    front_spec w q h, ?_, ?_, fun x b hg => ?_⟩⟩
  · obtain ⟨q, e, wq, c, _⟩ := runOps_spec w ops q0 w0 ha (Or.inl (by rw [s0]; omega))
    rw [c0] at c
    exact ⟨q, e, wq, c, by rw [← c, contents_length]⟩
  · exact ⟨(clear_spec w q h).1, (clear_spec w q h).2.1⟩
  · obtain ⟨q1, e1, w1, c1, _⟩ := dequeue_spec w q h
    exact ⟨q1, e1, w1, c1⟩
  · by_cases hfull : q.mySize = q.myCapacity
    · rw [if_pos hfull]
      exact enqueue_full w q x b h hfull (hg hfull).1 (hg hfull).2
    · rw [if_neg hfull]
      exact enqueue_room w q x (some b) h (Nat.lt_of_le_of_ne h.size_le hfull)

end RegWriteQueue

namespace Thumbulator

/-! ## Claim C11: the parity of the program counter -/

/-- C11 (as stated) fails: right after `reset` register 15 is `0xC0B`, with
bit 0 set, and it is `0xC0D` after one more step (here a breakpoint). -/
theorem reset_pc_bit0_set :
    read_register (reset bkptState).2 15 = 0xC0B ∧
    (read_register (reset bkptState).2 15).testBit 0 = true ∧
    read_register (execute (reset bkptState).2).2 15 = 0xC0D := by
  decide

/-- C11 (amended): the program counter is always odd.  In every state
reachable from `reset` by any number of `execute` steps, none of which decodes
an opcode that loads register 15 from a register or from the stack (ADD(4) or
MOV(3) with `rd = 15`, POP with the PC bit), the interpreter is in supervisor
mode and register 15 has bit 0 set. -/
theorem pc_always_odd (s0 t : Thumbulator) (h : Reachable (fun op => ¬ LoadsPC op) s0 t) :
    t.cpsr &&& 0x1F = MODE_SVC ∧ (read_register t 15).testBit 0 = true := by
  have inv : t.cpsr &&& 0x1F = MODE_SVC ∧ t.reg_sys 15 % 2 = 1 := by
    induction h with
    | reset =>
      rw [reset_snd]
      refine ⟨?_, ?_⟩
      · show (0xF3 : Nat) &&& 0x1F = MODE_SVC
        decide
      · show Function.update s0.reg_sys 15 0x00000c0b 15 % 2 = 1
        rw [Function.update_same]
    | step op _ hf hl ih => exact execute_pc_odd _ op ih.1 ih.2 hf hl
  refine ⟨inv.1, ?_⟩
  rw [read_register_15 t inv.1, Nat.testBit_zero]
  exact decide_eq_true inv.2

/-- Witness for C11 (amended): the state after `reset` and one step on the
ROM of `branchState` (the branch `0xE400`). -/
theorem pc_always_odd_witness :
    Fetches (reset branchState).2 0xE400 ∧ ¬ LoadsPC 0xE400 ∧
    (read_register (execute (reset branchState).2).2 15).testBit 0 = true :=
  ⟨by decide, by decide,
   (pc_always_odd branchState _
    (Reachable.step 0xE400 Reachable.reset (by decide) (by decide))).2⟩

/-! ## Claim C12: what `reset` initializes -/

/-- C12 (as stated) fails: `reset` does not write registers 0..14 of the
shared bank.  Two states over the same ROM and RAM that differ in register 0
still differ in it after `reset`, and `run` on the program
`STR r0, [sp, #0]; BKPT` ends with different RAM contents. -/
theorem reset_keeps_registers :
    ((strState 1).rom = (strState 2).rom ∧ (strState 1).ram = (strState 2).ram) ∧
    ((reset (strState 1)).2.reg_sys 0 = 1 ∧ (reset (strState 2)).2.reg_sys 0 = 2) ∧
    ((run 2 (strState 1)).map (fun t => t.ram 0xFDA) = some 1 ∧
      (run 2 (strState 2)).map (fun t => t.ram 0xFDA) = some 2) :=
  ⟨⟨rfl, rfl⟩, by decide, by decide⟩

/-- C12 (amended): whatever the prior states, the states after `reset` are
equal on `cpsr`, registers 13 and 14 of the shadow bank, register 15 of the
shared bank, `mamcr` and the four counters; `reset` leaves the other registers
of both banks and the latch `halfadd` as they were.  So for two states over
the same ROM and RAM that agree on those fields, the states after `reset` are
equal and `run` has the same outcome. -/
theorem reset_reinitializes (s1 s2 : Thumbulator) :
    ((reset s1).2.cpsr = (reset s2).2.cpsr ∧
      (reset s1).2.reg_svc 13 = (reset s2).2.reg_svc 13 ∧
      (reset s1).2.reg_svc 14 = (reset s2).2.reg_svc 14 ∧
      (reset s1).2.reg_sys 15 = (reset s2).2.reg_sys 15 ∧
      (reset s1).2.mamcr = (reset s2).2.mamcr ∧
      (reset s1).2.instructions = (reset s2).2.instructions ∧
      (reset s1).2.fetches = (reset s2).2.fetches ∧
      (reset s1).2.reads = (reset s2).2.reads ∧
      (reset s1).2.writes = (reset s2).2.writes) ∧
    ((∀ i, i ≠ 15 → (reset s1).2.reg_sys i = s1.reg_sys i) ∧
      (∀ i, i ≠ 13 → i ≠ 14 → (reset s1).2.reg_svc i = s1.reg_svc i) ∧
      (reset s1).2.halfadd = s1.halfadd) ∧
    (s1.rom = s2.rom → s1.ram = s2.ram → s1.MSB_FIRST = s2.MSB_FIRST →
      s1.halfadd = s2.halfadd → (∀ i, i ≠ 15 → s1.reg_sys i = s2.reg_sys i) →
      (∀ i, i ≠ 13 → i ≠ 14 → s1.reg_svc i = s2.reg_svc i) →
      (reset s1).2 = (reset s2).2 ∧ ∀ fuel, run fuel s1 = run fuel s2) := by
  refine ⟨⟨rfl, rfl, rfl, rfl, rfl, rfl, rfl, rfl, rfl⟩, ⟨fun i hi => ?_, fun i h13 h14 => ?_, rfl⟩,
    fun hrom hram hmsb hhalf hsys hsvc => ?_⟩
  · rw [reset_snd]
    exact Function.update_noteq hi _ _
  · rw [reset_snd]
    show Function.update (Function.update s1.reg_svc 13 0x40001fb4) 14 0x00000c00 i = _
    rw [Function.update_noteq h14, Function.update_noteq h13]
  · have e : (reset s1).2 = (reset s2).2 := by
      rw [reset_snd, reset_snd, hrom, hram, hmsb, hhalf]
      have e1 : Function.update s1.reg_sys 15 0x00000c0b
          = Function.update s2.reg_sys 15 0x00000c0b := by
        funext i
        by_cases hi : i = 15
        · rw [hi, Function.update_same, Function.update_same]
        · rw [Function.update_noteq hi, Function.update_noteq hi, hsys i hi]
      have e2 : Function.update (Function.update s1.reg_svc 13 0x40001fb4) 14 0x00000c00
          = Function.update (Function.update s2.reg_svc 13 0x40001fb4) 14 0x00000c00 := by
        funext i
        by_cases h14 : i = 14
        · rw [h14, Function.update_same, Function.update_same]
        · rw [Function.update_noteq h14, Function.update_noteq h14]
          by_cases h13 : i = 13
          · rw [h13, Function.update_same, Function.update_same]
          · rw [Function.update_noteq h13, Function.update_noteq h13, hsvc i h13 h14]
      rw [e1, e2]
    refine ⟨e, fun fuel => ?_⟩
    unfold run
    rw [e]

/-- Witness for C12 (amended): `bkptState` and `staleState`, which differ in
every field `reset` writes. -/
theorem reset_reinitializes_witness :
    (bkptState.cpsr ≠ staleState.cpsr ∧ bkptState.mamcr ≠ staleState.mamcr) ∧
    (reset bkptState).2 = (reset staleState).2 ∧
    ∀ fuel, run fuel bkptState = run fuel staleState :=
  ⟨by decide,
   (reset_reinitializes bkptState staleState).2.2 rfl rfl rfl rfl
    (fun i hi => by simp [bkptState, staleState, hi])
    (fun i h13 h14 => by simp [bkptState, staleState, h13, h14])⟩

/-! ## Claim C13: the state after `reset` -/

/-- C13: for every prior state, `reset` returns 0 and leaves `cpsr = 0xF3`
(T, I and F set, mode field `0x13`, N, Z, C and V clear), register 13 =
`0x40001FB4`, register 14 = `0x00000C00`, register 15 = `0x00000C0B`,
`mamcr = 0` and all four counters 0. -/
theorem reset_postcondition (s : Thumbulator) :
    (reset s).1 = 0 ∧
    (reset s).2.cpsr = 0xF3 ∧
    ((reset s).2.cpsr &&& CPSR_T ≠ 0 ∧ (reset s).2.cpsr &&& CPSR_I ≠ 0 ∧
      (reset s).2.cpsr &&& CPSR_F ≠ 0 ∧ (reset s).2.cpsr &&& 0x1F = MODE_SVC ∧
      (reset s).2.cpsr &&& CPSR_N = 0 ∧ (reset s).2.cpsr &&& CPSR_Z = 0 ∧
      (reset s).2.cpsr &&& CPSR_C = 0 ∧ (reset s).2.cpsr &&& CPSR_V = 0) ∧
    read_register (reset s).2 13 = 0x40001FB4 ∧
    read_register (reset s).2 14 = 0x00000C00 ∧
    read_register (reset s).2 15 = 0x00000C0B ∧
    (reset s).2.mamcr = 0 ∧
    (reset s).2.instructions = 0 ∧ (reset s).2.fetches = 0 ∧
    (reset s).2.reads = 0 ∧ (reset s).2.writes = 0 := by
  have hc : (reset s).2.cpsr = 0xF3 := rfl
  refine ⟨rfl, hc, ?_, ?_, ?_, ?_, rfl, rfl, rfl, rfl, rfl⟩
  · rw [hc]; decide
  · rw [read_register_13 _ (by rw [hc]; decide), reset_snd]
    simp
  · have e : (14 : Nat) &&& 0xF = 14 := by decide
    unfold read_register
    simp only [e, hc]
    rw [if_pos (show (243 : Nat) &&& 31 = MODE_SVC by decide), if_pos (Or.inr trivial),
      reset_snd]
    simp
  · rw [read_register_15 _ (by rw [hc]; decide), reset_snd]
    simp

/-! ## Claim C14: the termination forms -/

/-- C14: in supervisor mode, for an opcode that is a BKPT (`0xBE00`-`0xBEFF`),
an SWI (`0xDF00`-`0xDFFF`), a CPS (`(op & 0xFFE8) = 0xB660`), a SETEND
(`(op & 0xFFF7) = 0xB650`), a reserved conditional branch (`0xDE00`-`0xDEFF`)
or that matches no pattern of the chain, `execute` returns 1 and the state
after the step is the state before it with register 15 advanced by 2, the
instruction counter by 1 and the fetch counter by 1. -/
theorem termination_forms (s : Thumbulator) (op : Nat) (hsvc : s.cpsr &&& 0x1F = MODE_SVC)
    (hfetch : Fetches s op)
    (hop : (0xBE00 ≤ op ∧ op ≤ 0xBEFF) ∨ (0xDF00 ≤ op ∧ op ≤ 0xDFFF) ∨
      op &&& 0xFFE8 = 0xB660 ∨ op &&& 0xFFF7 = 0xB650 ∨ (0xDE00 ≤ op ∧ op ≤ 0xDEFF) ∨
      ∀ p ∈ chain, op &&& p.mask ≠ p.value) :
    (execute s).1 = 1 ∧
    (execute s).2 = { s with
      reg_sys := Function.update s.reg_sys 15 (add32 (read_register s 15) 2)
      instructions := (s.instructions + 1) % 2 ^ 64
      fetches := (s.fetches + 1) % 2 ^ 64 } := by
  have e : execute s = (1, entered s) := by
    unfold Fetches at hfetch
    rw [execute_eq, hfetch]
    rcases hop with h | h | h | h | h | h
    · exact decode_BKPT _ _ _ (high_byte op 0xBE h.1 h.2 (by decide))
    · exact decode_SWI _ _ _ (high_byte op 0xDF h.1 h.2 (by decide))
    · exact decode_CPS _ _ _ h
    · exact decode_SETEND _ _ _ h
    · exact decode_reserved_branch _ _ _ (high_byte op 0xDE h.1 h.2 (by decide))
    · exact runChain_miss _ _ _ _ (fun q hq => Or.inl (h q hq))
  rw [e, entered_svc s hsvc, read_register_15 s hsvc]
  exact ⟨rfl, rfl⟩

/-- Witness for C14: the breakpoint opcode `0xBE00`, fetched at the entry
point by the state `(reset bkptState).2`. -/
theorem termination_forms_witness :
    ((reset bkptState).2.cpsr &&& 0x1F = MODE_SVC ∧ Fetches (reset bkptState).2 0xBE00) ∧
    (execute (reset bkptState).2).1 = 1 ∧
    (execute (reset bkptState).2).2 = { (reset bkptState).2 with
      reg_sys := Function.update (reset bkptState).2.reg_sys 15
        (add32 (read_register (reset bkptState).2 15) 2)
      instructions := ((reset bkptState).2.instructions + 1) % 2 ^ 64
      fetches := ((reset bkptState).2.fetches + 1) % 2 ^ 64 } :=
  ⟨by decide,
   termination_forms (reset bkptState).2 0xBE00 (by decide) (by decide)
    (Or.inl (by decide))⟩

/-! ## Claim C15: `write32` and two half-word writes -/

/-- C15 (as stated) fails at the peripheral address `0xE01FC000`: `write32`
returns without writing (`mamcr` stays 0), while the two half-word writes
store the low half of the data (1) in `mamcr`. -/
theorem write32_skips_mamcr :
    0xE01FC000 % 4 = 0 ∧
    (write32 branchState 0xE01FC000 1).mamcr = 0 ∧
    (write16 (write16 branchState 0xE01FC000 (1 &&& 0xFFFF)) (0xE01FC000 + 2) (1 >>> 16)).mamcr
      = 1 := by
  decide

/-- C15 (amended): for every 4-byte-aligned 32-bit address other than
`0xE01FC000` and every 32-bit data, RAM and `mamcr` after `write32(addr, data)`
equal those after `write16(addr, data & 0xFFFF)` followed by
`write16(addr+2, data >> 16)`; at `0xE01FC000` the RAM is equal as well, but
`write32` leaves `mamcr` unchanged while the two half-word writes set it to
`data & 0xFFFF`. -/
theorem write32_decomposes (s : Thumbulator) (addr data : Nat) (haddr : addr < 2 ^ 32)
    (h4 : addr % 4 = 0) (hdata : data < 2 ^ 32) :
    (write32 s addr data).ram
      = (write16 (write16 s addr (data &&& 0xFFFF)) (addr + 2) (data >>> 16)).ram ∧
    (addr ≠ 0xE01FC000 → (write32 s addr data).mamcr
      = (write16 (write16 s addr (data &&& 0xFFFF)) (addr + 2) (data >>> 16)).mamcr) ∧
    (addr = 0xE01FC000 → (write32 s addr data).mamcr = s.mamcr ∧
      (write16 (write16 s addr (data &&& 0xFFFF)) (addr + 2) (data >>> 16)).mamcr
        = data &&& 0xFFFF) := by
  have hn := and_F0000000 addr haddr
  have hn2 := and_F0000000 (addr + 2) (by omega)
  have hsame : (addr + 2) &&& 0xF0000000 = addr &&& 0xF0000000 := by
    rw [hn, hn2]; omega
  have h3 : ¬ addr &&& 3 ≠ 0 := by rw [and_three_eq]; omega
  by_cases hram : addr &&& 0xF0000000 = 0x40000000
  · -- the RAM region: `write32` is the two half-word writes
    have e : write32 s addr data
        = write16 (write16 s addr (data &&& 0xFFFF)) (addr + 2) (data >>> 16) := by
      unfold write32
      rw [if_neg h3, if_neg (by rw [hram]; decide), if_neg (by rw [hram]; decide),
        if_neg (by rw [hram]; decide), if_pos hram]
      have e0 : add32 addr 0 = addr := by unfold add32; omega
      have e2 : add32 addr 2 = addr + 2 := by unfold add32; omega
      have ed : (data >>> 16) &&& 0xFFFF = data >>> 16 := by
        rw [and_FFFF_eq, Nat.shiftRight_eq_div_pow]
        exact Nat.mod_eq_of_lt (by omega)
      simp only [e0, e2, ed, Nat.shiftRight_zero]
    have hne : addr ≠ 0xE01FC000 := by
      intro h; rw [h] at hram; revert hram; decide
    rw [e]
    exact ⟨rfl, fun _ => rfl, fun h => absurd h hne⟩
  · -- every other region: `write32` writes nothing
    have e : write32 s addr data = s := by
      unfold write32
      simp only [if_neg hram]
      repeat' split
      all_goals rfl
    have hne2 : addr + 2 ≠ 0xE01FC000 := by omega
    rw [e, write16_ram_other _ _ _ (by rw [hsame]; exact hram), write16_ram_other _ _ _ hram,
      write16_mamcr_other _ _ _ hne2]
    refine ⟨rfl, fun h => (write16_mamcr_other _ _ _ h).symm, fun h => ⟨rfl, ?_⟩⟩
    rw [h, write16_mamcr]

/-- Witness for C15 (amended): the RAM address `0x40000C00`. -/
theorem write32_decomposes_witness :
    (write32 branchState 0x40000C00 0x12345678).ram
      = (write16 (write16 branchState 0x40000C00 (0x12345678 &&& 0xFFFF)) (0x40000C00 + 2)
          (0x12345678 >>> 16)).ram ∧
    (write32 branchState 0x40000C00 0x12345678).mamcr
      = (write16 (write16 branchState 0x40000C00 (0x12345678 &&& 0xFFFF)) (0x40000C00 + 2)
          (0x12345678 >>> 16)).mamcr :=
  ⟨(write32_decomposes branchState 0x40000C00 0x12345678 (by decide) (by decide) (by decide)).1,
   (write32_decomposes branchState 0x40000C00 0x12345678 (by decide) (by decide) (by decide)).2.1
    (by decide)⟩

/-! ## Claim C16: rejected accesses -/

/-- C16: `write16` leaves the whole state unchanged for an address that is
odd, or strictly between `0x40001FFF` and `0x50000000`, or strictly between
`0x40000028` and `0x40000C00`; `read16` returns 0 and leaves the whole state
unchanged for an address that is odd, or strictly between `0x40001FFF` and
`0x50000000`, or strictly between `0x7FFF` and `0x10000000`; for an address
that is not a multiple of 4, `write32` changes nothing and `read32` returns 0
and changes nothing. -/
theorem rejected_access (s : Thumbulator) (addr data : Nat) :
    (addr % 2 = 1 ∨ (0x40001FFF < addr ∧ addr < 0x50000000) ∨
        (0x40000028 < addr ∧ addr < 0x40000C00) → write16 s addr data = s) ∧
    (addr % 2 = 1 ∨ (0x40001FFF < addr ∧ addr < 0x50000000) ∨
        (0x7FFF < addr ∧ addr < 0x10000000) → read16 s addr = (0, s)) ∧
    (addr % 4 ≠ 0 → write32 s addr data = s ∧ read32 s addr = (0, s)) := by
  refine ⟨fun h => ?_, fun h => ?_, fun h => ⟨?_, ?_⟩⟩
  · unfold write16
    split
    · rfl
    · split
      · rfl
      · rw [if_pos]
        rw [and_one_eq]
        omega
  · unfold read16
    split
    · rfl
    · split
      · rfl
      · rw [if_pos]
        rw [and_one_eq]
        omega
  · unfold write32
    rw [if_pos]
    rw [and_three_eq]
    exact h
  · unfold read32
    rw [if_pos]
    rw [and_three_eq]
    exact h

/-- Witness for C16: the odd address `0x40002001` inside the upper guard
window, on the state `bkptState`. -/
theorem rejected_access_witness :
    write16 bkptState 0x40002001 5 = bkptState ∧
    read16 bkptState 0x40002001 = (0, bkptState) ∧
    write32 bkptState 0x40002001 5 = bkptState ∧ read32 bkptState 0x40002001 = (0, bkptState) :=
  ⟨(rejected_access bkptState 0x40002001 5).1 (Or.inl (by decide)),
   (rejected_access bkptState 0x40002001 5).2.1 (Or.inr (Or.inl (by decide))),
   (rejected_access bkptState 0x40002001 5).2.2 (by decide)⟩

/-! ## Claim C17: memory indexing stays in range -/

/-- No primitive operation of a handler writes a RAM cell of index 4096 or
above. -/
theorem Reach.ram_high {s t : Thumbulator} (h : Reach s t) :
    ∀ i, 4096 ≤ i → t.ram i = s.ram i := by
  induction h with
  | refl => exact fun _ _ => rfl
  | write_register reg data _ ih =>
    unfold Thumbulator.write_register; simp only []; repeat' split
    all_goals exact ih
  | read16 addr _ ih =>
    unfold Thumbulator.read16; simp only []; repeat' split
    all_goals exact ih
  | write16 addr data _ ih =>
    intro i hi
    have hne : i ≠ (addr &&& RAMADDMASK) >>> 1 := by
      have := ram_index_lt addr
      omega
    unfold Thumbulator.write16; simp only []; repeat' split
    all_goals first
      | exact ih i hi
      | exact (Function.update_noteq hne _ _).trans (ih i hi)
  | do_zflag x _ ih => unfold Thumbulator.do_zflag; split <;> exact ih
  | do_nflag x _ ih => unfold Thumbulator.do_nflag; split <;> exact ih
  | do_cflag a b c _ ih => unfold Thumbulator.do_cflag; simp only []; split <;> exact ih
  | do_sub_vflag a b c _ ih =>
    unfold Thumbulator.do_sub_vflag; simp only []; repeat' split
    all_goals exact ih
  | do_add_vflag a b c _ ih =>
    unfold Thumbulator.do_add_vflag; simp only []; repeat' split
    all_goals exact ih
  | do_cflag_bit x _ ih => unfold Thumbulator.do_cflag_bit; split <;> exact ih
  | do_vflag_bit x _ ih => unfold Thumbulator.do_vflag_bit; split <;> exact ih
  | halfadd v _ ih => exact ih

theorem fetch16_cell (s : Thumbulator) (addr : Nat) :
    (fetch16 s addr).1 = 0 ∨
    (fetch16 s addr).1 = loadHalf s (s.rom ((addr &&& ROMADDMASK) >>> 1)) ∨
    (fetch16 s addr).1 = loadHalf s (s.ram ((addr &&& RAMADDMASK) >>> 1)) := by
  unfold fetch16
  simp only []
  split
  · split
    · exact Or.inl rfl
    · exact Or.inr (Or.inl rfl)
  · split
    · exact Or.inr (Or.inr rfl)
    · exact Or.inl rfl

theorem read16_cell (s : Thumbulator) (addr : Nat) :
    (read16 s addr).1 = 0 ∨ (read16 s addr).1 = s.mamcr ∨
    (read16 s addr).1 = loadHalf s (s.rom ((addr &&& ROMADDMASK) >>> 1)) ∨
    (read16 s addr).1 = loadHalf s (s.ram ((addr &&& RAMADDMASK) >>> 1)) := by
  unfold read16
  simp only []
  repeat' split
  all_goals first
    | exact Or.inl rfl
    | exact Or.inr (Or.inl rfl)
    | exact Or.inr (Or.inr (Or.inl rfl))
    | exact Or.inr (Or.inr (Or.inr rfl))

theorem write16_cell (s : Thumbulator) (addr data : Nat) :
    (write16 s addr data).ram = s.ram ∨
    (write16 s addr data).ram =
      Function.update s.ram ((addr &&& RAMADDMASK) >>> 1) (storeHalf s data) := by
  unfold write16
  simp only []
  repeat' split
  all_goals first
    | exact Or.inl rfl
    | exact Or.inr rfl

/-- C17: memory indexing never goes out of range.  For every address the ROM
index `(addr & 0x7FFF) >> 1` is below 16384 and the RAM index
`(addr & 0x1FFF) >> 1` is below 4096; `fetch16` and `read16` return 0, `mamcr`
or the ROM or RAM halfword at that index, and `write16` changes at most the RAM
halfword at that index.  Consequently an `execute` step reads no ROM cell of
index 16384 or above and no RAM cell of index 4096 or above (two states that
differ only in such cells give the same return value and states that again
differ only in such cells), writes no such RAM cell, and never writes the
ROM. -/
theorem memory_index_in_range :
    (∀ addr : Nat, (addr &&& ROMADDMASK) >>> 1 < 16384 ∧ (addr &&& RAMADDMASK) >>> 1 < 4096) ∧
    (∀ (s : Thumbulator) (addr : Nat),
      ((fetch16 s addr).1 = 0 ∨
        (fetch16 s addr).1 = loadHalf s (s.rom ((addr &&& ROMADDMASK) >>> 1)) ∨
        (fetch16 s addr).1 = loadHalf s (s.ram ((addr &&& RAMADDMASK) >>> 1))) ∧
      ((read16 s addr).1 = 0 ∨ (read16 s addr).1 = s.mamcr ∨
        (read16 s addr).1 = loadHalf s (s.rom ((addr &&& ROMADDMASK) >>> 1)) ∨
        (read16 s addr).1 = loadHalf s (s.ram ((addr &&& RAMADDMASK) >>> 1)))) ∧
    (∀ (s : Thumbulator) (addr data : Nat),
      (write16 s addr data).ram = s.ram ∨
      (write16 s addr data).ram =
        Function.update s.ram ((addr &&& RAMADDMASK) >>> 1) (storeHalf s data)) ∧
    (∀ s t : Thumbulator, clip s = clip t →
      (execute s).1 = (execute t).1 ∧ clip (execute s).2 = clip (execute t).2) ∧
    (∀ (s : Thumbulator) (i : Nat), 4096 ≤ i → (execute s).2.ram i = s.ram i) ∧
    (∀ s : Thumbulator, (execute s).2.rom = s.rom) := by
  refine ⟨fun addr => ⟨rom_index_lt addr, ram_index_lt addr⟩,
    fun s addr => ⟨fetch16_cell s addr, read16_cell s addr⟩, write16_cell, ?_, ?_, ?_⟩
  · intro s t hc
    have hs := execute_comm clip_commutes s
    have ht := execute_comm clip_commutes t
    rw [hc, ht] at hs
    exact ⟨(Prod.mk.inj hs).1.symm, (Prod.mk.inj hs).2.symm⟩
  · intro s i hi
    rw [execute_eq, (runChain_reach _ _ _ chain chain_reach).ram_high i hi,
      (entered_frame s).1]
  · intro s
    rw [execute_eq, (runChain_frame _ _ _).2.2.1, (entered_frame s).2.1]

theorem clip_junkState : clip pushState = clip junkState := by
  have e1 : (fun i => if i < 16384 then pushState.rom i else 0) =
      fun i => if i < 16384 then junkState.rom i else 0 := by
    funext i
    by_cases h : i < 16384
    · rw [if_pos h, if_pos h]
      exact (if_pos h).symm
    · rw [if_neg h, if_neg h]
  have e2 : (fun i => if i < 4096 then pushState.ram i else 0) =
      fun i => if i < 4096 then junkState.ram i else 0 := by
    funext i
    by_cases h : i < 4096
    · rw [if_pos h, if_pos h]
      exact (if_pos h).symm
    · rw [if_neg h, if_neg h]
  unfold clip
  rw [e1, e2]
  rfl

/-- Witness for C17: `pushState` and `junkState`, which differ in every cell
outside the arrays, execute `PUSH {r0, r2}` alike. -/
theorem memory_index_in_range_witness :
    (pushState.ram 4096 ≠ junkState.ram 4096 ∧ pushState.rom 16384 ≠ junkState.rom 16384) ∧
    ((execute pushState).1 = (execute junkState).1 ∧
      clip (execute pushState).2 = clip (execute junkState).2) ∧
    (execute junkState).2.ram 4096 = junkState.ram 4096 :=
  ⟨by decide, memory_index_in_range.2.2.2.1 pushState junkState clip_junkState,
   memory_index_in_range.2.2.2.2.1 junkState 4096 (by decide)⟩

/-! ## Claim C18: the reserved vector window of `fetch16` -/

/-- C18 (as stated) fails: in a ROM holding `0xBE00` in every halfword,
`fetch16` returns 0 at the offsets 0, 2, 4 and 6 of the first two words as
well, not the ROM halfword. -/
theorem fetch16_no_read_through :
    (∀ a ∈ [0, 2, 4, 6], (fetch16 bkptState a).1 = 0) ∧
    (∀ a ∈ [0, 2, 4, 6], bkptState.rom ((a &&& 0x7FFF) >>> 1) = 0xBE00) := by
  decide

/-- C18 (amended): for every ROM-region address (top nibble 0), `fetch16`
returns 0 when the masked offset `addr & 0x7FFF` is below `0x50`, with no
exception, and the ROM halfword of index `(addr & 0x7FFF) >> 1` (as is without
`MSB_FIRST`, byte-swapped with it) when the masked offset is at least `0x50`.
The read-through of the first two words is in `fetch32` only: at the addresses
0 and 4 it returns the 32-bit ROM word read by `read32`. -/
theorem fetch16_vector_window (s : Thumbulator) (addr : Nat)
    (hrom : addr &&& 0xF0000000 = 0x00000000) :
    (addr &&& 0x7FFF < 0x50 → (fetch16 s addr).1 = 0) ∧
    (0x50 ≤ addr &&& 0x7FFF →
      (fetch16 s addr).1 = loadHalf s (s.rom ((addr &&& 0x7FFF) >>> 1)) ∧
      (s.MSB_FIRST = false → (fetch16 s addr).1 = s.rom ((addr &&& 0x7FFF) >>> 1))) ∧
    (fetch32 s 0 = read32 s 0 ∧ fetch32 s 4 = read32 s 4 ∧
      (read32 s 0).1 = shl32 (loadHalf s (s.rom 1)) 16 ||| loadHalf s (s.rom 0) ∧
      (read32 s 4).1 = shl32 (loadHalf s (s.rom 3)) 16 ||| loadHalf s (s.rom 2)) := by
  refine ⟨fun h => ?_, fun h => ?_, ?_⟩
  · unfold fetch16
    simp only [ROMADDMASK]
    rw [if_pos hrom, if_pos h]
  · have e : (fetch16 s addr).1 = loadHalf s (s.rom ((addr &&& 0x7FFF) >>> 1)) := by
      unfold fetch16
      simp only [ROMADDMASK]
      rw [if_pos hrom, if_neg (by omega)]
      rfl
    refine ⟨e, fun hm => ?_⟩
    rw [e]
    unfold loadHalf
    rw [hm]
    rfl
  · refine ⟨rfl, rfl, ?_, ?_⟩
    · unfold read32 read16
      simp +decide [add32, loadHalf, ROMADDMASK]
      rw [show (2 &&& 32767) >>> 1 = 1 by decide]
    · unfold read32 read16
      simp +decide [add32, loadHalf, ROMADDMASK]
      rw [show (6 &&& 32767) >>> 1 = 3 by decide, show (4 &&& 32767) >>> 1 = 2 by decide]

/-- Witness for C18 (amended): the entry address `0xC09` of the ROM of
`bkptState`. -/
theorem fetch16_vector_window_witness :
    (0xC09 &&& 0xF0000000 = 0x00000000 ∧ 0x50 ≤ 0xC09 &&& 0x7FFF) ∧
    (fetch16 bkptState 0xC09).1 = bkptState.rom ((0xC09 &&& 0x7FFF) >>> 1) :=
  ⟨by decide,
   ((fetch16_vector_window bkptState 0xC09 (by decide)).2.1 (by decide)).2 rfl⟩

/-! ## Claim C19: the register file in supervisor mode -/

/-- C19: in supervisor mode `write_register(n, v)` returns `v`; afterwards
`read_register(m)` returns `v` when `m & 15 = n & 15` and what it returned
before otherwise; for `n & 15` equal to 13 or 14 the value is stored in the
shadow bank and the shared bank is untouched, for every other index
(15 included) it is stored in the shared bank and the shadow bank is
untouched. -/
theorem register_file_svc (s : Thumbulator) (n v : Nat) (hsvc : s.cpsr &&& 0x1F = MODE_SVC) :
    (write_register s n v).1 = v ∧
    (∀ m, read_register (write_register s n v).2 m =
      if m &&& 15 = n &&& 15 then v else read_register s m) ∧
    (n &&& 15 = 13 ∨ n &&& 15 = 14 →
      (write_register s n v).2.reg_svc = Function.update s.reg_svc (n &&& 15) v ∧
      (write_register s n v).2.reg_sys = s.reg_sys) ∧
    (¬(n &&& 15 = 13 ∨ n &&& 15 = 14) →
      (write_register s n v).2.reg_sys = Function.update s.reg_sys (n &&& 15) v ∧
      (write_register s n v).2.reg_svc = s.reg_svc) := by
  refine ⟨?_, fun m => ?_, fun h => ?_, fun h => ?_⟩
  · unfold write_register
    simp only [hsvc, if_true]
    split <;> rfl
  · unfold write_register read_register
    simp only [hsvc, if_true]
    by_cases hn : n &&& 15 = 13 ∨ n &&& 15 = 14
    · rw [if_pos hn]
      simp only [hsvc, if_true]
      by_cases hm : m &&& 15 = 13 ∨ m &&& 15 = 14
      · rw [if_pos hm, if_pos hm]
        by_cases e : m &&& 15 = n &&& 15
        · rw [if_pos e, e, Function.update_same]
        · rw [if_neg e, Function.update_noteq e]
      · rw [if_neg hm, if_neg hm, if_neg]
        intro e
        exact hm (e ▸ hn)
    · rw [if_neg hn]
      simp only [hsvc, if_true]
      by_cases hm : m &&& 15 = 13 ∨ m &&& 15 = 14
      · rw [if_pos hm, if_pos hm, if_neg]
        intro e
        exact hn (e ▸ hm)
      · rw [if_neg hm, if_neg hm]
        by_cases e : m &&& 15 = n &&& 15
        · rw [if_pos e, e, Function.update_same]
        · rw [if_neg e, Function.update_noteq e]
  · unfold write_register
    simp only [hsvc, if_true]
    rw [if_pos h]
    exact ⟨rfl, rfl⟩
  · unfold write_register
    simp only [hsvc, if_true]
    rw [if_neg h]
    exact ⟨rfl, rfl⟩

/-- Witness for C19: writing `0x1234` to index `29` (`29 & 15 = 13`, the
stack pointer) of the state `branchState`. -/
theorem register_file_svc_witness :
    branchState.cpsr &&& 0x1F = MODE_SVC ∧
    (write_register branchState 29 0x1234).1 = 0x1234 ∧
    read_register (write_register branchState 29 0x1234).2 13 = 0x1234 ∧
    read_register (write_register branchState 29 0x1234).2 15 = read_register branchState 15 ∧
    (write_register branchState 29 0x1234).2.reg_sys = branchState.reg_sys :=
  ⟨by decide, (register_file_svc branchState 29 0x1234 (by decide)).1,
   (register_file_svc branchState 29 0x1234 (by decide)).2.1 13,
   (register_file_svc branchState 29 0x1234 (by decide)).2.1 15,
   ((register_file_svc branchState 29 0x1234 (by decide)).2.2.1 (Or.inl (by decide))).2⟩

/-! ## Claim C20: the register file in other modes -/

/-- C20: when the mode field of `cpsr` is not `0x13`, `read_register(n)`
returns 0, and `write_register(n, v)` returns 0 and leaves the whole state
(both register banks included) unchanged. -/
theorem register_file_stub (s : Thumbulator) (n v : Nat) (hmode : s.cpsr &&& 0x1F ≠ MODE_SVC) :
    read_register s n = 0 ∧ write_register s n v = (0, s) := by
  unfold read_register write_register
  simp only [hmode, if_false]
  exact ⟨trivial, trivial⟩

/-- Witness for C20: the state `bkptState`, whose mode field is 0. -/
theorem register_file_stub_witness :
    bkptState.cpsr &&& 0x1F ≠ MODE_SVC ∧
    read_register bkptState 13 = 0 ∧ write_register bkptState 13 7 = (0, bkptState) :=
  ⟨by decide, register_file_stub bkptState 13 7 (by decide)⟩

/-! ## Claim C21: the byte order of the host -/

/-- C21: let `l` be a state of the build without `MSB_FIRST` and `m` a state
of the build with it such that the ROM and RAM cells of `m` are the byte swaps
of the cells of `l` and all other state is equal (`ByteSwapped l m`).  Then
`fetch16` and `read16` return the same value on both at every address,
`execute` returns the same code, and the states after `fetch16`, `read16`,
`write16` and `execute` are again related in this way (equal registers, cpsr,
MAMCR, latch and counters; swapped arrays); `run` exits on both for the same
amounts of fuel, with related states, and it does exit on both within 500001
steps. -/
theorem byte_order_independent (l m : Thumbulator) (h : ByteSwapped l m) :
    (∀ a, (fetch16 l a).1 = (fetch16 m a).1 ∧ ByteSwapped (fetch16 l a).2 (fetch16 m a).2) ∧
    (∀ a, (read16 l a).1 = (read16 m a).1 ∧ ByteSwapped (read16 l a).2 (read16 m a).2) ∧
    (∀ a d, ByteSwapped (write16 l a d) (write16 m a d)) ∧
    ((execute l).1 = (execute m).1 ∧ ByteSwapped (execute l).2 (execute m).2) ∧
    (∀ fuel, (run fuel l = none ∧ run fuel m = none) ∨
      ∃ l1 m1, run fuel l = some l1 ∧ run fuel m = some m1 ∧ ByteSwapped l1 m1) ∧
    ∃ l1 m1, (∀ k, run (500001 + k) l = some l1 ∧ run (500001 + k) m = some m1) ∧
      ByteSwapped l1 m1 := by
  have hl := h.eq_toL
  have hM := h.buildM
  have hrom : ∀ i, m.rom i < 2 ^ 16 := fun i => by rw [h.rom i]; exact bswap16_lt _
  have hram : ∀ i, m.ram i < 2 ^ 16 := fun i => by rw [h.ram i]; exact bswap16_lt _
  subst hl
  refine ⟨fun a => ?_, fun a => ?_, fun a d => ?_, ?_, fun fuel => ?_, ?_⟩
  · rw [toL_fetch16]
    have e := fetch16_snd m a
    exact swapped_pair (fetch16 m a) (by rw [e]; exact hM) (fun i => by rw [e]; exact hrom i)
      (fun i => by rw [e]; exact hram i)
  · rw [toL_read16]
    have hR : Reach m (read16 m a).2 := Reach.read16 a (Reach.refl m)
    obtain ⟨_, _, f3, f4⟩ := hR.frame
    exact swapped_pair (read16 m a) (f4.trans hM) (fun i => by rw [f3]; exact hrom i)
      (hR.ram16 hram)
  · rw [toL_write16]
    exact byteSwapped_reach (Reach.write16 a d (Reach.refl m)) hM hrom hram
  · rw [execute_comm toL_commutes]
    obtain ⟨c1, c2, c3⟩ := execute_cells m hrom hram
    exact swapped_pair (execute m) (c1.trans hM) c2 c3
  · rw [run_comm toL_commutes]
    cases hr : run fuel m with
    | none => exact Or.inl ⟨rfl, rfl⟩
    | some t =>
      obtain ⟨c1, c2, c3⟩ := run_cells fuel m t hr hM hrom hram
      exact Or.inr ⟨toL t, t, rfl, rfl, byteSwapped_toL t c1 c2 c3⟩
  · obtain ⟨t, ht, _⟩ := run_exits m
    obtain ⟨c1, c2, c3⟩ := run_cells _ m t (ht 0) hM hrom hram
    refine ⟨toL t, t, fun k => ?_, byteSwapped_toL t c1 c2 c3⟩
    rw [run_comm toL_commutes, ht k]
    exact ⟨rfl, rfl⟩

/-- Witness for C21: the state `pushState` and its image `pushStateM` in the
build with `MSB_FIRST`. -/
theorem byte_order_independent_witness :
    ByteSwapped pushState pushStateM ∧
    (execute pushState).1 = (execute pushStateM).1 ∧
    ByteSwapped (execute pushState).2 (execute pushStateM).2 :=
  ⟨pushState_swapped, (byte_order_independent pushState pushStateM pushState_swapped).2.2.2.1⟩

end Thumbulator

namespace Sound

/-! ## Claim C22: serialization of the sound state -/

theorem toInt32_pattern (c : Int) (h1 : -2 ^ 31 ≤ c) (h2 : c < 2 ^ 31) :
    toInt32 (c % 2 ^ 32).toNat = c := by
  unfold toInt32
  split <;> omega

/-- C22: for an initialized `Sound` object `s` whose registers `0x15..0x1a`
are `uInt8` values and whose cycle counter is an `Int32` value, `save` on an
empty stream returns true and leaves `s` as it is; `load` of the stream it
produced into any initialized object `t` returns true, consumes the stream,
sets the registers `0x15..0x1a` of `t` to their values in `s`, sets the cycle
counter of `t` to that of `s` and leaves the register-write queue of `t`
empty.  On any object and any stream whose leading value is a string other
than `name`, `load` returns false and leaves the object as it is. -/
theorem save_load_roundtrip {α : Type} (name : String) (s t : Sound α)
    (hs : s.myIsInitializedFlag = true) (ht : t.myIsInitializedFlag = true)
    (hreg : ∀ a ∈ [0x15, 0x16, 0x17, 0x18, 0x19, 0x1a], s.myTIASound.get a < 2 ^ 8)
    (hc1 : -2 ^ 31 ≤ s.myLastRegisterSetCycle) (hc2 : s.myLastRegisterSetCycle < 2 ^ 31) :
    (save name s ⟨[]⟩).1 = true ∧ (save name s ⟨[]⟩).2.2 = s ∧
    (load name t (save name s ⟨[]⟩).2.1).1 = true ∧
    (load name t (save name s ⟨[]⟩).2.1).2.1.items = [] ∧
    (∀ a ∈ [0x15, 0x16, 0x17, 0x18, 0x19, 0x1a],
      (load name t (save name s ⟨[]⟩).2.1).2.2.myTIASound.get a = s.myTIASound.get a) ∧
    (load name t (save name s ⟨[]⟩).2.1).2.2.myLastRegisterSetCycle
      = s.myLastRegisterSetCycle ∧
    (load name t (save name s ⟨[]⟩).2.1).2.2.myRegWriteQueue.size = 0 ∧
    (∀ (u : Sound α) (other : String) (rest : List SerialItem), other ≠ name →
      (load name u ⟨SerialItem.str other :: rest⟩).1 = false ∧
      (load name u ⟨SerialItem.str other :: rest⟩).2.2 = u) := by
  have h15 := Nat.mod_eq_of_lt (hreg 0x15 (by decide))
  have h16 := Nat.mod_eq_of_lt (hreg 0x16 (by decide))
  have h17 := Nat.mod_eq_of_lt (hreg 0x17 (by decide))
  have h18 := Nat.mod_eq_of_lt (hreg 0x18 (by decide))
  have h19 := Nat.mod_eq_of_lt (hreg 0x19 (by decide))
  have h1a := Nat.mod_eq_of_lt (hreg 0x1a (by decide))
  have hcyc : toInt32 (s.myLastRegisterSetCycle % 4294967296).toNat =
      s.myLastRegisterSetCycle := toInt32_pattern _ hc1 hc2
  have hsave : (save name s ⟨[]⟩).2.1 = ⟨[SerialItem.str name,
      SerialItem.byte (s.myTIASound.get 0x15), SerialItem.byte (s.myTIASound.get 0x16),
      SerialItem.byte (s.myTIASound.get 0x17), SerialItem.byte (s.myTIASound.get 0x18),
      SerialItem.byte (s.myTIASound.get 0x19), SerialItem.byte (s.myTIASound.get 0x1a),
      SerialItem.int (s.myLastRegisterSetCycle % 2 ^ 32).toNat]⟩ := by
    simp only [save, hs, if_true, Serializer.putString, Serializer.putByte, Serializer.putInt,
      Nat.mod_mod, h15, h16, h17, h18, h19, h1a, List.nil_append, List.cons_append]
  refine ⟨rfl, rfl, ?_, ?_, ?_, ?_, ?_, ?_⟩
  · rw [hsave]
    simp [load, Serializer.getString, Serializer.getByte, Serializer.getInt, ht]
  · rw [hsave]
    simp [load, Serializer.getString, Serializer.getByte, Serializer.getInt, ht]
  · intro a ha
    rw [hsave]
    simp only [List.mem_cons, List.mem_singleton, List.not_mem_nil, or_false] at ha
    rcases ha with rfl | rfl | rfl | rfl | rfl | rfl <;>
      simp [load, Serializer.getString, Serializer.getByte, Serializer.getInt, ht,
        TIASound.set, TIASound.get, Function.update]
  · rw [hsave]
    simp [load, Serializer.getString, Serializer.getByte, Serializer.getInt, ht, hcyc]
  · rw [hsave]
    simp [load, Serializer.getString, Serializer.getByte, Serializer.getInt, ht,
      RegWriteQueue.clear, RegWriteQueue.size]
  · intro u other rest hne
    simp [load, Serializer.getString, hne]

/-- Witness for C22: the object `soundA` saved under the name `TIASound` and
loaded into `soundB`. -/
theorem save_load_roundtrip_witness :
    (load "TIASound" soundB (save "TIASound" soundA ⟨[]⟩).2.1).1 = true ∧
    (load "TIASound" soundB (save "TIASound" soundA ⟨[]⟩).2.1).2.2.myLastRegisterSetCycle
      = soundA.myLastRegisterSetCycle ∧
    (load "TIASound" soundB (save "TIASound" soundA ⟨[]⟩).2.1).2.2.myRegWriteQueue.size = 0 :=
  ⟨(save_load_roundtrip "TIASound" soundA soundB rfl rfl (by decide) (by decide)
      (by decide)).2.2.1,
   (save_load_roundtrip "TIASound" soundA soundB rfl rfl (by decide) (by decide)
      (by decide)).2.2.2.2.2.1,
   (save_load_roundtrip "TIASound" soundA soundB rfl rfl (by decide) (by decide)
      (by decide)).2.2.2.2.2.2.1⟩

end Sound

namespace Thumbulator

/-! ## Claim C23: the carry flag of SBC -/

/-- C23: the code at the failing input.  The state `sbcState` is in supervisor
mode, fetches `SBC r0, r1` (opcode `0x4188`), holds `r0 = 5`, `r1 = 3` and has
the carry flag set (no borrow pending).  The step returns 0 and leaves
`r0 = 2 = 5 - 3 - 0` with N, Z and V clear, but it leaves the C flag clear,
although `5 >= 3 + 0` and the carry-out of `5 + ~3 + 1` is 1: the SBC block
calls `do_cflag(ra, rb, 0)`, the carry of the sum `5 + 3`. -/
theorem SBC_carry_of_sum :
    sbcState.cpsr &&& 0x1F = MODE_SVC ∧ Fetches sbcState 0x4188 ∧
    read_register sbcState 0 = 5 ∧ read_register sbcState 1 = 3 ∧
    sbcState.cpsr.testBit 29 = true ∧
    (execute sbcState).1 = 0 ∧ read_register (execute sbcState).2 0 = 2 ∧
    (execute sbcState).2.cpsr.testBit 31 = false ∧
    (execute sbcState).2.cpsr.testBit 30 = false ∧
    (execute sbcState).2.cpsr.testBit 28 = false ∧
    (execute sbcState).2.cpsr.testBit 29 = false ∧
    3 + (1 - 1) ≤ 5 ∧ 2 ^ 32 ≤ 5 + not32 3 + 1 := by
  decide

/-! ## Claim C24: the overflow flag of ADD(2) -/

/-- C24: the code at the failing input.  The state `add2State` is in
supervisor mode, fetches `ADD r0, #1` (ADD(2), opcode `0x3001`) and holds
`r0 = 0x7FFFFFFF`; the state `add3State` differs only in fetching
`ADD r0, r0, r1` (ADD(3), opcode `0x1840`) with `r1 = 1`.  Both steps return
0 and leave `r0 = 0x80000000` with N set, Z clear and C clear, but ADD(2)
leaves V clear where ADD(3) sets it, although the signed sum
`2^31 - 1 + 1` lies outside `[-2^31, 2^31)`: the ADD(2) block calls
`do_add_vflag(ra, -rb, rc)`. -/
theorem ADD2_overflow_of_negated_operand :
    add2State.cpsr &&& 0x1F = MODE_SVC ∧ Fetches add2State 0x3001 ∧
    Fetches add3State 0x1840 ∧
    read_register add2State 0 = 0x7FFFFFFF ∧ read_register add3State 1 = 1 ∧
    (execute add2State).1 = 0 ∧ (execute add3State).1 = 0 ∧
    read_register (execute add2State).2 0 = 0x80000000 ∧
    read_register (execute add3State).2 0 = 0x80000000 ∧
    (execute add2State).2.cpsr = 0x800000F3 ∧
    (execute add3State).2.cpsr = 0x900000F3 ∧
    (execute add2State).2.cpsr.testBit 28 = false ∧
    (execute add3State).2.cpsr.testBit 28 = true ∧
    ¬ (signed32 0x7FFFFFFF + 1 < 2 ^ 31) := by
  decide

/-! ## Claim C25: the compare blocks -/

/-- C25: in supervisor mode, a CMP step on the 32-bit operand values `a`
(register Rn) and `b` (register Rm, or the immediate of CMP(1)) returns 0 and
leaves Z set exactly when `a = b`, C set exactly when `a >= b` as unsigned
numbers, and N different from V exactly when `a < b` as signed 32-bit
integers; registers 0 to 14 and memory are unchanged.  The operand of a
register is its value before the step, and for register 15 (CMP(3) only) the
advanced counter. -/
theorem CMP_flags (s : Thumbulator) (op a b : Nat) (hsvc : s.cpsr &&& 0x1F = MODE_SVC)
    (hcpsr : s.cpsr < 2 ^ 32) (ha : a < 2 ^ 32) (hb : b < 2 ^ 32) (hf : Fetches s op)
    (hform :
      (op &&& 0xF800 = 0x2800 ∧ a = read_register s ((op >>> 8) &&& 0x07) ∧
        b = (op >>> 0) &&& 0xFF) ∨
      (op &&& 0xFFC0 = 0x4280 ∧ a = read_register s ((op >>> 0) &&& 0x7) ∧
        b = read_register s ((op >>> 3) &&& 0x7)) ∨
      (op &&& 0xFF00 = 0x4500 ∧
        a = (if (((op >>> 0) &&& 0x7) ||| ((op >>> 4) &&& 0x8)) &&& 0xF = 15
          then add32 (read_register s 15) 2
          else read_register s (((op >>> 0) &&& 0x7) ||| ((op >>> 4) &&& 0x8))) ∧
        b = (if ((op >>> 3) &&& 0xF) &&& 0xF = 15 then add32 (read_register s 15) 2
          else read_register s ((op >>> 3) &&& 0xF)))) :
    (execute s).1 = 0 ∧
    ((execute s).2.cpsr.testBit 30 = true ↔ a = b) ∧
    ((execute s).2.cpsr.testBit 29 = true ↔ b ≤ a) ∧
    ((execute s).2.cpsr.testBit 31 ≠ (execute s).2.cpsr.testBit 28 ↔
      signed32 a < signed32 b) ∧
    (∀ i, i ≠ 15 → (execute s).2.reg_sys i = s.reg_sys i) ∧
    (execute s).2.reg_svc = s.reg_svc ∧
    (execute s).2.ram = s.ram ∧ (execute s).2.rom = s.rom := by
  have hE : execute s = (0, do_sub_vflag (do_cflag (do_zflag (do_nflag (entered s) (sub32 a b))
      (sub32 a b)) a (not32 b) 1) a b (sub32 a b)) := by
    unfold Fetches at hf
    rw [execute_eq, hf]
    rcases hform with ⟨hm, ea, eb⟩ | ⟨hm, ea, eb⟩ | ⟨hm, ea, eb⟩
    · rw [decode_CMP1 _ _ _ hm, ea, eb, ← read_entered_low s _ hsvc]
      rfl
    · rw [decode_CMP2 _ _ _ hm, ea, eb, ← read_entered_low s _ hsvc,
        ← read_entered_low s _ hsvc]
      rfl
    · rw [decode_CMP3 _ _ _ hm, ea, eb, ← read_entered s _ hsvc, ← read_entered s _ hsvc]
      rfl
  have hc : (entered s).cpsr < 2 ^ 32 := by rw [(entered_frame s).2.2.1]; exact hcpsr
  obtain ⟨hst, hbits⟩ := compare_flags (entered s) a b hc ha hb
  rw [hE]
  generalize do_sub_vflag (do_cflag (do_zflag (do_nflag (entered s) (sub32 a b))
      (sub32 a b)) a (not32 b) 1) a b (sub32 a b) = F at hst hbits
  refine ⟨rfl, ?_, ?_, ?_, ?_, ?_, ?_, ?_⟩
  · show F.cpsr.testBit 30 = true ↔ _
    rw [hbits 30]
    simp
  · show F.cpsr.testBit 29 = true ↔ _
    rw [hbits 29]
    simp
  · show F.cpsr.testBit 31 ≠ F.cpsr.testBit 28 ↔ _
    rw [hbits 31, hbits 28]
    simp only [show ¬ (31 = 28) by decide, show ¬ (31 = 29) by decide,
      show ¬ (31 = 30) by decide, if_false, if_true]
    exact sub_lt_iff a b ha hb
  · intro i hi
    show F.reg_sys i = _
    rw [hst, entered_svc s hsvc]
    exact Function.update_noteq hi _ _
  · show F.reg_svc = _
    rw [hst, entered_svc s hsvc]
  · show F.ram = _
    rw [hst, entered_svc s hsvc]
  · show F.rom = _
    rw [hst, entered_svc s hsvc]

/-- Witness for C25: `CMP r0, r1` with `r0 = 5` and `r1 = 7`. -/
theorem CMP_flags_witness :
    Fetches cmpState 0x4288 ∧ (execute cmpState).1 = 0 ∧
    ((execute cmpState).2.cpsr.testBit 30 = true ↔ 5 = 7) ∧
    ((execute cmpState).2.cpsr.testBit 29 = true ↔ 7 ≤ 5) ∧
    ((execute cmpState).2.cpsr.testBit 31 ≠ (execute cmpState).2.cpsr.testBit 28 ↔
      signed32 5 < signed32 7) :=
  ⟨by decide,
   (CMP_flags cmpState 0x4288 5 7 (by decide) (by decide) (by decide) (by decide) (by decide)
     (Or.inr (Or.inl ⟨by decide, by decide, by decide⟩))).1,
   (CMP_flags cmpState 0x4288 5 7 (by decide) (by decide) (by decide) (by decide) (by decide)
     (Or.inr (Or.inl ⟨by decide, by decide, by decide⟩))).2.1,
   (CMP_flags cmpState 0x4288 5 7 (by decide) (by decide) (by decide) (by decide) (by decide)
     (Or.inr (Or.inl ⟨by decide, by decide, by decide⟩))).2.2.1,
   (CMP_flags cmpState 0x4288 5 7 (by decide) (by decide) (by decide) (by decide) (by decide)
     (Or.inr (Or.inl ⟨by decide, by decide, by decide⟩))).2.2.2.1⟩

/-! ## Claim C26: `do_add_vflag` -/

/-- The overflow test of `do_add_vflag` on the sign bits, in arithmetic. -/
theorem add_overflow_iff (a b c : Nat) (ha : a < 2 ^ 32) (hb : b < 2 ^ 32) (hc : c ≤ 1) :
    (a.testBit 31 = b.testBit 31 ∧ b.testBit 31 ≠ ((a + b + c) % 2 ^ 32).testBit 31) ↔
      (signed32 a + signed32 b + (c : Int) < -2 ^ 31 ∨
        2 ^ 31 ≤ signed32 a + signed32 b + (c : Int)) := by
  have hr : (a + b + c) % 2 ^ 32 < 2 ^ 32 := Nat.mod_lt _ (by decide)
  rw [signed32_eq a ha, signed32_eq b hb, sign_bit a ha, sign_bit b hb, sign_bit _ hr]
  by_cases h1 : 2 ^ 31 ≤ a <;> by_cases h2 : 2 ^ 31 ≤ b <;>
    by_cases h3 : 2 ^ 31 ≤ (a + b + c) % 2 ^ 32 <;>
    simp only [h1, h2, h3, decide_True, decide_False, if_true, if_false, ne_eq, not_true,
      not_false_eq_true, and_true, and_false, true_and, false_and, Bool.false_eq_true,
      Bool.true_eq_false, false_iff, true_iff, not_or, not_lt, not_le] <;>
    omega

/-- C26: for 32-bit `a`, `b` and a carry-in `c` in {0,1}, with
`result = (a + b + c) mod 2^32`, after `do_add_vflag(a, b, result)` bit 28
(the V bit) of `cpsr` is set exactly when the sum of `a` and `b` read as signed
32-bit integers plus `c` lies outside `[-2^31, 2^31)`, and every other bit of
`cpsr` is unchanged.  ADC calls it this way, with `c` the incoming carry, and
ADD(1), ADD(3) and CMN with `c = 0`. -/
theorem do_add_vflag_overflow (s : Thumbulator) (a b c : Nat) (hs : s.cpsr < 2 ^ 32)
    (ha : a < 2 ^ 32) (hb : b < 2 ^ 32) (hc : c ≤ 1) :
    ((do_add_vflag s a b ((a + b + c) % 2 ^ 32)).cpsr.testBit 28 = true ↔
      (signed32 a + signed32 b + (c : Int) < -2 ^ 31 ∨
        2 ^ 31 ≤ signed32 a + signed32 b + (c : Int))) ∧
    (∀ i, i ≠ 28 →
      (do_add_vflag s a b ((a + b + c) % 2 ^ 32)).cpsr.testBit i = s.cpsr.testBit i) ∧
    (∀ (t : Thumbulator) (inst : Nat),
      (∃ u, (exec_ADC t inst).2 =
        do_add_vflag u (read_register t ((inst >>> 0) &&& 0x07))
          (read_register t ((inst >>> 3) &&& 0x07))
          ((read_register t ((inst >>> 0) &&& 0x07) + read_register t ((inst >>> 3) &&& 0x07)
            + (if t.cpsr &&& CPSR_C ≠ 0 then 1 else 0)) % 2 ^ 32)) ∧
      (∀ r, exec_ADD1 t inst = some r → ∃ u, r.2 =
        do_add_vflag u (read_register t ((inst >>> 3) &&& 0x7)) ((inst >>> 6) &&& 0x7)
          ((read_register t ((inst >>> 3) &&& 0x7) + ((inst >>> 6) &&& 0x7) + 0) % 2 ^ 32)) ∧
      (∃ u, (exec_ADD3 t inst).2 =
        do_add_vflag u (read_register t ((inst >>> 3) &&& 0x7))
          (read_register t ((inst >>> 6) &&& 0x7))
          ((read_register t ((inst >>> 3) &&& 0x7) + read_register t ((inst >>> 6) &&& 0x7)
            + 0) % 2 ^ 32)) ∧
      (∃ u, (exec_CMN t inst).2 =
        do_add_vflag u (read_register t ((inst >>> 0) &&& 0x7))
          (read_register t ((inst >>> 3) &&& 0x7))
          ((read_register t ((inst >>> 0) &&& 0x7) + read_register t ((inst >>> 3) &&& 0x7)
            + 0) % 2 ^ 32))) := by
  refine ⟨?_, fun i hi => ?_, fun t inst => ⟨?_, ?_, ?_, ?_⟩⟩
  · rw [do_add_vflag_testBit s a b _ hs, if_pos rfl, decide_eq_true_iff]
    exact add_overflow_iff a b c ha hb hc
  · rw [do_add_vflag_testBit s a b _ hs, if_neg hi]
  · simp only [exec_ADC]
    generalize read_register t ((inst >>> 0) &&& 0x07) = ra
    generalize read_register t ((inst >>> 3) &&& 0x07) = rb
    have e : (if t.cpsr &&& CPSR_C ≠ 0 then add32 (add32 ra rb) 1 else add32 ra rb) =
        (ra + rb + (if t.cpsr &&& CPSR_C ≠ 0 then 1 else 0)) % 2 ^ 32 := by
      unfold add32
      split <;> omega
    rw [e]
    exact ⟨_, rfl⟩
  · intro r hr
    simp only [exec_ADD1] at hr
    split at hr
    · rw [← Option.some.inj hr]
      exact ⟨_, rfl⟩
    · exact absurd hr (by simp)
  · exact ⟨_, rfl⟩
  · exact ⟨_, rfl⟩

/-- Witness for C26: `0x7FFFFFFF + 1` overflows. -/
theorem do_add_vflag_overflow_witness :
    (do_add_vflag branchState 0x7FFFFFFF 1 ((0x7FFFFFFF + 1 + 0) % 2 ^ 32)).cpsr.testBit 28 = true ↔
      (signed32 0x7FFFFFFF + signed32 1 + ((0 : Nat) : Int) < -2 ^ 31 ∨
        2 ^ 31 ≤ signed32 0x7FFFFFFF + signed32 1 + ((0 : Nat) : Int)) :=
  (do_add_vflag_overflow branchState 0x7FFFFFFF 1 0 (by decide) (by decide) (by decide)
    (by decide)).1

/-! ## Claim C27: conditional branch B(1) -/

/-- C27: in supervisor mode, one `execute` step on the opcode
`0xD000 | cond<<8 | imm8` with `cond` in 0..13 returns 0 and leaves register 15
equal to `(pc + 2 + 2*sext8(imm8)) mod 2^32` when the condition `cond` holds on
the flags before the step (EQ: Z, NE: not Z, CS: C, CC: not C, MI: N, PL: not N,
VS: V, VC: not V, HI: C and not Z, LS: not C or Z, GE: N = V, LT: N != V,
GT: not Z and N = V, LE: Z or N != V) and equal to `pc` otherwise, where `pc`
is the old register 15 plus 2.  Of the codes `2k` and `2k+1` exactly one is
taken. -/
theorem B1_branch (s : Thumbulator) (cond imm8 : Nat) (hcond : cond < 14) (himm : imm8 < 256)
    (hsvc : s.cpsr &&& 0x1F = MODE_SVC)
    (hfetch : Fetches s (0xD000 ||| (cond <<< 8) ||| imm8)) :
    (execute s).1 = 0 ∧
    read_register (execute s).2 15 =
      (if condHolds cond (s.cpsr.testBit 31) (s.cpsr.testBit 30) (s.cpsr.testBit 29)
          (s.cpsr.testBit 28) = true then
        ((((add32 (read_register s 15) 2 : Nat) : Int) + 2 + 2 * sext8 imm8) % 2 ^ 32).toNat
      else add32 (read_register s 15) 2) ∧
    (∀ k < 7, ∀ n z c v : Bool, condHolds (2 * k) n z c v = !condHolds (2 * k + 1) n z c v) := by
  obtain ⟨f1, f2, f3⟩ := b1_fields cond hcond imm8 himm
  have hE : execute s = (0,
      if condHolds cond (s.cpsr.testBit 31) (s.cpsr.testBit 30) (s.cpsr.testBit 29)
          (s.cpsr.testBit 28) = true then
        (write_register (entered s) 15
          ((((add32 (read_register s 15) 2 : Nat) : Int) + 2 + 2 * sext8 imm8) % 2 ^ 32).toNat).2
      else entered s) := by
    unfold Fetches at hfetch
    rw [execute_eq, hfetch]
    rw [decode_hit (entered s) _ _ 11 0xF000 0xD000 _ _ _ f1 (by decide) rfl f1
      (exec_B1_cond (entered s) _ _ cond hcond f3)]
    rw [f2, exec_B1_target imm8 _ himm, (entered_frame s).2.2.1]
  rw [hE]
  refine ⟨rfl, ?_, ?_⟩
  · show read_register (if _ then _ else _) 15 = _
    split
    · rw [entered_svc s hsvc]
      simp +decide [write_register, read_register, hsvc]
    · rw [read_entered s 15 hsvc, if_pos (by decide)]
  · intro k hk n z c v
    interval_cases k <;> cases n <;> cases z <;> cases c <;> cases v <;> rfl

/-- Witness for C27: `BEQ` with Z set and displacement `-2` (opcode `0xD0FE`)
branches back to its own address. -/
theorem B1_branch_witness :
    Fetches beqState (0xD000 ||| (0 <<< 8) ||| 0xFE) ∧
    (execute beqState).1 = 0 ∧
    read_register (execute beqState).2 15 =
      (if condHolds 0 (beqState.cpsr.testBit 31) (beqState.cpsr.testBit 30)
          (beqState.cpsr.testBit 29) (beqState.cpsr.testBit 28) = true then
        ((((add32 (read_register beqState 15) 2 : Nat) : Int) + 2 + 2 * sext8 0xFE)
          % 2 ^ 32).toNat
      else add32 (read_register beqState 15) 2) :=
  ⟨by decide,
   (B1_branch beqState 0 0xFE (by decide) (by decide) (by decide) (by decide)).1,
   (B1_branch beqState 0 0xFE (by decide) (by decide) (by decide) (by decide)).2.1⟩

/-! ## Claim C28: the two-part branch with link -/

/-- C28: in supervisor mode, one `execute` step on a first half `0xF000 | hi`
returns 0 and changes nothing but register 15 (advanced by 2), the latch
`halfadd` (now the opcode) and the statistics counters; if the following step
fetches a second half `0xF800 | lo`, it returns 0, register 14 becomes
`pc - 2` and register 15 becomes `(pc + 2*(sext11(hi)*2^11 + lo)) mod 2^32`,
where `pc` is the advanced counter of the second step and
`sext11(hi)*2^11 + lo` is the integer `(sext11(hi) << 11) | lo`. -/
theorem BL_pair (s : Thumbulator) (hi lo : Nat) (hhi : hi < 2048) (hlo : lo < 2048)
    (hsvc : s.cpsr &&& 0x1F = MODE_SVC) (hfetch : Fetches s (0xF000 ||| hi)) :
    execute s = (0, { s with
      halfadd := 0xF000 ||| hi
      fetches := (s.fetches + 1) % 2 ^ 64
      instructions := (s.instructions + 1) % 2 ^ 64
      reg_sys := Function.update s.reg_sys 15 (add32 (s.reg_sys 15) 2) }) ∧
    (Fetches (execute s).2 (0xF800 ||| lo) →
      (execute (execute s).2).1 = 0 ∧
      read_register (execute (execute s).2).2 14 =
        sub32 (add32 (read_register (execute s).2 15) 2) 2 ∧
      read_register (execute (execute s).2).2 15 =
        ((((add32 (read_register (execute s).2 15) 2 : Nat) : Int)
          + 2 * (sext11 hi * 2048 + (lo : Int))) % 2 ^ 32).toNat) := by
  have h1 := execute_BL_first s hi hhi hsvc hfetch
  refine ⟨h1, ?_⟩
  rw [h1]
  intro h2
  have hsvc1 : ({ s with
      halfadd := 0xF000 ||| hi
      fetches := (s.fetches + 1) % 2 ^ 64
      instructions := (s.instructions + 1) % 2 ^ 64
      reg_sys := Function.update s.reg_sys 15 (add32 (s.reg_sys 15) 2) } : Thumbulator).cpsr
      &&& 0x1F = MODE_SVC := hsvc
  rw [execute_BL_second _ hi lo hhi hlo hsvc1 rfl h2]
  have e14 : (14 &&& 15 : Nat) = 14 := rfl
  have e15 : (15 &&& 15 : Nat) = 15 := rfl
  refine ⟨rfl, ?_, ?_⟩
  · simp only [read_register]
    rw [if_pos hsvc, if_pos hsvc, e14, e15, if_pos (Or.inr rfl), if_neg (by decide),
      Function.update_same, Function.update_same]
  · simp only [read_register]
    rw [if_pos hsvc, e15, if_neg (by decide), Function.update_same, Function.update_same,
      if_pos hsvc, if_neg (by decide)]

/-- Witness for C28: the pair `0xF7FF`, `0xF804` (`hi = 0x7FF`, that is -1, and
`lo = 4`) at the reset entry point. -/
theorem BL_pair_witness :
    Fetches blState (0xF000 ||| 0x7FF) ∧
    Fetches (execute blState).2 (0xF800 ||| 4) ∧
    (execute (execute blState).2).1 = 0 ∧
    read_register (execute (execute blState).2).2 14 =
      sub32 (add32 (read_register (execute blState).2 15) 2) 2 ∧
    read_register (execute (execute blState).2).2 15 =
      ((((add32 (read_register (execute blState).2 15) 2 : Nat) : Int)
        + 2 * (sext11 0x7FF * 2048 + ((4 : Nat) : Int))) % 2 ^ 32).toNat :=
  ⟨by decide, by decide,
   (BL_pair blState 0x7FF 4 (by decide) (by decide) (by decide) (by decide)).2 (by decide)⟩

/-! ## Claim C29: BX and BLX(2) -/

/-- C29: in supervisor mode, one `execute` step on `BX Rm` (opcode
`0x4700 | rm<<3`, `link = false`) or `BLX Rm` (opcode `0x4780 | rm<<3`,
`link = true`) with `rm` in 0..15, where `t` is the value the handler reads
from `Rm` (the value before the step, or the advanced counter `pc` when
`rm = 15`): if bit 0 of `t` is set the step returns 0 with register 15 equal to
`(t + 2) mod 2^32` and, for BLX, register 14 equal to `pc - 2`; if bit 0 of `t`
is clear the step returns 1 and the state differs from the one before the step
only by the prologue: register 15 advanced by 2 and the statistics counters. -/
theorem BX_BLX2_branch (s : Thumbulator) (rm t : Nat) (link : Bool) (hrm : rm < 16)
    (hsvc : s.cpsr &&& 0x1F = MODE_SVC)
    (hfetch : Fetches s ((if link = true then 0x4780 else 0x4700) ||| (rm <<< 3)))
    (ht : t = if rm = 15 then add32 (read_register s 15) 2 else read_register s rm) :
    (t.testBit 0 = true →
      (execute s).1 = 0 ∧ read_register (execute s).2 15 = (t + 2) % 2 ^ 32 ∧
      (link = true →
        read_register (execute s).2 14 = sub32 (add32 (read_register s 15) 2) 2)) ∧
    (t.testBit 0 = false →
      execute s = (1, { s with
        fetches := (s.fetches + 1) % 2 ^ 64
        instructions := (s.instructions + 1) % 2 ^ 64
        reg_sys := Function.update s.reg_sys 15 (add32 (s.reg_sys 15) 2) })) := by
  obtain ⟨f1, f2, f3⟩ := bx_fields rm hrm link
  have hr : read_register (entered s)
      ((((if link = true then 0x4780 else 0x4700) ||| (rm <<< 3)) >>> 3) &&& 0xF) = t := by
    rw [f2, read_entered s rm hsvc, ht]
    by_cases h : rm = 15
    · rw [if_pos h, if_pos (f3.2 h)]
    · rw [if_neg h, if_neg (fun h1 => h (f3.1 h1))]
  have hm := entered_mode s hsvc
  cases link
  · rw [execute_BX s _ f1 hfetch]
    constructor
    · intro hb
      have h := exec_BX_taken (entered s) _ t hm hr hb
      exact ⟨h.1, h.2, fun e => absurd e (by decide)⟩
    · intro hb
      rw [exec_BX_not (entered s) _ t hr hb, entered_svc s hsvc]
  · rw [execute_BLX2 s _ f1 hfetch]
    constructor
    · intro hb
      have h := exec_BLX2_taken (entered s) _ (add32 (read_register s 15) 2) t hm hr hb
      exact ⟨h.1, h.2.1, fun _ => h.2.2⟩
    · intro hb
      rw [exec_BLX2_not (entered s) _ _ t hr hb, entered_svc s hsvc]

/-- Witness for C29: `BX r0` with `r0 = 0xc0b` branches to `0xc0d`. -/
theorem BX_BLX2_branch_witness :
    Fetches bxState ((if false = true then 0x4780 else 0x4700) ||| (0 <<< 3)) ∧
    (0xc0b : Nat).testBit 0 = true ∧
    (execute bxState).1 = 0 ∧ read_register (execute bxState).2 15 = (0xc0b + 2) % 2 ^ 32 :=
  ⟨by decide, by decide,
   ((BX_BLX2_branch bxState 0 0xc0b false (by decide) (by decide) (by decide) (by decide)).1
      (by decide)).1,
   ((BX_BLX2_branch bxState 0 0xc0b false (by decide) (by decide) (by decide) (by decide)).1
      (by decide)).2.1⟩

/-! ## Claim C30: ADD(1) with a zero immediate executes as MOV(2) -/

/-- C30: in supervisor mode, for the opcode `0x1C00 | rn<<3 | rd`: the ADD(1)
pattern (mask `0xFE00`, block 1 of the chain) matches but its handler falls
through on every state; no block before it and none of the blocks 2..40
matches; the step is the MOV(2) handler (block 41) and returns 0 with
`Rd = Rn`, N the sign bit of that value, Z set iff it is zero, C = 0, V = 0 and
every other bit of `cpsr` unchanged. -/
theorem ADD1_zero_is_MOV2 (s : Thumbulator) (rn rd : Nat) (hrn : rn < 8) (hrd : rd < 8)
    (hsvc : s.cpsr &&& 0x1F = MODE_SVC) (hcpsr : s.cpsr < 2 ^ 32)
    (hfetch : Fetches s (0x1C00 ||| (rn <<< 3) ||| rd)) :
    ((0x1C00 ||| (rn <<< 3) ||| rd) &&& 0xFE00 = 0x1C00 ∧
      ∀ u, exec_ADD1 u (0x1C00 ||| (rn <<< 3) ||| rd) = none) ∧
    (∀ q ∈ chain.take 1 ++ (chain.drop 2).take 39,
      (0x1C00 ||| (rn <<< 3) ||| rd) &&& q.mask ≠ q.value) ∧
    execute s = exec_MOV2 (entered s) (0x1C00 ||| (rn <<< 3) ||| rd) ∧
    (execute s).1 = 0 ∧
    read_register (execute s).2 rd = read_register s rn ∧
    ∀ i, (execute s).2.cpsr.testBit i =
      if i = 28 then false else if i = 29 then false
      else if i = 30 then decide (read_register s rn = 0)
      else if i = 31 then (read_register s rn).testBit 31
      else s.cpsr.testBit i := by
  obtain ⟨f1, f2, f3, f4, f5⟩ := mov2_fields rn hrn rd hrd
  have hz := fun u => exec_ADD1_zero u _ f3
  have hE : execute s = exec_MOV2 (entered s) (0x1C00 ||| (rn <<< 3) ||| rd) := by
    unfold Fetches at hfetch
    rw [execute_eq, hfetch, decode_MOV2 _ _ _ f2 (hz _)]
  have hd : ∀ q ∈ chain.take 1 ++ (chain.drop 2).take 39,
      0x1C00 &&& q.mask ≠ q.value &&& 0xFFC0 := by decide
  have hc : (entered s).cpsr < 2 ^ 32 := by
    rw [(entered_frame s).2.2.1]
    exact hcpsr
  have hr : read_register (entered s) rn = read_register s rn := by
    rw [← f4]
    exact read_entered_low s _ hsvc
  have h := exec_MOV2_spec (entered s) (0x1C00 ||| (rn <<< 3) ||| rd) (entered_mode s hsvc) hc
  rw [f4, f5, hr, (entered_frame s).2.2.1] at h
  refine ⟨⟨f1, hz⟩, fun q hq => pattern_disjoint f2 (hd q hq), hE, ?_⟩
  rw [hE]
  exact h

/-- Witness for C30: the opcode `0x1C08` (`rn = 1`, `rd = 0`) with C and V set
before the step. -/
theorem ADD1_zero_is_MOV2_witness :
    Fetches movState (0x1C00 ||| (1 <<< 3) ||| 0) ∧
    (execute movState).1 = 0 ∧
    read_register (execute movState).2 0 = read_register movState 1 ∧
    (execute movState).2.cpsr.testBit 29 = false ∧
    (execute movState).2.cpsr.testBit 28 = false :=
  ⟨by decide,
   (ADD1_zero_is_MOV2 movState 1 0 (by decide) (by decide) (by decide) (by decide)
     (by decide)).2.2.2.1,
   (ADD1_zero_is_MOV2 movState 1 0 (by decide) (by decide) (by decide) (by decide)
     (by decide)).2.2.2.2.1,
   (ADD1_zero_is_MOV2 movState 1 0 (by decide) (by decide) (by decide) (by decide)
     (by decide)).2.2.2.2.2 29,
   (ADD1_zero_is_MOV2 movState 1 0 (by decide) (by decide) (by decide) (by decide)
     (by decide)).2.2.2.2.2 28⟩

/-! ## Claim C31: arithmetic shift right -/

/-- C31: in supervisor mode, an ASR step on the 32-bit value `x` with the shift
amount `k` (ASR(1): `x` is Rm and `k` the immediate, or 32 for the immediate 0;
ASR(2): `x` is Rd and `k` is `Rs & 0xFF`) returns 0 and writes to Rd the
two's-complement pattern of `floor(x / 2^k)`, `x` read as a signed integer;
for `k >= 1` the C flag becomes bit `k - 1` of `x`, the sign bit when
`k >= 32`, and for `k = 0` it is unchanged; N is the sign bit of the result, Z
is set iff the result is zero, and every other bit of `cpsr`, V included, is
unchanged. -/
theorem ASR_exact (s : Thumbulator) (op x k : Nat) (hsvc : s.cpsr &&& 0x1F = MODE_SVC)
    (hcpsr : s.cpsr < 2 ^ 32) (hx : x < 2 ^ 32) (hf : Fetches s op)
    (hform :
      (op &&& 0xF800 = 0x1000 ∧ x = read_register s ((op >>> 3) &&& 0x07) ∧
        k = if (op >>> 6) &&& 0x1F = 0 then 32 else (op >>> 6) &&& 0x1F) ∨
      (op &&& 0xFFC0 = 0x4100 ∧ x = read_register s ((op >>> 0) &&& 0x07) ∧
        k = read_register s ((op >>> 3) &&& 0x07) &&& 0xFF)) :
    (execute s).1 = 0 ∧
    read_register (execute s).2 ((op >>> 0) &&& 0x07) = ((signed32 x / 2 ^ k) % 2 ^ 32).toNat ∧
    ∀ i, (execute s).2.cpsr.testBit i =
      if i = 29 then (if k = 0 then s.cpsr.testBit 29 else x.testBit (min (k - 1) 31))
      else if i = 30 then decide (((signed32 x / 2 ^ k) % 2 ^ 32).toNat = 0)
      else if i = 31 then (((signed32 x / 2 ^ k) % 2 ^ 32).toNat).testBit 31
      else s.cpsr.testBit i := by
  have hm := entered_mode s hsvc
  have hc : (entered s).cpsr < 2 ^ 32 := by
    rw [(entered_frame s).2.2.1]
    exact hcpsr
  have hshape : ∃ r : Nat × Thumbulator,
      (r = if k = 0 then (x, entered s)
        else if k < 32 then
          ((if x &&& 0x80000000 ≠ 0 then x >>> k ||| shl32 (not32 0) (32 - k) else x >>> k),
            do_cflag_bit (entered s) (x &&& shl32 1 (k - 1)))
        else if x &&& 0x80000000 ≠ 0 then (not32 0, do_cflag_bit (entered s) 1)
        else (0, do_cflag_bit (entered s) 0)) ∧
      execute s =
        (0, do_zflag (do_nflag (write_register r.2 ((op >>> 0) &&& 0x07) r.1).2 r.1) r.1) := by
    unfold Fetches at hf
    rw [execute_eq, hf]
    rcases hform with ⟨hop, ex, ek⟩ | ⟨hop, ex, ek⟩
    · rw [decode_ASR1 _ _ _ hop]
      exact exec_ASR1_shape (entered s) op x k (by rw [ex, read_entered_low s _ hsvc]) ek
    · rw [decode_ASR2 _ _ _ hop]
      exact exec_ASR2_shape (entered s) op x k (by rw [ex, read_entered_low s _ hsvc])
        (by rw [ek, read_entered_low s _ hsvc])
  obtain ⟨r, hr, hE⟩ := hshape
  have h := asr_result (entered s) ((op >>> 0) &&& 0x07) x k r hm hc hx hr
  rw [(entered_frame s).2.2.1] at h
  rw [hE]
  exact ⟨rfl, h.1, h.2⟩

/-- Witness for C31: `ASR r0, r1, #4` with `r1 = 0x80000008`, that is
`-2^31 + 8`: the result is `0xF8000000`, that is `-2^27`, and C is bit 3 of
`r1`. -/
theorem ASR_exact_witness :
    Fetches asrState 0x1108 ∧ (execute asrState).1 = 0 ∧
    read_register (execute asrState).2 ((0x1108 >>> 0) &&& 0x07) =
      ((signed32 0x80000008 / 2 ^ 4) % 2 ^ 32).toNat ∧
    ((signed32 0x80000008 / 2 ^ 4) % 2 ^ 32).toNat = 0xF8000000 :=
  ⟨by decide,
   (ASR_exact asrState 0x1108 0x80000008 4 (by decide) (by decide) (by decide) (by decide)
     (Or.inl ⟨by decide, by decide, by decide⟩)).1,
   (ASR_exact asrState 0x1108 0x80000008 4 (by decide) (by decide) (by decide) (by decide)
     (Or.inl ⟨by decide, by decide, by decide⟩)).2.1,
   by decide⟩

/-! ## Claim C32: byte stores and loads -/

/-- C32: in supervisor mode, let `a` be a byte address of writable RAM
(`0x40000000..0x40000029` or `0x40000C00..0x40001FFF`), `i` the index of the
RAM halfword that contains it and `w` the value of that halfword.  An STRB
step storing the register value `v` at `a` returns 0 and leaves the halfword
`256 * (w / 256 % 256) + v % 256` for even `a` (low byte replaced) and
`256 * (v % 256) + w % 256` for odd `a` (high byte replaced), with every other
RAM cell unchanged; if the next step is an LDRB from `a`, it returns 0 and
loads `v & 0xFF`. -/
theorem STRB_LDRB_roundtrip (s : Thumbulator) (op1 op2 a v : Nat)
    (hsvc : s.cpsr &&& 0x1F = MODE_SVC) (hf : Fetches s op1)
    (hform :
      (op1 &&& 0xF800 = 0x7000 ∧
        a = add32 (read_register s ((op1 >>> 3) &&& 0x07)) ((op1 >>> 6) &&& 0x1F) ∧
        v = read_register s ((op1 >>> 0) &&& 0x07)) ∨
      (op1 &&& 0xFE00 = 0x5400 ∧
        a = add32 (read_register s ((op1 >>> 3) &&& 0x7))
          (read_register s ((op1 >>> 6) &&& 0x7)) ∧
        v = read_register s ((op1 >>> 0) &&& 0x7)))
    (ha : InWritableRAM a) :
    (execute s).1 = 0 ∧
    loadHalf (execute s).2 ((execute s).2.ram ((a - 0x40000000) / 2)) =
      (if a % 2 = 1 then
        2 ^ 8 * (v % 2 ^ 8) + loadHalf s (s.ram ((a - 0x40000000) / 2)) % 2 ^ 8
      else 2 ^ 8 * ((loadHalf s (s.ram ((a - 0x40000000) / 2)) / 2 ^ 8) % 2 ^ 8) + v % 2 ^ 8) ∧
    (∀ j, j ≠ (a - 0x40000000) / 2 → (execute s).2.ram j = s.ram j) ∧
    (Fetches (execute s).2 op2 →
      ((op2 &&& 0xF800 = 0x7800 ∧
          a = add32 (read_register (execute s).2 ((op2 >>> 3) &&& 0x07))
            ((op2 >>> 6) &&& 0x1F)) ∨
        (op2 &&& 0xFE00 = 0x5C00 ∧
          a = add32 (read_register (execute s).2 ((op2 >>> 3) &&& 0x7))
            (read_register (execute s).2 ((op2 >>> 6) &&& 0x7)))) →
      (execute (execute s).2).1 = 0 ∧
      read_register (execute (execute s).2).2 ((op2 >>> 0) &&& 0x07) = v &&& 0xFF) := by
  obtain ⟨n, hE⟩ := execute_STRB s op1 a v hsvc hf hform ha
  have h1 : (execute s).1 = 0 := by rw [hE]
  have hcp : (execute s).2.cpsr = s.cpsr := by rw [hE]
  have hms : (execute s).2.MSB_FIRST = s.MSB_FIRST := by rw [hE]
  have hram : (execute s).2.ram = Function.update s.ram ((a - 0x40000000) / 2)
      (storeHalf s (if a % 2 = 1 then
          2 ^ 8 * (v % 2 ^ 8) + loadHalf s (s.ram ((a - 0x40000000) / 2)) % 2 ^ 8
        else 2 ^ 8 * ((loadHalf s (s.ram ((a - 0x40000000) / 2)) / 2 ^ 8) % 2 ^ 8)
          + v % 2 ^ 8)) := by rw [hE]
  clear hE
  generalize execute s = r at h1 hcp hms hram ⊢
  generalize loadHalf s (s.ram ((a - 0x40000000) / 2)) = w at hram ⊢
  have hl : ∀ x, loadHalf r.2 x = loadHalf s x := by
    intro x
    unfold loadHalf
    rw [hms]
  have hnew : loadHalf r.2 (r.2.ram ((a - 0x40000000) / 2)) =
      (if a % 2 = 1 then 2 ^ 8 * (v % 2 ^ 8) + w % 2 ^ 8
        else 2 ^ 8 * ((w / 2 ^ 8) % 2 ^ 8) + v % 2 ^ 8) := by
    rw [hl, hram, Function.update_same, loadHalf_storeHalf s s rfl, and_FFFF_eq]
    split <;> omega
  refine ⟨h1, hnew, fun j hj => ?_, fun hf2 hform2 => ?_⟩
  · rw [hram, Function.update_noteq hj]
  · have h := execute_LDRB r.2 op2 a (by rw [hcp]; exact hsvc) hf2 hform2 ha
    rw [hnew] at h
    refine ⟨h.1, ?_⟩
    rw [h.2, and_FF_eq]
    split <;> omega

/-- Witness for C32: `STRB r0, [r1]` then `LDRB r2, [r1]` with `r0 = 0x1234`
and `r1 = 0x40000C01` on a halfword holding `0xABCD`: the halfword becomes
`0x34CD` and the load returns `0x34`. -/
theorem STRB_LDRB_roundtrip_witness :
    Fetches strbState 0x7008 ∧ InWritableRAM 0x40000C01 ∧
    Fetches (execute strbState).2 0x780A ∧
    loadHalf (execute strbState).2 ((execute strbState).2.ram ((0x40000C01 - 0x40000000) / 2))
      = 0x34CD ∧
    read_register (execute (execute strbState).2).2 ((0x780A >>> 0) &&& 0x07) = 0x1234 &&& 0xFF :=
  ⟨by decide, by decide, by decide,
   (STRB_LDRB_roundtrip strbState 0x7008 0x780A 0x40000C01 0x1234 (by decide) (by decide)
     (Or.inl ⟨by decide, by decide, by decide⟩) (by decide)).2.1,
   ((STRB_LDRB_roundtrip strbState 0x7008 0x780A 0x40000C01 0x1234 (by decide) (by decide)
     (Or.inl ⟨by decide, by decide, by decide⟩) (by decide)).2.2.2 (by decide)
     (Or.inl ⟨by decide, by decide⟩)).2⟩

/-! ## Claim C33: the carry flag of LSR(2) -/

/-- C33: the code at the failing input.  The state `lsr2State` is in
supervisor mode, fetches `LSR r0, r1` (LSR(2), opcode `0x40C8`) and holds
`r0 = 1` and `r1 = 1`; the state `lsr1State` differs only in fetching
`LSR r0, r0, #1` (LSR(1), opcode `0x0840`).  Both steps return 0 and leave
`r0 = 0 = 1 >> 1` with N clear and Z set, but LSR(1) sets C, which is bit 0 of
the value 1, whereas LSR(2) leaves C clear: the LSR(2) block calls
`do_cflag_bit(rc & (1 << (32 - rb)))`, which tests bit 31. -/
theorem LSR2_carry_of_bit_32_minus_k :
    lsr2State.cpsr &&& 0x1F = MODE_SVC ∧ Fetches lsr2State 0x40C8 ∧
    Fetches lsr1State 0x0840 ∧
    read_register lsr2State 0 = 1 ∧ read_register lsr2State 1 &&& 0xFF = 1 ∧
    read_register lsr1State 0 = 1 ∧ (0x0840 >>> 6) &&& 0x1F = 1 ∧
    (execute lsr2State).1 = 0 ∧ (execute lsr1State).1 = 0 ∧
    read_register (execute lsr2State).2 0 = 1 >>> 1 ∧
    read_register (execute lsr1State).2 0 = 1 >>> 1 ∧
    (execute lsr1State).2.cpsr = 0x600000F3 ∧
    (execute lsr2State).2.cpsr = 0x400000F3 ∧
    (execute lsr1State).2.cpsr.testBit 29 = (1 : Nat).testBit (1 - 1) ∧
    (execute lsr2State).2.cpsr.testBit 29 = (1 : Nat).testBit (32 - 1) ∧
    (execute lsr2State).2.cpsr.testBit 29 ≠ (execute lsr1State).2.cpsr.testBit 29 := by
  decide

/-! ## Claim C34: the privilege mode never changes -/

/-- C34: one `execute` step, whatever the state and the opcode it fetches,
leaves every bit of `cpsr` below bit 28 as it was and keeps `cpsr` a 32-bit
value, so that only N, Z, C and V (bits 31..28) can change.  Hence in every
state reachable from `reset` by `execute` steps, and in the state in which
`run` returns, the mode field is `0x13` and T, I and F are set; there
`read_register` reads the banked register and `write_register` returns the
value written and stores it. -/
theorem mode_never_changes (s0 : Thumbulator) :
    (∀ s i, i < 28 → (execute s).2.cpsr.testBit i = s.cpsr.testBit i) ∧
    (∀ s, s.cpsr < 2 ^ 32 → (execute s).2.cpsr < 2 ^ 32) ∧
    (∀ t, Reachable (fun _ => True) s0 t →
      (t.cpsr &&& 0x1F = MODE_SVC ∧ t.cpsr &&& CPSR_T ≠ 0 ∧ t.cpsr &&& CPSR_I ≠ 0 ∧
        t.cpsr &&& CPSR_F ≠ 0) ∧
      (∀ r, read_register t r =
        if r &&& 0xF = 13 ∨ r &&& 0xF = 14 then t.reg_svc (r &&& 0xF)
        else t.reg_sys (r &&& 0xF)) ∧
      (∀ r v, (write_register t r v).1 = v ∧ read_register (write_register t r v).2 r = v)) ∧
    (∀ fuel t, run fuel s0 = some t → Reachable (fun _ => True) s0 t) := by
  refine ⟨fun s i hi => execute_cpsr_low s i hi, execute_cpsr_lt, fun t ht => ?_,
    fun fuel t h => run_reachable fuel s0 t h⟩
  have hb := cpsr_of_reset_bits t.cpsr ht.cpsr_bits
  refine ⟨hb, fun r => ?_, fun r v => ⟨?_, ?_⟩⟩
  · unfold read_register
    simp only []
    rw [if_pos hb.1]
  · unfold write_register
    simp only []
    rw [if_pos hb.1]
    split <;> rfl
  · rw [read_write_register t r v r hb.1, if_pos rfl]

/-- Witness for C34: the state after `reset` and one step on the ROM of
`branchState`. -/
theorem mode_never_changes_witness :
    Reachable (fun _ => True) branchState (execute (reset branchState).2).2 ∧
    (execute (reset branchState).2).2.cpsr &&& 0x1F = MODE_SVC ∧
    (write_register (execute (reset branchState).2).2 3 7).1 = 7 :=
  ⟨Reachable.step 0xE400 Reachable.reset (by decide) trivial,
   ((mode_never_changes branchState).2.2.1 _
      (Reachable.step 0xE400 Reachable.reset (by decide) trivial)).1.1,
   (((mode_never_changes branchState).2.2.1 _
      (Reachable.step 0xE400 Reachable.reset (by decide) trivial)).2.2 3 7).1⟩

end Thumbulator

namespace RegWriteQueue

/-! ## Claim C35: the register-write queue is a FIFO -/

/-- C35: the code at the failing input.  With members of 32 bits, a queue
built with the capacity `2^31` takes `2^31` enqueue operations, stands for the
list of the `2^31` elements and is then full at that capacity; doubling the
capacity wraps around to 0, so the next `enqueue` does not append: `grow`
allocates an array of no elements and its copy loop runs past it.  With
members of more than 32 bits the capacity doubles to `2^32`, the queue takes
`2^32` enqueue operations and is full again, and the next `enqueue` does not
append either: the `uInt32` counter of the copy loop of `grow` never reaches
`mySize = 2^32`.  Every allocation succeeds in both runs. -/
theorem full_queue_enqueue_fails :
    (∃ q0 q : RegWriteQueue Nat,
      create 32 (2 ^ 31) (some fun _ => 0) = some q0 ∧
      runOps 32 q0 (List.replicate (2 ^ 31) (QueueOp.enqueue 1 (some fun _ => 0))) = some q ∧
      contents q = List.replicate (2 ^ 31) 1 ∧ q.mySize = 2 ^ 31 ∧ q.myCapacity = 2 ^ 31 ∧
      (q.myCapacity * 2) % 2 ^ 32 = 0 ∧
      q.enqueue 32 1 (some fun _ => 0) = none) ∧
    (∀ e : Nat, ∃ q0 q : RegWriteQueue Nat,
      create (33 + e) (2 ^ 31) (some fun _ => 0) = some q0 ∧
      runOps (33 + e) q0 (List.replicate (2 ^ 32) (QueueOp.enqueue 1 (some fun _ => 0)))
        = some q ∧
      contents q = List.replicate (2 ^ 32) 1 ∧ q.mySize = 2 ^ 32 ∧ q.myCapacity = 2 ^ 32 ∧
      q.enqueue (33 + e) 1 (some fun _ => 0) = none) := by
  constructor
  · obtain ⟨q0, e0, w0, c0, k0, s0⟩ :=
      create_spec 32 (2 ^ 31) (fun _ => (0 : Nat)) (by decide) (by decide)
    obtain ⟨q, e1, w1, c1, s1, k1⟩ :=
      fill_spec 32 1 (fun _ => (0 : Nat)) q0 (2 ^ 31) w0 (by rw [s0, k0]; decide)
    rw [s0, Nat.zero_add] at s1
    rw [k0] at k1
    rw [c0, List.nil_append] at c1
    exact ⟨q0, q, e0, e1, c1, s1, k1, by rw [k1]; decide,
      enqueue_overflow 32 q 1 _ w1 (by rw [s1, k1]) (Or.inl (by rw [k1]; decide))⟩
  · intro e
    have h33 : 2 ^ 33 ≤ 2 ^ (33 + e) := Nat.pow_le_pow_right (by decide) (by omega)
    obtain ⟨q0, e0, w0, c0, k0, s0⟩ :=
      create_spec (33 + e) (2 ^ 31) (fun _ => (0 : Nat)) (by decide) (by omega)
    obtain ⟨q, e1, w1, c1, s1, k1⟩ :=
      double_fill (33 + e) 1 (fun _ => (0 : Nat)) q0 (2 ^ 31) w0 s0 k0 (by omega) (by decide)
    have e32 : 2 * 2 ^ 31 = 2 ^ 32 := by decide
    rw [e32] at e1 c1 s1 k1
    rw [c0, List.nil_append] at c1
    exact ⟨q0, q, e0, e1, c1, s1, k1,
      enqueue_overflow (33 + e) q 1 _ w1 (by rw [s1, k1]) (Or.inr (by rw [s1]))⟩

end RegWriteQueue

namespace Thumbulator

end Thumbulator
